import Mathlib

/-!
# Tanks and Taps (TNT): a shallow embedding of the chain and protocol code

The definitions below transcribe, function by function, the C++ sources under
`libraries/protocol/tnt` and `libraries/chain/tnt`.

Conventions of the embedding:

* `share_type` (`fc::safe<int64_t>`) is `Int`: a `safe` value throws on overflow, so every
  result the source produces without throwing is the exact integer result. The arithmetic
  of the exchange requirement, whose limit is a product of amounts, goes through
  `share_div`, `share_mul`, `share_sub` and `share_add`, which make the throw explicit.
* `index_type` (`uint16_t`) and `uint32_t` values are `Nat`; where the source increments or
  truncates such a value the embedding reduces it modulo `2^16` or `2^32` explicitly.
* `flat_map` / `map` containers are association lists read through `amap_find` (first match)
  and written through `amap_insert`, `amap_erase`.
* An exception (`FC_ASSERT`, `FC_THROW_EXCEPTION`, `at()` on a missing key) is
  `Except.error` carrying a `tnt_error` that names the failed check.
* The copy-on-write database wrapper is represented by the view it presents: every read made
  through a non-const handle sees the staged copy, so a `tank_db` value is the staged state.
-/

namespace TNT

/-! ## Identifiers and elementary types (`types.hpp`) -/

abbrev share_type := Int
abbrev index_type := Nat
abbrev tank_id_type := Nat
abbrev account_id_type := Nat
abbrev asset_id_type := Nat
abbrev time_point_sec := Nat
abbrev public_key_type := Nat
abbrev signature_type := Nat
/-- A hash digest; the default-constructed (all zero) digest is `0`. -/
abbrev digest_type := Nat

/-- Truncation of an integer result to `uint16_t`. -/
def u16 (n : Nat) : index_type := n % 65536

/-- Truncation of an integer result to `uint32_t`. -/
def u32 (n : Nat) : Nat := n % 4294967296

/-- The assertions of `validation.cpp`. -/
inductive validation_check
  | impossible_authority
  | null_authority
  | same_tank_source
  | opener_release_not_positive
  | immediate_limit_not_positive
  | cumulative_limit_not_positive
  | periodic_limit_not_positive
  | periodic_period_not_positive
  | time_lock_empty
  | time_lock_not_increasing
  | minimum_level_not_positive
  | delay_period_not_positive
  | null_hash
  | hash_of_empty
  | preimage_size_not_positive
  | null_ticket_signer
  | tick_amount_not_positive
  | release_per_tick_not_positive
  | destination_no_asset
  | destination_nonexistent
  | destination_wrong_asset
  | opener_nonexistent_tap
  | target_nonexistent_attachment
  | target_receives_no_asset
  | attachment_not_unique
  | requirement_not_unique
  | meter_nonexistent
  | not_a_meter
  | tap_needs_connection_or_authority
  | chain_exceeds_max_length
  | chain_receives_no_asset
  | chain_receives_wrong_asset
  | chain_nonexistent_object
  | chain_unhandled_result
  | emergency_tap_missing
  | emergency_tap_has_requirements
  | emergency_open_authority_unset
  | emergency_open_authority_trivial
  | emergency_connect_authority_unset
  | emergency_tap_not_destructor
deriving DecidableEq, Repr

/-- The assertions of `operations.cpp` and of the `validate` members in `query_api.hpp`. -/
inductive operation_check
  | fee_not_positive
  | emergency_tap_removed
  | update_authority_impossible
  | update_authority_null
  | update_authority_trivial
  | tap_removed_and_replaced
  | attachment_removed_and_replaced
  | attachment_not_unique
  | duplicate_required_authority
  | empty_query_list
  | tap_open_only_query
  | duplicate_unique_query
  | ticket_tank_mismatch
  | ticket_tap_mismatch
  | ticket_requirement_mismatch
  | request_amount_zero
  | comment_empty
  | comment_too_long
  | reason_empty
  | reason_too_long
  | preimage_empty
  | max_withdrawal_not_positive
  | tank_id_unspecified
  | clear_authority_without_connection
deriving DecidableEq, Repr

/-- The checks the source can fail; each constructor names one `FC_ASSERT` or throw site. -/
inductive tnt_error
  | nonexistent_tank
  | nonexistent_tap
  | nonexistent_attachment
  | nonexistent_requirement
  | nonexistent_request
  | nonexistent_account_or_asset
  | wrong_accessory_type
  | wrong_state_type
  | tank_id_unset
  | tap_not_connected
  | unauthorized_asset
  | insufficient_balance
  | tap_locked (requirement_index : index_type)
  | tank_empty
  | exceeds_tank_balance
  | exceeds_requirement_limit
  | release_exceeds_remaining_limit
  | too_many_taps
  | origin_same_tank
  | chain_too_long
  | no_current_tank
  | cannot_receive_asset
  | wrong_asset
  | source_not_authorized
  | import_same_tank
  | authority_unset
  | request_limit_reached
  | no_requests_made
  | request_already_approved
  | request_not_approved
  | request_already_matured
  | request_not_matured
  | meter_not_used
  | exchange_not_used
  | meter_not_zero
  | bad_preimage_size
  | bad_preimage_hash
  | bad_ticket_number
  | bad_ticket_signature
  | bad_new_connection
  | evaluate_after_apply
  | query_tank_unset
  | tnt_not_enabled
  | tnt_not_configured
  | incorrect_deposit
  | incorrect_deposit_delta
  | incorrect_authority
  | not_validated
  | validation_failed (check : validation_check)
  | query_tank_already_set
  | out_of_fuel
  | deposit_claim_mismatch
  | not_destructor_tap
  | destroy_with_queries
  | destroy_tap_open_count
  | destroy_authorities
  | destroy_release_amount
  | authority_not_declared
  | unused_authorities
  | tap_open_count_mismatch
  | tank_not_emptied
  | operation_invalid (check : operation_check)
  | connect_authority_unset
  | connect_authority_mismatch
  | no_written_object
  | share_overflow
  | share_divide_by_zero
deriving Repr

/-- An `authority` as the TNT code observes it: its threshold, the outcome of
`is_impossible()`, whether it equals `authority::null_authority()`, and an identity
standing for the remaining content (the class itself is declared outside these sources). -/
structure authority where
  weight_threshold : Nat
  impossible : Bool
  null : Bool
  ident : Nat
deriving DecidableEq, Repr

/-- An amount of a given asset (`protocol::asset`). -/
structure asset where
  amount : share_type
  asset_id : asset_id_type
deriving DecidableEq, Repr

/-- The implicit conversion `share_type -> asset`: the `asset` constructor defaults
`asset_id` to `asset_id_type()`, the core asset `0`. -/
def asset.of_amount (a : share_type) : asset := ⟨a, 0⟩

structure attachment_id_type where
  tank_id : Option tank_id_type
  attachment_id : index_type
deriving DecidableEq, Repr

structure tap_id_type where
  tank_id : Option tank_id_type
  tap_id : index_type
deriving DecidableEq, Repr

inductive connection
  | same_tank
  | account_id (a : account_id_type)
  | tank_id (t : tank_id_type)
  | attachment_id (a : attachment_id_type)
deriving DecidableEq, Repr

inductive remote_connection
  | account_id (a : account_id_type)
  | tank_id (t : tank_id_type)
  | attachment_id (a : attachment_id_type)
deriving DecidableEq, Repr

def is_terminal_connection : connection → Bool
  | .attachment_id _ => false
  | _ => true

/-- Transcription of `remote_connection::import_from`: fails on a `same_tank` connection. -/
def remote_connection.import_from : connection → Except tnt_error remote_connection
  | .same_tank => .error .import_same_tank
  | .account_id a => .ok (.account_id a)
  | .tank_id t => .ok (.tank_id t)
  | .attachment_id a => .ok (.attachment_id a)

inductive authorized_connections_type
  | sources (s : List remote_connection)
  | all_sources
deriving DecidableEq, Repr

inductive asset_flow_limit
  | unlimited_flow
  | amount (a : share_type)
deriving DecidableEq, Repr

/-- Transcription of `operator<` on `asset_flow_limit`. -/
def asset_flow_limit.lt : asset_flow_limit → asset_flow_limit → Bool
  | .unlimited_flow, _ => false
  | .amount _, .unlimited_flow => true
  | .amount a, .amount b => decide (a < b)

/-- Transcription of `operator<=` on `asset_flow_limit`. -/
def asset_flow_limit.le : asset_flow_limit → asset_flow_limit → Bool
  | _, .unlimited_flow => true
  | .unlimited_flow, .amount _ => false
  | .amount a, .amount b => decide (a ≤ b)

/-! ## Association lists standing for `flat_map` and `std::map` -/

def amap_find {κ β : Type} [DecidableEq κ] : List (κ × β) → κ → Option β
  | [], _ => none
  | (k, v) :: rest, key => if k = key then some v else amap_find rest key

def amap_insert {κ β : Type} [DecidableEq κ] : List (κ × β) → κ → β → List (κ × β)
  | [], key, v => [(key, v)]
  | (k, w) :: rest, key, v =>
    if k = key then (k, v) :: rest else (k, w) :: amap_insert rest key v

def amap_erase {κ β : Type} [DecidableEq κ] (m : List (κ × β)) (key : κ) : List (κ × β) :=
  m.filter (fun p => !decide (p.1 = key))

def amap_contains {κ β : Type} [DecidableEq κ] (m : List (κ × β)) (key : κ) : Bool :=
  (amap_find m key).isSome

/-! ## Tank attachments -/

structure asset_flow_meter where
  asset_type : asset_id_type
  destination : connection
  remote_sources : authorized_connections_type
  reset_authority : Option authority
deriving DecidableEq, Repr

structure tap_opener where
  tap_index : index_type
  release_amount : asset_flow_limit
  destination : connection
  remote_sources : authorized_connections_type
  asset_type : asset_id_type
deriving DecidableEq, Repr

structure attachment_connect_authority where
  connect_authority : authority
  attachment_id : index_type
deriving DecidableEq, Repr

inductive tank_attachment
  | asset_flow_meter (m : asset_flow_meter)
  | tap_opener (o : tap_opener)
  | attachment_connect_authority (a : attachment_connect_authority)
deriving DecidableEq, Repr

/-- The tag `tank_attachment::which()` of the stored variant. -/
def tank_attachment.which : tank_attachment → Nat
  | .asset_flow_meter _ => 0
  | .tap_opener _ => 1
  | .attachment_connect_authority _ => 2

/-! ## Tap requirements -/

structure immediate_flow_limit where
  limit : share_type
deriving DecidableEq, Repr

structure cumulative_flow_limit where
  limit : share_type
deriving DecidableEq, Repr

structure periodic_flow_limit where
  period_duration_sec : Nat
  limit : share_type
deriving DecidableEq, Repr

structure time_lock where
  start_locked : Bool
  lock_unlock_times : List time_point_sec
deriving DecidableEq, Repr

structure minimum_tank_level where
  minimum_level : share_type
deriving DecidableEq, Repr

structure review_requirement where
  reviewer : authority
  request_limit : index_type
deriving DecidableEq, Repr

structure delay_requirement where
  veto_authority : Option authority
  delay_period_sec : Nat
  request_limit : index_type
deriving DecidableEq, Repr

inductive hash_type
  | sha256 (h : digest_type)
  | ripemd160 (h : digest_type)
  | hash160 (h : digest_type)
deriving DecidableEq, Repr

structure hash_preimage_requirement where
  hash : hash_type
  preimage_size : Option Nat
deriving DecidableEq, Repr

structure ticket_requirement where
  ticket_signer : public_key_type
deriving DecidableEq, Repr

structure exchange_requirement where
  meter_id : attachment_id_type
  release_per_tick : share_type
  tick_amount : share_type
  reset_authority : Option authority
deriving DecidableEq, Repr

inductive tap_requirement
  | immediate_flow_limit (r : immediate_flow_limit)
  | cumulative_flow_limit (r : cumulative_flow_limit)
  | periodic_flow_limit (r : periodic_flow_limit)
  | time_lock (r : time_lock)
  | minimum_tank_level (r : minimum_tank_level)
  | review_requirement (r : review_requirement)
  | documentation_requirement
  | delay_requirement (r : delay_requirement)
  | hash_preimage_requirement (r : hash_preimage_requirement)
  | ticket_requirement (r : ticket_requirement)
  | exchange_requirement (r : exchange_requirement)
deriving DecidableEq, Repr

/-- The tag `tap_requirement::which()` of the stored variant. -/
def tap_requirement.which : tap_requirement → Nat
  | .immediate_flow_limit _ => 0
  | .cumulative_flow_limit _ => 1
  | .periodic_flow_limit _ => 2
  | .time_lock _ => 3
  | .minimum_tank_level _ => 4
  | .review_requirement _ => 5
  | .documentation_requirement => 6
  | .delay_requirement _ => 7
  | .hash_preimage_requirement _ => 8
  | .ticket_requirement _ => 9
  | .exchange_requirement _ => 10

/-! ## Taps, schematics, accessory state, tank objects -/

structure tap where
  connected_connection : Option connection
  open_authority : Option authority
  connect_authority : Option authority
  requirements : List tap_requirement
  destructor_tap : Bool
deriving DecidableEq, Repr

structure tank_schematic where
  taps : List (index_type × tap)
  tap_counter : index_type
  attachments : List (index_type × tank_attachment)
  attachment_counter : index_type
  remote_sources : authorized_connections_type
  asset_type : asset_id_type
deriving DecidableEq, Repr

structure meter_state where
  metered_amount : share_type
deriving DecidableEq, Repr

structure cumulative_state where
  amount_released : share_type
deriving DecidableEq, Repr

structure periodic_state where
  period_num : Nat
  amount_released : share_type
deriving DecidableEq, Repr

structure review_request where
  request_amount : asset_flow_limit
  request_comment : Option String
  approved : Bool
deriving DecidableEq, Repr

structure review_state where
  request_counter : index_type
  pending_requests : List (index_type × review_request)
deriving DecidableEq, Repr

structure delay_request where
  delay_period_end : time_point_sec
  request_amount : asset_flow_limit
  request_comment : Option String
deriving DecidableEq, Repr

structure delay_state where
  request_counter : index_type
  pending_requests : List (index_type × delay_request)
deriving DecidableEq, Repr

structure ticket_state where
  tickets_consumed : index_type
deriving DecidableEq, Repr

structure exchange_state where
  amount_released : share_type
deriving DecidableEq, Repr

/-- The variant `tank_accessory_state` over the state types of the stateful accessories. -/
inductive tank_accessory_state
  | meter (s : meter_state)
  | cumulative (s : cumulative_state)
  | periodic (s : periodic_state)
  | review (s : review_state)
  | delay (s : delay_state)
  | ticket (s : ticket_state)
  | exchange (s : exchange_state)
deriving DecidableEq, Repr

/-- The position an accessory address denotes. `accessory_address_lt` compares addresses by
position only (attachment ID, or tap ID and requirement index), never by accessory type, so
the state map and the query index are keyed by this position. -/
inductive accessory_address
  | attachment (attachment_ID : index_type)
  | requirement (tap_ID : index_type) (requirement_index : index_type)
deriving DecidableEq, Repr

abbrev accessory_state_map := List (accessory_address × tank_accessory_state)

structure tank_object where
  schematic : tank_schematic
  balance : share_type
  deposit : share_type
  creation_date : time_point_sec
  accessory_states : accessory_state_map
deriving DecidableEq, Repr

/-- The tanks of the object database (or of its staged view), indexed by instance number;
a removed tank leaves `none`. -/
abbrev tank_db := List (Option tank_object)

def tank_db.get_tank (db : tank_db) (id : tank_id_type) : Except tnt_error tank_object :=
  match db[id]? with
  | some (some t) => .ok t
  | _ => .error .nonexistent_tank

def tank_db.set_tank (db : tank_db) (id : tank_id_type) (t : tank_object) : tank_db :=
  db.set id (some t)

/-- The sum of the balances of all tanks. -/
def tank_db.total_balance (db : tank_db) : share_type :=
  (db.map (fun o => match o with | some t => t.balance | none => 0)).sum

/-- The balance of one tank, `0` when it does not exist. -/
def tank_db.balance_of (db : tank_db) (id : tank_id_type) : share_type :=
  match db[id]? with
  | some (some t) => t.balance
  | _ => 0

/-! ## Typed access to accessory state (`tank_object::get_state`, `get_or_create_state`) -/

def tank_object.set_state (t : tank_object) (a : accessory_address)
    (s : tank_accessory_state) : tank_object :=
  { t with accessory_states := amap_insert t.accessory_states a s }

def tank_object.erase_state (t : tank_object) (a : accessory_address) : tank_object :=
  { t with accessory_states := amap_erase t.accessory_states a }

def tank_object.get_meter_state (t : tank_object) (a : accessory_address) :
    Except tnt_error (Option meter_state) :=
  match amap_find t.accessory_states a with
  | none => .ok none
  | some (.meter s) => .ok (some s)
  | some _ => .error .wrong_state_type

def tank_object.get_cumulative_state (t : tank_object) (a : accessory_address) :
    Except tnt_error (Option cumulative_state) :=
  match amap_find t.accessory_states a with
  | none => .ok none
  | some (.cumulative s) => .ok (some s)
  | some _ => .error .wrong_state_type

def tank_object.get_periodic_state (t : tank_object) (a : accessory_address) :
    Except tnt_error (Option periodic_state) :=
  match amap_find t.accessory_states a with
  | none => .ok none
  | some (.periodic s) => .ok (some s)
  | some _ => .error .wrong_state_type

def tank_object.get_review_state (t : tank_object) (a : accessory_address) :
    Except tnt_error (Option review_state) :=
  match amap_find t.accessory_states a with
  | none => .ok none
  | some (.review s) => .ok (some s)
  | some _ => .error .wrong_state_type

def tank_object.get_delay_state (t : tank_object) (a : accessory_address) :
    Except tnt_error (Option delay_state) :=
  match amap_find t.accessory_states a with
  | none => .ok none
  | some (.delay s) => .ok (some s)
  | some _ => .error .wrong_state_type

def tank_object.get_ticket_state (t : tank_object) (a : accessory_address) :
    Except tnt_error (Option ticket_state) :=
  match amap_find t.accessory_states a with
  | none => .ok none
  | some (.ticket s) => .ok (some s)
  | some _ => .error .wrong_state_type

def tank_object.get_exchange_state (t : tank_object) (a : accessory_address) :
    Except tnt_error (Option exchange_state) :=
  match amap_find t.accessory_states a with
  | none => .ok none
  | some (.exchange s) => .ok (some s)
  | some _ => .error .wrong_state_type

/-- The value `get_or_create_state` yields: the stored state, or a default-constructed one. -/
def or_default {σ : Type} (d : σ) : Option σ → σ
  | some s => s
  | none => d

/-! ## Schematic access (`tank_accessory_address::get`) -/

def tank_schematic.get_tap (s : tank_schematic) (tap_ID : index_type) : Except tnt_error tap :=
  match amap_find s.taps tap_ID with
  | some t => .ok t
  | none => .error .nonexistent_tap

def tank_schematic.get_attachment (s : tank_schematic) (id : index_type) :
    Except tnt_error tank_attachment :=
  match amap_find s.attachments id with
  | some a => .ok a
  | none => .error .nonexistent_attachment

def tank_schematic.get_requirement (s : tank_schematic) (tap_ID requirement_index : index_type) :
    Except tnt_error tap_requirement := do
  let tp ← s.get_tap tap_ID
  match tp.requirements[requirement_index]? with
  | some r => .ok r
  | none => .error .nonexistent_requirement

/-! ## Requirement helpers defined in `types.hpp` and `types.cpp` -/

/-- The position `std::find_if_not` reaches: the number of leading times `t < time`. -/
def first_future_time (times : List time_point_sec) (time : time_point_sec) : Nat :=
  (times.takeWhile (fun t => decide (t < time))).length

/-- Transcription of `time_lock::unlocked_at_time` (`types.cpp`). -/
def time_lock.unlocked_at_time (tl : time_lock) (time : time_point_sec) : Bool :=
  let switch_count := first_future_time tl.lock_unlock_times time
  if switch_count % 2 ≠ 0 then !tl.start_locked else tl.start_locked

/-- Transcription of `periodic_flow_limit::period_num_at_time`: a signed 64-bit quotient
truncated to `uint32_t`. -/
def periodic_flow_limit.period_num_at_time (r : periodic_flow_limit)
    (creation_date time : time_point_sec) : Nat :=
  (Int.tdiv ((time : Int) - (creation_date : Int)) (r.period_duration_sec : Int)
    % 4294967296).toNat

/-- Whether an integer is a value of `share_type`, a 64-bit signed integer. -/
def share_in_range (x : Int) : Bool :=
  decide (-9223372036854775808 ≤ x) && decide (x ≤ 9223372036854775807)

/-- Modelled from the spec: an amount is an `i64`. The type `share_type` is
`fc::safe<int64_t>` (the library `fc` is not among the sources), whose operators raise an
exception instead of returning a result that is not a 64-bit signed value; `share_checked`
takes the exact result of such an operator to what the operator yields. -/
def share_checked (x : Int) : Except tnt_error share_type :=
  if share_in_range x then .ok x else .error .share_overflow

/-- Modelled from the spec: `operator/` of `share_type`, the C++ quotient, which truncates
toward zero; it raises on a zero divisor. -/
def share_div (a b : share_type) : Except tnt_error share_type :=
  if b = 0 then .error .share_divide_by_zero else share_checked (Int.tdiv a b)

/-- Modelled from the spec: `operator*` of `share_type`. -/
def share_mul (a b : share_type) : Except tnt_error share_type := share_checked (a * b)

/-- Modelled from the spec: `operator-` of `share_type`. -/
def share_sub (a b : share_type) : Except tnt_error share_type := share_checked (a - b)

/-- Modelled from the spec: `operator+` of `share_type`. -/
def share_add (a b : share_type) : Except tnt_error share_type := share_checked (a + b)

/-- Transcription of `exchange_requirement::max_release_amount`:
`meter_state.metered_amount / tick_amount * release_per_tick - amount_released`, evaluated
from left to right on `share_type`. -/
def exchange_requirement.max_release_amount (r : exchange_requirement)
    (amount_released : share_type) (meter : meter_state) : Except tnt_error share_type := do
  let ticks ← share_div meter.metered_amount r.tick_amount
  let released ← share_mul ticks r.release_per_tick
  share_sub released amount_released

/-! ## Lookups (`lookups.hpp`, `lookups.cpp`) -/

/-- The optional callback `tank_lookup_function`. -/
abbrev tank_lookup_function := Option (tank_id_type → Option tank_schematic)

inductive nonexistent_object
  | tank (id : tank_id_type)
  | attachment (id : attachment_id_type)
  | tap (id : tap_id_type)
deriving DecidableEq, Repr

inductive tank_lookup_result
  | found (t : tank_schematic)
  | need_lookup_function
  | nonexistent_object (o : nonexistent_object)
deriving DecidableEq, Repr

inductive attachment_lookup_result
  | found (a : tank_attachment)
  | need_lookup_function
  | nonexistent_object (o : nonexistent_object)
deriving DecidableEq, Repr

inductive connection_asset
  | asset_id (a : asset_id_type)
  | any_asset
  | no_asset (id : attachment_id_type)
  | need_lookup_function
  | nonexistent_object (o : nonexistent_object)
deriving DecidableEq, Repr

inductive bad_connection_reason
  | receives_wrong_asset
  | receives_no_asset
deriving DecidableEq, Repr

inductive attachment_connection_result
  | found (c : connection)
  | bad_connection (reason : bad_connection_reason) (s : connection)
  | need_lookup_function
  | nonexistent_object (o : nonexistent_object)
deriving DecidableEq, Repr

structure connection_chain where
  connections : List connection
  final_connection_tank : Option tank_id_type
deriving DecidableEq, Repr

inductive connection_chain_result
  | chain (c : connection_chain)
  | exceeded_max_chain_length
  | bad_connection (reason : bad_connection_reason) (s : connection)
  | need_lookup_function
  | nonexistent_object (o : nonexistent_object)
deriving DecidableEq, Repr

/-- The data of a `lookup_utilities` object. -/
structure lookup_utilities where
  current_tank : tank_schematic
  get_tank : tank_lookup_function

def lookup_utilities.lookup_tank (u : lookup_utilities) (id : Option tank_id_type) :
    tank_lookup_result :=
  match id with
  | none => .found u.current_tank
  | some i =>
    match u.get_tank with
    | none => .need_lookup_function
    | some f =>
      match f i with
      | none => .nonexistent_object (.tank i)
      | some t => .found t

def lookup_utilities.lookup_attachment (u : lookup_utilities) (id : attachment_id_type) :
    attachment_lookup_result :=
  match u.lookup_tank id.tank_id with
  | .need_lookup_function => .need_lookup_function
  | .nonexistent_object o => .nonexistent_object o
  | .found tank =>
    match amap_find tank.attachments id.attachment_id with
    | some a => .found a
    | none => .nonexistent_object (.attachment id)

/-- Transcription of `attachment_get_asset_received`: the asset an attachment receives, if
it receives any. -/
def attachment_get_asset_received : tank_attachment → Option asset_id_type
  | .asset_flow_meter m => some m.asset_type
  | .tap_opener o => some o.asset_type
  | .attachment_connect_authority _ => none

/-- Transcription of `get_attachment_connection_impl`: the output connection of a receiving
attachment. -/
def get_attachment_connection_impl : tank_attachment → Option connection
  | .asset_flow_meter m => some m.destination
  | .tap_opener o => some o.destination
  | .attachment_connect_authority _ => none

def lookup_utilities.get_attachment_asset (u : lookup_utilities) (id : attachment_id_type) :
    connection_asset :=
  match u.lookup_attachment id with
  | .need_lookup_function => .need_lookup_function
  | .nonexistent_object o => .nonexistent_object o
  | .found a =>
    match attachment_get_asset_received a with
    | some x => .asset_id x
    | none => .no_asset id

def lookup_utilities.get_attachment_connection (u : lookup_utilities)
    (id : attachment_id_type) : attachment_connection_result :=
  match u.lookup_attachment id with
  | .need_lookup_function => .need_lookup_function
  | .nonexistent_object o => .nonexistent_object o
  | .found a =>
    match get_attachment_connection_impl a with
    | some c => .found c
    | none => .bad_connection .receives_no_asset (.attachment_id id)

def lookup_utilities.get_connection_asset (u : lookup_utilities) (s : connection) :
    connection_asset :=
  match s with
  | .same_tank => .asset_id u.current_tank.asset_type
  | .account_id _ => .any_asset
  | .tank_id id =>
    match u.lookup_tank (some id) with
    | .need_lookup_function => .need_lookup_function
    | .nonexistent_object o => .nonexistent_object o
    | .found t => .asset_id t.asset_type
  | .attachment_id id => u.get_attachment_asset id

/-- The lambda `check_asset` of `get_connection_chain`: `none` when the connection passes. -/
def lookup_utilities.check_asset (u : lookup_utilities) (asset_type : Option asset_id_type)
    (s : connection) : Option connection_chain_result :=
  match asset_type with
  | none => none
  | some expected =>
    match u.get_connection_asset s with
    | .any_asset => none
    | .need_lookup_function => none
    | .asset_id a =>
      if a = expected then none else some (.bad_connection .receives_wrong_asset s)
    | .no_asset _ => some (.bad_connection .receives_no_asset s)
    | .nonexistent_object o => some (.nonexistent_object o)

/-- The `while` loop of `get_connection_chain`. `remaining` is `max_chain_length + 1` minus
the current chain size, so the test `size > max_chain_length` is `remaining = 0`; `s` is the
loop-carried reference, `last` is `chain.connections.back()`. -/
def lookup_utilities.chain_loop (u : lookup_utilities) (asset_type : Option asset_id_type) :
    Nat → connection → connection → connection_chain → connection_chain_result
  | remaining, s, last, chain =>
    match last with
    | .attachment_id att =>
      match remaining with
      | 0 => .exceeded_max_chain_length
      | n + 1 =>
        let s1 := connection.attachment_id att
        let final := match att.tank_id with
          | some t => some t
          | none => chain.final_connection_tank
        let attachment_id : attachment_id_type :=
          match att.tank_id with
          | some _ => att
          | none => { att with tank_id := chain.final_connection_tank }
        match u.get_attachment_connection attachment_id with
        | .need_lookup_function => .need_lookup_function
        | .nonexistent_object o => .nonexistent_object o
        | .bad_connection r c => .bad_connection r c
        | .found next =>
          match u.check_asset asset_type s1 with
          | some e => e
          | none =>
            u.chain_loop asset_type n s1 next
              { connections := chain.connections ++ [next], final_connection_tank := final }
    | _ =>
      match u.check_asset asset_type s with
      | some e => e
      | none => .chain chain

def lookup_utilities.get_connection_chain (u : lookup_utilities) (s : connection)
    (max_chain_length : Nat) (asset_type : Option asset_id_type) : connection_chain_result :=
  match u.check_asset asset_type s with
  | some e => e
  | none =>
    u.chain_loop asset_type max_chain_length s s
      { connections := [s], final_connection_tank := none }

/-! ## The chain environment

What the TNT code reads from `chain::database` and from the crypto library, none of which
is defined in these sources: the head block time, asset authorization, the configured
connection chain limit, the three hash functions and public key recovery. -/

structure ticket_type where
  tank_ID : tank_id_type
  tap_ID : index_type
  requirement_index : index_type
  max_withdrawal : asset_flow_limit
  ticket_number : index_type
deriving DecidableEq, Repr

/-- The crypto library (`fc`): the three hash functions on byte strings and the recovery of
the public key that signed a ticket. -/
structure crypto_env where
  sha256 : List Nat → digest_type
  ripemd160 : List Nat → digest_type
  hash160 : List Nat → digest_type
  recover_key : signature_type → ticket_type → public_key_type

structure chain_env extends crypto_env where
  head_block_time : time_point_sec
  account_exists : account_id_type → Bool
  asset_exists : asset_id_type → Bool
  is_authorized_asset : account_id_type → asset_id_type → Bool
  max_connection_chain_length : Nat

/-! ## Queries (`query_api.hpp`) -/

inductive tank_query_type
  | reset_meter (attachment_ID : index_type)
  | reconnect_attachment (attachment_ID : index_type) (new_connection : connection)
  | create_request_for_review (tap_ID requirement_index : index_type)
      (request_amount : asset_flow_limit) (comment : Option String)
  | review_request_to_open (tap_ID requirement_index : index_type) (request_ID : index_type)
      (approved : Bool) (comment : Option String)
  | cancel_request_for_review (tap_ID requirement_index : index_type)
      (request_ID : index_type) (comment : Option String)
  | consume_approved_request_to_open (tap_ID requirement_index : index_type)
      (request_ID : index_type)
  | documentation_string (reason : String)
  | create_request_for_delay (tap_ID requirement_index : index_type)
      (request_amount : asset_flow_limit) (comment : Option String)
  | veto_request_in_delay (tap_ID requirement_index : index_type) (request_ID : index_type)
      (comment : Option String)
  | cancel_request_in_delay (tap_ID requirement_index : index_type) (request_ID : index_type)
      (comment : Option String)
  | consume_matured_request_to_open (tap_ID requirement_index : index_type)
      (request_ID : index_type)
  | reveal_hash_preimage (tap_ID requirement_index : index_type) (preimage : List Nat)
  | redeem_ticket_to_open (tap_ID requirement_index : index_type) (ticket : ticket_type)
      (ticket_signature : signature_type)
  | reset_exchange_requirement (tap_ID requirement_index : index_type)
deriving DecidableEq, Repr

/-- The `accessory_address` of a targeted query; `none` for a query on the tank itself. -/
def tank_query_type.address : tank_query_type → Option accessory_address
  | .reset_meter a => some (.attachment a)
  | .reconnect_attachment a _ => some (.attachment a)
  | .create_request_for_review t r _ _ => some (.requirement t r)
  | .review_request_to_open t r _ _ _ => some (.requirement t r)
  | .cancel_request_for_review t r _ _ => some (.requirement t r)
  | .consume_approved_request_to_open t r _ => some (.requirement t r)
  | .documentation_string _ => none
  | .create_request_for_delay t r _ _ => some (.requirement t r)
  | .veto_request_in_delay t r _ _ => some (.requirement t r)
  | .cancel_request_in_delay t r _ _ => some (.requirement t r)
  | .consume_matured_request_to_open t r _ => some (.requirement t r)
  | .reveal_hash_preimage t r _ => some (.requirement t r)
  | .redeem_ticket_to_open t r _ _ => some (.requirement t r)
  | .reset_exchange_requirement t r => some (.requirement t r)

/-! ### Typed targets (`targeted_query::get_target`) -/

def get_meter_target (s : tank_schematic) (id : index_type) :
    Except tnt_error asset_flow_meter := do
  match (← s.get_attachment id) with
  | .asset_flow_meter m => .ok m
  | _ => .error .wrong_accessory_type

def get_connect_authority_target (s : tank_schematic) (id : index_type) :
    Except tnt_error attachment_connect_authority := do
  match (← s.get_attachment id) with
  | .attachment_connect_authority a => .ok a
  | _ => .error .wrong_accessory_type

def get_review_target (s : tank_schematic) (t r : index_type) :
    Except tnt_error review_requirement := do
  match (← s.get_requirement t r) with
  | .review_requirement x => .ok x
  | _ => .error .wrong_accessory_type

def get_delay_target (s : tank_schematic) (t r : index_type) :
    Except tnt_error delay_requirement := do
  match (← s.get_requirement t r) with
  | .delay_requirement x => .ok x
  | _ => .error .wrong_accessory_type

def get_hash_preimage_target (s : tank_schematic) (t r : index_type) :
    Except tnt_error hash_preimage_requirement := do
  match (← s.get_requirement t r) with
  | .hash_preimage_requirement x => .ok x
  | _ => .error .wrong_accessory_type

def get_ticket_target (s : tank_schematic) (t r : index_type) :
    Except tnt_error ticket_requirement := do
  match (← s.get_requirement t r) with
  | .ticket_requirement x => .ok x
  | _ => .error .wrong_accessory_type

def get_exchange_target (s : tank_schematic) (t r : index_type) :
    Except tnt_error exchange_requirement := do
  match (← s.get_requirement t r) with
  | .exchange_requirement x => .ok x
  | _ => .error .wrong_accessory_type

/-- Dereference of an `optional<authority>` that the source asserts or assumes to be set. -/
def require_set (a : Option authority) : Except tnt_error authority :=
  match a with
  | some x => .ok x
  | none => .error .authority_unset

/-- The open authority of a tap, as the request evaluators read it. -/
def tap_open_authority (s : tank_schematic) (tap_ID : index_type) :
    Except tnt_error authority := do
  let tp ← s.get_tap tap_ID
  require_set tp.open_authority

/-- The test `Hash::hash(preimage) == hash` under the algorithm the requirement's hash
selects. -/
def check_hash (env : crypto_env) (h : hash_type) (preimage : List Nat) : Bool :=
  match h with
  | .sha256 d => decide (env.sha256 preimage = d)
  | .ripemd160 d => decide (env.ripemd160 preimage = d)
  | .hash160 d => decide (env.hash160 preimage = d)

/-- The callback `lookup_tank` the query evaluator builds from the database. -/
def make_lookup (db : tank_db) : tank_lookup_function :=
  some (fun id => match db.get_tank id with
    | .ok t => some t.schematic
    | .error _ => none)

/-! ### The evaluators of `query_evaluator.cpp`: `evaluate`

`evaluate_one env db tank_id tank q` runs the `evaluate` method of the evaluator for `q` on
the const tank `tank` (whose id is `tank_id`) and returns the authorities it required. -/

def evaluate_one (env : chain_env) (db : tank_db) (tank_id : tank_id_type)
    (tank : tank_object) : tank_query_type → Except tnt_error (List authority)
  | .reset_meter a => do
    let meter ← get_meter_target tank.schematic a
    let auth ← match meter.reset_authority with
      | some x => pure x
      | none => tap_open_authority tank.schematic 0
    let state ← tank.get_meter_state (.attachment a)
    match state with
    | some st => if st.metered_amount > 0 then .ok [auth] else .error .meter_not_used
    | none => .error .meter_not_used
  | .reconnect_attachment a new_connection => do
    let reconnector ← get_connect_authority_target tank.schematic a
    let attachment ← tank.schematic.get_attachment reconnector.attachment_id
    match attachment_get_asset_received attachment with
    | none => .error .cannot_receive_asset
    | some attachment_asset =>
      let lookups : lookup_utilities := ⟨tank.schematic, make_lookup db⟩
      match lookups.get_connection_asset new_connection with
      | .asset_id x =>
        if x = attachment_asset then .ok [reconnector.connect_authority]
        else .error .wrong_asset
      | .any_asset => .ok [reconnector.connect_authority]
      | _ => .error .bad_new_connection
  | .create_request_for_review t r _ _ => do
    let review_req ← get_review_target tank.schematic t r
    let open_authority ← tap_open_authority tank.schematic t
    let state ← tank.get_review_state (.requirement t r)
    match state with
    | some st =>
      if st.pending_requests.length < review_req.request_limit then .ok [open_authority]
      else .error .request_limit_reached
    | none => .ok [open_authority]
  | .review_request_to_open t r request_ID _ _ => do
    let review_req ← get_review_target tank.schematic t r
    let state ← tank.get_review_state (.requirement t r)
    match state with
    | none => .error .no_requests_made
    | some st =>
      match amap_find st.pending_requests request_ID with
      | none => .error .nonexistent_request
      | some request =>
        if request.approved = false then .ok [review_req.reviewer]
        else .error .request_already_approved
  | .cancel_request_for_review t r request_ID _ => do
    let state ← tank.get_review_state (.requirement t r)
    match state with
    | none => .error .no_requests_made
    | some st =>
      let open_authority ← tap_open_authority tank.schematic t
      match amap_find st.pending_requests request_ID with
      | none => .error .nonexistent_request
      | some _ => .ok [open_authority]
  | .consume_approved_request_to_open t r request_ID => do
    let state ← tank.get_review_state (.requirement t r)
    match state with
    | none => .error .no_requests_made
    | some st =>
      let open_authority ← tap_open_authority tank.schematic t
      match amap_find st.pending_requests request_ID with
      | none => .error .nonexistent_request
      | some request =>
        if request.approved = true then .ok [open_authority]
        else .error .request_not_approved
  | .documentation_string _ => .ok []
  | .create_request_for_delay t r _ _ => do
    let delay_req ← get_delay_target tank.schematic t r
    let open_authority ← tap_open_authority tank.schematic t
    let state ← tank.get_delay_state (.requirement t r)
    match state with
    | some st =>
      if st.pending_requests.length < delay_req.request_limit then .ok [open_authority]
      else .error .request_limit_reached
    | none => .ok [open_authority]
  | .veto_request_in_delay t r request_ID _ => do
    let state ← tank.get_delay_state (.requirement t r)
    match state with
    | none => .error .no_requests_made
    | some st =>
      let delay_req ← get_delay_target tank.schematic t r
      let veto_authority ← require_set delay_req.veto_authority
      match amap_find st.pending_requests request_ID with
      | none => .error .nonexistent_request
      | some request =>
        if request.delay_period_end < env.head_block_time then .ok [veto_authority]
        else .error .request_already_matured
  | .cancel_request_in_delay t r request_ID _ => do
    let state ← tank.get_delay_state (.requirement t r)
    match state with
    | none => .error .no_requests_made
    | some st =>
      let open_authority ← tap_open_authority tank.schematic t
      match amap_find st.pending_requests request_ID with
      | none => .error .nonexistent_request
      | some _ => .ok [open_authority]
  | .consume_matured_request_to_open t r request_ID => do
    let state ← tank.get_delay_state (.requirement t r)
    match state with
    | none => .error .no_requests_made
    | some st =>
      let open_authority ← tap_open_authority tank.schematic t
      match amap_find st.pending_requests request_ID with
      | none => .error .nonexistent_request
      | some request =>
        if request.delay_period_end ≥ env.head_block_time then .ok [open_authority]
        else .error .request_not_matured
  | .reveal_hash_preimage t r preimage => do
    let req ← get_hash_preimage_target tank.schematic t r
    let size_ok := match req.preimage_size with
      | some n => decide (preimage.length = n)
      | none => true
    if size_ok then
      if check_hash env.tocrypto_env req.hash preimage then .ok []
      else .error .bad_preimage_hash
    else .error .bad_preimage_size
  | .redeem_ticket_to_open t r ticket ticket_signature => do
    let state ← tank.get_ticket_state (.requirement t r)
    let expected := match state with
      | none => 0
      | some st => st.tickets_consumed
    if ticket.ticket_number = expected then
      let requirement ← get_ticket_target tank.schematic t r
      if env.recover_key ticket_signature ticket = requirement.ticket_signer then .ok []
      else .error .bad_ticket_signature
    else .error .bad_ticket_number
  | .reset_exchange_requirement t r => do
    let req ← get_exchange_target tank.schematic t r
    let auth ← match req.reset_authority with
      | some x => pure x
      | none => tap_open_authority tank.schematic 0
    let exchange_state ← tank.get_exchange_state (.requirement t r)
    match exchange_state with
    | none => .error .exchange_not_used
    | some st =>
      if st.amount_released > 0 then
        let meter_tank_id := match req.meter_id.tank_id with
          | some x => x
          | none => tank_id
        let meter_tank ← db.get_tank meter_tank_id
        let meter_state ← meter_tank.get_meter_state (.attachment req.meter_id.attachment_id)
        match meter_state with
        | some m => if m.metered_amount = 0 then .ok [auth] else .error .meter_not_zero
        | none => .ok [auth]
      else .error .exchange_not_used

/-! ### The evaluators of `query_evaluator.cpp`: `apply` -/

/-- The visitor `set_attachment_connection_inspector`. -/
def set_attachment_connection (c : connection) : tank_attachment → Except tnt_error tank_attachment
  | .asset_flow_meter m => .ok (.asset_flow_meter { m with destination := c })
  | .tap_opener o => .ok (.tap_opener { o with destination := c })
  | .attachment_connect_authority _ => .error .cannot_receive_asset

def apply_one (env : chain_env) (tank : tank_object) :
    tank_query_type → Except tnt_error tank_object
  | .reset_meter a => do
    match (← tank.get_meter_state (.attachment a)) with
    | none => .error .wrong_state_type
    | some st => .ok (tank.set_state (.attachment a) (.meter { st with metered_amount := 0 }))
  | .reconnect_attachment a new_connection => do
    let reconnector ← get_connect_authority_target tank.schematic a
    let attachment ← tank.schematic.get_attachment reconnector.attachment_id
    let updated ← set_attachment_connection new_connection attachment
    .ok { tank with schematic := { tank.schematic with
            attachments := amap_insert tank.schematic.attachments reconnector.attachment_id
              updated } }
  | .create_request_for_review t r request_amount comment => do
    let st := or_default (⟨0, []⟩ : review_state) (← tank.get_review_state (.requirement t r))
    let new_request : review_request := ⟨request_amount, comment, false⟩
    .ok (tank.set_state (.requirement t r) (.review
      { request_counter := u16 (st.request_counter + 1),
        pending_requests := amap_insert st.pending_requests st.request_counter new_request }))
  | .review_request_to_open t r request_ID approved _ => do
    match (← tank.get_review_state (.requirement t r)) with
    | none => .error .wrong_state_type
    | some st =>
      if approved = true then
        match amap_find st.pending_requests request_ID with
        | none => .error .nonexistent_request
        | some request =>
          .ok (tank.set_state (.requirement t r) (.review { st with
            pending_requests :=
              amap_insert st.pending_requests request_ID { request with approved := true } }))
      else
        .ok (tank.set_state (.requirement t r) (.review { st with
          pending_requests := amap_erase st.pending_requests request_ID }))
  | .cancel_request_for_review t r request_ID _ => do
    match (← tank.get_review_state (.requirement t r)) with
    | none => .error .wrong_state_type
    | some st =>
      .ok (tank.set_state (.requirement t r) (.review { st with
        pending_requests := amap_erase st.pending_requests request_ID }))
  | .consume_approved_request_to_open _ _ _ => .ok tank
  | .documentation_string _ => .ok tank
  | .create_request_for_delay t r request_amount comment => do
    let delay_req ← get_delay_target tank.schematic t r
    let new_request : delay_request :=
      ⟨u32 (env.head_block_time + delay_req.delay_period_sec), request_amount, comment⟩
    let st := or_default (⟨0, []⟩ : delay_state) (← tank.get_delay_state (.requirement t r))
    .ok (tank.set_state (.requirement t r) (.delay
      { request_counter := u16 (st.request_counter + 1),
        pending_requests := amap_insert st.pending_requests st.request_counter new_request }))
  | .veto_request_in_delay t r request_ID _ => do
    match (← tank.get_delay_state (.requirement t r)) with
    | none => .error .wrong_state_type
    | some st =>
      .ok (tank.set_state (.requirement t r) (.delay { st with
        pending_requests := amap_erase st.pending_requests request_ID }))
  | .cancel_request_in_delay t r request_ID _ => do
    match (← tank.get_delay_state (.requirement t r)) with
    | none => .error .wrong_state_type
    | some st =>
      .ok (tank.set_state (.requirement t r) (.delay { st with
        pending_requests := amap_erase st.pending_requests request_ID }))
  | .consume_matured_request_to_open _ _ _ => .ok tank
  | .reveal_hash_preimage _ _ _ => .ok tank
  | .redeem_ticket_to_open t r _ _ => do
    let st := or_default (⟨0⟩ : ticket_state) (← tank.get_ticket_state (.requirement t r))
    .ok (tank.set_state (.requirement t r) (.ticket ⟨u16 (st.tickets_consumed + 1)⟩))
  | .reset_exchange_requirement t r => do
    let _st := or_default (⟨0⟩ : exchange_state) (← tank.get_exchange_state (.requirement t r))
    .ok (tank.set_state (.requirement t r) (.exchange ⟨0⟩))

/-! ### The class `query_evaluator` -/

/-- The fields of `query_evaluator_impl`. The multimap `accessory_queries` keeps, for each
address, the queries in insertion order, so it is the list of recorded targeted queries. -/
structure query_evaluator where
  has_applied : Bool
  evaluators : List tank_query_type
  accessory_queries : List tank_query_type
  tank_queries : List tank_query_type
  query_tank : Option (tank_id_type × tank_object)

/-- The constructor `query_evaluator::query_evaluator()`. -/
def query_evaluator.new : query_evaluator :=
  { has_applied := false, evaluators := [], accessory_queries := [], tank_queries := [],
    query_tank := none }

def query_evaluator.set_query_tank (qe : query_evaluator) (tank_id : tank_id_type)
    (tank : tank_object) : Except tnt_error query_evaluator :=
  match qe.query_tank with
  | some _ => .error .query_tank_already_set
  | none => .ok { qe with query_tank := some (tank_id, tank) }

/-- The overloads of `record_query`: a tank query goes to `tank_queries`, any other to
`accessory_queries`. -/
def query_evaluator.record_query (qe : query_evaluator) (q : tank_query_type) :
    query_evaluator :=
  match q.address with
  | none => { qe with tank_queries := qe.tank_queries ++ [q] }
  | some _ => { qe with accessory_queries := qe.accessory_queries ++ [q] }

def query_evaluator.evaluate_query (qe : query_evaluator) (env : chain_env) (db : tank_db)
    (query : tank_query_type) : Except tnt_error (List authority × query_evaluator) := do
  if qe.has_applied = false then
    match qe.query_tank with
    | none => .error .query_tank_unset
    | some (tank_id, tank) =>
      let used_authorities ← evaluate_one env db tank_id tank query
      let qe1 := { qe with evaluators := qe.evaluators ++ [query] }
      .ok (used_authorities, qe1.record_query query)
  else .error .evaluate_after_apply

/-- The loop of `apply_queries` over the stored evaluators. -/
def apply_list (env : chain_env) : List tank_query_type → tank_object → Except tnt_error tank_object
  | [], tank => .ok tank
  | q :: rest, tank => do
    let tank1 ← apply_one env tank q
    apply_list env rest tank1

def query_evaluator.apply_queries (qe : query_evaluator) (env : chain_env)
    (tank : tank_object) : Except tnt_error tank_object :=
  apply_list env qe.evaluators tank

def query_evaluator.get_tank_queries (qe : query_evaluator) : List tank_query_type :=
  qe.tank_queries

def query_evaluator.get_target_queries (qe : query_evaluator) (address : accessory_address) :
    List tank_query_type :=
  qe.accessory_queries.filter (fun q => decide (q.address = some address))

/-! ## The tap requirement utility (`tap_requirement_utility.cpp`) -/

/-- The mutable fields of `tap_requirement_utility_impl`; the database wrapper and the query
evaluator it refers to are passed to each function. -/
structure tap_requirement_utility where
  tap_ID : tap_id_type
  max_release_run : Bool
  most_restrictive_requirement : Option index_type
  remaining_limits : List (index_type × asset_flow_limit)
  adjusted_states : List (index_type × Bool)
deriving DecidableEq, Repr

/-- The constructor of `tap_requirement_utility`: the tap ID must name its tank. -/
def tap_requirement_utility.new (tap_ID : tap_id_type) :
    Except tnt_error tap_requirement_utility :=
  match tap_ID.tank_id with
  | none => .error .tank_id_unset
  | some _ =>
    .ok { tap_ID := tap_ID, max_release_run := false, most_restrictive_requirement := none,
          remaining_limits := [], adjusted_states := [] }

/-- The member `adjust_limit`: `remaining_limits[index]` default-constructs an unlimited
entry when none exists. -/
def tap_requirement_utility.adjust_limit (u : tap_requirement_utility) (index : index_type)
    (amount : share_type) : Except tnt_error tap_requirement_utility :=
  match amap_find u.remaining_limits index with
  | none => .ok { u with remaining_limits := amap_insert u.remaining_limits index .unlimited_flow }
  | some .unlimited_flow => .ok u
  | some (.amount limit) =>
    if limit ≥ amount then
      .ok { u with remaining_limits :=
              amap_insert u.remaining_limits index (.amount (limit - amount)) }
    else .error .release_exceeds_remaining_limit

def tap_requirement_utility.set_remaining (u : tap_requirement_utility) (index : index_type)
    (l : asset_flow_limit) : tap_requirement_utility :=
  { u with remaining_limits := amap_insert u.remaining_limits index l }

/-- The summation loop of the request inspector over the consume queries of a
`review_requirement`. -/
def review_limit_loop (st : review_state) :
    List tank_query_type → share_type → Except tnt_error asset_flow_limit
  | [], limit => .ok (.amount limit)
  | q :: rest, limit =>
    match q with
    | .consume_approved_request_to_open _ _ request_ID =>
      match amap_find st.pending_requests request_ID with
      | none => .error .nonexistent_request
      | some request =>
        match request.request_amount with
        | .unlimited_flow => .ok .unlimited_flow
        | .amount a => review_limit_loop st rest (limit + a)
    | _ => review_limit_loop st rest limit

/-- The summation loop of the request inspector over the consume queries of a
`delay_requirement`. -/
def delay_limit_loop (st : delay_state) :
    List tank_query_type → share_type → Except tnt_error asset_flow_limit
  | [], limit => .ok (.amount limit)
  | q :: rest, limit =>
    match q with
    | .consume_matured_request_to_open _ _ request_ID =>
      match amap_find st.pending_requests request_ID with
      | none => .error .nonexistent_request
      | some request =>
        match request.request_amount with
        | .unlimited_flow => .ok .unlimited_flow
        | .amount a => delay_limit_loop st rest (limit + a)
    | _ => delay_limit_loop st rest limit

/-- The first `redeem_ticket_to_open` query among the target queries, if any. -/
def first_ticket : List tank_query_type → Option ticket_type
  | [] => none
  | q :: rest =>
    match q with
    | .redeem_ticket_to_open _ _ ticket _ => some ticket
    | _ => first_ticket rest

def is_documentation_string : tank_query_type → Bool
  | .documentation_string _ => true
  | _ => false

def is_reveal_hash_preimage : tank_query_type → Bool
  | .reveal_hash_preimage _ _ _ => true
  | _ => false

/-- The class `max_release_inspector`: `inspect` dispatched on the requirement at
`requirement_index` of the utility's tap. `db` is the wrapper's view, `tank` the tap's tank
in that view and `tank_id` its id. -/
def max_release_inspect (env : chain_env) (qe : query_evaluator) (db : tank_db)
    (tank_id : tank_id_type) (tank : tank_object) (u : tap_requirement_utility)
    (requirement_index : index_type) :
    tap_requirement → Except tnt_error (asset_flow_limit × tap_requirement_utility)
  | .immediate_flow_limit r => .ok (.amount r.limit, u)
  | .cumulative_flow_limit r => do
    match (← tank.get_cumulative_state (.requirement u.tap_ID.tap_id requirement_index)) with
    | none => .ok (.amount r.limit, u)
    | some st => .ok (.amount (r.limit - st.amount_released), u)
  | .periodic_flow_limit r => do
    match (← tank.get_periodic_state (.requirement u.tap_ID.tap_id requirement_index)) with
    | none => .ok (.amount r.limit, u)
    | some st =>
      let period_num := r.period_num_at_time tank.creation_date env.head_block_time
      if st.period_num = period_num then .ok (.amount (r.limit - st.amount_released), u)
      else .ok (.amount r.limit, u)
  | .time_lock r =>
    if r.unlocked_at_time env.head_block_time then .ok (.unlimited_flow, u)
    else .ok (.amount 0, u)
  | .minimum_tank_level r =>
    if tank.balance ≤ r.minimum_level then .ok (.amount 0, u)
    else .ok (.amount (tank.balance - r.minimum_level), u)
  | .documentation_requirement =>
    if qe.get_tank_queries.any is_documentation_string then .ok (.unlimited_flow, u)
    else .ok (.amount 0, u)
  | .review_requirement _ => do
    match amap_find u.remaining_limits requirement_index with
    | some l => .ok (l, u)
    | none =>
      let address := accessory_address.requirement u.tap_ID.tap_id requirement_index
      match (← tank.get_review_state address) with
      | none => .ok (.amount 0, u.set_remaining requirement_index (.amount 0))
      | some st =>
        let l ← review_limit_loop st (qe.get_target_queries address) 0
        .ok (l, u.set_remaining requirement_index l)
  | .delay_requirement _ => do
    match amap_find u.remaining_limits requirement_index with
    | some l => .ok (l, u)
    | none =>
      let address := accessory_address.requirement u.tap_ID.tap_id requirement_index
      match (← tank.get_delay_state address) with
      | none => .ok (.amount 0, u.set_remaining requirement_index (.amount 0))
      | some st =>
        let l ← delay_limit_loop st (qe.get_target_queries address) 0
        .ok (l, u.set_remaining requirement_index l)
  | .hash_preimage_requirement _ =>
    let address := accessory_address.requirement u.tap_ID.tap_id requirement_index
    if (qe.get_target_queries address).any is_reveal_hash_preimage then .ok (.unlimited_flow, u)
    else .ok (.amount 0, u)
  | .ticket_requirement _ =>
    match amap_find u.remaining_limits requirement_index with
    | some l => .ok (l, u)
    | none =>
      let address := accessory_address.requirement u.tap_ID.tap_id requirement_index
      match first_ticket (qe.get_target_queries address) with
      | some ticket =>
        .ok (ticket.max_withdrawal, u.set_remaining requirement_index ticket.max_withdrawal)
      | none => .ok (.amount 0, u.set_remaining requirement_index (.amount 0))
  | .exchange_requirement r => do
    let state ← tank.get_exchange_state (.requirement u.tap_ID.tap_id requirement_index)
    let meter_tank_id := match r.meter_id.tank_id with
      | some x => x
      | none => tank_id
    let meter_tank ← db.get_tank meter_tank_id
    match (← meter_tank.get_meter_state (.attachment r.meter_id.attachment_id)) with
    | none => .ok (.amount 0, u)
    | some meter_state =>
      let released := match state with
        | none => (0 : share_type)
        | some st => st.amount_released
      let limit ← r.max_release_amount released meter_state
      .ok (.amount limit, u)

/-- The `for` loop of `max_tap_release` from requirement index `i` on. -/
def max_release_loop (env : chain_env) (qe : query_evaluator) (db : tank_db)
    (tank_id : tank_id_type) (tank : tank_object) :
    List tap_requirement → index_type → asset_flow_limit → tap_requirement_utility →
      Except tnt_error (asset_flow_limit × tap_requirement_utility)
  | [], _, tap_limit, u => .ok (tap_limit, u)
  | req :: rest, i, tap_limit, u => do
    let (req_limit, u1) ← max_release_inspect env qe db tank_id tank u i req
    let (tap_limit1, u2) :=
      if req_limit.lt tap_limit then
        (req_limit, { u1 with most_restrictive_requirement := some i })
      else (tap_limit, u1)
    if tap_limit1 = .amount 0 then .ok (tap_limit1, u2)
    else max_release_loop env qe db tank_id tank rest (i + 1) tap_limit1 u2

/-- Transcription of `tap_requirement_utility::max_tap_release`. -/
def tap_requirement_utility.max_tap_release (u : tap_requirement_utility) (env : chain_env)
    (qe : query_evaluator) (db : tank_db) :
    Except tnt_error (share_type × tap_requirement_utility) := do
  match u.tap_ID.tank_id with
  | none => .error .tank_id_unset
  | some tank_id =>
    let tank ← db.get_tank tank_id
    let tp ← tank.schematic.get_tap u.tap_ID.tap_id
    let (tap_limit, u1) ←
      max_release_loop env qe db tank_id tank tp.requirements 0 (.amount tank.balance) u
    match tap_limit with
    | .amount a => .ok (a, { u1 with max_release_run := true })
    | .unlimited_flow => .error .wrong_state_type

/-- Transcription of `most_restrictive_requirement_index`. -/
def tap_requirement_utility.most_restrictive_requirement_index (u : tap_requirement_utility) :
    Except tnt_error (Option index_type) :=
  if u.max_release_run then .ok u.most_restrictive_requirement else .error .not_validated

/-- The erasure loop of the request inspector of `prepare_release_inspector` for a
`review_requirement`. -/
def erase_consumed_review (st : review_state) : List tank_query_type → review_state
  | [] => st
  | q :: rest =>
    match q with
    | .consume_approved_request_to_open _ _ request_ID =>
      erase_consumed_review
        { st with pending_requests := amap_erase st.pending_requests request_ID } rest
    | _ => erase_consumed_review st rest

/-- The erasure loop of the request inspector of `prepare_release_inspector` for a
`delay_requirement`. -/
def erase_consumed_delay (st : delay_state) : List tank_query_type → delay_state
  | [] => st
  | q :: rest =>
    match q with
    | .consume_matured_request_to_open _ _ request_ID =>
      erase_consumed_delay
        { st with pending_requests := amap_erase st.pending_requests request_ID } rest
    | _ => erase_consumed_delay st rest

/-- The loop of the ticket inspector of `prepare_release_inspector`: every redeemed ticket
assigns `tickets_consumed = ticket_number + 1`, truncated to `index_type`. -/
def consume_tickets (st : ticket_state) : List tank_query_type → ticket_state
  | [] => st
  | q :: rest =>
    match q with
    | .redeem_ticket_to_open _ _ ticket _ =>
      consume_tickets ⟨u16 (ticket.ticket_number + 1)⟩ rest
    | _ => consume_tickets st rest

/-- The value `adjusted_states[index]` reads (a missing entry is created as `false`). -/
def tap_requirement_utility.adjusted (u : tap_requirement_utility) (index : index_type) :
    Bool :=
  match amap_find u.adjusted_states index with
  | some b => b
  | none => false

/-- The map after `adjusted_states[index]` has been read. -/
def tap_requirement_utility.touch_adjusted (u : tap_requirement_utility)
    (index : index_type) : tap_requirement_utility :=
  match amap_find u.adjusted_states index with
  | some _ => u
  | none => { u with adjusted_states := amap_insert u.adjusted_states index false }

/-- The class `prepare_release_inspector`: `inspect` dispatched on the requirement at
`requirement_index`; it updates the staged tank and the utility. -/
def prepare_release_inspect (env : chain_env) (qe : query_evaluator) (tank : tank_object)
    (u : tap_requirement_utility) (amount : share_type) (requirement_index : index_type) :
    tap_requirement → Except tnt_error (tank_object × tap_requirement_utility)
  | .immediate_flow_limit _ => .ok (tank, u)
  | .time_lock _ => .ok (tank, u)
  | .minimum_tank_level _ => .ok (tank, u)
  | .documentation_requirement => .ok (tank, u)
  | .hash_preimage_requirement _ => .ok (tank, u)
  | .cumulative_flow_limit _ => do
    let address := accessory_address.requirement u.tap_ID.tap_id requirement_index
    let st := or_default (⟨0⟩ : cumulative_state) (← tank.get_cumulative_state address)
    .ok (tank.set_state address (.cumulative ⟨st.amount_released + amount⟩), u)
  | .periodic_flow_limit r => do
    let address := accessory_address.requirement u.tap_ID.tap_id requirement_index
    let st := or_default (⟨0, 0⟩ : periodic_state) (← tank.get_periodic_state address)
    let period_num := r.period_num_at_time tank.creation_date env.head_block_time
    let st1 : periodic_state := if st.period_num ≠ period_num then ⟨period_num, 0⟩ else st
    .ok (tank.set_state address (.periodic { st1 with
      amount_released := st1.amount_released + amount }), u)
  | .review_requirement _ => do
    let u1 ← u.adjust_limit requirement_index amount
    if u1.adjusted requirement_index then .ok (tank, u1)
    else
      let address := accessory_address.requirement u.tap_ID.tap_id requirement_index
      let st := or_default (⟨0, []⟩ : review_state) (← tank.get_review_state address)
      let st1 := erase_consumed_review st (qe.get_target_queries address)
      .ok (tank.set_state address (.review st1),
        { u1 with adjusted_states := amap_insert u1.adjusted_states requirement_index true })
  | .delay_requirement _ => do
    let u1 ← u.adjust_limit requirement_index amount
    if u1.adjusted requirement_index then .ok (tank, u1)
    else
      let address := accessory_address.requirement u.tap_ID.tap_id requirement_index
      let st := or_default (⟨0, []⟩ : delay_state) (← tank.get_delay_state address)
      let st1 := erase_consumed_delay st (qe.get_target_queries address)
      .ok (tank.set_state address (.delay st1),
        { u1 with adjusted_states := amap_insert u1.adjusted_states requirement_index true })
  | .ticket_requirement _ => do
    let u1 ← u.adjust_limit requirement_index amount
    if u1.adjusted requirement_index then .ok (tank, u1)
    else
      let address := accessory_address.requirement u.tap_ID.tap_id requirement_index
      let st := or_default (⟨0⟩ : ticket_state) (← tank.get_ticket_state address)
      let st1 := consume_tickets st (qe.get_target_queries address)
      .ok (tank.set_state address (.ticket st1), u1.touch_adjusted requirement_index)
  | .exchange_requirement _ => do
    let address := accessory_address.requirement u.tap_ID.tap_id requirement_index
    let st := or_default (⟨0⟩ : exchange_state) (← tank.get_exchange_state address)
    let released ← share_add st.amount_released amount
    .ok (tank.set_state address (.exchange ⟨released⟩), u)

/-- The `for` loop of `prepare_tap_release` from requirement index `i` on. Every pass
fetches the staged tank afresh, so the tank is threaded through. -/
def prepare_release_loop (env : chain_env) (qe : query_evaluator) (amount : share_type) :
    List tap_requirement → index_type → tank_object → tap_requirement_utility →
      Except tnt_error (tank_object × tap_requirement_utility)
  | [], _, tank, u => .ok (tank, u)
  | req :: rest, i, tank, u => do
    let (tank1, u1) ← prepare_release_inspect env qe tank u amount i req
    prepare_release_loop env qe amount rest (i + 1) tank1 u1

/-- Transcription of `tap_requirement_utility::prepare_tap_release`; returns the staged
view with the tap's tank updated. -/
def tap_requirement_utility.prepare_tap_release (u : tap_requirement_utility)
    (env : chain_env) (qe : query_evaluator) (db : tank_db) (release_amount : share_type) :
    Except tnt_error (tank_db × tap_requirement_utility) := do
  match u.tap_ID.tank_id with
  | none => .error .tank_id_unset
  | some tank_id =>
    let tank ← db.get_tank tank_id
    let tp ← tank.schematic.get_tap u.tap_ID.tap_id
    let (tank1, u1) ← prepare_release_loop env qe release_amount tp.requirements 0 tank u
    .ok (db.set_tank tank_id tank1, u1)

/-! ## The connection flow processor (`connection_flow_processor.cpp`) -/

/-- The virtual operation `connection_fund_account_operation`; also the record of one
invocation of the fund-account callback. -/
structure connection_fund_account where
  receiving_account : account_id_type
  amount_received : asset
  asset_path : List connection
deriving DecidableEq, Repr

/-- What a flow acts on: the staged view, the state captured by the open-tap callback, and
the invocations of the fund-account callback so far (both callers' callbacks append the
invocation to a list). -/
structure flow_context (σ : Type) where
  db : tank_db
  cb : σ
  funded : List connection_fund_account

def get_connection_tank : remote_connection → Option tank_id_type
  | .tank_id t => some t
  | .attachment_id a => a.tank_id
  | .account_id _ => none

/-- The expression `connection_path.empty() ? origin : connection_path.back()`. -/
def path_back (origin : connection) (connection_path : List connection) : connection :=
  match connection_path.getLast? with
  | some c => c
  | none => origin

/-- The member `check_source_restriction` of `attachment_receive_inspector`, for the tank
`tank_id` holding the attachment. -/
def check_source_restriction (allowed : authorized_connections_type) (source : connection)
    (tank_id : tank_id_type) : Except tnt_error Unit :=
  match allowed with
  | .all_sources => .ok ()
  | .sources authorized => do
    let remote_source ← remote_connection.import_from source
    match get_connection_tank remote_source with
    | some remote_tank =>
      if remote_tank = tank_id then .ok ()
      else if authorized.contains remote_source then .ok () else .error .source_not_authorized
    | none =>
      if authorized.contains remote_source then .ok () else .error .source_not_authorized

/-- The dispatch `attachment_receive_inspector::inspect`: returns the attachment's output
connection, the updated tank and callback state. -/
def attachment_receive_inspect {σ : Type}
    (cbOpenTap : tap_id_type → asset_flow_limit → σ → Except tnt_error σ)
    (tank_id : tank_id_type) (tank : tank_object) (attachment_ID : index_type)
    (amount : asset) (source : connection) (cb : σ) :
    Except tnt_error (connection × tank_object × σ) := do
  match (← tank.schematic.get_attachment attachment_ID) with
  | .attachment_connect_authority _ => .error .cannot_receive_asset
  | .asset_flow_meter meter =>
    check_source_restriction meter.remote_sources source tank_id
    if meter.asset_type = amount.asset_id then
      let address := accessory_address.attachment attachment_ID
      let st := or_default (⟨0⟩ : meter_state) (← tank.get_meter_state address)
      .ok (meter.destination,
        tank.set_state address (.meter ⟨st.metered_amount + amount.amount⟩), cb)
    else .error .wrong_asset
  | .tap_opener opener =>
    check_source_restriction opener.remote_sources source tank_id
    if opener.asset_type = amount.asset_id then
      let cb1 ← cbOpenTap ⟨some tank_id, opener.tap_index⟩ opener.release_amount cb
      .ok (opener.destination, tank, cb1)
    else .error .wrong_asset

/-- The `while` loop of `release_to_connection`. `remaining` is `max_connection_chain_length`
minus `connection_path.size()`, so the assertion `size < max` fails exactly at `0`. The
connection moved into the path keeps its value. -/
def release_loop {σ : Type}
    (cbOpenTap : tap_id_type → asset_flow_limit → σ → Except tnt_error σ)
    (amount : asset) (origin : connection) :
    Nat → connection → List connection → Option tank_id_type → flow_context σ →
      Except tnt_error (connection × List connection × Option tank_id_type × flow_context σ)
  | remaining, connection, connection_path, current_tank, ctx =>
    match connection with
    | .attachment_id att_id =>
      match remaining with
      | 0 => .error .chain_too_long
      | n + 1 =>
        let current_tank1 := match att_id.tank_id with
          | some t => some t
          | none => current_tank
        match current_tank1 with
        | none => .error .no_current_tank
        | some ct => do
          let tank ← ctx.db.get_tank ct
          let (next, tank1, cb1) ← attachment_receive_inspect cbOpenTap ct tank
            att_id.attachment_id amount (path_back origin connection_path) ctx.cb
          release_loop cbOpenTap amount origin n next (connection_path ++ [next]) (some ct)
            { ctx with db := ctx.db.set_tank ct tank1, cb := cb1 }
    | _ => .ok (connection, connection_path, current_tank, ctx)

/-- Transcription of `connection_flow_processor::release_to_connection`; returns the
connection path and the updated context. -/
def release_to_connection {σ : Type} (env : chain_env)
    (cbOpenTap : tap_id_type → asset_flow_limit → σ → Except tnt_error σ)
    (origin connection : connection) (amount : asset) (ctx : flow_context σ) :
    Except tnt_error (List TNT.connection × flow_context σ) := do
  if origin = .same_tank then .error .origin_same_tank
  else
    let current_tank0 := match origin with
      | .tank_id t => some t
      | _ => none
    let (connection1, path1, current_tank, ctx1) ←
      release_loop cbOpenTap amount origin env.max_connection_chain_length connection []
        current_tank0 ctx
    let connection2 ← match connection1 with
      | .same_tank =>
        match current_tank with
        | some ct => pure (TNT.connection.tank_id ct)
        | none => .error .no_current_tank
      | c => pure c
    let penultimate_connection ← remote_connection.import_from (path_back origin path1)
    let connection_path := path1 ++ [connection2]
    match connection2 with
    | .tank_id dest_id =>
      let dest_tank ← ctx1.db.get_tank dest_id
      if dest_tank.schematic.asset_type = amount.asset_id then
        let source_tank := get_connection_tank penultimate_connection
        let same := match source_tank with
          | some st => decide (st = dest_id)
          | none => false
        let allowed := match dest_tank.schematic.remote_sources with
          | .sources authorized => same || authorized.contains penultimate_connection
          | .all_sources => true
        if allowed then
          let dest_tank1 : tank_object :=
            { dest_tank with balance := dest_tank.balance + amount.amount }
          .ok (connection_path, { ctx1 with db := ctx1.db.set_tank dest_id dest_tank1 })
        else .error .source_not_authorized
      else .error .wrong_asset
    | .account_id account =>
      if env.account_exists account && env.asset_exists amount.asset_id then
        if env.is_authorized_asset account amount.asset_id then
          let fullPath := List.replicate (connection_path.length + 1) TNT.connection.same_tank
            ++ [origin] ++ connection_path
          .ok (connection_path,
            { ctx1 with funded := ctx1.funded ++ [⟨account, amount, fullPath⟩] })
        else .error .unauthorized_asset
      else .error .nonexistent_account_or_asset
    | _ => .ok (connection_path, ctx1)

/-! ## The tap flow evaluator (`tap_flow_evaluator.cpp`) -/

structure tap_flow where
  amount_released : asset
  source_tap : tap_id_type
  connection_path : List connection
deriving DecidableEq, Repr

/-- The local variables of `evaluate_tap_flow` together with the staged view and the
invocations of `fund_account_cb`. -/
structure tap_flow_state where
  db : tank_db
  pending_taps : List (tap_id_type × asset_flow_limit)
  tap_flows : List tap_flow
  tap_utilities : List (tap_id_type × tap_requirement_utility)
  funded : List connection_fund_account

/-- The lambda `enqueueTap`, as a function of the queue it captures. -/
def enqueueTap (max_taps_to_open : Nat) (n_flows : Nat) (id : tap_id_type)
    (amount : asset_flow_limit) (pending_taps : List (tap_id_type × asset_flow_limit)) :
    Except tnt_error (List (tap_id_type × asset_flow_limit)) :=
  if pending_taps.length + n_flows < max_taps_to_open then .ok (pending_taps ++ [(id, amount)])
  else .error .too_many_taps

/-- The lambda `getTapUtil`: the utility stored for the tap, or a new one. -/
def getTapUtil (tap_utilities : List (tap_id_type × tap_requirement_utility))
    (id : tap_id_type) : Except tnt_error tap_requirement_utility :=
  match amap_find tap_utilities id with
  | some u => .ok u
  | none => tap_requirement_utility.new id

/-- One pass of the `while` loop of `evaluate_tap_flow`, for the tap at the head of the
queue. -/
def tap_flow_step (env : chain_env) (qe : query_evaluator) (account : account_id_type)
    (tap_to_open : tap_id_type) (max_taps_to_open : Nat)
    (current_tap : tap_id_type) (current_amount : asset_flow_limit) (st : tap_flow_state) :
    Except tnt_error tap_flow_state := do
  match current_tap.tank_id with
  | none => .error .tank_id_unset
  | some tank_id =>
    let tank ← st.db.get_tank tank_id
    let tp ← tank.schematic.get_tap current_tap.tap_id
    match tp.connected_connection with
    | none => .error .tap_not_connected
    | some connected =>
      if !(env.asset_exists tank.schematic.asset_type) then .error .nonexistent_account_or_asset
      else if !(env.is_authorized_asset account tank.schematic.asset_type) then
        .error .unauthorized_asset
      else
        let balance_ok := match current_amount with
          | .amount a => decide (tank.balance ≥ a)
          | .unlimited_flow => true
        if !balance_ok then .error .insufficient_balance
        else
          let util ← getTapUtil st.tap_utilities current_tap
          let (release_limit0, util1) ← util.max_tap_release env qe st.db
          let req_index ← util1.most_restrictive_requirement_index
          if release_limit0 = 0 then
            match req_index with
            | some i => .error (.tap_locked i)
            | none => .error .tank_empty
          else
            let release_limit ← match current_amount with
              | .amount a =>
                if a ≤ release_limit0 then pure a
                else match req_index with
                  | none => .error .exceeds_tank_balance
                  | some _ => .error .exceeds_requirement_limit
              | .unlimited_flow => pure release_limit0
            let (db1, util2) ← util1.prepare_tap_release env qe st.db release_limit
            let tank1 ← db1.get_tank tank_id
            let tank2 : tank_object := { tank1 with balance := tank1.balance - release_limit }
            let db2 := db1.set_tank tank_id tank2
            let (connection_path, ctx) ←
              release_to_connection env (enqueueTap max_taps_to_open st.tap_flows.length)
                (.tank_id tank_id) connected (asset.of_amount release_limit)
                { db := db2, cb := st.pending_taps, funded := st.funded }
            .ok { db := ctx.db,
                  pending_taps := ctx.cb.tail,
                  tap_flows := st.tap_flows ++
                    [⟨asset.of_amount release_limit, tap_to_open, connection_path⟩],
                  tap_utilities := amap_insert st.tap_utilities current_tap util2,
                  funded := ctx.funded }

/-- The `while (!pending_taps.empty())` loop of `evaluate_tap_flow`, bounded by `fuel`
passes. -/
def tap_flow_loop (env : chain_env) (qe : query_evaluator) (account : account_id_type)
    (tap_to_open : tap_id_type) (max_taps_to_open : Nat) :
    Nat → tap_flow_state → Except tnt_error tap_flow_state
  | fuel, st =>
    match st.pending_taps with
    | [] => .ok st
    | (current_tap, current_amount) :: _ =>
      match fuel with
      | 0 => .error .out_of_fuel
      | n + 1 => do
        let st1 ← tap_flow_step env qe account tap_to_open max_taps_to_open
          current_tap current_amount st
        tap_flow_loop env qe account tap_to_open max_taps_to_open n st1

/-- Transcription of `evaluate_tap_flow`. The queue never holds more than
`max (max_taps_to_open) 1` taps in total, so `max_taps_to_open + 1` passes exhaust it.
`max_taps_to_open` is the `uint16_t` count the callers pass. -/
def evaluate_tap_flow (env : chain_env) (qe : query_evaluator) (db : tank_db)
    (account : account_id_type) (tap_to_open : tap_id_type) (flow_amount : asset_flow_limit)
    (max_taps_to_open : Nat) : Except tnt_error tap_flow_state :=
  if !(env.account_exists account) then .error .nonexistent_account_or_asset
  else
    tap_flow_loop env qe account tap_to_open max_taps_to_open (max_taps_to_open + 1)
      { db := db, pending_taps := [(tap_to_open, flow_amount)], tap_flows := [],
        tap_utilities := [], funded := [] }

/-! ## Validation and deposits (`validation.hpp`, `validation.cpp`, `parameters.hpp`) -/

structure parameters_type where
  max_connection_chain_length : Nat
  max_taps_to_open : Nat
  tank_deposit : Nat
  default_tap_requirement_deposit : Nat
  default_tank_attachment_deposit : Nat
  stateful_accessory_deposit_premium : Nat
  override_deposits : List (Nat × Nat)
deriving DecidableEq, Repr

/-- The fields of a `tank_validator`, including those of its base `lookup_utilities`. -/
structure tank_validator where
  utils : lookup_utilities
  max_connection_chain_length : Nat
  tank_id : Option tank_id_type
  has_validated : Bool
  attachment_counters : List (Nat × Nat)
  requirement_counters : List (Nat × Nat)

/-- The constructor of `tank_validator`. -/
def tank_validator.new (schema : tank_schematic) (max_connection_chain_length : Nat)
    (lookup_tank : tank_lookup_function) (tank_id : Option tank_id_type) : tank_validator :=
  { utils := ⟨schema, lookup_tank⟩, max_connection_chain_length := max_connection_chain_length,
    tank_id := tank_id, has_validated := false, attachment_counters := [],
    requirement_counters := [] }

/-- The statement `++counters[tag]` on a map of `index_type` counts. -/
def bump_counter (counters : List (Nat × Nat)) (tag : Nat) : List (Nat × Nat) :=
  match amap_find counters tag with
  | some n => amap_insert counters tag (u16 (n + 1))
  | none => amap_insert counters tag 1

def vfail {α : Type} (c : validation_check) : Except tnt_error α :=
  .error (.validation_failed c)

def check_authority (auth : authority) : Except tnt_error Unit :=
  if auth.impossible then vfail .impossible_authority
  else if auth.null then vfail .null_authority
  else .ok ()

/-- The loop of the `time_lock` checker: every time exceeds the one before it. -/
def strictly_increasing : List time_point_sec → Bool
  | [] => true
  | [_] => true
  | a :: b :: rest => decide (a < b) && strictly_increasing (b :: rest)

/-- The member `operator()(const authorized_connections_type&)` of
`internal_attachment_checker`: with `my_id` unset it returns at once; otherwise no listed
source may be the tank `my_id` or an attachment whose tank is `my_id`. -/
def check_same_tank_sources (my_id : Option tank_id_type)
    (sources : authorized_connections_type) : Except tnt_error Unit :=
  match my_id with
  | none => .ok ()
  | some id =>
    match sources with
    | .all_sources => .ok ()
    | .sources cons =>
      if cons.all (fun con =>
          match con with
          | .tank_id t => decide (t ≠ id)
          | .attachment_id a => decide (a.tank_id ≠ some id)
          | .account_id _ => true)
      then .ok () else vfail .same_tank_source

/-- The visitor `internal_attachment_checker`; `my_id` is its only member. -/
def internal_attachment_checker (my_id : Option tank_id_type) :
    tank_attachment → Except tnt_error Unit
  | .asset_flow_meter att => check_same_tank_sources my_id att.remote_sources
  | .tap_opener att => do
    match att.release_amount with
    | .amount a => if a > 0 then pure () else vfail .opener_release_not_positive
    | .unlimited_flow => pure ()
    check_same_tank_sources my_id att.remote_sources
  | .attachment_connect_authority att => check_authority att.connect_authority

/-- The digest a hash variant holds, and the digest of the empty string under its
algorithm. -/
def hash_type.digest : hash_type → digest_type
  | .sha256 d => d
  | .ripemd160 d => d
  | .hash160 d => d

def hash_of_empty (cr : crypto_env) : hash_type → digest_type
  | .sha256 _ => cr.sha256 []
  | .ripemd160 _ => cr.ripemd160 []
  | .hash160 _ => cr.hash160 []

/-- The visitor `internal_requirement_checker`. -/
def internal_requirement_checker (cr : crypto_env) : tap_requirement → Except tnt_error Unit
  | .immediate_flow_limit req =>
    if req.limit > 0 then .ok () else vfail .immediate_limit_not_positive
  | .cumulative_flow_limit req =>
    if req.limit > 0 then .ok () else vfail .cumulative_limit_not_positive
  | .periodic_flow_limit req =>
    if req.limit > 0 then
      if req.period_duration_sec > 0 then .ok () else vfail .periodic_period_not_positive
    else vfail .periodic_limit_not_positive
  | .time_lock req =>
    if req.lock_unlock_times.isEmpty then vfail .time_lock_empty
    else if strictly_increasing req.lock_unlock_times then .ok ()
    else vfail .time_lock_not_increasing
  | .minimum_tank_level req =>
    if req.minimum_level > 0 then .ok () else vfail .minimum_level_not_positive
  | .review_requirement req => check_authority req.reviewer
  | .documentation_requirement => .ok ()
  | .delay_requirement req => do
    match req.veto_authority with
    | some a => check_authority a
    | none => pure ()
    if req.delay_period_sec > 0 then .ok () else vfail .delay_period_not_positive
  | .hash_preimage_requirement req =>
    if req.hash.digest = 0 then vfail .null_hash
    else if req.hash.digest = hash_of_empty cr req.hash then vfail .hash_of_empty
    else match req.preimage_size with
      | some n => if n > 0 then .ok () else vfail .preimage_size_not_positive
      | none => .ok ()
  | .ticket_requirement req =>
    if req.ticket_signer ≠ 0 then .ok () else vfail .null_ticket_signer
  | .exchange_requirement req =>
    if req.tick_amount > 0 then
      if req.release_per_tick > 0 then .ok () else vfail .release_per_tick_not_positive
    else vfail .tick_amount_not_positive

/-- The helper `check_connection_asset` of the attachment visitor. -/
def tank_validator.check_connection_asset (v : tank_validator) (s : connection)
    (a : asset_id_type) : Except tnt_error Unit :=
  match v.utils.get_connection_asset s with
  | .no_asset _ => vfail .destination_no_asset
  | .nonexistent_object _ => vfail .destination_nonexistent
  | .asset_id x => if x = a then .ok () else vfail .destination_wrong_asset
  | _ => .ok ()

/-- Transcription of `tank_validator::validate_attachment(index_type)`. Its visitor builds the
checker as `internal_attachment_checker()`, with `my_id` unset. -/
def tank_validator.validate_attachment (v : tank_validator) (attachment_id : index_type) :
    Except tnt_error tank_validator := do
  if !(amap_contains v.utils.current_tank.attachments attachment_id) then
    .error .nonexistent_attachment
  else
    match v.utils.lookup_attachment ⟨none, attachment_id⟩ with
    | .nonexistent_object _ => .error .nonexistent_attachment
    | .need_lookup_function => .ok v
    | .found attachment =>
      match attachment with
      | .asset_flow_meter att =>
        internal_attachment_checker none attachment
        v.check_connection_asset att.destination att.asset_type
        .ok { v with attachment_counters := bump_counter v.attachment_counters 0 }
      | .tap_opener att =>
        internal_attachment_checker none attachment
        if !(amap_contains v.utils.current_tank.taps att.tap_index) then
          vfail .opener_nonexistent_tap
        else
          v.check_connection_asset att.destination att.asset_type
          .ok { v with attachment_counters := bump_counter v.attachment_counters 1 }
      | .attachment_connect_authority att =>
        internal_attachment_checker none attachment
        match amap_find v.utils.current_tank.attachments att.attachment_id with
        | none => vfail .target_nonexistent_attachment
        | some target =>
          match target with
          | .attachment_connect_authority _ => vfail .target_receives_no_asset
          | _ => .ok { v with attachment_counters := bump_counter v.attachment_counters 2 }

/-- The helper `check_meter` of the requirement visitor (no asset type is passed). -/
def tank_validator.check_meter (v : tank_validator) (id : attachment_id_type) :
    Except tnt_error Unit :=
  match v.utils.lookup_attachment id with
  | .nonexistent_object _ => vfail .meter_nonexistent
  | .found attachment =>
    match attachment with
    | .asset_flow_meter _ => .ok ()
    | _ => vfail .not_a_meter
  | .need_lookup_function => .ok ()

/-- Transcription of `tank_validator::validate_tap_requirement(index_type, index_type)`. -/
def tank_validator.validate_tap_requirement (v : tank_validator) (cr : crypto_env)
    (tap_id requirement_index : index_type) : Except tnt_error tank_validator := do
  let requirement ← v.utils.current_tank.get_requirement tap_id requirement_index
  match requirement with
  | .exchange_requirement req =>
    v.check_meter req.meter_id
    internal_requirement_checker cr requirement
  | _ => internal_requirement_checker cr requirement
  .ok { v with requirement_counters := bump_counter v.requirement_counters requirement.which }

/-- The flag `unique` of each tap requirement type, by tag. -/
def requirement_is_unique : Nat → Bool
  | 0 => true
  | 1 => true
  | 2 => false
  | 3 => true
  | 4 => true
  | 5 => true
  | 6 => true
  | 7 => true
  | _ => false

/-- The flag `unique` of each tank attachment type, by tag: no attachment is unique. -/
def attachment_is_unique : Nat → Bool
  | _ => false

/-- The member `uniqueness_checker::check_tag`: the verdict and the tags seen after it. -/
def check_tag (is_unique_accessory : Nat → Bool) (tags_seen : List Nat) (tag : Nat) :
    Bool × List Nat :=
  if is_unique_accessory tag && tags_seen.contains tag then (false, tags_seen)
  else (true, if tags_seen.contains tag then tags_seen else tag :: tags_seen)

/-- Transcription of `tank_validator::check_tap_connection`. -/
def tank_validator.check_tap_connection (v : tank_validator) (tap_id : index_type) :
    Except tnt_error Unit := do
  let tp ← v.utils.current_tank.get_tap tap_id
  match tp.connected_connection with
  | none => .ok ()
  | some c =>
    match v.utils.get_connection_chain c v.max_connection_chain_length
        (some v.utils.current_tank.asset_type) with
    | .exceeded_max_chain_length => vfail .chain_exceeds_max_length
    | .bad_connection .receives_no_asset _ => vfail .chain_receives_no_asset
    | .bad_connection .receives_wrong_asset _ => vfail .chain_receives_wrong_asset
    | .nonexistent_object _ => vfail .chain_nonexistent_object
    | .need_lookup_function => vfail .chain_unhandled_result
    | .chain _ => .ok ()

/-- The requirement loop of `validate_tap(index_type)`. -/
def tank_validator.validate_requirements (v : tank_validator) (cr : crypto_env)
    (tap_id : index_type) :
    List tap_requirement → index_type → List Nat → Except tnt_error tank_validator
  | [], _, _ => .ok v
  | req :: rest, i, tags_seen =>
    match check_tag requirement_is_unique tags_seen req.which with
    | (false, _) => vfail .requirement_not_unique
    | (true, seen1) => do
      let v1 ← v.validate_tap_requirement cr tap_id i
      v1.validate_requirements cr tap_id rest (i + 1) seen1

/-- Transcription of `tank_validator::validate_tap(index_type)`. -/
def tank_validator.validate_tap (v : tank_validator) (cr : crypto_env) (tap_id : index_type) :
    Except tnt_error tank_validator := do
  let tp ← v.utils.current_tank.get_tap tap_id
  if tp.connected_connection.isSome || tp.connect_authority.isSome then
    let v1 ← v.validate_requirements cr tap_id tp.requirements 0 []
    v1.check_tap_connection tap_id
    .ok v1
  else vfail .tap_needs_connection_or_authority

/-- Transcription of the static `tank_validator::validate_emergency_tap(const tap&)`. -/
def validate_emergency_tap_static (etap : tap) : Except tnt_error Unit := do
  if !etap.requirements.isEmpty then vfail .emergency_tap_has_requirements
  else
    match etap.open_authority with
    | none => vfail .emergency_open_authority_unset
    | some open_authority =>
      if open_authority.weight_threshold > 0 then
        check_authority open_authority
        match etap.connect_authority with
        | none => vfail .emergency_connect_authority_unset
        | some connect_authority =>
          check_authority connect_authority
          if etap.destructor_tap = true then .ok () else vfail .emergency_tap_not_destructor
      else vfail .emergency_open_authority_trivial

/-- Transcription of `tank_validator::validate_emergency_tap()`. -/
def tank_validator.validate_emergency_tap (v : tank_validator) : Except tnt_error Unit :=
  match amap_find v.utils.current_tank.taps 0 with
  | none => vfail .emergency_tap_missing
  | some etap => validate_emergency_tap_static etap

/-- The attachment loop of `validate_tank`. -/
def tank_validator.validate_attachments (v : tank_validator) :
    List (index_type × tank_attachment) → List Nat → Except tnt_error tank_validator
  | [], _ => .ok v
  | (id, att) :: rest, tags_seen =>
    match check_tag attachment_is_unique tags_seen att.which with
    | (false, _) => vfail .attachment_not_unique
    | (true, seen1) => do
      let v1 ← v.validate_attachment id
      v1.validate_attachments rest seen1

/-- The tap loop of `validate_tank`. -/
def tank_validator.validate_taps (v : tank_validator) (cr : crypto_env) :
    List (index_type × tap) → Except tnt_error tank_validator
  | [] => .ok v
  | (id, _) :: rest => do
    let v1 ← v.validate_tap cr id
    v1.validate_taps cr rest

/-- Transcription of `tank_validator::validate_tank`. -/
def tank_validator.validate_tank (v : tank_validator) (cr : crypto_env) :
    Except tnt_error tank_validator := do
  let v1 ← v.validate_attachments v.utils.current_tank.attachments []
  v1.validate_emergency_tap
  let v2 ← v1.validate_taps cr v1.utils.current_tank.taps
  .ok { v2 with has_validated := true }

/-- The table `accessory_has_state_map` over `tank_accessory_list`. -/
def accessory_has_state : Nat → Bool
  | 0 => true
  | 4 => true
  | 5 => true
  | 8 => true
  | 10 => true
  | 12 => true
  | 13 => true
  | _ => false

/-- The lambda `get_accessory_deposit` of `calculate_deposit`. -/
def get_accessory_deposit (parameters : parameters_type) (type : Nat)
    (default_deposit : Nat) : share_type :=
  match amap_find parameters.override_deposits type with
  | some d => (d : Int)
  | none =>
    (default_deposit : Int) +
      ((parameters.stateful_accessory_deposit_premium * (if accessory_has_state type then 1 else 0)
        : Nat) : Int)

/-- The loop `for (auto tag_count_pair : counters) total_deposit += ...`; `to_accessory` is
the index map from the variant tag to the position in `tank_accessory_list`. -/
def add_deposits (parameters : parameters_type) (to_accessory : Nat → Nat)
    (default_deposit : Nat) : List (Nat × Nat) → share_type → share_type
  | [], total => total
  | (tag, _) :: rest, total =>
    add_deposits parameters to_accessory default_deposit rest
      (total + get_accessory_deposit parameters (to_accessory tag) default_deposit)

/-- Transcription of `tank_validator::calculate_deposit(const parameters_type&)`. -/
def tank_validator.calculate_deposit (v : tank_validator) (parameters : parameters_type) :
    Except tnt_error share_type :=
  if v.has_validated then
    let total0 : share_type := (parameters.tank_deposit : Int)
    let total1 := add_deposits parameters (fun tag => tag)
      parameters.default_tank_attachment_deposit v.attachment_counters total0
    let total2 := add_deposits parameters (fun tag => tag + 3)
      parameters.default_tap_requirement_deposit v.requirement_counters total1
    .ok total2
  else .error .not_validated

/-- Transcription of the static `tank_validator::calculate_deposit(schematic, parameters)`. -/
def calculate_deposit (cr : crypto_env) (schematic : tank_schematic)
    (parameters : parameters_type) : Except tnt_error share_type := do
  let val := tank_validator.new schematic parameters.max_connection_chain_length none none
  let val1 ← val.validate_tank cr
  val1.calculate_deposit parameters

/-! ## Operations and schematics (`operations.hpp`, `types.cpp`)

The fee and extension fields of the operations play no part in the evaluators below and are
left out. -/

structure tank_create_operation where
  payer : account_id_type
  deposit_amount : share_type
  contained_asset : asset_id_type
  taps : List tap
  attachments : List tank_attachment
  authorized_sources : authorized_connections_type
deriving DecidableEq, Repr

structure tank_update_operation where
  payer : account_id_type
  update_authority : authority
  tank_to_update : tank_id_type
  deposit_delta : share_type
  taps_to_remove : List index_type
  taps_to_replace : List (index_type × tap)
  taps_to_add : List tap
  attachments_to_remove : List index_type
  attachments_to_replace : List (index_type × tank_attachment)
  attachments_to_add : List tank_attachment
  new_authorized_sources : Option authorized_connections_type
deriving DecidableEq, Repr

/-- The loop `for (x : xs) map[counter++] = x` on an `index_type` counter. -/
def add_all {β : Type} : List β → List (index_type × β) → index_type →
    List (index_type × β) × index_type
  | [], m, counter => (m, counter)
  | x :: rest, m, counter => add_all rest (amap_insert m counter x) (u16 (counter + 1))

/-- The loop `for (p : pairs) map[p.first] = p.second`. -/
def replace_all {β : Type} : List (index_type × β) → List (index_type × β) →
    List (index_type × β)
  | [], m => m
  | (k, x) :: rest, m => replace_all rest (amap_insert m k x)

/-- The loop `for (id : ids) map.erase(id)`. -/
def erase_all {β : Type} : List index_type → List (index_type × β) → List (index_type × β)
  | [], m => m
  | id :: rest, m => erase_all rest (amap_erase m id)

/-- Transcription of `tank_schematic::from_create_operation`. -/
def tank_schematic.from_create_operation (create_op : tank_create_operation) :
    tank_schematic :=
  let (attachments, attachment_counter) := add_all create_op.attachments [] 0
  let (taps, tap_counter) := add_all create_op.taps [] 0
  { taps := taps, tap_counter := tap_counter, attachments := attachments,
    attachment_counter := attachment_counter,
    remote_sources := create_op.authorized_sources, asset_type := create_op.contained_asset }

/-- Transcription of `tank_schematic::update_from_operation`. -/
def tank_schematic.update_from_operation (s : tank_schematic)
    (update_op : tank_update_operation) : tank_schematic :=
  let taps1 := replace_all update_op.taps_to_replace (erase_all update_op.taps_to_remove s.taps)
  let (taps2, tap_counter) := add_all update_op.taps_to_add taps1 s.tap_counter
  let attachments1 := replace_all update_op.attachments_to_replace
    (erase_all update_op.attachments_to_remove s.attachments)
  let (attachments2, attachment_counter) :=
    add_all update_op.attachments_to_add attachments1 s.attachment_counter
  { taps := taps2, tap_counter := tap_counter, attachments := attachments2,
    attachment_counter := attachment_counter,
    remote_sources := match update_op.new_authorized_sources with
      | some x => x
      | none => s.remote_sources,
    asset_type := s.asset_type }

/-! ## Tank state clearing (`object.cpp`) -/

/-- Transcription of `tank_object::clear_tap_state`: the erased range is every address the
comparator holds equivalent to the tap ID, the requirement addresses on that tap. -/
def tank_object.clear_tap_state (t : tank_object) (tap_ID : index_type) : tank_object :=
  { t with accessory_states := t.accessory_states.filter (fun p =>
      match p.1 with
      | .requirement tp _ => !decide (tp = tap_ID)
      | .attachment _ => true) }

/-- Transcription of `tank_object::clear_attachment_state`. -/
def tank_object.clear_attachment_state (t : tank_object) (attachment_ID : index_type) :
    tank_object :=
  t.erase_state (.attachment attachment_ID)

/-! ## The object database and the tank evaluators (`evaluators.cpp`) -/

/-- The part of `chain::database` the tank evaluators use: the tanks, the core-asset
balance of every account, the head block time, whether the TNT hardfork has passed at that
time, and the TNT chain parameters when configured. -/
structure database where
  tanks : tank_db
  core_balance : account_id_type → share_type
  head_block_time : time_point_sec
  hardfork_passed : Bool
  tnt_parameters : Option parameters_type
  crypto : crypto_env

/-- Modelled from the spec: `adjust_balance(account, asset_delta)` of the host database
contract (section 6), which adds the delta to the account's balance; `chain::database` is
not part of these sources. -/
def database.adjust_balance (d : database) (account : account_id_type) (delta : share_type) :
    database :=
  { d with core_balance := fun a => if a = account then d.core_balance a + delta
                                    else d.core_balance a }

/-- The statement `d.create<tank_object>(...)`: the new tank takes the next instance
number. -/
def database.create_tank (d : database) (t : tank_object) : tank_id_type × database :=
  (d.tanks.length, { d with tanks := d.tanks ++ [some t] })

/-- Transcription of `tank_create_evaluator::do_evaluate`; returns the member `new_tank`. -/
def tank_create_evaluator.do_evaluate (d : database) (o : tank_create_operation) :
    Except tnt_error tank_schematic := do
  if !d.hardfork_passed then .error .tnt_not_enabled
  else
    match d.tnt_parameters with
    | none => .error .tnt_not_configured
    | some tnt_parameters =>
      if d.core_balance o.payer ≥ o.deposit_amount then
        let new_tank := tank_schematic.from_create_operation o
        let validator := tank_validator.new new_tank tnt_parameters.max_connection_chain_length
          (make_lookup d.tanks) none
        let validator1 ← validator.validate_tank d.crypto
        let deposit ← validator1.calculate_deposit tnt_parameters
        if deposit = o.deposit_amount then .ok new_tank else .error .incorrect_deposit
      else .error .insufficient_balance

/-- Transcription of `tank_create_evaluator::do_apply`. -/
def tank_create_evaluator.do_apply (d : database) (new_tank : tank_schematic)
    (o : tank_create_operation) : tank_id_type × database :=
  let d1 := d.adjust_balance o.payer (-o.deposit_amount)
  d1.create_tank
    { schematic := new_tank, balance := 0, deposit := o.deposit_amount,
      creation_date := d.head_block_time, accessory_states := [] }

/-- Transcription of `tank_update_evaluator::do_evaluate`; returns the member
`updated_tank`. -/
def tank_update_evaluator.do_evaluate (d : database) (o : tank_update_operation) :
    Except tnt_error tank_schematic := do
  match d.tnt_parameters with
  | none => .error .tnt_not_configured
  | some tnt_parameters =>
    let old_tank ← d.tanks.get_tank o.tank_to_update
    let open_authority ← tap_open_authority old_tank.schematic 0
    if o.update_authority = open_authority then
      let updated_tank := old_tank.schematic.update_from_operation o
      let validator := tank_validator.new updated_tank
        tnt_parameters.max_connection_chain_length (make_lookup d.tanks)
        (some o.tank_to_update)
      let validator1 ← validator.validate_tank d.crypto
      let new_deposit ← validator1.calculate_deposit tnt_parameters
      if old_tank.deposit - new_deposit = o.deposit_delta then
        if o.deposit_delta > 0 then
          if d.core_balance o.payer ≥ o.deposit_delta then .ok updated_tank
          else .error .insufficient_balance
        else .ok updated_tank
      else .error .incorrect_deposit_delta
    else .error .incorrect_authority

/-- The four clearing loops inside the `modify` call of `tank_update_evaluator::do_apply`. -/
def clear_updated_state (o : tank_update_operation) (tank : tank_object) : tank_object :=
  let t1 := o.attachments_to_remove.foldl (fun t id => t.clear_attachment_state id) tank
  let t2 := o.attachments_to_replace.foldl (fun t p => t.clear_attachment_state p.1) t1
  let t3 := o.taps_to_remove.foldl (fun t id => t.clear_tap_state id) t2
  o.taps_to_replace.foldl (fun t p => t.clear_tap_state p.1) t3

/-- Transcription of `tank_update_evaluator::do_apply`. -/
def tank_update_evaluator.do_apply (d : database) (updated_tank : tank_schematic)
    (o : tank_update_operation) : Except tnt_error database := do
  let d1 := if o.deposit_delta ≠ 0 then d.adjust_balance o.payer o.deposit_delta else d
  let old_tank ← d1.tanks.get_tank o.tank_to_update
  let tank1 : tank_object :=
    { old_tank with schematic := updated_tank, deposit := old_tank.deposit + o.deposit_delta }
  .ok { d1 with tanks := d1.tanks.set_tank o.tank_to_update (clear_updated_state o tank1) }

/-! ## The tap open evaluator (`evaluators.cpp`, `operations.hpp`) -/

/-- The fields of `tap_open_operation` the evaluator reads; `tap_open_count` is a
`uint16_t`. -/
structure tap_open_operation where
  payer : account_id_type
  required_authorities : List authority
  queries : List tank_query_type
  tap_to_open : tap_id_type
  release_amount : asset_flow_limit
  deposit_claimed : Option share_type
  tap_open_count : Nat

/-- The struct `auth_usage_checker`: the declared authorities and the positions among them
that have been used (the set of iterators `used_auths`). -/
structure auth_usage_checker where
  declared_auths : List authority
  used_auths : List Nat
deriving DecidableEq, Repr

/-- The member `require_auth`: `std::find` yields the first position of the authority. -/
def auth_usage_checker.require_auth (c : auth_usage_checker) (auth : authority) :
    Except tnt_error auth_usage_checker :=
  let itr := c.declared_auths.indexOf auth
  if itr < c.declared_auths.length then
    .ok { c with used_auths := if c.used_auths.contains itr then c.used_auths
                               else c.used_auths ++ [itr] }
  else .error .authority_not_declared

def auth_usage_checker.require_auths (c : auth_usage_checker) :
    List authority → Except tnt_error auth_usage_checker
  | [] => .ok c
  | auth :: rest => do
    let c1 ← c.require_auth auth
    c1.require_auths rest

def auth_usage_checker.check_all_used (c : auth_usage_checker) : Except tnt_error Unit :=
  if c.used_auths.length < c.declared_auths.length then .error .unused_authorities
  else .ok ()

/-- The query loop of `tap_open_evaluator::do_evaluate`. -/
def evaluate_queries (env : chain_env) (db : tank_db) :
    List tank_query_type → query_evaluator → auth_usage_checker →
      Except tnt_error (query_evaluator × auth_usage_checker)
  | [], qe, c => .ok (qe, c)
  | query :: rest, qe, c => do
    let (required_auths, qe1) ← qe.evaluate_query env db query
    let c1 ← c.require_auths required_auths
    evaluate_queries env db rest qe1 c1

/-- The members of `tap_open_evaluator` that `do_evaluate` sets. -/
structure tap_open_evaluator where
  db_wrapper : tank_db
  accounts_to_pay : List connection_fund_account
  delete_tank : Bool

/-- The chain environment that `database` `d` presents to the query and flow code:
`accounts` supplies the account and asset tables, which `database` does not carry; the
head block time, the hash functions and the chain length limit are those of `d`. -/
def database.chain_env (d : database) (accounts : chain_env) (p : parameters_type) :
    chain_env :=
  { accounts with
    tocrypto_env := d.crypto, head_block_time := d.head_block_time,
    max_connection_chain_length := p.max_connection_chain_length }

/-- Transcription of `tap_open_evaluator::do_evaluate`; returns the members it sets and,
for reference, the local `flows`. -/
def tap_open_evaluator.do_evaluate (accounts : chain_env) (d : database)
    (o : tap_open_operation) : Except tnt_error (tap_open_evaluator × List tap_flow) := do
  match o.tap_to_open.tank_id with
  | none => .error .tank_id_unset
  | some tank_id =>
    let tank ← d.tanks.get_tank tank_id
    match d.tnt_parameters with
    | none => .error .tnt_not_configured
    | some tnt_parameters =>
      let env := d.chain_env accounts tnt_parameters
      let tp ← tank.schematic.get_tap o.tap_to_open.tap_id
      let delete_tank ← match o.deposit_claimed with
        | some claimed =>
          if claimed = tank.deposit then
            if tp.destructor_tap then pure true else .error .not_destructor_tap
          else .error .deposit_claim_mismatch
        | none => pure false
      if delete_tank && decide (tank.balance = 0) then
        if !o.queries.isEmpty then .error .destroy_with_queries
        else if o.tap_open_count ≠ 1 then .error .destroy_tap_open_count
        else
          let declared_ok := match tp.open_authority with
            | some a => decide (o.required_authorities = [a])
            | none => o.required_authorities.isEmpty
          if !declared_ok then .error .destroy_authorities
          else
            let amount_ok := match o.release_amount with
              | .amount a => decide (a = 0)
              | .unlimited_flow => true
            if !amount_ok then .error .destroy_release_amount
            else .ok (⟨d.tanks, [], true⟩, [])
      else
        let auth_checker : auth_usage_checker := ⟨o.required_authorities, []⟩
        let query_evaluator0 ← query_evaluator.new.set_query_tank tank_id tank
        match tp.connected_connection with
        | none => .error .tap_not_connected
        | some _ =>
          let auth_checker1 ← match tp.open_authority with
            | some a => auth_checker.require_auth a
            | none => pure auth_checker
          let (query_evaluator1, auth_checker2) ←
            evaluate_queries env d.tanks o.queries query_evaluator0 auth_checker1
          let staged ← d.tanks.get_tank tank_id
          let staged1 ← query_evaluator1.apply_queries env staged
          let st ← evaluate_tap_flow env query_evaluator1 (d.tanks.set_tank tank_id staged1)
            o.payer o.tap_to_open o.release_amount o.tap_open_count
          if st.tap_flows.length ≠ o.tap_open_count then .error .tap_open_count_mismatch
          else
            auth_checker2.check_all_used
            if delete_tank && decide (st.db.balance_of tank_id ≠ 0) then
              .error .tank_not_emptied
            else .ok (⟨st.db, st.funded, delete_tank⟩, st.tap_flows)

/-! ## Operation validation (`operations.cpp`, `query_api.hpp`) -/

def ofail {α : Type} (c : operation_check) : Except tnt_error α :=
  .error (.operation_invalid c)

/-- The checks on an optional comment that the request queries share; `size()` counts
bytes. -/
def validate_comment : Option String → Except tnt_error Unit
  | none => .ok ()
  | some c =>
    if c.isEmpty then ofail .comment_empty
    else if c.utf8ByteSize ≤ 150 then .ok () else ofail .comment_too_long

/-- The check on the amount of a new request. -/
def validate_request_amount : asset_flow_limit → Except tnt_error Unit
  | .amount a => if a ≠ 0 then .ok () else ofail .request_amount_zero
  | .unlimited_flow => .ok ()

/-- The member `validate` of the content of each query type. -/
def tank_query_type.validate_content : tank_query_type → Except tnt_error Unit
  | .reset_meter _ => .ok ()
  | .reconnect_attachment _ _ => .ok ()
  | .create_request_for_review _ _ request_amount comment => do
    validate_request_amount request_amount
    validate_comment comment
  | .review_request_to_open _ _ _ _ comment => validate_comment comment
  | .cancel_request_for_review _ _ _ comment => validate_comment comment
  | .consume_approved_request_to_open _ _ _ => .ok ()
  | .documentation_string reason =>
    if reason.isEmpty then ofail .reason_empty
    else if reason.utf8ByteSize ≤ 150 then .ok () else ofail .reason_too_long
  | .create_request_for_delay _ _ request_amount comment => do
    validate_request_amount request_amount
    validate_comment comment
  | .veto_request_in_delay _ _ _ comment => validate_comment comment
  | .cancel_request_in_delay _ _ _ comment => validate_comment comment
  | .consume_matured_request_to_open _ _ _ => .ok ()
  | .reveal_hash_preimage _ _ preimage =>
    if preimage.isEmpty then ofail .preimage_empty else .ok ()
  | .redeem_ticket_to_open _ _ ticket _ =>
    match ticket.max_withdrawal with
    | .amount a => if a > 0 then .ok () else ofail .max_withdrawal_not_positive
    | .unlimited_flow => .ok ()
  | .reset_exchange_requirement _ _ => .ok ()

/-- The position of a query's type in `query_type_list`. -/
def tank_query_type.which : tank_query_type → Nat
  | .reset_meter _ => 0
  | .reconnect_attachment _ _ => 1
  | .create_request_for_review _ _ _ _ => 2
  | .review_request_to_open _ _ _ _ _ => 3
  | .cancel_request_for_review _ _ _ _ => 4
  | .consume_approved_request_to_open _ _ _ => 5
  | .documentation_string _ => 6
  | .create_request_for_delay _ _ _ _ => 7
  | .veto_request_in_delay _ _ _ _ => 8
  | .cancel_request_in_delay _ _ _ _ => 9
  | .consume_matured_request_to_open _ _ _ => 10
  | .reveal_hash_preimage _ _ _ => 11
  | .redeem_ticket_to_open _ _ _ _ => 12
  | .reset_exchange_requirement _ _ => 13

/-- The constant `tap_open_only` of each query type. -/
def tank_query_type.tap_open_only : tank_query_type → Bool
  | .consume_approved_request_to_open _ _ _ => true
  | .consume_matured_request_to_open _ _ _ => true
  | .reveal_hash_preimage _ _ _ => true
  | .redeem_ticket_to_open _ _ _ _ => true
  | _ => false

/-- The constant `unique` of each query type. -/
def tank_query_type.unique : tank_query_type → Bool
  | .reset_meter _ => true
  | .reconnect_attachment _ _ => true
  | .reveal_hash_preimage _ _ _ => true
  | .redeem_ticket_to_open _ _ _ _ => true
  | .reset_exchange_requirement _ _ => true
  | _ => false

/-- The comparator `accessory_address_lt` on two addresses: attachments come before
requirements, attachments are ordered by ID and requirements by the pair of tap ID and
requirement index. -/
def accessory_address_lt : accessory_address → accessory_address → Bool
  | .attachment a, .attachment b => decide (a < b)
  | .attachment _, .requirement _ _ => true
  | .requirement _ _, .attachment _ => false
  | .requirement t r, .requirement t1 r1 => decide (t < t1) || (decide (t = t1) && decide (r < r1))

/-- The member `lower_bound` of a `std::set` ordered by `accessory_address_lt`, the set
being the list of its elements in order: the first element not less than `address`. -/
def address_set_lower_bound (address_set : List accessory_address)
    (address : accessory_address) : Option accessory_address :=
  address_set.find? (fun x => !accessory_address_lt x address)

/-- The member `insert` of the same set: the address is put in its place unless an
equivalent element is present. -/
def address_set_insert : List accessory_address → accessory_address → List accessory_address
  | [], address => [address]
  | x :: rest, address =>
    if accessory_address_lt x address then x :: address_set_insert rest address
    else if accessory_address_lt address x then address :: x :: rest
    else x :: rest

/-- The struct `unique_query_checker`: for each query tag, the set of addresses seen. -/
structure unique_query_checker where
  unique_queries : List (Nat × List accessory_address)
deriving DecidableEq, Repr

/-- The call operator of `unique_query_checker`: the verdict and the checker after it. The
overload for `documentation_string`, the one query without an address, returns true. -/
def unique_query_checker.check (c : unique_query_checker) (q : tank_query_type) :
    Bool × unique_query_checker :=
  match q.address with
  | none => (true, c)
  | some address =>
    let query_tag := q.which
    let address_set := (amap_find c.unique_queries query_tag).getD []
    match address_set_lower_bound address_set address with
    | some hint =>
      if hint = address then
        (false, ⟨amap_insert c.unique_queries query_tag address_set⟩)
      else (true, ⟨amap_insert c.unique_queries query_tag (address_set_insert address_set address)⟩)
    | none =>
      (true, ⟨amap_insert c.unique_queries query_tag (address_set_insert address_set address)⟩)

/-- The check of `validate_queries` on a `redeem_ticket_to_open` query: the ticket names the
queried tank and the target of the query. -/
def check_ticket_target (queried_tank : tank_id_type) : tank_query_type → Except tnt_error Unit
  | .redeem_ticket_to_open t r ticket _ =>
    if ticket.tank_ID ≠ queried_tank then ofail .ticket_tank_mismatch
    else if ticket.tap_ID ≠ t then ofail .ticket_tap_mismatch
    else if ticket.requirement_index ≠ r then ofail .ticket_requirement_mismatch
    else .ok ()
  | _ => .ok ()

/-- The loop of `validate_queries`; `is_unique` is the checker it carries. -/
def validate_queries_loop (queried_tank : tank_id_type) (tap_open : Bool) :
    List tank_query_type → unique_query_checker → Except tnt_error Unit
  | [], _ => .ok ()
  | query :: rest, is_unique => do
    query.validate_content
    if query.tap_open_only && !tap_open then ofail .tap_open_only_query else pure ()
    let is_unique1 ←
      if query.unique then
        match is_unique.check query with
        | (true, c) => pure c
        | (false, _) => ofail .duplicate_unique_query
      else pure is_unique
    check_ticket_target queried_tank query
    validate_queries_loop queried_tank tap_open rest is_unique1

/-- Transcription of `validate_queries`. -/
def validate_queries (queries : List tank_query_type) (queried_tank : tank_id_type)
    (tap_open : Bool) : Except tnt_error Unit :=
  validate_queries_loop queried_tank tap_open queries ⟨[]⟩

/-- The loop over `required_authorities` in the `validate` of the query and open
operations: no authority occurs again after its position. -/
def no_duplicate_authorities : List authority → Bool
  | [] => true
  | a :: rest => !rest.contains a && no_duplicate_authorities rest

/-- The fields of `tank_query_operation`. -/
structure tank_query_operation where
  fee : asset
  payer : account_id_type
  required_authorities : List authority
  tank_to_query : tank_id_type
  queries : List tank_query_type
deriving DecidableEq, Repr

/-- Transcription of `tank_query_operation::validate`. -/
def tank_query_operation.validate (o : tank_query_operation) : Except tnt_error Unit := do
  if o.fee.amount > 0 then pure () else ofail .fee_not_positive
  if no_duplicate_authorities o.required_authorities then pure ()
    else ofail .duplicate_required_authority
  if o.queries.isEmpty then ofail .empty_query_list else pure ()
  validate_queries o.queries o.tank_to_query false

/-- The inner loop of `std::set_intersection` while the first range stands at `a`: `k`
continues with the rest of the first range. -/
def set_intersection_scan (a : index_type) (k : List index_type → List index_type) :
    List index_type → List index_type
  | [] => []
  | b :: bs =>
    if a < b then k (b :: bs)
    else if b < a then set_intersection_scan a k bs
    else a :: k bs

/-- The algorithm `std::set_intersection` of the standard library on two ranges: whichever
front element is smaller is passed over, and an element is output when neither front
element is smaller than the other. -/
def set_intersection : List index_type → List index_type → List index_type
  | [] => fun _ => []
  | a :: rest => set_intersection_scan a (set_intersection rest)

/-- The requirement loop of the static `tank_validator::validate_tap(const tap&)`. -/
def validate_requirements_static (cr : crypto_env) :
    List tap_requirement → List Nat → Except tnt_error Unit
  | [], _ => .ok ()
  | req :: rest, tags_seen =>
    match check_tag requirement_is_unique tags_seen req.which with
    | (false, _) => vfail .requirement_not_unique
    | (true, seen1) => do
      internal_requirement_checker cr req
      validate_requirements_static cr rest seen1

/-- Transcription of the static `tank_validator::validate_tap(const tap&)`. -/
def validate_tap_static (cr : crypto_env) (tp : tap) : Except tnt_error Unit :=
  if tp.connected_connection.isSome || tp.connect_authority.isSome then
    validate_requirements_static cr tp.requirements []
  else vfail .tap_needs_connection_or_authority

/-- The loops `for (tap : ...) validate_tap(tap)` of `tank_update_operation::validate`. -/
def validate_taps_static (cr : crypto_env) : List tap → Except tnt_error Unit
  | [] => .ok ()
  | tp :: rest => do
    validate_tap_static cr tp
    validate_taps_static cr rest

/-- The attachment loops of `tank_update_operation::validate`, which share one uniqueness
checker; the static `validate_attachment` builds its checker without a tank id. -/
def validate_attachments_static :
    List tank_attachment → List Nat → Except tnt_error (List Nat)
  | [], tags_seen => .ok tags_seen
  | att :: rest, tags_seen =>
    match check_tag attachment_is_unique tags_seen att.which with
    | (false, _) => ofail .attachment_not_unique
    | (true, seen1) => do
      internal_attachment_checker none att
      validate_attachments_static rest seen1

/-- Transcription of `tank_update_operation::validate`; `fee` is the operation's fee, which
the structure above leaves out. `taps_to_remove` is a `flat_set`, the two `_to_replace`
members are `flat_map`s and `attachments_to_remove` is a `vector`. -/
def tank_update_operation.validate (o : tank_update_operation) (fee : asset)
    (cr : crypto_env) : Except tnt_error Unit := do
  if fee.amount > 0 then pure () else ofail .fee_not_positive
  if o.taps_to_remove.contains 0 then ofail .emergency_tap_removed else pure ()
  if o.update_authority.impossible then ofail .update_authority_impossible else pure ()
  if o.update_authority.null then ofail .update_authority_null else pure ()
  if o.update_authority.weight_threshold > 0 then pure () else ofail .update_authority_trivial
  if (set_intersection (o.taps_to_replace.map Prod.fst) o.taps_to_remove).isEmpty then pure ()
    else ofail .tap_removed_and_replaced
  if (set_intersection (o.attachments_to_replace.map Prod.fst)
      o.attachments_to_remove).isEmpty then pure ()
    else ofail .attachment_removed_and_replaced
  match amap_find o.taps_to_replace 0 with
    | some etap => validate_emergency_tap_static etap
    | none => pure ()
  validate_taps_static cr (o.taps_to_replace.map Prod.snd)
  validate_taps_static cr o.taps_to_add
  let tags_seen ← validate_attachments_static (o.attachments_to_replace.map Prod.snd) []
  let _ ← validate_attachments_static o.attachments_to_add tags_seen
  .ok ()

/-- The fields of `tap_connect_operation`. -/
structure tap_connect_operation where
  fee : asset
  payer : account_id_type
  connect_authority : authority
  tap_to_connect : tap_id_type
  new_connection : Option connection
  clear_connect_authority : Bool
deriving DecidableEq, Repr

/-- Transcription of `tap_connect_operation::validate`. -/
def tap_connect_operation.validate (o : tap_connect_operation) : Except tnt_error Unit := do
  if o.fee.amount > 0 then pure () else ofail .fee_not_positive
  if o.tap_to_connect.tank_id.isSome then pure () else ofail .tank_id_unspecified
  if o.clear_connect_authority then
    if o.new_connection.isSome then .ok () else ofail .clear_authority_without_connection
  else .ok ()

/-! ## The query and tap connect evaluators (`evaluators.cpp`) -/

/-- Transcription of `tank_query_evaluator::do_evaluate`; returns the members `query_tank`
and `evaluator`. -/
def tank_query_evaluator.do_evaluate (accounts : chain_env) (d : database)
    (o : tank_query_operation) : Except tnt_error (tank_object × query_evaluator) := do
  let query_tank ← d.tanks.get_tank o.tank_to_query
  let evaluator ← query_evaluator.new.set_query_tank o.tank_to_query query_tank
  let auth_checker : auth_usage_checker := ⟨o.required_authorities, []⟩
  match d.tnt_parameters with
  | none => .error .tnt_not_configured
  | some tnt_parameters =>
    let env := d.chain_env accounts tnt_parameters
    let (evaluator1, auth_checker1) ←
      evaluate_queries env d.tanks o.queries evaluator auth_checker
    auth_checker1.check_all_used
    .ok (query_tank, evaluator1)

/-- Transcription of `tap_connect_evaluator::do_evaluate`; returns the member `tank`. -/
def tap_connect_evaluator.do_evaluate (d : database) (o : tap_connect_operation) :
    Except tnt_error tank_object := do
  match o.tap_to_connect.tank_id with
  | none => .error .tank_id_unset
  | some tank_id =>
    let tank ← d.tanks.get_tank tank_id
    match amap_find tank.schematic.taps o.tap_to_connect.tap_id with
    | none => .error .nonexistent_tap
    | some tp =>
      match tp.connect_authority with
      | none => .error .connect_authority_unset
      | some a =>
        if o.connect_authority = a then .ok tank else .error .connect_authority_mismatch

/-- Transcription of `tap_connect_evaluator::do_apply` on the tank `do_evaluate` found;
`taps[id]` yields the existing tap, or a default one when there is none. -/
def tap_connect_evaluator.do_apply (d : database) (tank_id : tank_id_type)
    (tank : tank_object) (o : tap_connect_operation) : database :=
  let tp := (amap_find tank.schematic.taps o.tap_to_connect.tap_id).getD
    ⟨none, none, none, [], false⟩
  let tp1 : tap :=
    { tp with
      connected_connection := o.new_connection,
      connect_authority := if o.clear_connect_authority then none else tp.connect_authority }
  let tank1 : tank_object :=
    { tank with
      schematic := { tank.schematic with
                     taps := amap_insert tank.schematic.taps o.tap_to_connect.tap_id tp1 } }
  { d with tanks := d.tanks.set_tank tank_id tank1 }

/-! ## Typed accessory addresses (`tank_accessory_address.hpp`) -/

/-- An element of the variant `tank_accessory_address_type`: a
`tank_accessory_address<Accessory>` together with `which`, the index of `Accessory` in
`tank_accessory_list`. The address of a tank attachment holds an attachment ID, that of a
tap requirement a tap ID and a requirement index. -/
inductive tank_accessory_address_type
  | attachment (which : Nat) (attachment_ID : index_type)
  | requirement (which : Nat) (tap_ID : index_type) (requirement_index : index_type)
deriving DecidableEq, Repr

/-- The constant `is_requirement_address` of an address type. -/
def tank_accessory_address_type.is_requirement_address : tank_accessory_address_type → Bool
  | .attachment _ _ => false
  | .requirement _ _ _ => true

/-- The `operator<` of `std::pair` on two pairs of `index_type`. -/
def pair_lt (a b : index_type × index_type) : Bool :=
  decide (a.1 < b.1) || (!decide (b.1 < a.1) && decide (a.2 < b.2))

/-- The specializations of `address_lt_impl` on two addresses, reached through the
dispatch of the variant/variant specialization. -/
def address_lt_impl : tank_accessory_address_type → tank_accessory_address_type → Bool
  | .requirement _ t r, .requirement _ t1 r1 => pair_lt (t, r) (t1, r1)
  | .attachment _ a, .attachment _ b => decide (a < b)
  | .attachment _ _, .requirement _ _ _ => true
  | .requirement _ _ _, .attachment _ _ => false

/-- The specializations of `address_lt_impl` with an address on the left and a tap ID on
the right. -/
def address_lt_tap_id : tank_accessory_address_type → tap_id_type → Bool
  | .requirement _ t _, tid => decide (t < tid.tap_id)
  | .attachment _ _, _ => true

/-- The specializations of `address_lt_impl` with a tap ID on the left and an address on
the right. -/
def tap_id_lt_address : tap_id_type → tank_accessory_address_type → Bool
  | tid, .requirement _ t _ => decide (tid.tap_id < t)
  | _, .attachment _ _ => false

/-- The position a typed address denotes. -/
def tank_accessory_address_type.position : tank_accessory_address_type → accessory_address
  | .attachment _ a => .attachment a
  | .requirement _ t r => .requirement t r

/-! ## The copy-on-write database wrapper (`cow_db_wrapper.hpp`)

The wrapper as it is used on tank objects. An object of the wrapped database is named by its
instance number; `dynamic_cast` to the object's own type always succeeds. -/

/-- The class `cow_db_wrapper`: the wrapped database `db`, the cache `db_cache` of objects
fetched from it, and the set `pensive_cattle` of `cow_refletion_data`, keyed by `object_id`
and holding for each object its member `written`, the staged clone if there is one. -/
structure cow_db_wrapper where
  db : tank_db
  db_cache : List (tank_id_type × tank_object)
  pensive_cattle : List (tank_id_type × Option tank_object)
deriving DecidableEq, Repr

/-- The constructor of `cow_db_wrapper`. -/
def cow_db_wrapper.new (wrapped_db : tank_db) : cow_db_wrapper := ⟨wrapped_db, [], []⟩

/-- A `cow_object<tank_object>`: `ref` is `_ref_`, the database object the handle was made
for, and `data` names the element of `pensive_cattle` that `_data_` points to. -/
structure cow_object where
  ref : tank_object
  data : tank_id_type
deriving DecidableEq, Repr

/-- The member `written` of the reflection data of object `id`. -/
def cow_db_wrapper.written (w : cow_db_wrapper) (id : tank_id_type) : Option tank_object :=
  match amap_find w.pensive_cattle id with
  | some (some o) => some o
  | _ => none

/-- Transcription of `cow_db_wrapper::get`: the reflection data and the cache entry of the
object are created when missing, and a handle to both is returned. -/
def cow_db_wrapper.get (w : cow_db_wrapper) (id : tank_id_type) :
    Except tnt_error (cow_object × cow_db_wrapper) :=
  let cattle := match amap_find w.pensive_cattle id with
    | some _ => w.pensive_cattle
    | none => amap_insert w.pensive_cattle id none
  match amap_find w.db_cache id with
  | some o => .ok (⟨o, id⟩, { w with pensive_cattle := cattle })
  | none => do
    let o ← w.db.get_tank id
    .ok (⟨o, id⟩, { w with pensive_cattle := cattle, db_cache := amap_insert w.db_cache id o })

/-- A reflected field of `tank_object` of type `φ`: the reference `make_getter` yields, as
the pair of reading through it and assigning through it. -/
structure field_reflector (φ : Type) where
  get : tank_object → φ
  set : tank_object → φ → tank_object

/-- The reflectors of the fields `balance` and `accessory_states`. -/
def balance_field : field_reflector share_type :=
  ⟨fun o => o.balance, fun o v => { o with balance := v }⟩

def accessory_states_field : field_reflector accessory_state_map :=
  ⟨fun o => o.accessory_states, fun o v => { o with accessory_states := v }⟩

/-- Transcription of `cow_field_reflection::get`: the field of the staged clone when there
is one, otherwise the field of the database object. -/
def cow_object.get_field {φ : Type} (h : cow_object) (w : cow_db_wrapper)
    (f : field_reflector φ) : φ :=
  match w.written h.data with
  | some o => f.get o
  | none => f.get h.ref

/-- Transcription of `cow_field_reflection::set` followed by the assignment of `value`
(`operator=`): the object is cloned from the database unless a clone exists. -/
def cow_object.set_field {φ : Type} (h : cow_object) (w : cow_db_wrapper)
    (f : field_reflector φ) (value : φ) : Except tnt_error cow_db_wrapper := do
  let current ← match w.written h.data with
    | some o => pure o
    | none => w.db.get_tank h.data
  .ok { w with pensive_cattle := amap_insert w.pensive_cattle h.data (some (f.set current value)) }

/-- Transcription of `cow_object::operator T&()`: clones when nothing is written yet and
returns the staged clone. -/
def cow_object.to_mutable (h : cow_object) (w : cow_db_wrapper) :
    Except tnt_error (tank_object × cow_db_wrapper) :=
  match w.written h.data with
  | some o => .ok (o, w)
  | none => do
    let o ← w.db.get_tank h.data
    .ok (o, { w with pensive_cattle := amap_insert w.pensive_cattle h.data (some o) })

/-- Transcription of `cow_object::operator const T&() const`: with nothing written it
calls `get_written`, whose first assertion is that a written object exists; otherwise it
returns `_ref_`. -/
def cow_object.to_const (h : cow_object) (w : cow_db_wrapper) : Except tnt_error tank_object :=
  match w.written h.data with
  | none => .error .no_written_object
  | some _ => .ok h.ref

/-- The loop of `cow_db_wrapper::commit` over `pensive_cattle`: every written object replaces
the database object of its id, and its `written` is reset. -/
def commit_loop : List (tank_id_type × Option tank_object) → tank_db →
    Except tnt_error (List (tank_id_type × Option tank_object) × tank_db)
  | [], mutable_db => .ok ([], mutable_db)
  | (id, none) :: rest, mutable_db => do
    let (rest1, db1) ← commit_loop rest mutable_db
    .ok ((id, none) :: rest1, db1)
  | (id, some src) :: rest, mutable_db => do
    let _ ← mutable_db.get_tank id
    let (rest1, db1) ← commit_loop rest (mutable_db.set_tank id src)
    .ok ((id, none) :: rest1, db1)

/-- Transcription of `cow_db_wrapper::commit`. -/
def cow_db_wrapper.commit (w : cow_db_wrapper) (mutable_db : tank_db) :
    Except tnt_error (cow_db_wrapper × tank_db) := do
  let (cattle, db1) ← commit_loop w.pensive_cattle mutable_db
  .ok ({ w with pensive_cattle := cattle }, db1)

/-! ## Counting the attachments `get_connection_chain` follows -/

/-- The loop `chain_loop` together with the number of attachments it has followed, that is
the number of its calls of `get_attachment_connection`. -/
def lookup_utilities.chain_loop_followed (u : lookup_utilities)
    (asset_type : Option asset_id_type) :
    Nat → connection → connection → connection_chain → connection_chain_result × Nat
  | remaining, s, last, chain =>
    match last with
    | .attachment_id att =>
      match remaining with
      | 0 => (.exceeded_max_chain_length, 0)
      | n + 1 =>
        let s1 := connection.attachment_id att
        let final := match att.tank_id with
          | some t => some t
          | none => chain.final_connection_tank
        let attachment_id : attachment_id_type :=
          match att.tank_id with
          | some _ => att
          | none => { att with tank_id := chain.final_connection_tank }
        match u.get_attachment_connection attachment_id with
        | .need_lookup_function => (.need_lookup_function, 1)
        | .nonexistent_object o => (.nonexistent_object o, 1)
        | .bad_connection r c => (.bad_connection r c, 1)
        | .found next =>
          match u.check_asset asset_type s1 with
          | some e => (e, 1)
          | none =>
            let r := u.chain_loop_followed asset_type n s1 next
              { connections := chain.connections ++ [next], final_connection_tank := final }
            (r.1, r.2 + 1)
    | _ =>
      match u.check_asset asset_type s with
      | some e => (e, 0)
      | none => (.chain chain, 0)

/-! ## Example data

Concrete chain parameters and tanks on which the theorems below are instantiated. -/

/-- Stand-ins for the hash functions and for key recovery (the signature names its signer). -/
def ex_crypto : crypto_env :=
  { sha256 := fun p => p.foldl (fun h b => 31 * h + b + 7) 17,
    ripemd160 := fun p => p.foldl (fun h b => 37 * h + b + 11) 19,
    hash160 := fun p => p.foldl (fun h b => 41 * h + b + 13) 23,
    recover_key := fun sig _ => sig }

/-- A chain at head block time `now` on which every account and asset exists, every account
may hold every asset, and connection chains have at most 10 links. -/
def ex_env (now : time_point_sec) : chain_env :=
  { ex_crypto with
    head_block_time := now, account_exists := fun _ => true, asset_exists := fun _ => true,
    is_authorized_asset := fun _ _ => true, max_connection_chain_length := 10 }

def ex_auth (n : Nat) : authority := ⟨1, false, false, n⟩

def ex_emergency_tap : tap :=
  ⟨some (.account_id 1), some (ex_auth 1), some (ex_auth 1), [], true⟩

/-- A tap connected to `dest`, opened by authority 2, with the given requirements. -/
def ex_tap (dest : connection) (reqs : List tap_requirement) : tap :=
  ⟨some dest, some (ex_auth 2), none, reqs, false⟩

def ex_meter : tank_attachment := .asset_flow_meter ⟨0, .same_tank, .all_sources, none⟩

/-- A tank with an emergency tap and one further tap, tap 1, carrying `reqs`. -/
def ex_schematic (dest : connection) (reqs : List tap_requirement)
    (attachments : List (index_type × tank_attachment)) : tank_schematic :=
  { taps := [(0, ex_emergency_tap), (1, ex_tap dest reqs)],
    tap_counter := 2, attachments := attachments, attachment_counter := attachments.length,
    remote_sources := .all_sources, asset_type := 0 }

def ex_tank (dest : connection) (reqs : List tap_requirement)
    (attachments : List (index_type × tank_attachment)) (balance : share_type)
    (states : accessory_state_map) : tank_object :=
  { schematic := ex_schematic dest reqs attachments, balance := balance, deposit := 0,
    creation_date := 0, accessory_states := states }

/-- The tank of scenario 5: tap 1 pays account 7 under an exchange requirement of 100 per
10 metered, reading meter 0 of the same tank. -/
def ex_exchange_tank (balance : share_type) (states : accessory_state_map) : tank_object :=
  ex_tank (.account_id 7) [.exchange_requirement ⟨⟨none, 0⟩, 100, 10, none⟩] [(0, ex_meter)]
    balance states

/-- A tank whose tap 1 carries a delay requirement with veto authority 3; request 0, for 50,
matures at time 200. -/
def ex_delay_tank : tank_object :=
  ex_tank (.account_id 7) [.delay_requirement ⟨some (ex_auth 3), 60, 5⟩] [] 1000
    [(.requirement 1 0, .delay ⟨1, [(0, ⟨200, .amount 50, none⟩)]⟩)]

/-- The tank of `ex_exchange_tank` after the meter has read 25, tap 1 has released 150 and
the meter has been reset to zero by a `reset_meter` query. -/
def ex_reset_states : accessory_state_map :=
  [(.attachment 0, .meter ⟨0⟩), (.requirement 1 0, .exchange ⟨150⟩)]

def ex_params : parameters_type :=
  { max_connection_chain_length := 10, max_taps_to_open := 5, tank_deposit := 1000,
    default_tap_requirement_deposit := 100, default_tank_attachment_deposit := 200,
    stateful_accessory_deposit_premium := 10, override_deposits := [] }

/-- A tank with two flow meters, an emergency tap and two taps that each carry an
`immediate_flow_limit`. -/
def ex_create_op : tank_create_operation :=
  { payer := 5, deposit_amount := 1310, contained_asset := 0,
    taps := [ex_emergency_tap,
             ex_tap (.account_id 7) [.immediate_flow_limit ⟨10⟩],
             ex_tap (.account_id 8) [.immediate_flow_limit ⟨20⟩]],
    attachments := [ex_meter, ex_meter], authorized_sources := .all_sources }

def ex_database : database :=
  { tanks := [], core_balance := fun _ => 10000, head_block_time := 100,
    hardfork_passed := true, tnt_parameters := some ex_params, crypto := ex_crypto }

/-- The database after `ex_create_op` has been applied: tank 0 holds a deposit of 1310. -/
def ex_created : database :=
  (tank_create_evaluator.do_apply ex_database
    (tank_schematic.from_create_operation ex_create_op) ex_create_op).2

/-- An update of tank 0 that adds a tap with a `cumulative_flow_limit`, an accessory whose
deposit is 110, declaring the given `deposit_delta`. -/
def ex_update_op (deposit_delta : share_type) : tank_update_operation :=
  { payer := 5, update_authority := ex_auth 1, tank_to_update := 0,
    deposit_delta := deposit_delta, taps_to_remove := [], taps_to_replace := [],
    taps_to_add := [ex_tap (.account_id 9) [.cumulative_flow_limit ⟨50⟩]],
    attachments_to_remove := [], attachments_to_replace := [], attachments_to_add := [],
    new_authorized_sources := none }

/-- A tank whose tap 1 carries a hash preimage requirement for the SHA-256 digest of the three
bytes 1, 2, 3. -/
def ex_hash_req : hash_preimage_requirement := ⟨.sha256 (ex_crypto.sha256 [1, 2, 3]), some 3⟩

def ex_hash_tank : tank_object :=
  ex_tank (.account_id 7) [.hash_preimage_requirement ex_hash_req] [] 1000 []

/-- A query evaluator for `ex_hash_tank` that has evaluated the given queries. -/
def ex_hash_qe (queries : List tank_query_type) : query_evaluator :=
  { has_applied := false, evaluators := queries, accessory_queries := queries,
    tank_queries := [], query_tank := some (0, ex_hash_tank) }

/-- A fresh utility for tap 1 of tank 0. -/
def ex_util : tap_requirement_utility := ⟨⟨some 0, 1⟩, false, none, [], []⟩

/-- A tank whose tap 1 carries a ticket requirement signed by key 42; `states` holds the
requirement's state. -/
def ex_ticket_tank (states : accessory_state_map) : tank_object :=
  ex_tank (.account_id 7) [.ticket_requirement ⟨42⟩] [] 1000 states

/-- The ticket with number `n` for tap 1, requirement 0 of tank 0, allowing 10, and the
query redeeming it under signature 42. -/
def ex_ticket (n : index_type) : ticket_type := ⟨0, 1, 0, .amount 10, n⟩

def ex_redeem (n : index_type) : tank_query_type := .redeem_ticket_to_open 1 0 (ex_ticket n) 42

def ex_ticket_qe (tank : tank_object) (queries : List tank_query_type) : query_evaluator :=
  { has_applied := false, evaluators := queries, accessory_queries := queries,
    tank_queries := [], query_tank := some (0, tank) }

/-- The update of `ex_update_op (-110)` applied to `ex_created`. -/
def ex_updated_schematic : tank_schematic :=
  match ex_created.tanks.get_tank 0 with
  | .ok t => t.schematic.update_from_operation (ex_update_op (-110))
  | .error _ => tank_schematic.from_create_operation ex_create_op

def ex_updated : database :=
  match tank_update_evaluator.do_apply ex_created ex_updated_schematic (ex_update_op (-110)) with
  | .ok d => d
  | .error _ => ex_created

/-- Two tanks: tap 1 of tank 0 releases into attachment 0 of tank 1, a tap opener that
passes the asset on to tank 1 and opens its tap 1 for 30; tap 1 of tank 1 pays account 7. -/
def ex_cascade_db : tank_db :=
  [some (ex_tank (.attachment_id ⟨some 1, 0⟩) [] [] 1000 []),
   some (ex_tank (.account_id 7) []
     [(0, .tap_opener ⟨1, .amount 30, .tank_id 1, .all_sources, 0⟩)] 500 [])]

/-- The state after account 5 opens tap 1 of tank 0 for 200 on `ex_cascade_db`, with up to
5 taps. -/
def ex_cascade_state : tap_flow_state :=
  match evaluate_tap_flow (ex_env 0) query_evaluator.new ex_cascade_db 5 ⟨some 0, 1⟩
      (.amount 200) 5 with
  | .ok st => st
  | .error _ => ⟨[], [], [], [], []⟩

/-- The chain of `ex_cascade_db` with the parameter `max_taps_to_open` set to `max_taps`. -/
def ex_cascade_database (max_taps : Nat) : database :=
  { tanks := ex_cascade_db, core_balance := fun _ => 0, head_block_time := 0,
    hardfork_passed := true,
    tnt_parameters := some { ex_params with max_taps_to_open := max_taps },
    crypto := ex_crypto }

/-- Account 5 opens tap 1 of tank 0 for 200, declaring the tap's open authority and a
`tap_open_count` of 2. -/
def ex_cascade_open : tap_open_operation :=
  { payer := 5, required_authorities := [ex_auth 2], queries := [],
    tap_to_open := ⟨some 0, 1⟩, release_amount := .amount 200, deposit_claimed := none,
    tap_open_count := 2 }

/-- A tank whose tap 1 carries a documentation requirement and, behind it, the exchange
requirement of `ex_exchange_tank` in the state of `ex_reset_states`: 150 released and the
meter reset to zero. -/
def ex_doc_exchange_tank : tank_object :=
  ex_tank (.account_id 7)
    [.documentation_requirement, .exchange_requirement ⟨⟨none, 0⟩, 100, 10, none⟩]
    [(0, ex_meter)] 850
    [(.attachment 0, .meter ⟨0⟩), (.requirement 1 1, .exchange ⟨150⟩)]

/-- A tank of balance 1000 whose tap 1 carries an immediate limit of 500, the exchange
requirement of `ex_exchange_tank` with the meter at 25 (limit 200) and a cumulative limit
of 200. -/
def ex_limits_tank : tank_object :=
  ex_tank (.account_id 7)
    [.immediate_flow_limit ⟨500⟩, .exchange_requirement ⟨⟨none, 0⟩, 100, 10, none⟩,
     .cumulative_flow_limit ⟨200⟩]
    [(0, ex_meter)] 1000 [(.attachment 0, .meter ⟨25⟩)]

/-- Two tanks: tank 0 is the exchange tank of `ex_reset_states` (released 150, meter reset
to zero), its tap 1 connected to attachment 0 of tank 1, a flow meter that passes the asset
on to tank 1. Tap 1 of tank 1 carries an exchange requirement on that meter, releasing 10
per 100 metered. -/
def ex_negative_flow_db : tank_db :=
  [some (ex_tank (.attachment_id ⟨some 1, 0⟩)
     [.exchange_requirement ⟨⟨none, 0⟩, 100, 10, none⟩] [(0, ex_meter)] 850 ex_reset_states),
   some (ex_tank (.account_id 7) [.exchange_requirement ⟨⟨none, 0⟩, 10, 100, none⟩]
     [(0, .asset_flow_meter ⟨0, .tank_id 1, .all_sources, none⟩)] 500 [])]

/-- A tank created at time 500 whose tap 1 carries a periodic flow limit of 1000 per
86400 seconds. -/
def ex_periodic_tank : tank_object :=
  { ex_tank (.account_id 7) [.periodic_flow_limit ⟨86400, 1000⟩] [] 5000 [] with
    creation_date := 500 }

/-- A tank like `ex_tank` that accepts deposits only from the listed remote sources. -/
def ex_restricted_tank (sources : List remote_connection)
    (attachments : List (index_type × tank_attachment)) (balance : share_type) :
    tank_object :=
  { schematic := { ex_schematic (.account_id 7) [] attachments with
                   remote_sources := .sources sources },
    balance := balance, deposit := 0, creation_date := 0, accessory_states := [] }

/-- Four tanks. Tank 1 carries two unrestricted meters: meter 0 releases to tank 2 and
meter 1 releases to meter 0 of tank 3. Tank 2 accepts deposits only from account 9. Meter 0
of tank 3 accepts deposits only from account 9 and releases to tank 3. -/
def ex_sources_db : tank_db :=
  [some (ex_tank (.attachment_id ⟨some 1, 0⟩) [] [] 1000 []),
   some (ex_tank (.account_id 7) []
     [(0, .asset_flow_meter ⟨0, .tank_id 2, .all_sources, none⟩),
      (1, .asset_flow_meter ⟨0, .attachment_id ⟨some 3, 0⟩, .all_sources, none⟩)] 0 []),
   some (ex_restricted_tank [.account_id 9] [] 0),
   some (ex_tank (.account_id 7) []
     [(0, .asset_flow_meter ⟨0, .tank_id 3, .sources [.account_id 9], none⟩)] 0 [])]

/-- A release of 100 of asset 0 from tank 0 into `connection` on `ex_sources_db`, with an
opener callback that does nothing: the path and the balances of tanks 2 and 3 after it. -/
def ex_sources_release (connection : connection) :
    Except tnt_error (List TNT.connection × share_type × share_type) :=
  (release_to_connection (ex_env 0) (fun _ _ (s : Unit) => .ok s) (.tank_id 0) connection
    ⟨100, 0⟩ ⟨ex_sources_db, (), []⟩).map
    (fun r => (r.1, r.2.db.balance_of 2, r.2.db.balance_of 3))

/-- The context after a release of 30 from tank 1 of `ex_cascade_db` to account 7: one
invocation of the fund-account callback. -/
def ex_fund_context : flow_context Unit :=
  ⟨ex_cascade_db, (), [⟨7, ⟨30, 0⟩, [.same_tank, .same_tank, .tank_id 1, .account_id 7]⟩]⟩

/-- Three tanks. Tank 1 stores asset 0 and carries meter 0, which receives asset 0 and
releases to tank 2; tank 2 stores asset 5. -/
def ex_wrong_asset_db : tank_db :=
  [some (ex_tank (.account_id 7) [] [] 0 []),
   some (ex_tank (.account_id 7) []
     [(0, .asset_flow_meter ⟨0, .tank_id 2, .all_sources, none⟩)] 0 []),
   some { ex_tank (.account_id 7) [] [] 0 [] with
          schematic := { ex_schematic (.account_id 7) [] [] with asset_type := 5 } }]

/-- The schematic of a new tank storing asset 0 whose tap 1 is connected to meter 0 of
tank 1. -/
def ex_wrong_asset_schematic : tank_schematic :=
  ex_schematic (.attachment_id ⟨some 1, 0⟩) [] []

/-- A tank whose tap 1 is connected to its meter 0, which passes the asset on to account 7:
a chain of one attachment and one terminal connection. -/
def ex_chain_schematic : tank_schematic :=
  ex_schematic (.attachment_id ⟨none, 0⟩) []
    [(0, .asset_flow_meter ⟨0, .account_id 7, .all_sources, none⟩)]

/-- The schematic of tank 0 of `ex_sources_db`: tap 1 is connected to meter 0 of tank 1,
which releases to tank 2, and tank 2 accepts deposits only from account 9. -/
def ex_restricted_path_schematic : tank_schematic :=
  ex_schematic (.attachment_id ⟨some 1, 0⟩) [] []

/-- The schematic of a tank, to be validated as tank 5, whose meter 0 lists tank 5 and an
attachment of tank 5 among its authorized sources. -/
def ex_self_source_schematic : tank_schematic :=
  ex_schematic (.account_id 7) []
    [(0, .asset_flow_meter
      ⟨0, .account_id 7, .sources [.tank_id 5, .attachment_id ⟨some 5, 0⟩], none⟩)]

/-- A tank with only an emergency tap, whose connect authority has weight threshold 0. -/
def ex_trivial_connect_schematic : tank_schematic :=
  { taps := [(0, ⟨some (.account_id 1), some (ex_auth 1), some ⟨0, false, false, 1⟩, [], true⟩)],
    tap_counter := 1, attachments := [], attachment_counter := 0,
    remote_sources := .all_sources, asset_type := 0 }

/-- A reconnection of the emergency tap of tank 0 of `ex_created` to account 1, signed by
its connect authority and clearing that authority. -/
def ex_connect_op : tap_connect_operation :=
  { fee := ⟨1, 0⟩, payer := 5, connect_authority := ex_auth 1, tap_to_connect := ⟨some 0, 0⟩,
    new_connection := some (.account_id 1), clear_connect_authority := true }

/-- The database after `ex_connect_op` has been evaluated and applied on `ex_created`. -/
def ex_connected : Except tnt_error database :=
  (tap_connect_evaluator.do_evaluate ex_created ex_connect_op).map
    (fun tank => tap_connect_evaluator.do_apply ex_created 0 tank ex_connect_op)

/-- A tank whose tap 1 carries a review requirement with reviewer 3 and `request_limit = 0`,
with the given accessory states. -/
def ex_review_tank (states : accessory_state_map) : tank_object :=
  ex_tank (.account_id 7) [.review_requirement ⟨ex_auth 3, 0⟩] [] 1000 states

/-- A tank whose tap 1 carries a delay requirement of 60 seconds with `request_limit = 0`,
with the given accessory states. -/
def ex_unlimited_delay_tank (states : accessory_state_map) : tank_object :=
  ex_tank (.account_id 7) [.delay_requirement ⟨none, 60, 0⟩] [] 1000 states

/-- A query evaluator on `ex_review_tank []` as tank 0, after a request for 50 has been
evaluated on it. -/
def ex_review_qe : Except tnt_error query_evaluator := do
  let qe ← query_evaluator.new.set_query_tank 0 (ex_review_tank [])
  let (_, qe1) ← qe.evaluate_query (ex_env 100) [some (ex_review_tank [])]
    (.create_request_for_review 1 0 (.amount 50) none)
  .ok qe1

/-- An update that replaces attachment 1 and lists attachments 2 and 1, in this order, for
removal. -/
def ex_remove_replace_op : tank_update_operation :=
  { payer := 5, update_authority := ex_auth 1, tank_to_update := 0, deposit_delta := 0,
    taps_to_remove := [], taps_to_replace := [], taps_to_add := [],
    attachments_to_remove := [2, 1], attachments_to_replace := [(1, ex_meter)],
    attachments_to_add := [], new_authorized_sources := none }

/-- A chain whose only tank, tank 0, is `ex_review_tank []`. -/
def ex_query_database : database :=
  { tanks := [some (ex_review_tank [])], core_balance := fun _ => 0, head_block_time := 100,
    hardfork_passed := true, tnt_parameters := some ex_params, crypto := ex_crypto }

/-- A query operation on tank 0 that requests 50 from tap 1 and declares the open authority
of that tap. -/
def ex_query_op : tank_query_operation :=
  { fee := ⟨1, 0⟩, payer := 5, required_authorities := [ex_auth 2], tank_to_query := 0,
    queries := [.create_request_for_review 1 0 (.amount 50) none] }

/-- A chain whose only tank, tank 0, is `ex_exchange_tank` holding the states
`ex_reset_states`: a reading of meter 0 and the exchange state of tap 1. -/
def ex_state_database : database :=
  { tanks := [some (ex_exchange_tank 1000 ex_reset_states)], core_balance := fun _ => 0,
    head_block_time := 100, hardfork_passed := true, tnt_parameters := some ex_params,
    crypto := ex_crypto }

/-- An update of tank 0 that removes tap 1. -/
def ex_remove_tap_op : tank_update_operation :=
  { payer := 5, update_authority := ex_auth 1, tank_to_update := 0, deposit_delta := 0,
    taps_to_remove := [1], taps_to_replace := [], taps_to_add := [],
    attachments_to_remove := [], attachments_to_replace := [], attachments_to_add := [],
    new_authorized_sources := none }

/-- The database after `ex_remove_tap_op` has been applied to `ex_state_database`. -/
def ex_state_updated : database :=
  match tank_update_evaluator.do_apply ex_state_database
      (ex_exchange_tank 1000 ex_reset_states).schematic ex_remove_tap_op with
  | .ok d => d
  | .error _ => ex_state_database

/-- A tank whose meter 0 releases to itself and whose meters 1 and 2 release to each
other. -/
def ex_cyclic_schematic : tank_schematic :=
  ex_schematic (.attachment_id ⟨none, 0⟩) []
    [(0, .asset_flow_meter ⟨0, .attachment_id ⟨none, 0⟩, .all_sources, none⟩),
     (1, .asset_flow_meter ⟨0, .attachment_id ⟨none, 2⟩, .all_sources, none⟩),
     (2, .asset_flow_meter ⟨0, .attachment_id ⟨none, 1⟩, .all_sources, none⟩)]

/-- A wrapper over a database whose tank 0 is `ex_hash_tank`, with balance 1000, and a
handle to tank 0 obtained from it. -/
def ex_wrapper : Except tnt_error (cow_object × cow_db_wrapper) :=
  (cow_db_wrapper.new [some ex_hash_tank]).get 0

/-- The same after the balance of tank 0 has been set to 400 through the handle, with a
second handle to tank 0 obtained afterwards. -/
def ex_written_wrapper : Except tnt_error (cow_object × cow_object × cow_db_wrapper) := do
  let (h, w) ← ex_wrapper
  let w1 ← h.set_field w balance_field 400
  let (h2, w2) ← w1.get 0
  .ok (h, h2, w2)

/-- A chain whose only tank holds 1000 behind tap 1, which carries a review requirement with
reviewer 3; request 0, for 50, is pending and approved. -/
def ex_approved_database : database :=
  { tanks := [some (ex_tank (.account_id 7) [.review_requirement ⟨ex_auth 3, 5⟩] [] 1000
      [(.requirement 1 0, .review ⟨1, [(0, ⟨.amount 50, none, true⟩)]⟩)])],
    core_balance := fun _ => 0, head_block_time := 100, hardfork_passed := true,
    tnt_parameters := some ex_params, crypto := ex_crypto }

/-- A tap open of tap 1 of tank 0 for `amount` that names request 0 in each of `n` consume
queries. -/
def ex_consume_open (n : Nat) (amount : share_type) : tap_open_operation :=
  { payer := 5, required_authorities := [ex_auth 2],
    queries := List.replicate n (.consume_approved_request_to_open 1 0 0),
    tap_to_open := ⟨some 0, 1⟩, release_amount := .amount amount, deposit_claimed := none,
    tap_open_count := 1 }

/-- The outcome of `ex_consume_open` on `ex_approved_database`: the amounts released, the
balance left in tank 0 and the state left at the requirement. -/
def ex_consume_result (n : Nat) (amount : share_type) :
    Except tnt_error (List share_type × share_type × Option tank_accessory_state) :=
  (tap_open_evaluator.do_evaluate (ex_env 100) ex_approved_database
    (ex_consume_open n amount)).map
    (fun r => (r.2.map (fun f => f.amount_released.amount), r.1.db_wrapper.balance_of 0,
      match r.1.db_wrapper.get_tank 0 with
      | .ok t => amap_find t.accessory_states (.requirement 1 0)
      | .error _ => none))

/-- A tank like `ex_tank` that stores asset `a`. -/
def ex_asset_tank (a : asset_id_type) (dest : connection)
    (attachments : List (index_type × tank_attachment)) (balance : share_type) : tank_object :=
  { schematic := { ex_schematic dest [] attachments with asset_type := a },
    balance := balance, deposit := 0, creation_date := 0, accessory_states := [] }

/-- Four tanks that store asset `a`, each with 1000: tap 1 of tank 0 pays account 7, tap 1 of
tank 1 is connected to meter 0 of tank 1, which receives asset `a` and releases to account
7, tap 1 of tank 2 is connected to tank 3, and tank 3 pays account 7. -/
def ex_asset_db (a : asset_id_type) : tank_db :=
  [some (ex_asset_tank a (.account_id 7) [] 1000),
   some (ex_asset_tank a (.attachment_id ⟨none, 0⟩)
     [(0, .asset_flow_meter ⟨a, .account_id 7, .all_sources, none⟩)] 1000),
   some (ex_asset_tank a (.tank_id 3) [] 1000),
   some (ex_asset_tank a (.account_id 7) [] 1000)]

/-- The assets released and the assets paid to accounts when tap 1 of tank `t` is opened for
100 on `db`. -/
def ex_asset_flow (db : tank_db) (t : tank_id_type) :
    Except tnt_error (List asset × List asset) :=
  (evaluate_tap_flow (ex_env 0) query_evaluator.new db 5 ⟨some t, 1⟩ (.amount 100) 5).map
    (fun st => (st.tap_flows.map (fun f => f.amount_released),
      st.funded.map (fun f => f.amount_received)))

/-- A tank whose tap 1 carries a review requirement with reviewer 3; requests 0, for 50, and
1, for 70, are pending and approved. -/
def ex_requests_tank : tank_object :=
  ex_tank (.account_id 7) [.review_requirement ⟨ex_auth 3, 5⟩] [] 1000
    [(.requirement 1 0, .review ⟨2, [(0, ⟨.amount 50, none, true⟩),
      (1, ⟨.amount 70, none, true⟩)]⟩)]

/-- A query evaluator that has evaluated one query, consuming request 0 of
`ex_requests_tank`. -/
def ex_consume_qe : query_evaluator :=
  ex_ticket_qe ex_requests_tank [.consume_approved_request_to_open 1 0 0]

/-- The staged view and the utility after the release of 50 from tap 1 of
`ex_requests_tank` has been prepared under `ex_consume_qe`. -/
def ex_consumed : tank_db × tap_requirement_utility :=
  match ex_util.prepare_tap_release (ex_env 100) ex_consume_qe [some ex_requests_tank] 50 with
  | .ok res => res
  | .error _ => ([], ex_util)

/-- An update of tank 0 of `ex_created`, whose taps are 0, 1 and 2 and whose tap counter is
3: it lists tap 3 for replacement by a tap to account 8 and adds a tap to account 9. -/
def ex_replace_missing_op : tank_update_operation :=
  { payer := 5, update_authority := ex_auth 1, tank_to_update := 0, deposit_delta := 0,
    taps_to_remove := [], taps_to_replace := [(3, ex_tap (.account_id 8) [])],
    taps_to_add := [ex_tap (.account_id 9) []],
    attachments_to_remove := [], attachments_to_replace := [], attachments_to_add := [],
    new_authorized_sources := none }

/-- A schematic with taps 0 and 1 whose tap counter has reached 65535. -/
def ex_full_counter_schematic : tank_schematic :=
  { ex_schematic (.account_id 7) [] [] with tap_counter := 65535 }

/-- An update that adds two taps, to accounts 8 and 9. -/
def ex_add_two_op : tank_update_operation :=
  { payer := 5, update_authority := ex_auth 1, tank_to_update := 0, deposit_delta := 0,
    taps_to_remove := [], taps_to_replace := [],
    taps_to_add := [ex_tap (.account_id 8) [], ex_tap (.account_id 9) []],
    attachments_to_remove := [], attachments_to_replace := [], attachments_to_add := [],
    new_authorized_sources := none }

/-- A hash preimage requirement for the SHA-256 digest of the three bytes 9, 9, 9. -/
def ex_other_hash_req : hash_preimage_requirement :=
  ⟨.sha256 (ex_crypto.sha256 [9, 9, 9]), some 3⟩

/-- Two tanks. Tap 1 of tank 0 carries the hash preimage requirement `ex_hash_req` and
releases into attachment 0 of tank 1, a tap opener that passes the asset on to tank 1 and
opens its tap 1 for 30; tap 1 of tank 1 pays account 7 and carries the hash preimage
requirement `ex_other_hash_req`. -/
def ex_hash_cascade_database : database :=
  { tanks :=
      [some (ex_tank (.attachment_id ⟨some 1, 0⟩) [.hash_preimage_requirement ex_hash_req]
        [] 1000 []),
       some (ex_tank (.account_id 7) [.hash_preimage_requirement ex_other_hash_req]
         [(0, .tap_opener ⟨1, .amount 30, .tank_id 1, .all_sources, 0⟩)] 500 [])],
    core_balance := fun _ => 0, head_block_time := 100, hardfork_passed := true,
    tnt_parameters := some ex_params, crypto := ex_crypto }

/-- Account 5 opens tap `tap` for `amount` with the given queries, declaring the open
authority of the tap and a `tap_open_count` of `count`. -/
def ex_open (tap : tap_id_type) (amount : asset_flow_limit) (queries : List tank_query_type)
    (count : Nat) : tap_open_operation :=
  { payer := 5, required_authorities := [ex_auth 2], queries := queries,
    tap_to_open := tap, release_amount := amount, deposit_claimed := none,
    tap_open_count := count }

/-- What a tap open leaves: the amount and the last connection of each flow, the balances of
tanks 0 and 1, and the accounts paid. -/
def ex_open_result (d : database) (o : tap_open_operation) :
    Except tnt_error (List (share_type × Option connection) × share_type × share_type ×
      List (account_id_type × share_type)) :=
  (tap_open_evaluator.do_evaluate (ex_env 100) d o).map
    (fun r => (r.2.map (fun f => (f.amount_released.amount, f.connection_path.getLast?)),
      r.1.db_wrapper.balance_of 0, r.1.db_wrapper.balance_of 1,
      r.1.accounts_to_pay.map (fun f => (f.receiving_account, f.amount_received.amount))))

/-- A tank of balance 850 whose tap 1 carries the exchange requirement of
`ex_exchange_tank`, in the state of `ex_reset_states` (150 released, the meter reset to
zero), and behind it the hash preimage requirement `ex_hash_req`. -/
def ex_exchange_hash_database : database :=
  { tanks :=
      [some (ex_tank (.account_id 7)
        [.exchange_requirement ⟨⟨none, 0⟩, 100, 10, none⟩,
          .hash_preimage_requirement ex_hash_req]
        [(0, ex_meter)] 850
        [(.attachment 0, .meter ⟨0⟩), (.requirement 1 0, .exchange ⟨150⟩)])],
    core_balance := fun _ => 0, head_block_time := 100, hardfork_passed := true,
    tnt_parameters := some ex_params, crypto := ex_crypto }

/-- Two tanks. Tap 1 of tank 0 carries a review requirement whose request 0, for 50, is
approved, and releases into attachment 0 of tank 1, a tap opener that passes the asset on to
tank 1 and opens its tap 1 for 70; tap 1 of tank 1 pays account 7 and carries a review
requirement whose request 0, for 70, is pending and has not been approved. -/
def ex_review_cascade_database : database :=
  { tanks :=
      [some (ex_tank (.attachment_id ⟨some 1, 0⟩) [.review_requirement ⟨ex_auth 3, 5⟩] [] 1000
        [(.requirement 1 0, .review ⟨1, [(0, ⟨.amount 50, none, true⟩)]⟩)]),
       some (ex_tank (.account_id 7) [.review_requirement ⟨ex_auth 3, 5⟩]
         [(0, .tap_opener ⟨1, .amount 70, .tank_id 1, .all_sources, 0⟩)] 500
         [(.requirement 1 0, .review ⟨1, [(0, ⟨.amount 70, none, false⟩)]⟩)])],
    core_balance := fun _ => 0, head_block_time := 100, hardfork_passed := true,
    tnt_parameters := some ex_params, crypto := ex_crypto }

/-- The state at requirement 0 of tap 1 of tank `t` after a tap open. -/
def ex_open_state (d : database) (o : tap_open_operation) (t : tank_id_type) :
    Except tnt_error (Option tank_accessory_state) :=
  (tap_open_evaluator.do_evaluate (ex_env 100) d o).bind
    (fun r => (r.1.db_wrapper.get_tank t).map
      (fun tank => amap_find tank.accessory_states (.requirement 1 0)))

/-! ## Notions used to state the theorems -/

/-- The ticket number `redeem_ticket_to_open` expects on a tank: `tickets_consumed`, or 0
when the requirement has no state. -/
def expected_ticket_number : Option ticket_state → index_type
  | none => 0
  | some st => st.tickets_consumed

/-- The total amount handed to the fund-account callback. -/
def credited (funded : List connection_fund_account) : share_type :=
  (funded.map (fun f => f.amount_received.amount)).sum

/-- The two views hold the same balance in every tank. -/
def same_balances (db db' : tank_db) : Prop :=
  (∀ j, db'.balance_of j = db.balance_of j) ∧ db'.total_balance = db.total_balance

/-- One flow of `r` out of tank `src`, between the balances and credits before and after it:
either one tank `dest` receives `r` and no account is funded, or one account is funded with
`r` and no tank receives anything. -/
def flow_moves (src : tank_id_type) (r : share_type) (db db' : tank_db)
    (funded funded' : List connection_fund_account) : Prop :=
  (∃ dest, funded' = funded ∧
    ∀ j, db'.balance_of j =
      db.balance_of j - (if j = src then r else 0) + (if j = dest then r else 0)) ∨
  (∃ account path, funded' = funded ++ [⟨account, asset.of_amount r, path⟩] ∧
    ∀ j, db'.balance_of j = db.balance_of j - (if j = src then r else 0))

/-- A sequence of flows of the given amounts, applied in order. -/
def flows_move : List share_type → tank_db → List connection_fund_account →
    tank_db → List connection_fund_account → Prop
  | [], db, funded, db', funded' => (∀ j, db'.balance_of j = db.balance_of j) ∧ funded' = funded
  | r :: rs, db, funded, db', funded' =>
    ∃ src db1 funded1, flow_moves src r db db1 funded funded1 ∧
      flows_move rs db1 funded1 db' funded'

/-- The individual limits of the requirements from index `i` on: what the inspector of
`max_release_inspector` returns for each of them on the utility `u0`. -/
def requirement_limits (env : chain_env) (qe : query_evaluator) (db : tank_db)
    (tank_id : tank_id_type) (tank : tank_object) (u0 : tap_requirement_utility) :
    List tap_requirement → index_type → Except tnt_error (List asset_flow_limit)
  | [], _ => .ok []
  | req :: rest, i => do
    let (l, _) ← max_release_inspect env qe db tank_id tank u0 i req
    let ls ← requirement_limits env qe db tank_id tank u0 rest (i + 1)
    .ok (l :: ls)

/-- The periodic requirement's part of `prepare_tap_release`, run for each entry
`(time, amount)` of a history of releases in order, at head block time `time`. -/
def periodic_release_history (env : chain_env) (qe : query_evaluator)
    (u : tap_requirement_utility) (i : index_type) (r : periodic_flow_limit) :
    List (time_point_sec × share_type) → tank_object → Except tnt_error tank_object
  | [], tank => .ok tank
  | (t, a) :: rest, tank => do
    let (tank1, _) ← prepare_release_inspect { env with head_block_time := t } qe tank u a i
      (.periodic_flow_limit r)
    periodic_release_history env qe u i r rest tank1

/-- The number of attachments among the connections of a chain: the connections that are
followed to a further connection. -/
def attachments_followed (l : List connection) : Nat :=
  (l.filter (fun c => !is_terminal_connection c)).length

/-- What the validation steps leave unchanged in a validator: everything but the counters
and the flag `has_validated`. -/
def same_subject (v v1 : tank_validator) : Prop :=
  v1.utils = v.utils ∧ v1.max_connection_chain_length = v.max_connection_chain_length ∧
    v1.tank_id = v.tank_id

/-- The invariant of `auth_usage_checker`: the used positions are distinct, and each holds a
declared authority that satisfies `R` ("has been required"). -/
def used_required (c : auth_usage_checker) (R : authority → Prop) : Prop :=
  c.used_auths.Nodup ∧ ∀ i ∈ c.used_auths, ∃ a, c.declared_auths[i]? = some a ∧ R a

/-- Evaluating `a` is required by one of the queries `qs` on the query tank. -/
def required_by_queries (env : chain_env) (db : tank_db) (tank_id : tank_id_type)
    (tank : tank_object) (qs : List tank_query_type) (a : authority) : Prop :=
  ∃ q ∈ qs, ∃ auths, evaluate_one env db tank_id tank q = .ok auths ∧ a ∈ auths

/-- The closure that claim C28 states for an operation with declared authorities
`required`, opened tap authority `open_authority` (none for a query operation) and queries
`queries` evaluated on `tank`. -/
def authority_closure (env : chain_env) (db : tank_db) (tank_id : tank_id_type)
    (tank : tank_object) (required : List authority) (open_authority : Option authority)
    (queries : List tank_query_type) : Prop :=
  (∀ a, open_authority = some a → a ∈ required) ∧
  (∀ q ∈ queries, ∃ auths, evaluate_one env db tank_id tank q = .ok auths ∧
    ∀ a ∈ auths, a ∈ required) ∧
  (∀ a ∈ required, open_authority = some a ∨
    required_by_queries env db tank_id tank queries a)

/-- Two queries collide for `validate_queries`: the first is of a kind marked unique, the
second is of the same kind, and both address the same accessory. -/
def same_unique_target (a b : tank_query_type) : Prop :=
  a.unique = true ∧ a.which = b.which ∧ a.address = b.address

/-- The addresses a `unique_query_checker` has recorded under a query tag. -/
def unique_query_checker.addresses (c : unique_query_checker) (tag : Nat) :
    List accessory_address :=
  (amap_find c.unique_queries tag).getD []

/-- Every address set of the checker is in the order of `accessory_address_lt`. -/
def unique_query_checker.ordered (c : unique_query_checker) : Prop :=
  ∀ tag, (c.addresses tag).Pairwise (fun a b => accessory_address_lt a b = true)

/-- The checks of `validate_queries` that concern one query by itself. -/
def query_alone_ok (queried_tank : tank_id_type) (tap_open : Bool) (q : tank_query_type) :
    Prop :=
  q.validate_content = .ok () ∧ (q.tap_open_only && !tap_open) = false ∧
    check_ticket_target queried_tank q = .ok ()

/-- An address whose state `tank_update_evaluator::do_apply` clears for operation `o`: an
attachment that is removed or replaced, or a requirement of a tap that is removed or
replaced. -/
def cleared_by_update (o : tank_update_operation) : accessory_address → Bool
  | .attachment a =>
    o.attachments_to_remove.contains a || (o.attachments_to_replace.map Prod.fst).contains a
  | .requirement t _ =>
    o.taps_to_remove.contains t || (o.taps_to_replace.map Prod.fst).contains t

/-- `get_connection_chain` together with the number of attachments it has followed. -/
def lookup_utilities.get_connection_chain_followed (u : lookup_utilities) (s : connection)
    (max_chain_length : Nat) (asset_type : Option asset_id_type) :
    connection_chain_result × Nat :=
  match u.check_asset asset_type s with
  | some e => (e, 0)
  | none =>
    u.chain_loop_followed asset_type max_chain_length s s
      { connections := [s], final_connection_tank := none }

/-- Whether one of the queries `qs` is a `consume_approved_request_to_open` of request
`id`. -/
def names_approved_request (qs : List tank_query_type) (id : index_type) : Bool :=
  qs.any (fun q => match q with
    | .consume_approved_request_to_open _ _ i => decide (i = id)
    | _ => false)

/-- Whether one of the queries `qs` is a `consume_matured_request_to_open` of request
`id`. -/
def names_matured_request (qs : List tank_query_type) (id : index_type) : Bool :=
  qs.any (fun q => match q with
    | .consume_matured_request_to_open _ _ i => decide (i = id)
    | _ => false)

/-- What the three loops of `update_from_operation` do to one of the maps of a schematic,
from the map `m` and counter `counter` to `m'` and `counter'`: an ID that is neither removed
nor replaced nor given to an added element keeps its entry; a replaced ID that is not given
to an added element holds its replacement; the `k`-th added element is stored at
`(counter + k) mod 2^16`; the counter advances by the number of added elements modulo
`2^16`, so it does not decrease unless it wraps. -/
def map_updated {β : Type} (removes : List index_type) (replaces : List (index_type × β))
    (adds : List β) (m m' : List (index_type × β)) (counter counter' : index_type) : Prop :=
  (∀ id, id ∉ removes → id ∉ replaces.map Prod.fst →
    (∀ k, k < adds.length → u16 (counter + k) ≠ id) → amap_find m' id = amap_find m id) ∧
  (∀ id x, (replaces.map Prod.fst).Nodup → (id, x) ∈ replaces →
    (∀ k, k < adds.length → u16 (counter + k) ≠ id) → amap_find m' id = some x) ∧
  (∀ k, k < adds.length → adds.length ≤ 65536 →
    amap_find m' (u16 (counter + k)) = adds.get? k) ∧
  counter' = u16 (counter + adds.length) ∧
  (counter + adds.length < 65536 → counter ≤ counter')

/-- Every object in the cache of the wrapper is the object the wrapped database holds under
that id (the cache is filled from the database only). -/
def cow_db_wrapper.cache_ok (w : cow_db_wrapper) : Prop :=
  ∀ id o, amap_find w.db_cache id = some o → w.db.get_tank id = .ok o

/-- The handle `h` is a handle to object `id` of the database wrapped by `w`: its data
are those of `id` and its `_ref_` is the database object. -/
def cow_object.handle_of (h : cow_object) (w : cow_db_wrapper) (id : tank_id_type) : Prop :=
  h.data = id ∧ w.db.get_tank id = .ok h.ref

/-- The reference of a field: reading the field after assigning it yields the value
assigned. -/
def field_reflector.lawful {φ : Type} (f : field_reflector φ) : Prop :=
  ∀ o v, f.get (f.set o v) = v

/-- What one flow of `r` out of tank `src` does, between the balances and credits before and
after it, given the last connection of the flow's path: when the path ends at a tank `dest`,
`src` loses `r`, `dest` receives `r` and no account is funded; when it ends at an account,
`src` loses `r`, that account is funded once with `r`, and no tank receives anything. A
path does not end otherwise. -/
def flow_delivers (src : tank_id_type) (r : share_type) (terminal : Option connection)
    (db db' : tank_db) (funded funded' : List connection_fund_account) : Prop :=
  match terminal with
  | some (.tank_id dest) =>
    funded' = funded ∧
      ∀ j, db'.balance_of j =
        db.balance_of j - (if j = src then r else 0) + (if j = dest then r else 0)
  | some (.account_id account) =>
    (∃ path, funded' = funded ++ [⟨account, asset.of_amount r, path⟩]) ∧
      ∀ j, db'.balance_of j = db.balance_of j - (if j = src then r else 0)
  | _ => False

/-- The passes of the `while` loop of `evaluate_tap_flow` from the state `st`: for each
pass, the tap at the head of the queue, which is the tap the pass opens, and the state the
pass leaves. -/
def tap_flow_trace (env : chain_env) (qe : query_evaluator) (account : account_id_type)
    (tap_to_open : tap_id_type) (max_taps_to_open : Nat) :
    Nat → tap_flow_state → List (tap_id_type × tap_flow_state)
  | 0, _ => []
  | fuel + 1, st =>
    match st.pending_taps with
    | [] => []
    | (current_tap, current_amount) :: _ =>
      match tap_flow_step env qe account tap_to_open max_taps_to_open current_tap
          current_amount st with
      | .ok st1 =>
        (current_tap, st1) ::
          tap_flow_trace env qe account tap_to_open max_taps_to_open fuel st1
      | .error _ => []

/-- The state the last pass of a trace leaves (the starting state when there is no
pass). -/
def trace_final : tap_flow_state → List (tap_id_type × tap_flow_state) → tap_flow_state
  | st, [] => st
  | _, (_, st1) :: rest => trace_final st1 rest

/-- The passes of a trace, from the state `before` the first of them starts in, against the
flows reported: the `k`-th flow moves its amount from the tank of the tap the `k`-th pass
opens to the end of the flow's path, between the state before that pass and the state
after it. -/
def passes_deliver : tap_flow_state → List (tap_id_type × tap_flow_state) →
    List tap_flow → Prop
  | _, [], [] => True
  | before, (tap, after) :: rest, f :: flows =>
    (match tap.tank_id with
      | some src =>
        flow_delivers src f.amount_released.amount f.connection_path.getLast?
          before.db after.db before.funded after.funded
      | none => False) ∧
    passes_deliver after rest flows
  | _, _, _ => False

/-- The trace of a call of `evaluate_tap_flow`. -/
def evaluate_tap_flow_trace (env : chain_env) (qe : query_evaluator) (db : tank_db)
    (account : account_id_type) (tap_to_open : tap_id_type) (flow_amount : asset_flow_limit)
    (max_taps_to_open : Nat) : List (tap_id_type × tap_flow_state) :=
  tap_flow_trace env qe account tap_to_open max_taps_to_open (max_taps_to_open + 1)
    { db := db, pending_taps := [(tap_to_open, flow_amount)], tap_flows := [],
      tap_utilities := [], funded := [] }

/-! ## Definitions that follow the specification's wording

Used only to compare the transcribed code with what the specification states. -/

/-- The lock status the specification assigns to a time lock at time `t`: `start_locked`
XOR (the number of lock/unlock times already past at `t` is odd). -/
def spec_locked (tl : time_lock) (t : time_point_sec) : Bool :=
  xor tl.start_locked (decide (tl.lock_unlock_times.countP (fun x => decide (x < t)) % 2 = 1))

/-- The deposit the specification states: `tank_deposit` plus one accessory deposit for
every attachment on the tank and every requirement on every tap. -/
def spec_calculate_deposit (schematic : tank_schematic) (parameters : parameters_type) :
    share_type :=
  (parameters.tank_deposit : Int)
    + (schematic.attachments.map (fun p =>
        get_accessory_deposit parameters p.2.which parameters.default_tank_attachment_deposit)).sum
    + (schematic.taps.map (fun p => (p.2.requirements.map (fun r =>
        get_accessory_deposit parameters (r.which + 3)
          parameters.default_tap_requirement_deposit)).sum)).sum

/-- The minimum of the balance and the limits, an unlimited one counting as `+∞`. -/
def spec_min_release (balance : share_type) (limits : List asset_flow_limit) : share_type :=
  limits.foldl (fun m l => match l with
    | .unlimited_flow => m
    | .amount a => min m a) balance

/-- The first requirement whose limit attains the minimum when that is strictly below the
balance, and none when the balance is the binding bound. -/
def spec_most_restrictive (balance : share_type) (limits : List asset_flow_limit) :
    Option index_type :=
  if spec_min_release balance limits < balance then
    some (limits.indexOf (.amount (spec_min_release balance limits)))
  else none

/-- Everything a history releases in the period of time `t`, for periods of length `P`
counted from the creation time `c`: the sum over the releases whose time has the same
`floor((time - c) / P)`. -/
def spec_released_in_period (P : Nat) (c t : time_point_sec)
    (history : List (time_point_sec × share_type)) : share_type :=
  ((history.filter (fun e => decide ((e.1 - c) / P = (t - c) / P))).map (fun e => e.2)).sum

/-! # Theorems -/

/-! ## General lemmas on association lists and the tank database -/

theorem amap_find_insert_same {κ β : Type} [DecidableEq κ] (m : List (κ × β)) (k : κ) (v : β) :
    amap_find (amap_insert m k v) k = some v := by
  induction m with
  | nil => simp [amap_insert, amap_find]
  | cons p rest ih =>
    obtain ⟨k0, w⟩ := p
    by_cases h : k0 = k
    · simp [amap_insert, amap_find, h]
    · simp [amap_insert, amap_find, h, ih]

theorem amap_find_insert_ne {κ β : Type} [DecidableEq κ] (m : List (κ × β)) (k k' : κ) (v : β)
    (hne : k ≠ k') : amap_find (amap_insert m k v) k' = amap_find m k' := by
  induction m with
  | nil => simp [amap_insert, amap_find, hne]
  | cons p rest ih =>
    obtain ⟨k0, w⟩ := p
    by_cases h : k0 = k
    · subst h
      simp [amap_insert, amap_find, hne]
    · by_cases h2 : k0 = k'
      · subst h2
        simp [amap_insert, amap_find, h]
      · simp [amap_insert, amap_find, h, h2, ih]

theorem get_tank_lt {db : tank_db} {id : tank_id_type} {t : tank_object}
    (h : db.get_tank id = .ok t) : id < db.length ∧ db[id]? = some (some t) := by
  unfold tank_db.get_tank at h
  split at h
  · rename_i t' heq
    cases h
    refine ⟨?_, heq⟩
    by_contra hc
    have : db[id]? = none := List.getElem?_eq_none (Nat.le_of_not_lt hc)
    rw [this] at heq
    cases heq
  · cases h

theorem get_tank_set_tank_same {db : tank_db} {id : tank_id_type} {t : tank_object}
    (t' : tank_object) (h : db.get_tank id = .ok t) :
    (db.set_tank id t').get_tank id = .ok t' := by
  have hlt := (get_tank_lt h).1
  simp [tank_db.get_tank, tank_db.set_tank, List.getElem?_set, hlt]

theorem total_balance_set_tank {db : tank_db} {id : tank_id_type} {t : tank_object}
    (t' : tank_object) (h : db.get_tank id = .ok t) :
    (db.set_tank id t').total_balance = db.total_balance - t.balance + t'.balance := by
  induction db generalizing id with
  | nil => simp [tank_db.get_tank] at h
  | cons o rest ih =>
    cases id with
    | zero =>
      have := (get_tank_lt h).2
      simp at this
      subst this
      simp [tank_db.set_tank, tank_db.total_balance]
      ring
    | succ k =>
      have hk : tank_db.get_tank rest k = .ok t := by
        simpa [tank_db.get_tank] using h
      have := ih hk
      simp only [tank_db.set_tank, tank_db.total_balance, List.set_cons_succ, List.map_cons,
        List.sum_cons] at this ⊢
      rw [this]
      ring

theorem balance_of_get_tank {db : tank_db} {id : tank_id_type} {t : tank_object}
    (h : db.get_tank id = .ok t) : db.balance_of id = t.balance := by
  simp [tank_db.balance_of, (get_tank_lt h).2]

theorem balance_of_set_tank {db : tank_db} {id : tank_id_type} {t : tank_object}
    (t' : tank_object) (h : db.get_tank id = .ok t) (j : tank_id_type) :
    (db.set_tank id t').balance_of j = if j = id then t'.balance else db.balance_of j := by
  have hlt := (get_tank_lt h).1
  by_cases hj : j = id
  · subst hj
    simp [tank_db.balance_of, tank_db.set_tank, List.getElem?_set, hlt]
  · have : ¬ id = j := fun hc => hj hc.symm
    simp [tank_db.balance_of, tank_db.set_tank, List.getElem?_set, hj, this]

theorem same_balances_refl (db : tank_db) : same_balances db db := ⟨fun _ => rfl, rfl⟩

theorem same_balances_trans {a b c : tank_db} (h1 : same_balances a b)
    (h2 : same_balances b c) : same_balances a c :=
  ⟨fun j => (h2.1 j).trans (h1.1 j), h2.2.trans h1.2⟩

theorem same_balances_set_tank {db : tank_db} {id : tank_id_type} {t t' : tank_object}
    (h : db.get_tank id = .ok t) (hb : t'.balance = t.balance) :
    same_balances db (db.set_tank id t') := by
  constructor
  · intro j
    rw [balance_of_set_tank t' h j]
    split
    · rename_i hj; subst hj; rw [hb, balance_of_get_tank h]
    · rfl
  · rw [total_balance_set_tank t' h, hb]; ring
theorem set_state_find_same (tank : tank_object) (a : accessory_address)
    (s : tank_accessory_state) :
    amap_find (tank.set_state a s).accessory_states a = some s :=
  amap_find_insert_same _ _ _

theorem set_state_find_ne (tank : tank_object) (a b : accessory_address)
    (s : tank_accessory_state) (hne : a ≠ b) :
    amap_find (tank.set_state a s).accessory_states b = amap_find tank.accessory_states b :=
  amap_find_insert_ne _ _ _ _ hne

/-! ## The frame of `prepare_tap_release` -/

theorem adjust_limit_tap_ID {u u1 : tap_requirement_utility} {i : index_type}
    {amount : share_type} (h : u.adjust_limit i amount = .ok u1) : u1.tap_ID = u.tap_ID := by
  unfold tap_requirement_utility.adjust_limit at h
  (repeat' split at h) <;> first | (cases h; rfl) | cases h

/-- The frame of one preparation step: only `accessory_states` of the tank changes, and the
utility keeps its tap. -/
theorem prepare_release_inspect_frame {env : chain_env} {qe : query_evaluator}
    {tank tank' : tank_object} {u u' : tap_requirement_utility} {amount : share_type}
    {i : index_type} {req : tap_requirement}
    (h : prepare_release_inspect env qe tank u amount i req = .ok (tank', u')) :
    tank'.schematic = tank.schematic ∧ tank'.balance = tank.balance ∧
      tank'.deposit = tank.deposit ∧ tank'.creation_date = tank.creation_date ∧
      u'.tap_ID = u.tap_ID := by
  cases req <;> simp only [prepare_release_inspect, bind, Except.bind, pure, Except.pure] at h
  case review_requirement r =>
    cases ha : u.adjust_limit i amount with
    | error e => simp [ha] at h
    | ok u1 =>
      have := adjust_limit_tap_ID ha
      simp only [ha] at h
      (repeat' split at h) <;> first
        | (cases h; exact ⟨rfl, rfl, rfl, rfl, this⟩)
        | cases h
  case delay_requirement r =>
    cases ha : u.adjust_limit i amount with
    | error e => simp [ha] at h
    | ok u1 =>
      have := adjust_limit_tap_ID ha
      simp only [ha] at h
      (repeat' split at h) <;> first
        | (cases h; exact ⟨rfl, rfl, rfl, rfl, this⟩)
        | cases h
  case ticket_requirement r =>
    cases ha : u.adjust_limit i amount with
    | error e => simp [ha] at h
    | ok u1 =>
      have := adjust_limit_tap_ID ha
      simp only [ha] at h
      (repeat' split at h) <;> first
        | (cases h; exact ⟨rfl, rfl, rfl, rfl, this⟩)
        | (cases h; refine ⟨rfl, rfl, rfl, rfl, ?_⟩;
           unfold tap_requirement_utility.touch_adjusted; split <;> exact this)
        | cases h
  all_goals
    (repeat' split at h) <;> first
      | (cases h; exact ⟨rfl, rfl, rfl, rfl, rfl⟩)
      | cases h

/-! ## C1: `time_lock::unlocked_at_time` -/

theorem strictly_increasing_cons {a : time_point_sec} {rest : List time_point_sec}
    (h : strictly_increasing (a :: rest) = true) :
    strictly_increasing rest = true ∧ ∀ x ∈ rest, a < x := by
  induction rest generalizing a with
  | nil => simp [strictly_increasing]
  | cons b tl ih =>
    simp only [strictly_increasing, Bool.and_eq_true, decide_eq_true_eq] at h
    obtain ⟨hab, hrest⟩ := h
    refine ⟨hrest, ?_⟩
    intro x hx
    rcases List.mem_cons.mp hx with rfl | hx
    · exact hab
    · exact lt_trans hab ((ih hrest).2 x hx)

theorem first_future_time_eq_countP (times : List time_point_sec) (t : time_point_sec)
    (h : strictly_increasing times = true) :
    first_future_time times t = times.countP (fun x => decide (x < t)) := by
  induction times with
  | nil => rfl
  | cons a rest ih =>
    obtain ⟨hrest, hlt⟩ := strictly_increasing_cons h
    by_cases hat : a < t
    · have := ih hrest
      simp only [first_future_time] at this ⊢
      simp [List.takeWhile_cons, hat, List.countP_cons, this]
    · have hzero : rest.countP (fun x => decide (x < t)) = 0 := by
        rw [List.countP_eq_zero]
        intro x hx
        have hax : a < x := hlt x hx
        have hta : t ≤ a := not_lt.mp hat
        simpa using le_trans hta (le_of_lt hax)
      simp [first_future_time, List.takeWhile_cons, hat, List.countP_cons, hzero]

/-- C1 (the code departs from the claim): for every time lock whose times are strictly
increasing and every time `t`, `unlocked_at_time t` returns the value the claim gives for
"locked at `t`" (`start_locked` XOR the count of past times is odd), not its negation, and
the requirement's release limit is unlimited exactly when the claim says the lock is locked
and 0 when it says unlocked. -/
theorem C1_unlocked_at_time_returns_locked_status (tl : time_lock) (t : time_point_sec)
    (h : strictly_increasing tl.lock_unlock_times = true) :
    tl.unlocked_at_time t = spec_locked tl t ∧
    ∀ (env : chain_env) (qe : query_evaluator) (db : tank_db) (tank_id : tank_id_type)
      (tank : tank_object) (u : tap_requirement_utility) (i : index_type),
      env.head_block_time = t →
      max_release_inspect env qe db tank_id tank u i (.time_lock tl) =
        .ok (if spec_locked tl t then .unlimited_flow else .amount 0, u) := by
  have h1 : tl.unlocked_at_time t = spec_locked tl t := by
    unfold time_lock.unlocked_at_time spec_locked
    rw [first_future_time_eq_countP _ _ h]
    generalize tl.lock_unlock_times.countP (fun x => decide (x < t)) = n
    rcases Nat.mod_two_eq_zero_or_one n with h0 | h0 <;> cases tl.start_locked <;> simp [h0]
  refine ⟨h1, ?_⟩
  intro env qe db tank_id tank u i ht
  subst ht
  simp only [max_release_inspect, h1]
  cases spec_locked tl env.head_block_time <;> rfl

/-- C1 at the input of scenario 1: a lock with `start_locked = true` and the single time
100 is reported unlocked (limit unlimited) at time 50 and locked at time 150. -/
theorem C1_witness :
    strictly_increasing (time_lock.mk true [100]).lock_unlock_times = true ∧
    (time_lock.mk true [100]).unlocked_at_time 50 = true ∧
    (time_lock.mk true [100]).unlocked_at_time 150 = false ∧
    max_release_inspect (ex_env 50) query_evaluator.new [] 0 ex_delay_tank
      ⟨⟨some 0, 1⟩, false, none, [], []⟩ 0 (.time_lock ⟨true, [100]⟩) =
        .ok (.unlimited_flow, ⟨⟨some 0, 1⟩, false, none, [], []⟩) :=
  ⟨rfl, (C1_unlocked_at_time_returns_locked_status ⟨true, [100]⟩ 50 rfl).1.trans rfl,
   (C1_unlocked_at_time_returns_locked_status ⟨true, [100]⟩ 150 rfl).1.trans rfl,
   ((C1_unlocked_at_time_returns_locked_status ⟨true, [100]⟩ 50 rfl).2 (ex_env 50) _ _ _ _ _ _
      rfl).trans rfl⟩

/-! ## C2: `max_tap_release` can be negative -/

/-- C2 (the code departs from the claim): on the tank of scenario 5 with balance 1000 and
meter reading 25, opening tap 1 for 150 succeeds and leaves `amount_released = 150`; a
`reset_meter` query is then accepted and zeroes the meter; after that `max_tap_release`
returns -150 on a tank whose balance is 850, and an unlimited open of the tap succeeds,
raising the tank balance to 1000 and handing -150 to the fund-account callback. -/
theorem C2_max_tap_release_negative_after_meter_reset :
    (evaluate_tap_flow (ex_env 100) query_evaluator.new
        [some (ex_exchange_tank 1000 [(.attachment 0, .meter ⟨25⟩)])] 5 ⟨some 0, 1⟩
        (.amount 150) 1).map (fun st => st.db) =
      .ok [some (ex_exchange_tank 850
        [(.attachment 0, .meter ⟨25⟩), (.requirement 1 0, .exchange ⟨150⟩)])] ∧
    evaluate_one (ex_env 100) [] 0 (ex_exchange_tank 850
        [(.attachment 0, .meter ⟨25⟩), (.requirement 1 0, .exchange ⟨150⟩)]) (.reset_meter 0) =
      .ok [ex_auth 1] ∧
    apply_one (ex_env 100) (ex_exchange_tank 850
        [(.attachment 0, .meter ⟨25⟩), (.requirement 1 0, .exchange ⟨150⟩)]) (.reset_meter 0) =
      .ok (ex_exchange_tank 850 ex_reset_states) ∧
    ((tap_requirement_utility.new ⟨some 0, 1⟩).bind (fun u =>
        u.max_tap_release (ex_env 100) query_evaluator.new
          [some (ex_exchange_tank 850 ex_reset_states)])).map Prod.fst = .ok (-150) ∧
    (evaluate_tap_flow (ex_env 100) query_evaluator.new
        [some (ex_exchange_tank 850 ex_reset_states)] 5 ⟨some 0, 1⟩ .unlimited_flow 1).map
        (fun st => (st.db.balance_of 0,
          st.funded.map (fun f => (f.receiving_account, f.amount_received.amount)))) =
      .ok (1000, [(7, -150)]) :=
  ⟨rfl, rfl, rfl, rfl, rfl⟩

/-! ## C4 and C5: maturity checks of delay requests -/

/-- C4 (the code departs from the claim): for an existing request of a delay requirement on
a tap with an open authority, `consume_matured_request_to_open` evaluates successfully
exactly when `head_block_time <= delay_period_end`, and fails with "not matured" once
`head_block_time > delay_period_end`; the claim requires the opposite comparison. -/
theorem C4_consume_matured_accepts_unmatured (env : chain_env) (db : tank_db)
    (tank_id : tank_id_type) (tank : tank_object) (t r request_ID : index_type)
    (st : delay_state) (request : delay_request) (auth : authority)
    (hst : tank.get_delay_state (.requirement t r) = .ok (some st))
    (hauth : tap_open_authority tank.schematic t = .ok auth)
    (hreq : amap_find st.pending_requests request_ID = some request) :
    (evaluate_one env db tank_id tank (.consume_matured_request_to_open t r request_ID) =
        .ok [auth] ↔ env.head_block_time ≤ request.delay_period_end) ∧
    (request.delay_period_end < env.head_block_time →
      evaluate_one env db tank_id tank (.consume_matured_request_to_open t r request_ID) =
        .error .request_not_matured) := by
  have key : evaluate_one env db tank_id tank (.consume_matured_request_to_open t r request_ID)
      = if request.delay_period_end ≥ env.head_block_time then .ok [auth]
        else .error .request_not_matured := by
    simp only [evaluate_one, hst, hauth, hreq, bind, Except.bind]
  rw [key]
  constructor
  · constructor
    · intro h
      by_contra hc
      rw [if_neg hc] at h
      cases h
    · intro h
      rw [if_pos h]
  · intro h
    rw [if_neg (by simpa using h)]

/-- C4 on `ex_delay_tank`, whose request 0 matures at time 200: consuming it is accepted at
time 100 and rejected at time 300. -/
theorem C4_witness :
    (evaluate_one (ex_env 100) [some ex_delay_tank] 0 ex_delay_tank
        (.consume_matured_request_to_open 1 0 0) = .ok [ex_auth 2] ↔ (100 : Nat) ≤ 200) ∧
    evaluate_one (ex_env 300) [some ex_delay_tank] 0 ex_delay_tank
        (.consume_matured_request_to_open 1 0 0) = .error .request_not_matured :=
  ⟨(C4_consume_matured_accepts_unmatured (ex_env 100) [some ex_delay_tank] 0 ex_delay_tank 1 0 0
      ⟨1, [(0, ⟨200, .amount 50, none⟩)]⟩ ⟨200, .amount 50, none⟩ (ex_auth 2) rfl rfl rfl).1,
   (C4_consume_matured_accepts_unmatured (ex_env 300) [some ex_delay_tank] 0 ex_delay_tank 1 0 0
      ⟨1, [(0, ⟨200, .amount 50, none⟩)]⟩ ⟨200, .amount 50, none⟩ (ex_auth 2) rfl rfl rfl).2
      (by decide)⟩

/-- C5 (the code departs from the claim): for an existing request of a delay requirement
that defines a veto authority, `veto_request_in_delay` evaluates successfully exactly when
`delay_period_end < head_block_time`, that is only after the request has matured, and fails
with "already matured" while `head_block_time < delay_period_end`. -/
theorem C5_veto_accepts_only_matured (env : chain_env) (db : tank_db)
    (tank_id : tank_id_type) (tank : tank_object) (t r request_ID : index_type)
    (comment : Option String)
    (st : delay_state) (request : delay_request) (delay_req : delay_requirement)
    (veto : authority)
    (hst : tank.get_delay_state (.requirement t r) = .ok (some st))
    (htarget : get_delay_target tank.schematic t r = .ok delay_req)
    (hveto : delay_req.veto_authority = some veto)
    (hreq : amap_find st.pending_requests request_ID = some request) :
    (evaluate_one env db tank_id tank (.veto_request_in_delay t r request_ID comment) =
        .ok [veto] ↔ request.delay_period_end < env.head_block_time) ∧
    (env.head_block_time < request.delay_period_end →
      evaluate_one env db tank_id tank (.veto_request_in_delay t r request_ID comment) =
        .error .request_already_matured) := by
  have key : evaluate_one env db tank_id tank (.veto_request_in_delay t r request_ID comment)
      = if request.delay_period_end < env.head_block_time then .ok [veto]
        else .error .request_already_matured := by
    simp only [evaluate_one, hst, htarget, hveto, hreq, require_set, bind, Except.bind]
  rw [key]
  constructor
  · constructor
    · intro h
      by_contra hc
      rw [if_neg hc] at h
      cases h
    · intro h
      rw [if_pos h]
  · intro h
    rw [if_neg (Nat.lt_asymm h)]

/-- C5 on `ex_delay_tank`, whose request 0 matures at time 200: a veto is rejected at time
100, during the delay, and accepted at time 300. -/
theorem C5_witness :
    evaluate_one (ex_env 100) [some ex_delay_tank] 0 ex_delay_tank
        (.veto_request_in_delay 1 0 0 none) = .error .request_already_matured ∧
    (evaluate_one (ex_env 300) [some ex_delay_tank] 0 ex_delay_tank
        (.veto_request_in_delay 1 0 0 none) = .ok [ex_auth 3] ↔ (200 : Nat) < 300) :=
  ⟨(C5_veto_accepts_only_matured (ex_env 100) [some ex_delay_tank] 0 ex_delay_tank 1 0 0 none
      ⟨1, [(0, ⟨200, .amount 50, none⟩)]⟩ ⟨200, .amount 50, none⟩ ⟨some (ex_auth 3), 60, 5⟩
      (ex_auth 3) rfl rfl rfl rfl).2 (by decide),
   (C5_veto_accepts_only_matured (ex_env 300) [some ex_delay_tank] 0 ex_delay_tank 1 0 0 none
      ⟨1, [(0, ⟨200, .amount 50, none⟩)]⟩ ⟨200, .amount 50, none⟩ ⟨some (ex_auth 3), 60, 5⟩
      (ex_auth 3) rfl rfl rfl rfl).1⟩

/-! ## C8, C9, C10: deposits -/

/-- C8 (the code departs from the claim): the schematic of `ex_create_op` passes
`validate_tank` and has two flow meters (deposit 210 each) and two immediate flow limits
(deposit 100 each), so the stated deposit is 1000 + 2 * 210 + 2 * 100 = 1620, while
`calculate_deposit` returns 1310: it adds each accessory kind once, however many instances
the counters tallied. -/
theorem C8_calculate_deposit_counts_each_kind_once :
    calculate_deposit ex_crypto (tank_schematic.from_create_operation ex_create_op) ex_params =
      .ok 1310 ∧
    spec_calculate_deposit (tank_schematic.from_create_operation ex_create_op) ex_params =
      1620 :=
  ⟨rfl, rfl⟩

/-- C9 (the code departs from the claim): tank 0 of `ex_created` holds deposit 1310 =
`calculate_deposit` of its schematic. The update `ex_update_op` raises the calculated
deposit to 1420. Declaring `deposit_delta = 110` (new minus old) is rejected as an
incorrect delta; declaring `deposit_delta = -110` is accepted, and applying it stores
deposit 1200 although `calculate_deposit` of the updated schematic is 1420. -/
theorem C9_update_checks_old_minus_new :
    ((tank_create_evaluator.do_evaluate ex_database ex_create_op).map
        (fun s => decide (s = tank_schematic.from_create_operation ex_create_op))) = .ok true ∧
    ex_created.tanks.map (fun o => o.map (fun t => t.deposit)) = [some 1310] ∧
    (tank_update_evaluator.do_evaluate ex_created (ex_update_op 110)).map (fun _ => ()) =
      .error .incorrect_deposit_delta ∧
    ((tank_update_evaluator.do_evaluate ex_created (ex_update_op (-110))).bind (fun s =>
        calculate_deposit ex_crypto s ex_params)) = .ok 1420 ∧
    ((tank_update_evaluator.do_evaluate ex_created (ex_update_op (-110))).bind (fun s =>
        tank_update_evaluator.do_apply ex_created s (ex_update_op (-110)))).map
        (fun d => d.tanks.map (fun o => o.map (fun t => t.deposit))) = .ok [some 1200] :=
  ⟨rfl, rfl, rfl, rfl, rfl⟩

/-! ## C6: ticket replay protection -/

/-- A preparation step leaves a ticket state `N` at `(t, r)` in place when the ticket queries
addressed there all set `N`. -/
theorem prepare_release_inspect_ticket_state {env : chain_env} {qe : query_evaluator}
    {tank tank' : tank_object} {u u' : tap_requirement_utility} {amount : share_type}
    {i : index_type} {req : tap_requirement} (t r N : index_type)
    (h : prepare_release_inspect env qe tank u amount i req = .ok (tank', u'))
    (hu : u.tap_ID.tap_id = t)
    (hP : amap_find tank.accessory_states (.requirement t r) = some (.ticket ⟨N⟩))
    (hq : consume_tickets ⟨N⟩ (qe.get_target_queries (.requirement t r)) = ⟨N⟩) :
    amap_find tank'.accessory_states (.requirement t r) = some (.ticket ⟨N⟩) := by
  subst hu
  have hne : i ≠ r → accessory_address.requirement u.tap_ID.tap_id i ≠
      accessory_address.requirement u.tap_ID.tap_id r := by
    intro hir hc; cases hc; exact hir rfl
  cases req <;> simp only [prepare_release_inspect, bind, Except.bind, pure, Except.pure] at h
  case review_requirement x =>
    cases ha : u.adjust_limit i amount with
    | error e => simp [ha] at h
    | ok u1 =>
      have hid := adjust_limit_tap_ID ha
      simp only [ha, hid] at h
      by_cases hir : i = r
      · subst hir
        simp only [tank_object.get_review_state, hP] at h
        (repeat' split at h) <;> first
          | (cases h; exact hP)
          | cases h
      · (repeat' split at h) <;> first
          | (cases h; exact hP)
          | (cases h; rw [set_state_find_ne _ _ _ _ (hne hir)]; exact hP)
          | cases h
  case delay_requirement x =>
    cases ha : u.adjust_limit i amount with
    | error e => simp [ha] at h
    | ok u1 =>
      have hid := adjust_limit_tap_ID ha
      simp only [ha, hid] at h
      by_cases hir : i = r
      · subst hir
        simp only [tank_object.get_delay_state, hP] at h
        (repeat' split at h) <;> first
          | (cases h; exact hP)
          | cases h
      · (repeat' split at h) <;> first
          | (cases h; exact hP)
          | (cases h; rw [set_state_find_ne _ _ _ _ (hne hir)]; exact hP)
          | cases h
  case ticket_requirement x =>
    cases ha : u.adjust_limit i amount with
    | error e => simp [ha] at h
    | ok u1 =>
      have hid := adjust_limit_tap_ID ha
      simp only [ha, hid] at h
      by_cases hir : i = r
      · subst hir
        simp only [tank_object.get_ticket_state, hP, or_default, hq] at h
        split at h
        · cases h; exact hP
        · cases h; exact set_state_find_same _ _ _
      · (repeat' split at h) <;> first
          | (cases h; exact hP)
          | (cases h; rw [set_state_find_ne _ _ _ _ (hne hir)]; exact hP)
          | cases h
  all_goals
    by_cases hir : i = r
    · subst hir
      try simp only [tank_object.get_cumulative_state, tank_object.get_periodic_state,
        tank_object.get_exchange_state, hP] at h
      (repeat' split at h) <;> first
        | (cases h; exact hP)
        | cases h
    · (repeat' split at h) <;> first
        | (cases h; exact hP)
        | (cases h; rw [set_state_find_ne _ _ _ _ (hne hir)]; exact hP)
        | cases h

theorem prepare_release_loop_ticket_state {env : chain_env} {qe : query_evaluator}
    {amount : share_type} (t r N : index_type)
    (hq : consume_tickets ⟨N⟩ (qe.get_target_queries (.requirement t r)) = ⟨N⟩)
    (reqs : List tap_requirement) :
    ∀ (i : index_type) (tank tank' : tank_object) (u u' : tap_requirement_utility),
      prepare_release_loop env qe amount reqs i tank u = .ok (tank', u') →
      u.tap_ID.tap_id = t →
      amap_find tank.accessory_states (.requirement t r) = some (.ticket ⟨N⟩) →
      amap_find tank'.accessory_states (.requirement t r) = some (.ticket ⟨N⟩) ∧
        tank'.schematic = tank.schematic := by
  induction reqs with
  | nil =>
    intro i tank tank' u u' h _ hP
    simp only [prepare_release_loop] at h
    cases h
    exact ⟨hP, rfl⟩
  | cons req rest ih =>
    intro i tank tank' u u' h hu hP
    simp only [prepare_release_loop, bind, Except.bind] at h
    cases hstep : prepare_release_inspect env qe tank u amount i req with
    | error e => simp [hstep] at h
    | ok res =>
      obtain ⟨tank1, u1⟩ := res
      simp only [hstep] at h
      have hf := prepare_release_inspect_frame hstep
      have hP1 := prepare_release_inspect_ticket_state t r N hstep hu hP hq
      obtain ⟨hP2, hs⟩ := ih _ _ _ _ _ h (by rw [hf.2.2.2.2]; exact hu) hP1
      exact ⟨hP2, hs.trans hf.1⟩

theorem succ_mod_ne (n : Nat) : ¬ n = (n + 1) % 65536 := by
  omega

theorem redeem_evaluate_number {env : chain_env} {db : tank_db} {tank_id : tank_id_type}
    {tank : tank_object} {t r : index_type} {tk : ticket_type} {s : signature_type}
    {auths : List authority}
    (h : evaluate_one env db tank_id tank (.redeem_ticket_to_open t r tk s) = .ok auths) :
    ∃ st0, tank.get_ticket_state (.requirement t r) = .ok st0 ∧
      tk.ticket_number = expected_ticket_number st0 := by
  simp only [evaluate_one, bind, Except.bind] at h
  cases hst : tank.get_ticket_state (.requirement t r) with
  | error e => simp [hst] at h
  | ok st0 =>
    simp only [hst] at h
    refine ⟨st0, rfl, ?_⟩
    split at h
    · rename_i hn
      cases st0 <;> exact hn
    · cases h

theorem consume_tickets_const (N : index_type) :
    ∀ (qs : List tank_query_type) (st : ticket_state),
      (∀ q ∈ qs, ∀ t r tk s, q = tank_query_type.redeem_ticket_to_open t r tk s →
        u16 (tk.ticket_number + 1) = N) →
      st = ⟨N⟩ → consume_tickets st qs = ⟨N⟩ := by
  intro qs
  induction qs with
  | nil => intro st _ hst; simpa [consume_tickets] using hst
  | cons q rest ih =>
    intro st hall hst
    have hrest : ∀ q ∈ rest, ∀ t r tk s, q = tank_query_type.redeem_ticket_to_open t r tk s →
        u16 (tk.ticket_number + 1) = N := fun q hq => hall q (List.mem_cons_of_mem _ hq)
    cases q <;> simp only [consume_tickets]
    case redeem_ticket_to_open t r tk s =>
      have := hall _ (List.mem_cons_self _ _) t r tk s rfl
      exact ih _ hrest (by rw [this])
    all_goals exact ih _ hrest hst

/-- C6 (amended): when a `redeem_ticket_to_open` query evaluates successfully on a tank, its
`ticket_number` equals the requirement's `tickets_consumed` (0 when no state exists); and
when, in an operation whose recorded queries were all evaluated on that tank, the query is
applied and the release of its tap is prepared, the stored `tickets_consumed` is
`(ticket_number + 1) mod 2^16` and evaluating the same query on the resulting tank fails the
ticket-number check. -/
theorem C6_ticket_replay_protection (env : chain_env) (qe : query_evaluator)
    (db db1 db2 : tank_db) (tank_id : tank_id_type) (tank tank1 : tank_object)
    (u u' : tap_requirement_utility) (t r : index_type) (ticket : ticket_type)
    (sig : signature_type) (auths : List authority) (amount : share_type)
    (heval : evaluate_one env db tank_id tank (.redeem_ticket_to_open t r ticket sig) =
      .ok auths)
    (hqe : ∀ q ∈ qe.accessory_queries, ∃ a, evaluate_one env db tank_id tank q = .ok a)
    (happly : apply_one env tank (.redeem_ticket_to_open t r ticket sig) = .ok tank1)
    (hdb : db1.get_tank tank_id = .ok tank1)
    (hu : u.tap_ID = ⟨some tank_id, t⟩)
    (hprep : u.prepare_tap_release env qe db1 amount = .ok (db2, u')) :
    (∃ st0, tank.get_ticket_state (.requirement t r) = .ok st0 ∧
      ticket.ticket_number = expected_ticket_number st0) ∧
    ∃ tank2, db2.get_tank tank_id = .ok tank2 ∧
      tank2.get_ticket_state (.requirement t r) =
        .ok (some ⟨(ticket.ticket_number + 1) % 65536⟩) ∧
      ∀ db3, evaluate_one env db3 tank_id tank2 (.redeem_ticket_to_open t r ticket sig) =
        .error .bad_ticket_number := by
  obtain ⟨st0, hst0, hnum⟩ := redeem_evaluate_number heval
  refine ⟨⟨st0, hst0, hnum⟩, ?_⟩
  -- the state after `apply`
  have hP1 : amap_find tank1.accessory_states (.requirement t r) =
      some (.ticket ⟨u16 (ticket.ticket_number + 1)⟩) := by
    simp only [apply_one, hst0, bind, Except.bind] at happly
    cases happly
    rw [set_state_find_same]
    cases st0 <;> simp [or_default, expected_ticket_number] at hnum ⊢ <;> rw [hnum]
  -- every ticket redeemed against the requirement carries the same number
  have hq : consume_tickets ⟨u16 (ticket.ticket_number + 1)⟩
      (qe.get_target_queries (.requirement t r)) = ⟨u16 (ticket.ticket_number + 1)⟩ := by
    apply consume_tickets_const _ _ _ _ rfl
    intro q hqm t' r' tk s hqeq
    subst hqeq
    unfold query_evaluator.get_target_queries at hqm
    rw [List.mem_filter] at hqm
    obtain ⟨hmem, haddr⟩ := hqm
    simp [tank_query_type.address] at haddr
    obtain ⟨rfl, rfl⟩ := haddr
    obtain ⟨a, ha⟩ := hqe _ hmem
    obtain ⟨st0', hst0', hnum'⟩ := redeem_evaluate_number ha
    rw [hst0] at hst0'
    cases hst0'
    rw [hnum', hnum]
  -- the preparation
  unfold tap_requirement_utility.prepare_tap_release at hprep
  simp only [hu, hdb, bind, Except.bind] at hprep
  cases htp : tank1.schematic.get_tap t with
  | error e => simp [htp] at hprep
  | ok tp =>
    simp only [htp] at hprep
    cases hloop : prepare_release_loop env qe amount tp.requirements 0 tank1 u with
    | error e => simp [hloop] at hprep
    | ok res =>
      obtain ⟨tank2, u2⟩ := res
      simp only [hloop] at hprep
      cases hprep
      obtain ⟨hP2, _⟩ := prepare_release_loop_ticket_state t r _ hq tp.requirements _ _ _ _ _
        hloop (by rw [hu]) hP1
      have hget : tank2.get_ticket_state (.requirement t r) =
          .ok (some ⟨(ticket.ticket_number + 1) % 65536⟩) := by
        simp only [tank_object.get_ticket_state, hP2]
        rfl
      refine ⟨tank2, get_tank_set_tank_same _ hdb, hget, ?_⟩
      intro db3
      simp only [evaluate_one, hget, bind, Except.bind]
      have hne : ¬ ticket.ticket_number = (ticket.ticket_number + 1) % 65536 :=
        succ_mod_ne ticket.ticket_number
      simp [hne]


/-! ## The hash preimage requirement on one tank -/

theorem any_reveal_iff (qe : query_evaluator) (t i : index_type) :
    (qe.get_target_queries (.requirement t i)).any is_reveal_hash_preimage = true ↔
      ∃ p, tank_query_type.reveal_hash_preimage t i p ∈ qe.accessory_queries := by
  unfold query_evaluator.get_target_queries
  rw [List.any_eq_true]
  constructor
  · rintro ⟨q, hq, hr⟩
    rw [List.mem_filter] at hq
    obtain ⟨hmem, haddr⟩ := hq
    cases q <;> simp [is_reveal_hash_preimage] at hr
    rename_i t' r' p
    simp [tank_query_type.address] at haddr
    obtain ⟨rfl, rfl⟩ := haddr
    exact ⟨p, hmem⟩
  · rintro ⟨p, hp⟩
    refine ⟨tank_query_type.reveal_hash_preimage t i p, ?_, rfl⟩
    rw [List.mem_filter]
    exact ⟨hp, by simp [tank_query_type.address]⟩

/-- The limit the hash preimage inspector returns. -/
theorem hash_preimage_limit (env : chain_env) (qe : query_evaluator) (db : tank_db)
    (tank_id : tank_id_type) (tank : tank_object) (u : tap_requirement_utility)
    (i : index_type) (req : hash_preimage_requirement) :
    max_release_inspect env qe db tank_id tank u i (.hash_preimage_requirement req) =
      .ok (if (qe.get_target_queries (.requirement u.tap_ID.tap_id i)).any
              is_reveal_hash_preimage then .unlimited_flow else .amount 0, u) := by
  simp only [max_release_inspect]
  split <;> rfl

theorem max_release_loop_le (env : chain_env) (qe : query_evaluator) (db : tank_db)
    (tank_id : tank_id_type) (tank : tank_object) (reqs : List tap_requirement) :
    ∀ (i : index_type) (b : share_type) (u : tap_requirement_utility) (l : asset_flow_limit)
      (u' : tap_requirement_utility),
      max_release_loop env qe db tank_id tank reqs i (.amount b) u = .ok (l, u') →
      ∃ r, l = .amount r ∧ r ≤ b := by
  induction reqs with
  | nil =>
    intro i b u l u' h
    simp only [max_release_loop] at h
    cases h
    exact ⟨b, rfl, le_refl b⟩
  | cons req rest ih =>
    intro i b u l u' h
    simp only [max_release_loop, bind, Except.bind] at h
    cases hins : max_release_inspect env qe db tank_id tank u i req with
    | error e => simp [hins] at h
    | ok res =>
      obtain ⟨req_limit, u1⟩ := res
      simp only [hins] at h
      cases req_limit with
      | unlimited_flow =>
        simp only [asset_flow_limit.lt] at h
        simp only [Bool.false_eq_true, ite_false] at h
        split at h
        · cases h
          exact ⟨b, rfl, le_refl b⟩
        · exact ih _ _ _ _ _ h
      | amount a =>
        simp only [asset_flow_limit.lt, decide_eq_true_eq] at h
        by_cases hab : a < b
        · simp only [hab, ite_true] at h
          split at h
          · cases h
            exact ⟨a, rfl, le_of_lt hab⟩
          · obtain ⟨r, hr, hle⟩ := ih _ _ _ _ _ h
            exact ⟨r, hr, le_trans hle (le_of_lt hab)⟩
        · simp only [hab, ite_false] at h
          split at h
          · cases h
            exact ⟨b, rfl, le_refl b⟩
          · exact ih _ _ _ _ _ h


theorem set_remaining_tap_ID (u : tap_requirement_utility) (i : index_type)
    (l : asset_flow_limit) : (u.set_remaining i l).tap_ID = u.tap_ID := rfl

theorem max_release_inspect_tap_ID (env : chain_env) (qe : query_evaluator) (db : tank_db)
    (tank_id : tank_id_type) (tank : tank_object) (u u1 : tap_requirement_utility)
    (i : index_type) (req : tap_requirement) (l : asset_flow_limit)
    (h : max_release_inspect env qe db tank_id tank u i req = .ok (l, u1)) :
    u1.tap_ID = u.tap_ID := by
  cases req <;> simp only [max_release_inspect, bind, Except.bind, pure, Except.pure] at h <;>
    (repeat' split at h) <;>
    first
      | (cases h; rfl)
      | cases h

/-- A requirement at position `k` whose limit is 0 bounds the result of the loop by 0. -/
theorem max_release_loop_zero (env : chain_env) (qe : query_evaluator) (db : tank_db)
    (tank_id : tank_id_type) (tank : tank_object) (tid : tap_id_type)
    (target : tap_requirement) (reqs : List tap_requirement) :
    ∀ (k : Nat) (i : index_type) (b : share_type) (u : tap_requirement_utility)
      (l : asset_flow_limit) (u' : tap_requirement_utility),
      u.tap_ID = tid →
      (∀ (v : tap_requirement_utility) (res : asset_flow_limit × tap_requirement_utility),
        v.tap_ID = tid →
        max_release_inspect env qe db tank_id tank v (i + k) target = .ok res →
        res.1 = .amount 0) →
      reqs[k]? = some target →
      max_release_loop env qe db tank_id tank reqs i (.amount b) u = .ok (l, u') →
      ∃ r, l = .amount r ∧ r ≤ 0 := by
  induction reqs with
  | nil => intro k i b u l u' _ _ hk; simp at hk
  | cons req rest ih =>
    intro k i b u l u' hu hzero hk h
    simp only [max_release_loop, bind, Except.bind] at h
    cases hins : max_release_inspect env qe db tank_id tank u i req with
    | error e => simp [hins] at h
    | ok res =>
      obtain ⟨req_limit, u1⟩ := res
      have hu1 : u1.tap_ID = tid := by
        rw [max_release_inspect_tap_ID _ _ _ _ _ _ _ _ _ _ hins]; exact hu
      simp only [hins] at h
      cases k with
      | zero =>
        simp at hk
        subst hk
        have hz := hzero u _ hu hins
        simp only at hz
        subst hz
        simp only [asset_flow_limit.lt, decide_eq_true_eq] at h
        by_cases hb : (0 : share_type) < b
        · simp only [hb, ite_true] at h
          cases h
          exact ⟨0, rfl, le_refl 0⟩
        · simp only [hb, ite_false] at h
          split at h
          · cases h
            exact ⟨b, rfl, not_lt.mp hb⟩
          · obtain ⟨r, hr, hle⟩ := max_release_loop_le env qe db tank_id tank rest _ _ _ _ _ h
            exact ⟨r, hr, le_trans hle (not_lt.mp hb)⟩
      | succ k =>
        simp at hk
        have hzero1 : ∀ (v : tap_requirement_utility)
            (res : asset_flow_limit × tap_requirement_utility), v.tap_ID = tid →
            max_release_inspect env qe db tank_id tank v (i + 1 + k) target = .ok res →
            res.1 = .amount 0 := by
          intro v res hv hres
          have : i + 1 + k = i + (k + 1) := Nat.add_right_comm i 1 k ▸ rfl
          rw [this] at hres
          exact hzero v res hv hres
        cases req_limit with
        | unlimited_flow =>
          simp only [asset_flow_limit.lt, Bool.false_eq_true, ite_false] at h
          split at h
          · rename_i h0; cases h0
            cases h
            exact ⟨0, rfl, le_refl 0⟩
          · exact ih k _ _ _ _ _ hu1 hzero1 hk h
        | amount a =>
          simp only [asset_flow_limit.lt, decide_eq_true_eq] at h
          by_cases hab : a < b
          · simp only [hab, ite_true] at h
            split at h
            · rename_i h0; cases h0
              cases h
              exact ⟨0, rfl, le_refl 0⟩
            · exact ih k (i + 1) a { u1 with most_restrictive_requirement := some i } l u'
                hu1 hzero1 hk h
          · simp only [hab, ite_false] at h
            split at h
            · rename_i h0; cases h0
              cases h
              exact ⟨0, rfl, le_refl 0⟩
            · exact ih k _ _ _ _ _ hu1 hzero1 hk h

/-- The limit of a hash preimage requirement at index `i` of the utility's tap: the limit
the requirement contributes is unlimited when a `reveal_hash_preimage` query with the
address of the requirement is among the evaluator's recorded queries, whatever tank it was
evaluated on, and 0 otherwise, in which case `max_tap_release` of the tap is at most 0; such
a query evaluates successfully exactly when its preimage has the configured `preimage_size`
(if one is set) and hashes to the requirement's hash under the hash's algorithm; and the
evaluator records the query only after this evaluation has succeeded on the query tank. -/
theorem hash_preimage_requirement_limit (env : chain_env) (qe : query_evaluator) (db : tank_db)
    (tank_id : tank_id_type) (tank : tank_object) (u : tap_requirement_utility)
    (i : index_type) (req : hash_preimage_requirement)
    (htarget : get_hash_preimage_target tank.schematic u.tap_ID.tap_id i = .ok req) :
    ((∃ p, tank_query_type.reveal_hash_preimage u.tap_ID.tap_id i p ∈ qe.accessory_queries) →
      max_release_inspect env qe db tank_id tank u i (.hash_preimage_requirement req) =
        .ok (.unlimited_flow, u)) ∧
    ((¬ ∃ p, tank_query_type.reveal_hash_preimage u.tap_ID.tap_id i p ∈ qe.accessory_queries) →
      max_release_inspect env qe db tank_id tank u i (.hash_preimage_requirement req) =
        .ok (.amount 0, u) ∧
      ∀ (r : share_type) (u' : tap_requirement_utility),
        u.tap_ID.tank_id = some tank_id → db.get_tank tank_id = .ok tank →
        u.max_tap_release env qe db = .ok (r, u') → r ≤ 0) ∧
    (∀ (preimage : List Nat) (qdb : tank_db),
      evaluate_one env qdb tank_id tank
          (.reveal_hash_preimage u.tap_ID.tap_id i preimage) = .ok [] ↔
        (∀ n, req.preimage_size = some n → preimage.length = n) ∧
          check_hash env.tocrypto_env req.hash preimage = true) ∧
    (∀ (preimage : List Nat) (qe0 : query_evaluator) (auths : List authority),
      qe0.evaluate_query env db (.reveal_hash_preimage u.tap_ID.tap_id i preimage) =
          .ok (auths, qe) →
        ∃ qtank_id qtank, qe0.query_tank = some (qtank_id, qtank) ∧
          evaluate_one env db qtank_id qtank
            (.reveal_hash_preimage u.tap_ID.tap_id i preimage) = .ok auths ∧
          tank_query_type.reveal_hash_preimage u.tap_ID.tap_id i preimage ∈
            qe.accessory_queries) := by
  refine ⟨?_, ?_, ?_, ?_⟩
  · intro hq
    rw [hash_preimage_limit, (any_reveal_iff qe _ _).mpr hq]
    rfl
  · intro hq
    have hnone : (qe.get_target_queries (.requirement u.tap_ID.tap_id i)).any
        is_reveal_hash_preimage = false := by
      rw [Bool.eq_false_iff]
      exact fun h => hq ((any_reveal_iff qe _ _).mp h)
    refine ⟨by rw [hash_preimage_limit, hnone]; rfl, ?_⟩
    intro r u' htank hdb hmax
    unfold tap_requirement_utility.max_tap_release at hmax
    simp only [htank, hdb, bind, Except.bind] at hmax
    cases htp : tank.schematic.get_tap u.tap_ID.tap_id with
    | error e => simp [htp] at hmax
    | ok tp =>
      simp only [htp] at hmax
      cases hloop : max_release_loop env qe db tank_id tank tp.requirements 0
          (.amount tank.balance) u with
      | error e => simp [hloop] at hmax
      | ok res =>
        obtain ⟨l, u1⟩ := res
        have hreq : tp.requirements[i]? = some (.hash_preimage_requirement req) := by
          unfold get_hash_preimage_target tank_schematic.get_requirement at htarget
          simp only [htp, bind, Except.bind] at htarget
          cases hgi : tp.requirements[i]? with
          | none => simp [hgi] at htarget
          | some x =>
            simp only [hgi] at htarget
            cases x <;> simp at htarget
            rw [htarget]
        obtain ⟨r0, hl, hr0⟩ := max_release_loop_zero env qe db tank_id tank u.tap_ID
          (.hash_preimage_requirement req) tp.requirements i 0 tank.balance u l u1 rfl
          (by
            intro v res hv hres
            rw [Nat.zero_add, hash_preimage_limit, hv, hnone] at hres
            cases hres
            rfl) hreq hloop
        subst hl
        simp only [hloop] at hmax
        cases hmax
        exact hr0
  · intro preimage qdb
    simp only [evaluate_one, htarget, bind, Except.bind]
    cases hsize : req.preimage_size with
    | none =>
      simp only
      cases hc : check_hash env.tocrypto_env req.hash preimage <;> simp
    | some n =>
      by_cases hlen : preimage.length = n
      · cases hc : check_hash env.tocrypto_env req.hash preimage <;> simp [hlen]
      · simp [hlen]
  · intro preimage qe0 auths h
    unfold query_evaluator.evaluate_query at h
    simp only [bind, Except.bind] at h
    split at h
    · split at h
      · cases h
      · rename_i qtank_id qtank hq
        cases hev : evaluate_one env db qtank_id qtank
            (.reveal_hash_preimage u.tap_ID.tap_id i preimage) with
        | error e => simp [hev] at h
        | ok a =>
          simp only [hev] at h
          cases h
          refine ⟨qtank_id, qtank, hq, hev, ?_⟩
          simp [query_evaluator.record_query, tank_query_type.address]
    · cases h

/-! ## C10: the payer's balance after an update -/

theorem foldl_deposit {α : Type} (f : tank_object → α → tank_object)
    (hf : ∀ t a, (f t a).deposit = t.deposit) (l : List α) (t : tank_object) :
    (l.foldl f t).deposit = t.deposit := by
  induction l generalizing t with
  | nil => rfl
  | cons a rest ih => simp [List.foldl, ih, hf]

theorem clear_updated_state_deposit (o : tank_update_operation) (t : tank_object) :
    (clear_updated_state o t).deposit = t.deposit := by
  unfold clear_updated_state
  simp only
  rw [foldl_deposit (fun t (p : index_type × tap) => t.clear_tap_state p.1) (fun _ _ => rfl),
    foldl_deposit (fun t (id : index_type) => t.clear_tap_state id) (fun _ _ => rfl),
    foldl_deposit (fun t (p : index_type × tank_attachment) => t.clear_attachment_state p.1)
      (fun _ _ => rfl),
    foldl_deposit (fun t (id : index_type) => t.clear_attachment_state id) (fun _ _ => rfl)]

/-- C10 (the code departs from the claim): every successful `do_apply` of a tank update
with `deposit_delta = d` leaves `tank.deposit` equal to the old deposit plus `d`, and changes
the payer's core balance by `+d`, where the claim states `-d`. -/
theorem C10_update_moves_payer_by_plus_delta (d d' : database) (updated : tank_schematic)
    (o : tank_update_operation)
    (h : tank_update_evaluator.do_apply d updated o = .ok d') :
    d'.core_balance o.payer = d.core_balance o.payer + o.deposit_delta ∧
    ∃ old new, d.tanks.get_tank o.tank_to_update = .ok old ∧
      d'.tanks.get_tank o.tank_to_update = .ok new ∧
      new.deposit = old.deposit + o.deposit_delta := by
  unfold tank_update_evaluator.do_apply at h
  simp only [bind, Except.bind] at h
  by_cases hz : o.deposit_delta = 0
  · simp only [hz, ne_eq, not_true_eq_false, ite_false] at h
    cases hg : d.tanks.get_tank o.tank_to_update with
    | error e => simp [hg] at h
    | ok old =>
      simp only [hg] at h
      cases h
      refine ⟨by simp [hz], old, _, rfl, get_tank_set_tank_same _ hg, ?_⟩
      rw [clear_updated_state_deposit, hz]
  · simp only [ne_eq, hz, not_false_eq_true, ite_true] at h
    have hsame : (d.adjust_balance o.payer o.deposit_delta).tanks = d.tanks := rfl
    rw [hsame] at h
    cases hg : d.tanks.get_tank o.tank_to_update with
    | error e => simp [hg] at h
    | ok old =>
      simp only [hg] at h
      cases h
      refine ⟨by simp [database.adjust_balance], old, _, rfl, get_tank_set_tank_same _ hg, ?_⟩
      rw [clear_updated_state_deposit]


/-- C10 on `ex_created` with the accepted update of delta -110, whose calculated deposit
grows by 110: the payer's balance goes from 8690 to 8580 and the stored deposit from 1310
to 1200. -/
theorem C10_witness :
    tank_update_evaluator.do_apply ex_created ex_updated_schematic (ex_update_op (-110)) =
      .ok ex_updated ∧
    (tank_update_evaluator.do_evaluate ex_created (ex_update_op (-110))).map
      (fun s => decide (s = ex_updated_schematic)) = .ok true ∧
    ex_created.core_balance 5 = 8690 ∧ ex_updated.core_balance 5 = 8580 ∧
    ex_updated.core_balance (ex_update_op (-110)).payer =
      ex_created.core_balance (ex_update_op (-110)).payer + (ex_update_op (-110)).deposit_delta ∧
    ex_updated.tanks.map (fun o => o.map (fun t => t.deposit)) = [some 1200] :=
  have h : tank_update_evaluator.do_apply ex_created ex_updated_schematic
      (ex_update_op (-110)) = .ok ex_updated := rfl
  ⟨h, rfl, rfl, rfl,
   (C10_update_moves_payer_by_plus_delta ex_created ex_updated ex_updated_schematic
      (ex_update_op (-110)) h).1, rfl⟩

/-- C6 as stated fails at the last ticket number: on a tank whose `tickets_consumed` is
65535 the ticket numbered 65535 is accepted, and after the query is applied and the tap
release prepared `tickets_consumed` is 0, not 65535 + 1. -/
theorem C6_counterexample :
    evaluate_one (ex_env 100) [] 0 (ex_ticket_tank [(.requirement 1 0, .ticket ⟨65535⟩)])
        (ex_redeem 65535) = .ok [] ∧
    ((apply_one (ex_env 100) (ex_ticket_tank [(.requirement 1 0, .ticket ⟨65535⟩)])
        (ex_redeem 65535)).bind (fun tank1 =>
      (ex_util.prepare_tap_release (ex_env 100)
        (ex_ticket_qe (ex_ticket_tank [(.requirement 1 0, .ticket ⟨65535⟩)])
          [ex_redeem 65535]) [some tank1] 10).bind (fun res =>
      (res.1.get_tank 0).bind (fun tank2 =>
        tank2.get_ticket_state (.requirement 1 0))))) = .ok (some ⟨0⟩) ∧
    (0 : Nat) ≠ 65535 + 1 :=
  ⟨rfl, rfl, by decide⟩

/-- C6 on a tank whose ticket requirement has no state yet: ticket 0 is accepted, and after
apply and prepare the stored `tickets_consumed` is 1 and ticket 0 is refused. -/
theorem C6_witness :
    evaluate_one (ex_env 100) [] 0 (ex_ticket_tank []) (ex_redeem 0) = .ok [] ∧
    ∃ tank2, tank_db.get_tank [some (ex_ticket_tank [(.requirement 1 0, .ticket ⟨1⟩)])] 0 =
        .ok tank2 ∧
      tank2.get_ticket_state (.requirement 1 0) = .ok (some ⟨(0 + 1) % 65536⟩) ∧
      ∀ db3, evaluate_one (ex_env 100) db3 0 tank2 (ex_redeem 0) = .error .bad_ticket_number :=
  ⟨rfl,
   (C6_ticket_replay_protection (ex_env 100) (ex_ticket_qe (ex_ticket_tank []) [ex_redeem 0])
      [] [some (ex_ticket_tank [(.requirement 1 0, .ticket ⟨1⟩)])]
      [some (ex_ticket_tank [(.requirement 1 0, .ticket ⟨1⟩)])] 0 (ex_ticket_tank [])
      (ex_ticket_tank [(.requirement 1 0, .ticket ⟨1⟩)]) ex_util
      ⟨⟨some 0, 1⟩, false, none, [(0, .unlimited_flow)], [(0, false)]⟩ 1 0 (ex_ticket 0) 42 [] 10
      rfl
      (by
        intro q hq
        have hq1 : q = ex_redeem 0 := by simpa [ex_ticket_qe] using hq
        subst hq1
        exact ⟨[], rfl⟩)
      rfl rfl rfl rfl).2⟩

/-- The requirement of `ex_hash_tank`: the preimage 1, 2, 3 is accepted, the requirement's limit is
unlimited once the query is recorded and 0 (so the tap releases nothing) without it. -/
theorem hash_preimage_requirement_example :
    get_hash_preimage_target ex_hash_tank.schematic ex_util.tap_ID.tap_id 0 = .ok ex_hash_req ∧
    evaluate_one (ex_env 100) [] 0 ex_hash_tank (.reveal_hash_preimage 1 0 [1, 2, 3]) = .ok [] ∧
    evaluate_one (ex_env 100) [] 0 ex_hash_tank (.reveal_hash_preimage 1 0 [1, 2, 4]) =
      .error .bad_preimage_hash ∧
    max_release_inspect (ex_env 100) (ex_hash_qe [.reveal_hash_preimage 1 0 [1, 2, 3]])
        [some ex_hash_tank] 0 ex_hash_tank ex_util 0 (.hash_preimage_requirement ex_hash_req) =
      .ok (.unlimited_flow, ex_util) ∧
    max_release_inspect (ex_env 100) (ex_hash_qe []) [some ex_hash_tank] 0 ex_hash_tank ex_util 0
        (.hash_preimage_requirement ex_hash_req) = .ok (.amount 0, ex_util) :=
  ⟨rfl,
   ((hash_preimage_requirement_limit (ex_env 100) (ex_hash_qe []) [some ex_hash_tank] 0
      ex_hash_tank ex_util 0 ex_hash_req rfl).2.2.1 [1, 2, 3] []).mpr
        ⟨fun n hn => by cases hn; rfl, rfl⟩,
   rfl,
   (hash_preimage_requirement_limit (ex_env 100) (ex_hash_qe [.reveal_hash_preimage 1 0 [1, 2, 3]])
      [some ex_hash_tank] 0 ex_hash_tank ex_util 0 ex_hash_req rfl).1
        ⟨[1, 2, 3], by simp [ex_hash_qe, ex_util]⟩,
   ((hash_preimage_requirement_limit (ex_env 100) (ex_hash_qe []) [some ex_hash_tank] 0
      ex_hash_tank ex_util 0 ex_hash_req rfl).2.1 (by simp [ex_hash_qe])).1⟩

/-! ## Conservation of asset by a tap open -/

theorem prepare_release_loop_frame {env : chain_env} {qe : query_evaluator}
    {amount : share_type} (reqs : List tap_requirement) :
    ∀ (i : index_type) (tank tank' : tank_object) (u u' : tap_requirement_utility),
      prepare_release_loop env qe amount reqs i tank u = .ok (tank', u') →
      tank'.balance = tank.balance := by
  induction reqs with
  | nil =>
    intro i tank tank' u u' h
    simp only [prepare_release_loop] at h
    cases h
    rfl
  | cons req rest ih =>
    intro i tank tank' u u' h
    simp only [prepare_release_loop, bind, Except.bind] at h
    cases hstep : prepare_release_inspect env qe tank u amount i req with
    | error e => simp [hstep] at h
    | ok res =>
      obtain ⟨tank1, u1⟩ := res
      simp only [hstep] at h
      exact (ih _ _ _ _ _ h).trans (prepare_release_inspect_frame hstep).2.1

theorem prepare_tap_release_same_balances {env : chain_env} {qe : query_evaluator}
    {db db1 : tank_db} {u u1 : tap_requirement_utility} {amount : share_type}
    (h : u.prepare_tap_release env qe db amount = .ok (db1, u1)) : same_balances db db1 := by
  unfold tap_requirement_utility.prepare_tap_release at h
  split at h
  · cases h
  · rename_i tank_id htid
    simp only [bind, Except.bind] at h
    cases hg : db.get_tank tank_id with
    | error e => simp [hg] at h
    | ok tank =>
      simp only [hg] at h
      cases htp : tank.schematic.get_tap u.tap_ID.tap_id with
      | error e => simp [htp] at h
      | ok tp =>
        simp only [htp] at h
        cases hloop : prepare_release_loop env qe amount tp.requirements 0 tank u with
        | error e => simp [hloop] at h
        | ok res =>
          obtain ⟨tank1, u2⟩ := res
          simp only [hloop] at h
          cases h
          exact same_balances_set_tank hg (prepare_release_loop_frame _ _ _ _ _ _ hloop)

theorem attachment_receive_inspect_balance {σ : Type}
    {cbOpenTap : tap_id_type → asset_flow_limit → σ → Except tnt_error σ}
    {tank_id : tank_id_type} {tank tank1 : tank_object} {attachment_ID : index_type}
    {amount : asset} {source next : connection} {cb cb1 : σ}
    (h : attachment_receive_inspect cbOpenTap tank_id tank attachment_ID amount source cb =
      .ok (next, tank1, cb1)) : tank1.balance = tank.balance := by
  unfold attachment_receive_inspect at h
  simp only [bind, Except.bind] at h
  cases hatt : tank.schematic.get_attachment attachment_ID with
  | error e => simp [hatt] at h
  | ok att =>
    simp only [hatt] at h
    cases att with
    | attachment_connect_authority a => cases h
    | asset_flow_meter meter =>
      try simp only at h
      cases hc : check_source_restriction meter.remote_sources source tank_id with
      | error e => simp [hc] at h
      | ok _ =>
        simp only [hc] at h
        split at h
        · cases hs : tank.get_meter_state (.attachment attachment_ID) with
          | error e => simp [hs] at h
          | ok st =>
            simp only [hs] at h
            cases h
            rfl
        · cases h
    | tap_opener opener =>
      try simp only at h
      cases hc : check_source_restriction opener.remote_sources source tank_id with
      | error e => simp [hc] at h
      | ok _ =>
        simp only [hc] at h
        split at h
        · cases ho : cbOpenTap ⟨some tank_id, opener.tap_index⟩ opener.release_amount cb with
          | error e => simp [ho] at h
          | ok cb2 =>
            simp only [ho] at h
            cases h
            rfl
        · cases h

theorem release_loop_same_balances {σ : Type}
    {cbOpenTap : tap_id_type → asset_flow_limit → σ → Except tnt_error σ}
    {amount : asset} {origin : connection} :
    ∀ (remaining : Nat) (connection : connection) (path : List TNT.connection)
      (current_tank : Option tank_id_type) (ctx : flow_context σ)
      (c : TNT.connection) (path' : List TNT.connection) (ct : Option tank_id_type)
      (ctx' : flow_context σ),
      release_loop cbOpenTap amount origin remaining connection path current_tank ctx =
        .ok (c, path', ct, ctx') →
      same_balances ctx.db ctx'.db ∧ ctx'.funded = ctx.funded ∧
        is_terminal_connection c = true := by
  intro remaining
  induction remaining with
  | zero =>
    intro connection path current_tank ctx c path' ct ctx' h
    unfold release_loop at h
    cases connection <;> simp only at h
    case attachment_id a => cases h
    all_goals
      cases h
      exact ⟨same_balances_refl _, rfl, rfl⟩
  | succ n ih =>
    intro connection path current_tank ctx c path' ct ctx' h
    unfold release_loop at h
    cases connection <;> simp only at h
    case attachment_id att_id =>
      split at h
      · cases h
      · rename_i ctank hct
        simp only [bind, Except.bind] at h
        cases hg : ctx.db.get_tank ctank with
        | error e => simp [hg] at h
        | ok tank =>
          simp only [hg] at h
          cases hins : attachment_receive_inspect cbOpenTap ctank tank att_id.attachment_id
              amount (path_back origin path) ctx.cb with
          | error e => simp [hins] at h
          | ok res =>
            obtain ⟨next, tank1, cb1⟩ := res
            simp only [hins] at h
            obtain ⟨hsb, hf, ht⟩ := ih _ _ _ _ _ _ _ _ h
            refine ⟨same_balances_trans ?_ hsb, hf, ht⟩
            exact same_balances_set_tank hg (attachment_receive_inspect_balance hins)
    all_goals
      cases h
      exact ⟨same_balances_refl _, rfl, rfl⟩
theorem credited_append (funded : List connection_fund_account) (f : connection_fund_account) :
    credited (funded ++ [f]) = credited funded + f.amount_received.amount := by
  simp [credited]

/-- Adding `amount` to the balance of tank `dest_id`, seen through the balances. -/
theorem deposit_effect {db : tank_db} {dest_id : tank_id_type} {dest_tank : tank_object}
    (hg : db.get_tank dest_id = .ok dest_tank) (amount : share_type) :
    (db.set_tank dest_id { dest_tank with balance := dest_tank.balance + amount }).total_balance
        = db.total_balance + amount ∧
    ∀ j, (db.set_tank dest_id
        { dest_tank with balance := dest_tank.balance + amount }).balance_of j =
      db.balance_of j + (if j = dest_id then amount else 0) := by
  refine ⟨?_, ?_⟩
  · rw [total_balance_set_tank _ hg]
    simp only
    ring
  · intro j
    rw [balance_of_set_tank _ hg j]
    split
    · rename_i hj
      subst hj
      rw [balance_of_get_tank hg]
    · simp

/-- What the terminal part of `release_to_connection` does with the amount. -/
theorem release_to_connection_effect {σ : Type} {env : chain_env}
    {cbOpenTap : tap_id_type → asset_flow_limit → σ → Except tnt_error σ}
    {origin connection : connection} {amount : asset} {ctx ctx' : flow_context σ}
    {path : List TNT.connection}
    (h : release_to_connection env cbOpenTap origin connection amount ctx = .ok (path, ctx')) :
    (∃ dest, ctx'.funded = ctx.funded ∧
        ctx'.db.total_balance = ctx.db.total_balance + amount.amount ∧
        ∀ j, ctx'.db.balance_of j =
          ctx.db.balance_of j + (if j = dest then amount.amount else 0)) ∨
     (∃ account p, ctx'.funded = ctx.funded ++ [⟨account, amount, p⟩] ∧
        ctx'.db.total_balance = ctx.db.total_balance ∧
        ∀ j, ctx'.db.balance_of j = ctx.db.balance_of j) := by
  unfold release_to_connection at h
  split at h
  · cases h
  · simp only [bind, Except.bind] at h
    split at h
    · cases h
    · rename_i res hloop
      obtain ⟨connection1, path1, current_tank, ctx1⟩ := res
      obtain ⟨hsb, hfund, hterm⟩ := release_loop_same_balances _ _ _ _ _ _ _ _ _ hloop
      try simp only at h
      cases himp : remote_connection.import_from (path_back origin path1) with
      | error e =>
        cases connection1 <;> cases current_tank <;>
          simp [himp, pure, Except.pure, is_terminal_connection] at h hterm
      | ok pen =>
        cases connection1 with
        | attachment_id a => simp [is_terminal_connection] at hterm
        | same_tank =>
          cases current_tank with
          | none => simp at h
          | some ct =>
            simp only [pure, Except.pure, himp] at h
            cases hg : ctx1.db.get_tank ct with
            | error e => simp [hg] at h
            | ok dest_tank =>
              simp only [hg] at h
              split at h
              · split at h
                · cases h
                  obtain ⟨ht, hb⟩ := deposit_effect hg amount.amount
                  refine Or.inl ⟨ct, hfund, ?_, ?_⟩
                  · simp only
                    rw [ht, hsb.2]
                  · intro j
                    simp only
                    rw [hb j, hsb.1 j]
                · cases h
              · cases h
        | tank_id d =>
          simp only [pure, Except.pure, himp] at h
          have hd := h
          clear hd
          cases hg : ctx1.db.get_tank d with
          | error e => simp [hg] at h
          | ok dest_tank =>
            simp only [hg] at h
            split at h
            · split at h
              · cases h
                obtain ⟨ht, hb⟩ := deposit_effect hg amount.amount
                refine Or.inl ⟨d, hfund, ?_, ?_⟩
                · simp only
                  rw [ht, hsb.2]
                · intro j
                  simp only
                  rw [hb j, hsb.1 j]
              · cases h
            · cases h
        | account_id a =>
          simp only [pure, Except.pure, himp] at h
          split at h
          · split at h
            · cases h
              exact Or.inr ⟨a, _, by rw [← hfund], hsb.2, hsb.1⟩
            · cases h
          · cases h

theorem except_bind_ok {ε α β : Type} {x : Except ε α} {f : α → Except ε β} {b : β}
    (h : x.bind f = .ok b) : ∃ a, x = .ok a ∧ f a = .ok b := by
  cases x with
  | error e => cases h
  | ok a => exact ⟨a, rfl, h⟩

/-- The part of a pass after the release amount is fixed: take `r` from the source tank and
release it to the tap's connection. -/
theorem tap_flow_release_effect {σ : Type} {env : chain_env} {qe : query_evaluator}
    {cbOpenTap : tap_id_type → asset_flow_limit → σ → Except tnt_error σ}
    {db db1 : tank_db} {util1 util2 : tap_requirement_utility} {r : share_type}
    {tank_id : tank_id_type} {tank1 : tank_object} {connected : connection}
    {funded : List connection_fund_account} {ctx0 ctx : flow_context σ}
    {path : List connection}
    (hprep : util1.prepare_tap_release env qe db r = .ok (db1, util2))
    (hg1 : db1.get_tank tank_id = .ok tank1)
    (hdb : ctx0.db = db1.set_tank tank_id { tank1 with balance := tank1.balance - r })
    (hfunded : ctx0.funded = funded)
    (hrel : release_to_connection env cbOpenTap (.tank_id tank_id) connected (asset.of_amount r)
      ctx0 = .ok (path, ctx)) :
    flow_moves tank_id r db ctx.db funded ctx.funded ∧
      ctx.db.total_balance + credited ctx.funded = db.total_balance + credited funded := by
  have hsb := prepare_tap_release_same_balances hprep
  obtain ⟨ht, hb⟩ := deposit_effect hg1 (- r)
  have hb0 : ∀ j, ctx0.db.balance_of j = db.balance_of j - (if j = tank_id then r else 0) := by
    intro j
    rw [hdb]
    have := hb j
    simp only [← sub_eq_add_neg] at this
    rw [this, hsb.1 j]
    split <;> ring
  have ht0 : ctx0.db.total_balance = db.total_balance - r := by
    rw [hdb]
    simp only [← sub_eq_add_neg] at ht
    rw [ht, hsb.2]
  rcases release_to_connection_effect hrel with ⟨dest, hf, htot, hbal⟩ | ⟨acct, p, hf, htot, hbal⟩
  · refine ⟨Or.inl ⟨dest, hf.trans hfunded, fun j => ?_⟩, ?_⟩
    · rw [hbal j, hb0 j]
      rfl
    · rw [htot, ht0, hf, hfunded]
      simp only [asset.of_amount]
      ring
  · refine ⟨Or.inr ⟨acct, p, by rw [hf, hfunded], fun j => ?_⟩, ?_⟩
    · rw [hbal j, hb0 j]
    · rw [htot, ht0, hf, hfunded, credited_append]
      simp only [asset.of_amount]
      ring

theorem tap_flow_step_effect {env : chain_env} {qe : query_evaluator}
    {account : account_id_type} {tap_to_open : tap_id_type} {max_taps_to_open : Nat}
    {current_tap : tap_id_type} {current_amount : asset_flow_limit} {st st' : tap_flow_state}
    (h : tap_flow_step env qe account tap_to_open max_taps_to_open current_tap current_amount st
      = .ok st') :
    ∃ src r path, current_tap.tank_id = some src ∧
      st'.tap_flows = st.tap_flows ++ [⟨asset.of_amount r, tap_to_open, path⟩] ∧
      flow_moves src r st.db st'.db st.funded st'.funded ∧
      st'.db.total_balance + credited st'.funded =
        st.db.total_balance + credited st.funded := by
  unfold tap_flow_step at h
  split at h
  · cases h
  · rename_i tank_id htid
    simp only [bind] at h
    obtain ⟨tank, hg, h⟩ := except_bind_ok h
    obtain ⟨tp, htp, h⟩ := except_bind_ok h
    split at h
    · cases h
    · rename_i connected hconn
      split at h
      · cases h
      · split at h
        · cases h
        · split at h
          · cases h
          · obtain ⟨util, hutil, h⟩ := except_bind_ok h
            obtain ⟨⟨release_limit0, util1⟩, hmax, h⟩ := except_bind_ok h
            obtain ⟨req_index, hreq, h⟩ := except_bind_ok h
            simp only at h
            split at h
            · split at h <;> cases h
            · have tail : ∀ (x : Except tnt_error share_type),
                  (x.bind fun y =>
                    (util1.prepare_tap_release env qe st.db y).bind fun res =>
                      (res.1.get_tank tank_id).bind fun tank1 =>
                        (release_to_connection env
                          (enqueueTap max_taps_to_open st.tap_flows.length)
                          (connection.tank_id tank_id) connected (asset.of_amount y)
                          { db := res.1.set_tank tank_id
                                    { tank1 with balance := tank1.balance - y },
                            cb := st.pending_taps, funded := st.funded }).bind
                        fun res1 =>
                          Except.ok
                            ({ db := res1.2.db, pending_taps := res1.2.cb.tail,
                               tap_flows := st.tap_flows ++
                                   [{ amount_released := asset.of_amount y,
                                      source_tap := tap_to_open,
                                      connection_path := res1.1 }],
                               tap_utilities :=
                                 amap_insert st.tap_utilities current_tap res.2,
                               funded := res1.2.funded } : tap_flow_state)) = .ok st' →
                  ∃ src r path, some tank_id = some src ∧
                    st'.tap_flows =
                      st.tap_flows ++ [⟨asset.of_amount r, tap_to_open, path⟩] ∧
                    flow_moves src r st.db st'.db st.funded st'.funded ∧
                    st'.db.total_balance + credited st'.funded =
                      st.db.total_balance + credited st.funded := by
                intro x hx
                obtain ⟨release_limit, hlimit, hx⟩ := except_bind_ok hx
                obtain ⟨⟨db1, util2⟩, hprep, hx⟩ := except_bind_ok hx
                obtain ⟨tank1, hg1, hx⟩ := except_bind_ok hx
                obtain ⟨⟨connection_path, ctx⟩, hrel, hx⟩ := except_bind_ok hx
                simp only at hx hrel hg1
                cases hx
                obtain ⟨hm, htot⟩ := tap_flow_release_effect hprep hg1 rfl rfl hrel
                exact ⟨tank_id, release_limit, connection_path, rfl, rfl, hm, htot⟩
              split at h
              · split at h
                · exact htid ▸ tail _ h
                · split at h <;> cases h
              · exact htid ▸ tail _ h

theorem tap_flow_loop_effect {env : chain_env} {qe : query_evaluator}
    {account : account_id_type} {tap_to_open : tap_id_type} {max_taps_to_open : Nat} :
    ∀ (fuel : Nat) (st st' : tap_flow_state),
      tap_flow_loop env qe account tap_to_open max_taps_to_open fuel st = .ok st' →
      ∃ flows, st'.tap_flows = st.tap_flows ++ flows ∧
        flows_move (flows.map (fun f => f.amount_released.amount))
          st.db st.funded st'.db st'.funded ∧
        st'.db.total_balance + credited st'.funded =
          st.db.total_balance + credited st.funded := by
  intro fuel
  induction fuel with
  | zero =>
    intro st st' h
    unfold tap_flow_loop at h
    split at h
    · cases h
      exact ⟨[], by simp, ⟨fun _ => rfl, rfl⟩, rfl⟩
    · cases h
  | succ n ih =>
    intro st st' h
    unfold tap_flow_loop at h
    split at h
    · cases h
      exact ⟨[], by simp, ⟨fun _ => rfl, rfl⟩, rfl⟩
    · simp only [bind] at h
      obtain ⟨st1, hstep, h⟩ := except_bind_ok h
      obtain ⟨src, r, path, _, hflows, hmove, htot⟩ := tap_flow_step_effect hstep
      obtain ⟨flows, hflows1, hmoves, htot1⟩ := ih st1 st' h
      refine ⟨⟨asset.of_amount r, tap_to_open, path⟩ :: flows, ?_, ?_, htot1.trans htot⟩
      · rw [hflows1, hflows]
        simp
      · exact ⟨src, st1.db, st1.funded, hmove, hmoves⟩

/-! ## C3: the source and the end of each flow -/

/-- What the terminal part of `release_to_connection` does with the amount, by the last
connection of the path it returns. -/
theorem release_to_connection_delivers {σ : Type} {env : chain_env}
    {cbOpenTap : tap_id_type → asset_flow_limit → σ → Except tnt_error σ}
    {origin connection : connection} {amount : asset} {ctx ctx' : flow_context σ}
    {path : List TNT.connection}
    (h : release_to_connection env cbOpenTap origin connection amount ctx = .ok (path, ctx')) :
    (∃ dest, path.getLast? = some (.tank_id dest) ∧ ctx'.funded = ctx.funded ∧
        ∀ j, ctx'.db.balance_of j =
          ctx.db.balance_of j + (if j = dest then amount.amount else 0)) ∨
     (∃ account p, path.getLast? = some (.account_id account) ∧
        ctx'.funded = ctx.funded ++ [⟨account, amount, p⟩] ∧
        ∀ j, ctx'.db.balance_of j = ctx.db.balance_of j) := by
  unfold release_to_connection at h
  split at h
  · cases h
  · simp only [bind, Except.bind] at h
    split at h
    · cases h
    · rename_i res hloop
      obtain ⟨connection1, path1, current_tank, ctx1⟩ := res
      obtain ⟨hsb, hfund, hterm⟩ := release_loop_same_balances _ _ _ _ _ _ _ _ _ hloop
      try simp only at h
      cases himp : remote_connection.import_from (path_back origin path1) with
      | error e =>
        cases connection1 <;> cases current_tank <;>
          simp [himp, pure, Except.pure, is_terminal_connection] at h hterm
      | ok pen =>
        cases connection1 with
        | attachment_id a => simp [is_terminal_connection] at hterm
        | same_tank =>
          cases current_tank with
          | none => simp at h
          | some ct =>
            simp only [pure, Except.pure, himp] at h
            cases hg : ctx1.db.get_tank ct with
            | error e => simp [hg] at h
            | ok dest_tank =>
              simp only [hg] at h
              split at h
              · split at h
                · cases h
                  obtain ⟨ht, hb⟩ := deposit_effect hg amount.amount
                  refine Or.inl ⟨ct, List.getLast?_concat _, hfund, ?_⟩
                  intro j
                  simp only
                  rw [hb j, hsb.1 j]
                · cases h
              · cases h
        | tank_id d =>
          simp only [pure, Except.pure, himp] at h
          cases hg : ctx1.db.get_tank d with
          | error e => simp [hg] at h
          | ok dest_tank =>
            simp only [hg] at h
            split at h
            · split at h
              · cases h
                obtain ⟨ht, hb⟩ := deposit_effect hg amount.amount
                refine Or.inl ⟨d, List.getLast?_concat _, hfund, ?_⟩
                intro j
                simp only
                rw [hb j, hsb.1 j]
              · cases h
            · cases h
        | account_id a =>
          simp only [pure, Except.pure, himp] at h
          split at h
          · split at h
            · cases h
              exact Or.inr ⟨a, _, List.getLast?_concat _, by rw [← hfund], hsb.1⟩
            · cases h
          · cases h

/-- The part of a pass after the release amount is fixed: `r` leaves the tank of the tap and
arrives at the end of the path. -/
theorem tap_flow_release_delivers {σ : Type} {env : chain_env} {qe : query_evaluator}
    {cbOpenTap : tap_id_type → asset_flow_limit → σ → Except tnt_error σ}
    {db db1 : tank_db} {util1 util2 : tap_requirement_utility} {r : share_type}
    {tank_id : tank_id_type} {tank1 : tank_object} {connected : connection}
    {funded : List connection_fund_account} {ctx0 ctx : flow_context σ}
    {path : List connection}
    (hprep : util1.prepare_tap_release env qe db r = .ok (db1, util2))
    (hg1 : db1.get_tank tank_id = .ok tank1)
    (hdb : ctx0.db = db1.set_tank tank_id { tank1 with balance := tank1.balance - r })
    (hfunded : ctx0.funded = funded)
    (hrel : release_to_connection env cbOpenTap (.tank_id tank_id) connected (asset.of_amount r)
      ctx0 = .ok (path, ctx)) :
    flow_delivers tank_id r path.getLast? db ctx.db funded ctx.funded := by
  have hsb := prepare_tap_release_same_balances hprep
  obtain ⟨ht, hb⟩ := deposit_effect hg1 (- r)
  have hb0 : ∀ j, ctx0.db.balance_of j = db.balance_of j - (if j = tank_id then r else 0) := by
    intro j
    rw [hdb]
    have := hb j
    simp only [← sub_eq_add_neg] at this
    rw [this, hsb.1 j]
    split <;> ring
  rcases release_to_connection_delivers hrel with ⟨dest, hl, hf, hbal⟩ | ⟨acct, p, hl, hf, hbal⟩
  · rw [hl]
    refine ⟨hf.trans hfunded, fun j => ?_⟩
    rw [hbal j, hb0 j]
    rfl
  · rw [hl]
    refine ⟨⟨p, by rw [hf, hfunded]⟩, fun j => ?_⟩
    rw [hbal j, hb0 j]

/-- One pass of the loop: it appends one flow, which moves its amount from the tank of the
tap at the head of the queue to the end of its path. -/
theorem tap_flow_step_delivers {env : chain_env} {qe : query_evaluator}
    {account : account_id_type} {tap_to_open : tap_id_type} {max_taps_to_open : Nat}
    {current_tap : tap_id_type} {current_amount : asset_flow_limit} {st st' : tap_flow_state}
    (h : tap_flow_step env qe account tap_to_open max_taps_to_open current_tap current_amount st
      = .ok st') :
    ∃ src f, current_tap.tank_id = some src ∧ st'.tap_flows = st.tap_flows ++ [f] ∧
      flow_delivers src f.amount_released.amount f.connection_path.getLast?
        st.db st'.db st.funded st'.funded := by
  unfold tap_flow_step at h
  split at h
  · cases h
  · rename_i tank_id htid
    simp only [bind] at h
    obtain ⟨tank, hg, h⟩ := except_bind_ok h
    obtain ⟨tp, htp, h⟩ := except_bind_ok h
    split at h
    · cases h
    · rename_i connected hconn
      split at h
      · cases h
      · split at h
        · cases h
        · split at h
          · cases h
          · obtain ⟨util, hutil, h⟩ := except_bind_ok h
            obtain ⟨⟨release_limit0, util1⟩, hmax, h⟩ := except_bind_ok h
            obtain ⟨req_index, hreq, h⟩ := except_bind_ok h
            simp only at h
            split at h
            · split at h <;> cases h
            · have tail : ∀ (x : Except tnt_error share_type),
                  (x.bind fun y =>
                    (util1.prepare_tap_release env qe st.db y).bind fun res =>
                      (res.1.get_tank tank_id).bind fun tank1 =>
                        (release_to_connection env
                          (enqueueTap max_taps_to_open st.tap_flows.length)
                          (connection.tank_id tank_id) connected (asset.of_amount y)
                          { db := res.1.set_tank tank_id
                                    { tank1 with balance := tank1.balance - y },
                            cb := st.pending_taps, funded := st.funded }).bind
                        fun res1 =>
                          Except.ok
                            ({ db := res1.2.db, pending_taps := res1.2.cb.tail,
                               tap_flows := st.tap_flows ++
                                   [{ amount_released := asset.of_amount y,
                                      source_tap := tap_to_open,
                                      connection_path := res1.1 }],
                               tap_utilities :=
                                 amap_insert st.tap_utilities current_tap res.2,
                               funded := res1.2.funded } : tap_flow_state)) = .ok st' →
                  ∃ src f, some tank_id = some src ∧
                    st'.tap_flows = st.tap_flows ++ [f] ∧
                    flow_delivers src f.amount_released.amount f.connection_path.getLast?
                      st.db st'.db st.funded st'.funded := by
                intro x hx
                obtain ⟨release_limit, hlimit, hx⟩ := except_bind_ok hx
                obtain ⟨⟨db1, util2⟩, hprep, hx⟩ := except_bind_ok hx
                obtain ⟨tank1, hg1, hx⟩ := except_bind_ok hx
                obtain ⟨⟨connection_path, ctx⟩, hrel, hx⟩ := except_bind_ok hx
                simp only at hx hrel hg1
                cases hx
                exact ⟨tank_id, ⟨asset.of_amount release_limit, tap_to_open, connection_path⟩,
                  rfl, rfl, tap_flow_release_delivers hprep hg1 rfl rfl hrel⟩
              split at h
              · split at h
                · exact htid ▸ tail _ h
                · split at h <;> cases h
              · exact htid ▸ tail _ h

theorem tap_flow_loop_delivers {env : chain_env} {qe : query_evaluator}
    {account : account_id_type} {tap_to_open : tap_id_type} {max_taps_to_open : Nat} :
    ∀ (fuel : Nat) (st st' : tap_flow_state),
      tap_flow_loop env qe account tap_to_open max_taps_to_open fuel st = .ok st' →
      ∃ flows, st'.tap_flows = st.tap_flows ++ flows ∧
        passes_deliver st
          (tap_flow_trace env qe account tap_to_open max_taps_to_open fuel st) flows ∧
        trace_final st
          (tap_flow_trace env qe account tap_to_open max_taps_to_open fuel st) = st' ∧
        ∀ t a rest, st.pending_taps = (t, a) :: rest →
          ((tap_flow_trace env qe account tap_to_open max_taps_to_open fuel st).head?).map
            Prod.fst = some t := by
  intro fuel
  induction fuel with
  | zero =>
    intro st st' h
    unfold tap_flow_loop at h
    split at h
    · rename_i hp
      cases h
      refine ⟨[], by simp, ?_, rfl, ?_⟩
      · simp only [tap_flow_trace, passes_deliver]
      · intro t a rest hpe
        rw [hp] at hpe
        cases hpe
    · cases h
  | succ n ih =>
    intro st st' h
    unfold tap_flow_loop at h
    split at h
    · rename_i hp
      cases h
      refine ⟨[], by simp, ?_, ?_, ?_⟩
      · simp only [tap_flow_trace, hp, passes_deliver]
      · simp only [tap_flow_trace, hp, trace_final]
      · intro t a rest hpe
        rw [hp] at hpe
        cases hpe
    · rename_i current_tap current_amount rest hp
      simp only [bind] at h
      obtain ⟨st1, hstep, h⟩ := except_bind_ok h
      obtain ⟨src, f, hsrc, hflows, hdel⟩ := tap_flow_step_delivers hstep
      obtain ⟨flows, hflows1, hpass, hfinal, _⟩ := ih st1 st' h
      have htrace : tap_flow_trace env qe account tap_to_open max_taps_to_open (n + 1) st =
          (current_tap, st1) ::
            tap_flow_trace env qe account tap_to_open max_taps_to_open n st1 := by
        simp only [tap_flow_trace, hp, hstep]
      refine ⟨f :: flows, ?_, ?_, ?_, ?_⟩
      · rw [hflows1, hflows]
        simp
      · rw [htrace]
        simp only [passes_deliver, hsrc]
        exact ⟨hdel, hpass⟩
      · rw [htrace]
        simp only [trace_final]
        exact hfinal
      · intro t a rest' hpe
        rw [hp] at hpe
        cases hpe
        rw [htrace]
        rfl

/-- Claim C3: asset is conserved by a tap open. For every successful `evaluate_tap_flow`,
the `k`-th flow it reports belongs to the `k`-th pass of its loop, the first of which opens
`tap_to_open`. Between the state before its pass and the state after it, a flow of amount
`r` takes `r` from the balance of the tank of the tap that the pass opens, and either its
path ends at a tank, whose balance grows by `r` while no account is funded (when that tank
is the source tank itself its balance is unchanged), or its path ends at an account, which
is funded once with `r` through the fund-account callback while no tank receives anything;
no other balance changes. The last pass leaves the returned state. Hence the sum of all
tank balances plus all amounts handed to the fund-account callback after the run equals the
sum of all tank balances before it. The statement is about amounts: the callback receives
`asset.of_amount r`. -/
theorem C3_tap_open_conserves_asset (env : chain_env) (qe : query_evaluator) (db : tank_db)
    (account : account_id_type) (tap_to_open : tap_id_type) (flow_amount : asset_flow_limit)
    (max_taps_to_open : Nat) (st : tap_flow_state)
    (h : evaluate_tap_flow env qe db account tap_to_open flow_amount max_taps_to_open = .ok st) :
    passes_deliver
        { db := db, pending_taps := [(tap_to_open, flow_amount)], tap_flows := [],
          tap_utilities := [], funded := [] }
        (evaluate_tap_flow_trace env qe db account tap_to_open flow_amount max_taps_to_open)
        st.tap_flows ∧
      trace_final
        { db := db, pending_taps := [(tap_to_open, flow_amount)], tap_flows := [],
          tap_utilities := [], funded := [] }
        (evaluate_tap_flow_trace env qe db account tap_to_open flow_amount
          max_taps_to_open) = st ∧
      ((evaluate_tap_flow_trace env qe db account tap_to_open flow_amount
        max_taps_to_open).head?).map Prod.fst = some tap_to_open ∧
      flows_move (st.tap_flows.map (fun f => f.amount_released.amount)) db [] st.db st.funded ∧
      st.db.total_balance + credited st.funded = db.total_balance := by
  unfold evaluate_tap_flow at h
  split at h
  · cases h
  · obtain ⟨flows, hflows, hmoves, htot⟩ := tap_flow_loop_effect _ _ _ h
    obtain ⟨flows', hflows', hpass, hfinal, hhead⟩ := tap_flow_loop_delivers _ _ _ h
    simp only [List.nil_append] at hflows hflows'
    refine ⟨?_, hfinal, hhead _ _ _ rfl, ?_, ?_⟩
    · rw [hflows']
      exact hpass
    · rw [hflows]
      exact hmoves
    · rw [htot]
      simp [credited]

/-- The conservation of C3 on the cascade of `ex_cascade_db`: the first pass opens tap 1 of
tank 0, whose flow of 200 ends at tank 1, and the second opens tap 1 of tank 1, whose flow
of 30 ends at account 7. -/
theorem C3_witness :
    evaluate_tap_flow (ex_env 0) query_evaluator.new ex_cascade_db 5 ⟨some 0, 1⟩
        (.amount 200) 5 = .ok ex_cascade_state ∧
      (evaluate_tap_flow_trace (ex_env 0) query_evaluator.new ex_cascade_db 5 ⟨some 0, 1⟩
        (.amount 200) 5).map Prod.fst = [⟨some 0, 1⟩, ⟨some 1, 1⟩] ∧
      ex_cascade_state.tap_flows.map
          (fun f => (f.amount_released.amount, f.connection_path.getLast?)) =
        [(200, some (.tank_id 1)), (30, some (.account_id 7))] ∧
      (passes_deliver
          { db := ex_cascade_db, pending_taps := [(⟨some 0, 1⟩, .amount 200)],
            tap_flows := [], tap_utilities := [], funded := [] }
          (evaluate_tap_flow_trace (ex_env 0) query_evaluator.new ex_cascade_db 5 ⟨some 0, 1⟩
            (.amount 200) 5)
          ex_cascade_state.tap_flows ∧
        trace_final
          { db := ex_cascade_db, pending_taps := [(⟨some 0, 1⟩, .amount 200)],
            tap_flows := [], tap_utilities := [], funded := [] }
          (evaluate_tap_flow_trace (ex_env 0) query_evaluator.new ex_cascade_db 5 ⟨some 0, 1⟩
            (.amount 200) 5) = ex_cascade_state ∧
        ((evaluate_tap_flow_trace (ex_env 0) query_evaluator.new ex_cascade_db 5 ⟨some 0, 1⟩
          (.amount 200) 5).head?).map Prod.fst = some ⟨some 0, 1⟩ ∧
        flows_move (ex_cascade_state.tap_flows.map (fun f => f.amount_released.amount))
          ex_cascade_db [] ex_cascade_state.db ex_cascade_state.funded ∧
        ex_cascade_state.db.total_balance + credited ex_cascade_state.funded =
          ex_cascade_db.total_balance) :=
  ⟨rfl, rfl, rfl,
    C3_tap_open_conserves_asset (ex_env 0) query_evaluator.new ex_cascade_db 5 ⟨some 0, 1⟩
      (.amount 200) 5 ex_cascade_state rfl⟩

/-! ## C11: the chain parameter `max_taps_to_open` -/

/-- The result of `tap_open_evaluator::do_evaluate` does not depend on the chain parameter
`max_taps_to_open`: the evaluator never reads it. -/
theorem do_evaluate_ignores_max_taps_to_open (accounts : chain_env) (d : database)
    (p : parameters_type) (m : Nat) (o : tap_open_operation) :
    tap_open_evaluator.do_evaluate accounts
        { d with tnt_parameters := some { p with max_taps_to_open := m } } o =
      tap_open_evaluator.do_evaluate accounts { d with tnt_parameters := some p } o := rfl

/-- Claim C11 (fails on the code): whatever the chain parameter `max_taps_to_open` is, also
0 or 1, `tap_open_evaluator::do_evaluate` accepts the operation `ex_cascade_open`, which
opens two taps (tap 1 of tank 0 and, through a tap opener, tap 1 of tank 1) and declares
`tap_open_count = 2`: it produces two flows, leaves 800 and 670 in the tanks and pays 30 to
an account. The evaluator bounds the cascade by the operation's own `tap_open_count`. -/
theorem C11_tap_open_not_bounded_by_chain_parameter (max_taps : Nat) :
    (tap_open_evaluator.do_evaluate (ex_env 0) (ex_cascade_database max_taps)
        ex_cascade_open).map
      (fun r => (r.2.length, r.1.db_wrapper.balance_of 0, r.1.db_wrapper.balance_of 1,
        credited r.1.accounts_to_pay)) = .ok (2, 800, 670, 30) := rfl

/-! ## C12: the bound on pending plus completed tap openings -/

/-- What a successful pass of the loop consists of: one release into the tap's connection,
with the queue as the opener callback's state. -/
theorem tap_flow_step_inv {env : chain_env} {qe : query_evaluator}
    {account : account_id_type} {tap_to_open : tap_id_type} {max_taps_to_open : Nat}
    {current_tap : tap_id_type} {current_amount : asset_flow_limit} {st st' : tap_flow_state}
    (h : tap_flow_step env qe account tap_to_open max_taps_to_open current_tap current_amount st
      = .ok st') :
    ∃ tank_id connected r db2 path ctx,
      current_tap.tank_id = some tank_id ∧
      release_to_connection env (enqueueTap max_taps_to_open st.tap_flows.length)
        (.tank_id tank_id) connected (asset.of_amount r)
        { db := db2, cb := st.pending_taps, funded := st.funded } = .ok (path, ctx) ∧
      st'.db = ctx.db ∧ st'.pending_taps = ctx.cb.tail ∧
      st'.tap_flows = st.tap_flows ++ [⟨asset.of_amount r, tap_to_open, path⟩] ∧
      st'.funded = ctx.funded := by
  unfold tap_flow_step at h
  split at h
  · cases h
  · rename_i tank_id htid
    simp only [bind] at h
    obtain ⟨tank, hg, h⟩ := except_bind_ok h
    obtain ⟨tp, htp, h⟩ := except_bind_ok h
    split at h
    · cases h
    · rename_i connected hconn
      split at h
      · cases h
      · split at h
        · cases h
        · split at h
          · cases h
          · obtain ⟨util, hutil, h⟩ := except_bind_ok h
            obtain ⟨⟨release_limit0, util1⟩, hmax, h⟩ := except_bind_ok h
            obtain ⟨req_index, hreq, h⟩ := except_bind_ok h
            simp only at h
            split at h
            · split at h <;> cases h
            · have tail : ∀ (x : Except tnt_error share_type),
                  (x.bind fun y =>
                    (util1.prepare_tap_release env qe st.db y).bind fun res =>
                      (res.1.get_tank tank_id).bind fun tank1 =>
                        (release_to_connection env
                          (enqueueTap max_taps_to_open st.tap_flows.length)
                          (connection.tank_id tank_id) connected (asset.of_amount y)
                          { db := res.1.set_tank tank_id
                                    { tank1 with balance := tank1.balance - y },
                            cb := st.pending_taps, funded := st.funded }).bind
                        fun res1 =>
                          Except.ok
                            ({ db := res1.2.db, pending_taps := res1.2.cb.tail,
                               tap_flows := st.tap_flows ++
                                   [{ amount_released := asset.of_amount y,
                                      source_tap := tap_to_open,
                                      connection_path := res1.1 }],
                               tap_utilities :=
                                 amap_insert st.tap_utilities current_tap res.2,
                               funded := res1.2.funded } : tap_flow_state)) = .ok st' →
                  ∃ tank_id' connected' r db2 path ctx,
                    some tank_id = some tank_id' ∧
                    release_to_connection env
                      (enqueueTap max_taps_to_open st.tap_flows.length)
                      (.tank_id tank_id') connected' (asset.of_amount r)
                      { db := db2, cb := st.pending_taps, funded := st.funded } =
                        .ok (path, ctx) ∧
                    st'.db = ctx.db ∧ st'.pending_taps = ctx.cb.tail ∧
                    st'.tap_flows =
                      st.tap_flows ++ [⟨asset.of_amount r, tap_to_open, path⟩] ∧
                    st'.funded = ctx.funded := by
                intro x hx
                obtain ⟨release_limit, hlimit, hx⟩ := except_bind_ok hx
                obtain ⟨⟨db1, util2⟩, hprep, hx⟩ := except_bind_ok hx
                obtain ⟨tank1, hg1, hx⟩ := except_bind_ok hx
                obtain ⟨⟨connection_path, ctx⟩, hrel, hx⟩ := except_bind_ok hx
                simp only at hx hrel hg1
                cases hx
                exact ⟨tank_id, connected, release_limit, _, connection_path, ctx, rfl, hrel,
                  rfl, rfl, rfl, rfl⟩
              split at h
              · split at h
                · exact htid ▸ tail _ h
                · split at h <;> cases h
              · exact htid ▸ tail _ h

theorem max_release_inspect_congr (env : chain_env) (qe : query_evaluator) (db : tank_db)
    (tank_id : tank_id_type) (tank : tank_object) (u u0 u0' : tap_requirement_utility)
    (i : index_type) (req : tap_requirement) (l : asset_flow_limit)
    (hid : u.tap_ID = u0.tap_ID) (hu : amap_find u.remaining_limits i = none)
    (h0 : amap_find u0.remaining_limits i = none)
    (h : max_release_inspect env qe db tank_id tank u0 i req = .ok (l, u0')) :
    ∃ u', max_release_inspect env qe db tank_id tank u i req = .ok (l, u') ∧
      (u' = u ∨ u' = u.set_remaining i l) := by
  cases req <;>
    simp only [max_release_inspect, bind, Except.bind, pure, Except.pure, hid, hu, h0] at h ⊢
  all_goals revert h
  all_goals repeat' split
  all_goals intro h
  all_goals first
    | (cases h; exact ⟨_, rfl, Or.inl rfl⟩)
    | (cases h; exact ⟨_, rfl, Or.inr rfl⟩)
    | cases h

theorem spec_min_release_le (ls : List asset_flow_limit) :
    ∀ m : share_type, spec_min_release m ls ≤ m := by
  induction ls with
  | nil => intro m; exact le_refl _
  | cons l rest ih =>
    intro m
    cases l with
    | unlimited_flow => exact ih m
    | amount a => exact le_trans (ih (min m a)) (min_le_left m a)

theorem spec_min_release_zero (ls : List asset_flow_limit)
    (hnn : ∀ a, asset_flow_limit.amount a ∈ ls → 0 ≤ a) : spec_min_release 0 ls = 0 := by
  induction ls with
  | nil => rfl
  | cons l rest ih =>
    cases l with
    | unlimited_flow =>
      exact ih (fun a ha => hnn a (List.mem_cons_of_mem _ ha))
    | amount a =>
      have ha : 0 ≤ a := hnn a (List.mem_cons_self _ _)
      show spec_min_release (min 0 a) rest = 0
      rw [min_eq_left ha]
      exact ih (fun b hb => hnn b (List.mem_cons_of_mem _ hb))

theorem spec_min_release_cons_unlimited (m : share_type) (rest : List asset_flow_limit) :
    spec_min_release m (.unlimited_flow :: rest) = spec_min_release m rest := rfl

theorem spec_min_release_cons_amount (m a : share_type) (rest : List asset_flow_limit) :
    spec_min_release m (.amount a :: rest) = spec_min_release (min m a) rest := rfl

theorem max_release_loop_cons (env : chain_env) (qe : query_evaluator) (db : tank_db)
    (tank_id : tank_id_type) (tank : tank_object) (req : tap_requirement)
    (rest : List tap_requirement) (i : index_type) (tap_limit l : asset_flow_limit)
    (u u1 : tap_requirement_utility)
    (hins : max_release_inspect env qe db tank_id tank u i req = .ok (l, u1)) :
    max_release_loop env qe db tank_id tank (req :: rest) i tap_limit u =
      if l.lt tap_limit = true then
        (if l = .amount 0 then .ok (l, { u1 with most_restrictive_requirement := some i })
         else max_release_loop env qe db tank_id tank rest (i + 1) l
           { u1 with most_restrictive_requirement := some i })
      else
        (if tap_limit = .amount 0 then .ok (tap_limit, u1)
         else max_release_loop env qe db tank_id tank rest (i + 1) tap_limit u1) := by
  simp only [max_release_loop, bind, Except.bind, hins]
  by_cases hlt : l.lt tap_limit = true
  · simp only [hlt, if_true]
  · simp only [hlt, if_false]
    rfl

theorem max_release_loop_spec (env : chain_env) (qe : query_evaluator) (db : tank_db)
    (tank_id : tank_id_type) (tank : tank_object) (u0 : tap_requirement_utility)
    (h0 : u0.remaining_limits = []) :
    ∀ (reqs : List tap_requirement) (i : index_type) (m : share_type)
      (u : tap_requirement_utility) (limits : List asset_flow_limit),
      requirement_limits env qe db tank_id tank u0 reqs i = .ok limits →
      (∀ a, asset_flow_limit.amount a ∈ limits → 0 ≤ a) →
      u.tap_ID = u0.tap_ID →
      (∀ j, i ≤ j → amap_find u.remaining_limits j = none) →
      ∃ u', max_release_loop env qe db tank_id tank reqs i (.amount m) u =
          .ok (.amount (spec_min_release m limits), u') ∧
        u'.most_restrictive_requirement =
          (if spec_min_release m limits < m then
            some (i + limits.indexOf (.amount (spec_min_release m limits)))
          else u.most_restrictive_requirement) ∧
        u'.max_release_run = u.max_release_run := by
  intro reqs
  induction reqs with
  | nil =>
    intro i m u limits hl hnn hid hrem
    simp only [requirement_limits] at hl
    cases hl
    exact ⟨u, rfl, by simp [spec_min_release], rfl⟩
  | cons req rest ih =>
    intro i m u limits hl hnn hid hrem
    simp only [requirement_limits, bind] at hl
    obtain ⟨⟨l, u0'⟩, hins0, hl⟩ := except_bind_ok hl
    obtain ⟨ls, hrest, hl⟩ := except_bind_ok hl
    simp only [Except.ok.injEq] at hl
    subst hl
    obtain ⟨u1, hins, hu1⟩ := max_release_inspect_congr env qe db tank_id tank u u0 u0' i req l
      hid (hrem i (le_refl _)) (by rw [h0]; rfl) hins0
    have hid1 : u1.tap_ID = u0.tap_ID := by
      rcases hu1 with h | h
      · rw [h]; exact hid
      · rw [h]; exact hid
    have hmr1 : u1.most_restrictive_requirement = u.most_restrictive_requirement := by
      rcases hu1 with h | h
      · rw [h]
      · rw [h]; rfl
    have hrun1 : u1.max_release_run = u.max_release_run := by
      rcases hu1 with h | h
      · rw [h]
      · rw [h]; rfl
    have hrem1 : ∀ j, i + 1 ≤ j → amap_find u1.remaining_limits j = none := by
      intro j hj
      rcases hu1 with h | h <;> rw [h]
      · exact hrem j (Nat.le_of_succ_le hj)
      · show amap_find (amap_insert u.remaining_limits i l) j = none
        rw [amap_find_insert_ne _ _ _ _ (Nat.ne_of_lt hj)]
        exact hrem j (Nat.le_of_succ_le hj)
    have hnn' : ∀ a, asset_flow_limit.amount a ∈ ls → 0 ≤ a :=
      fun a ha => hnn a (List.mem_cons_of_mem _ ha)
    rw [max_release_loop_cons env qe db tank_id tank req rest i (.amount m) l u u1 hins]
    cases l with
    | unlimited_flow =>
      rw [spec_min_release_cons_unlimited]
      simp only [asset_flow_limit.lt, if_false, Bool.false_eq_true]
      by_cases hm : m = 0
      · subst hm
        refine ⟨u1, ?_, ?_, hrun1⟩
        · simp [spec_min_release_zero ls hnn']
        · simp [spec_min_release_zero ls hnn', hmr1]
      · have hne : asset_flow_limit.amount m ≠ .amount 0 := by
          intro hc
          cases hc
          exact hm rfl
        rw [if_neg hne]
        obtain ⟨u', hloop, hmr, hrun⟩ := ih (i + 1) m u1 ls hrest hnn' hid1 hrem1
        refine ⟨u', hloop, ?_, hrun.trans hrun1⟩
        rw [hmr, hmr1]
        split
        · rw [List.indexOf_cons_ne _ (by simp)]
          simp [Nat.add_assoc, Nat.add_comm]
        · rfl
    | amount a =>
      have ha : 0 ≤ a := hnn a (List.mem_cons_self _ _)
      rw [spec_min_release_cons_amount]
      simp only [asset_flow_limit.lt, decide_eq_true_eq]
      by_cases hlt : a < m
      · rw [if_pos hlt, min_eq_right (le_of_lt hlt)]
        by_cases ha0 : a = 0
        · subst ha0
          refine ⟨{ u1 with most_restrictive_requirement := some i }, ?_, ?_, hrun1⟩
          · simp [spec_min_release_zero ls hnn']
          · simp [spec_min_release_zero ls hnn', hlt]
        · have hne : asset_flow_limit.amount a ≠ .amount 0 := by
            intro hc
            cases hc
            exact ha0 rfl
          rw [if_neg hne]
          obtain ⟨u', hloop, hmr, hrun⟩ := ih (i + 1) a
            { u1 with most_restrictive_requirement := some i } ls hrest hnn' hid1 hrem1
          refine ⟨u', hloop, ?_, hrun.trans hrun1⟩
          rw [hmr]
          have hle : spec_min_release a ls ≤ a := spec_min_release_le ls a
          rw [if_pos (lt_of_le_of_lt hle hlt)]
          split
          · rename_i hlt'
            rw [List.indexOf_cons_ne _ (by
              intro hc
              have hc' := asset_flow_limit.amount.inj hc
              first
                | exact (ne_of_lt hlt') hc'
                | exact (ne_of_lt hlt') hc'.symm)]
            simp [Nat.add_assoc, Nat.add_comm]
          · rename_i hnlt
            have heq : spec_min_release a ls = a := le_antisymm hle (not_lt.mp hnlt)
            rw [heq, List.indexOf_cons_eq _ rfl]
            rfl
      · rw [if_neg hlt, min_eq_left (not_lt.mp hlt)]
        by_cases hm : m = 0
        · subst hm
          refine ⟨u1, ?_, ?_, hrun1⟩
          · simp [spec_min_release_zero ls hnn']
          · simp [spec_min_release_zero ls hnn', hmr1]
        · have hne : asset_flow_limit.amount m ≠ .amount 0 := by
            intro hc
            cases hc
            exact hm rfl
          rw [if_neg hne]
          obtain ⟨u', hloop, hmr, hrun⟩ := ih (i + 1) m u1 ls hrest hnn' hid1 hrem1
          refine ⟨u', hloop, ?_, hrun.trans hrun1⟩
          rw [hmr, hmr1]
          split
          · rename_i hlt'
            rw [List.indexOf_cons_ne _ (by
              intro hc
              have hc' := asset_flow_limit.amount.inj hc
              exact hlt (hc' ▸ hlt'))]
            simp [Nat.add_assoc, Nat.add_comm]
          · rfl

/-- Claim C13, amended: on the first call of a fresh utility, when every requirement of the
tap has an individual limit and none of these limits is negative, `max_tap_release` returns
the minimum of the tank's balance and the individual limits of all of the tap's
requirements (unlimited counting as `+∞`), and `most_restrictive_requirement_index` is the
first requirement whose limit attains that minimum when it is strictly below the balance,
and none when the tank balance is the binding bound. -/
theorem C13_max_tap_release_is_minimum (env : chain_env) (qe : query_evaluator)
    (db : tank_db) (tap_ID : tap_id_type) (tank_id : tank_id_type) (tank : tank_object)
    (tp : tap) (u0 : tap_requirement_utility) (limits : List asset_flow_limit)
    (hu : tap_requirement_utility.new tap_ID = .ok u0)
    (htid : tap_ID.tank_id = some tank_id)
    (hg : db.get_tank tank_id = .ok tank)
    (htp : tank.schematic.get_tap tap_ID.tap_id = .ok tp)
    (hl : requirement_limits env qe db tank_id tank u0 tp.requirements 0 = .ok limits)
    (hnn : ∀ l ∈ limits, (asset_flow_limit.amount 0).le l = true) :
    ∃ u1, u0.max_tap_release env qe db = .ok (spec_min_release tank.balance limits, u1) ∧
      u1.most_restrictive_requirement_index =
        .ok (spec_most_restrictive tank.balance limits) := by
  have hu0 : u0 = ⟨tap_ID, false, none, [], []⟩ := by
    unfold tap_requirement_utility.new at hu
    rw [htid] at hu
    cases hu
    rfl
  have hnn' : ∀ a, asset_flow_limit.amount a ∈ limits → 0 ≤ a := by
    intro a ha
    simpa [asset_flow_limit.le] using hnn _ ha
  obtain ⟨u', hloop, hmr, _⟩ := max_release_loop_spec env qe db tank_id tank u0
    (by rw [hu0]) tp.requirements 0 tank.balance u0 limits hl hnn' rfl
    (by intro j _; rw [hu0]; rfl)
  refine ⟨{ u' with max_release_run := true }, ?_, ?_⟩
  · unfold tap_requirement_utility.max_tap_release
    have hid : u0.tap_ID = tap_ID := by rw [hu0]
    simp only [hid, htid, bind, Except.bind, hg, htp, hloop]
  · simp only [tap_requirement_utility.most_restrictive_requirement_index, if_true, hmr,
      spec_most_restrictive, Nat.zero_add]
    rw [hu0]

theorem C13_witness :
    (∀ l ∈ [asset_flow_limit.amount 500, .amount 200, .amount 200],
      (asset_flow_limit.amount 0).le l = true) ∧
    ∃ u1, ex_util.max_tap_release (ex_env 0) query_evaluator.new [some ex_limits_tank] =
        .ok (spec_min_release ex_limits_tank.balance [.amount 500, .amount 200, .amount 200],
          u1) ∧
      u1.most_restrictive_requirement_index =
        .ok (spec_most_restrictive ex_limits_tank.balance
          [.amount 500, .amount 200, .amount 200]) :=
  ⟨by decide,
    C13_max_tap_release_is_minimum (ex_env 0) query_evaluator.new [some ex_limits_tank]
      ⟨some 0, 1⟩ 0 ex_limits_tank (ex_tap (.account_id 7)
        [.immediate_flow_limit ⟨500⟩, .exchange_requirement ⟨⟨none, 0⟩, 100, 10, none⟩,
         .cumulative_flow_limit ⟨200⟩]) ex_util
      [.amount 500, .amount 200, .amount 200] rfl rfl rfl rfl rfl (by decide)⟩

/-- Claim C13 as stated fails: on `ex_doc_exchange_tank` the individual limits are 0 (no
documentation query) and -150 (the exchange requirement after the meter reset), so their
minimum with the balance 850 is -150, attained first by requirement 1; `max_tap_release`
on a fresh utility stops at the first limit 0 and returns 0 with requirement 0 as the most
restrictive. -/
theorem C13_counterexample :
    requirement_limits (ex_env 0) query_evaluator.new [some ex_doc_exchange_tank] 0
        ex_doc_exchange_tank ex_util
        [.documentation_requirement, .exchange_requirement ⟨⟨none, 0⟩, 100, 10, none⟩] 0 =
      .ok [.amount 0, .amount (-150)] ∧
    spec_min_release 850 [.amount 0, .amount (-150)] = -150 ∧
    spec_most_restrictive 850 [.amount 0, .amount (-150)] = some 1 ∧
    (ex_util.max_tap_release (ex_env 0) query_evaluator.new [some ex_doc_exchange_tank]).map
        (fun r => (r.1, r.2.most_restrictive_requirement_index.toOption)) =
      .ok (0, some (some 0)) :=
  ⟨rfl, by decide, by decide, rfl⟩

/-! ## C14: the limit of an exchange requirement -/

/-- A meter reading can be negative: opening tap 1 of tank 0 of `ex_negative_flow_db` with
an unlimited amount releases -150 (the limit of the exchange requirement after the meter
reset), which flows through the meter of tank 1 and leaves it reading -150. -/
theorem negative_meter_reading_reachable :
    (evaluate_tap_flow (ex_env 0) query_evaluator.new ex_negative_flow_db 5 ⟨some 0, 1⟩
        .unlimited_flow 5).bind
      (fun st => (st.db.get_tank 1).bind
        (fun t => t.get_meter_state (.attachment 0))) = .ok (some ⟨-150⟩) := rfl

/-- On the state that flow leaves, the limit of the exchange requirement of tank 1
(`tick_amount = 100`, `release_per_tick = 10`, reading -150, nothing released) is -10,
while `floor(-150 / 100) * 10 - 0 = -20`. -/
theorem exchange_limit_after_negative_flow :
    (evaluate_tap_flow (ex_env 0) query_evaluator.new ex_negative_flow_db 5 ⟨some 0, 1⟩
        .unlimited_flow 5).bind
      (fun st => (st.db.get_tank 1).bind
        (fun t => max_release_inspect (ex_env 0) query_evaluator.new st.db 1 t
          ⟨⟨some 1, 1⟩, false, none, [], []⟩ 0
          (.exchange_requirement ⟨⟨none, 0⟩, 10, 100, none⟩))) =
        .ok (.amount (-10), ⟨⟨some 1, 1⟩, false, none, [], []⟩) ∧
      ⌊((-150 : Int) : ℚ) / ((100 : Int) : ℚ)⌋ * 10 - 0 = (-20 : Int) := by
  refine ⟨rfl, ?_⟩
  have h : ⌊((-150 : Int) : ℚ) / ((100 : Int) : ℚ)⌋ = -2 :=
    Int.floor_eq_iff.mpr ⟨by norm_num, by norm_num⟩
  rw [h]
  rfl

theorem period_num_at_time_eq (r : periodic_flow_limit) (c t : time_point_sec)
    (hc : c ≤ t) (ht : t < 4294967296) :
    r.period_num_at_time c t = (t - c) / r.period_duration_sec := by
  unfold periodic_flow_limit.period_num_at_time
  have h1 : ((t : Int) - (c : Int)) = (((t - c : Nat)) : Int) := by
    rw [Nat.cast_sub hc]
  rw [h1, Int.tdiv_eq_ediv (Int.ofNat_nonneg _) (Int.ofNat_nonneg _)]
  have h2 : (((t - c : Nat) : Int) / (r.period_duration_sec : Int)) =
      (((t - c) / r.period_duration_sec : Nat) : Int) := by
    norm_cast
  rw [h2]
  have h3 : (t - c) / r.period_duration_sec < 4294967296 :=
    lt_of_le_of_lt (Nat.div_le_self _ _) (lt_of_le_of_lt (Nat.sub_le _ _) ht)
  have h4 : ((((t - c) / r.period_duration_sec : Nat) : Int) % 4294967296) =
      (((t - c) / r.period_duration_sec : Nat) : Int) :=
    Int.emod_eq_of_lt (Int.ofNat_nonneg _) (by exact_mod_cast h3)
  rw [h4]
  exact Int.toNat_natCast _

theorem get_periodic_state_of_find {tank : tank_object} {addr : accessory_address}
    {st0 : Option periodic_state}
    (h : amap_find tank.accessory_states addr = st0.map tank_accessory_state.periodic) :
    tank.get_periodic_state addr = .ok st0 := by
  unfold tank_object.get_periodic_state
  cases st0 with
  | none => simp only [Option.map_none'] at h; rw [h]
  | some s => simp only [Option.map_some'] at h; rw [h]

/-- The state the periodic requirement's part of `prepare_tap_release` stores. -/
theorem prepare_periodic_state (env : chain_env) (qe : query_evaluator) (tank : tank_object)
    (u : tap_requirement_utility) (a : share_type) (i : index_type) (r : periodic_flow_limit)
    (st0 : Option periodic_state)
    (h : amap_find tank.accessory_states (.requirement u.tap_ID.tap_id i) =
      st0.map tank_accessory_state.periodic) :
    prepare_release_inspect env qe tank u a i (.periodic_flow_limit r) =
      .ok (tank.set_state (.requirement u.tap_ID.tap_id i)
        (.periodic ⟨r.period_num_at_time tank.creation_date env.head_block_time,
          (if (or_default (⟨0, 0⟩ : periodic_state) st0).period_num =
              r.period_num_at_time tank.creation_date env.head_block_time
            then (or_default (⟨0, 0⟩ : periodic_state) st0).amount_released else 0) + a⟩), u) := by
  simp only [prepare_release_inspect, bind, Except.bind, get_periodic_state_of_find h]
  by_cases hp : (or_default (⟨0, 0⟩ : periodic_state) st0).period_num =
      r.period_num_at_time tank.creation_date env.head_block_time
  · simp only [hp, ne_eq, not_true_eq_false, if_false, if_true]
  · simp only [hp, ne_eq, not_false_eq_true, if_true, if_false]

theorem spec_released_in_period_append (P : Nat) (c t : time_point_sec)
    (h1 h2 : List (time_point_sec × share_type)) :
    spec_released_in_period P c t (h1 ++ h2) =
      spec_released_in_period P c t h1 + spec_released_in_period P c t h2 := by
  simp [spec_released_in_period, List.filter_append]

theorem spec_released_in_period_self (P : Nat) (c t : time_point_sec) (a : share_type) :
    spec_released_in_period P c t [(t, a)] = a := by
  simp [spec_released_in_period]

theorem spec_released_in_period_congr (P : Nat) (c t t' : time_point_sec)
    (h : (t - c) / P = (t' - c) / P) (hist : List (time_point_sec × share_type)) :
    spec_released_in_period P c t hist = spec_released_in_period P c t' hist := by
  simp only [spec_released_in_period, h]

theorem spec_released_in_period_none (P : Nat) (c t : time_point_sec)
    (hist : List (time_point_sec × share_type))
    (h : ∀ e ∈ hist, (e.1 - c) / P ≠ (t - c) / P) :
    spec_released_in_period P c t hist = 0 := by
  have : hist.filter (fun e => decide ((e.1 - c) / P = (t - c) / P)) = [] := by
    rw [List.filter_eq_nil_iff]
    intro e he
    simpa using h e he
  simp [spec_released_in_period, this]

/-- The state a history of releases leaves: the period of the last release and everything
released in that period, provided the times do not decrease. -/
theorem periodic_release_history_state (env : chain_env) (qe : query_evaluator)
    (u : tap_requirement_utility) (i : index_type) (r : periodic_flow_limit)
    (c : time_point_sec) :
    ∀ (todo done : List (time_point_sec × share_type)) (tank : tank_object),
      tank.creation_date = c →
      ((done = [] ∧ amap_find tank.accessory_states (.requirement u.tap_ID.tap_id i) = none) ∨
        ∃ init e, done = init ++ [e] ∧
          amap_find tank.accessory_states (.requirement u.tap_ID.tap_id i) =
            some (.periodic ⟨(e.1 - c) / r.period_duration_sec,
              spec_released_in_period r.period_duration_sec c e.1 done⟩)) →
      (done ++ todo).Pairwise (fun e1 e2 => e1.1 ≤ e2.1) →
      (∀ e ∈ done ++ todo, c ≤ e.1 ∧ e.1 < 4294967296) →
      ∃ tank', periodic_release_history env qe u i r todo tank = .ok tank' ∧
        tank'.creation_date = c ∧
        ((done ++ todo = [] ∧
            amap_find tank'.accessory_states (.requirement u.tap_ID.tap_id i) = none) ∨
          ∃ init e, done ++ todo = init ++ [e] ∧
            amap_find tank'.accessory_states (.requirement u.tap_ID.tap_id i) =
              some (.periodic ⟨(e.1 - c) / r.period_duration_sec,
                spec_released_in_period r.period_duration_sec c e.1 (done ++ todo)⟩)) := by
  intro todo
  induction todo with
  | nil =>
    intro done tank hc hinv _ _
    refine ⟨tank, rfl, hc, ?_⟩
    simpa using hinv
  | cons p rest ih =>
    intro done tank hc hinv hsorted hrange
    obtain ⟨t, a⟩ := p
    have hassoc : done ++ (t, a) :: rest = (done ++ [(t, a)]) ++ rest := by simp
    have ht : c ≤ t ∧ t < 4294967296 := hrange (t, a) (by simp)
    -- the state before this release, and what it carries into the period of `t`
    have hstep : ∃ st0 : Option periodic_state,
        amap_find tank.accessory_states (.requirement u.tap_ID.tap_id i) =
          st0.map tank_accessory_state.periodic ∧
        (if (or_default (⟨0, 0⟩ : periodic_state) st0).period_num =
            (t - c) / r.period_duration_sec
          then (or_default (⟨0, 0⟩ : periodic_state) st0).amount_released else 0) =
          spec_released_in_period r.period_duration_sec c t done := by
      rcases hinv with ⟨hnil, hfind⟩ | ⟨init, e, hdone, hfind⟩
      · refine ⟨none, by simpa using hfind, ?_⟩
        subst hnil
        simp [or_default, spec_released_in_period]
      · refine ⟨some ⟨(e.1 - c) / r.period_duration_sec,
          spec_released_in_period r.period_duration_sec c e.1 done⟩, by simpa using hfind, ?_⟩
        simp only [or_default]
        by_cases hp : (e.1 - c) / r.period_duration_sec = (t - c) / r.period_duration_sec
        · rw [if_pos hp]
          exact spec_released_in_period_congr _ _ _ _ hp _
        · rw [if_neg hp]
          symm
          apply spec_released_in_period_none
          intro e' he'
          -- every earlier release lies in a period before that of `t`
          have hsorted' := hsorted
          rw [hdone] at hsorted' he'
          have hle_t : e.1 ≤ t := by
            have := List.pairwise_append.mp hsorted'
            exact this.2.2 e (by simp) (t, a) (by simp)
          have hle_e : e'.1 ≤ e.1 := by
            rcases List.mem_append.mp he' with hin | hin
            · have h1 := (List.pairwise_append.mp hsorted').1
              exact (List.pairwise_append.mp h1).2.2 e' hin e (by simp)
            · simp only [List.mem_singleton] at hin
              rw [hin]
          have h1 : (e'.1 - c) / r.period_duration_sec ≤ (e.1 - c) / r.period_duration_sec :=
            Nat.div_le_div_right (Nat.sub_le_sub_right hle_e c)
          have h2 : (e.1 - c) / r.period_duration_sec ≤ (t - c) / r.period_duration_sec :=
            Nat.div_le_div_right (Nat.sub_le_sub_right hle_t c)
          intro heq
          rw [heq] at h1
          exact hp (le_antisymm h2 h1)
    obtain ⟨st0, hfind0, hcarry⟩ := hstep
    have hprep := prepare_periodic_state { env with head_block_time := t } qe tank u a i r
      st0 hfind0
    simp only [hc, period_num_at_time_eq r c t ht.1 ht.2, hcarry] at hprep
    simp only [periodic_release_history, bind, Except.bind, hprep]
    rw [hassoc] at hsorted hrange ⊢
    refine ih (done ++ [(t, a)]) _ hc ?_ hsorted hrange
    refine Or.inr ⟨done, (t, a), rfl, ?_⟩
    rw [set_state_find_same, spec_released_in_period_append, spec_released_in_period_self]

/-- Claim C15: for a periodic flow limit with limit `L` and period `P > 0` on a tank created
at time `c`, whose requirement has no state yet: after any history of releases at
non-decreasing times (each at or after `c`, each a `time_point_sec`) that ends with
`prepare_tap_release(a)` at time `t`, the stored state is the period
`floor((t - c) / P)` of `t` together with everything released in that period, and the
requirement's limit at any time `t'` is `L` minus everything released in that period when
`t'` lies in the same period (same `floor((time - c) / P)`), and `L` when it lies in a
different period. -/
theorem C15_periodic_flow_limit (env : chain_env) (qe : query_evaluator) (db : tank_db)
    (tank_id : tank_id_type) (tank : tank_object) (u : tap_requirement_utility)
    (i : index_type) (r : periodic_flow_limit)
    (history : List (time_point_sec × share_type)) (t : time_point_sec) (a : share_type)
    (hP : 0 < r.period_duration_sec)
    (hfresh : amap_find tank.accessory_states (.requirement u.tap_ID.tap_id i) = none)
    (hsorted : (history ++ [(t, a)]).Pairwise (fun e1 e2 => e1.1 ≤ e2.1))
    (hrange : ∀ e ∈ history ++ [(t, a)], tank.creation_date ≤ e.1 ∧ e.1 < 4294967296) :
    ∃ tank', periodic_release_history env qe u i r (history ++ [(t, a)]) tank = .ok tank' ∧
      tank'.get_periodic_state (.requirement u.tap_ID.tap_id i) =
        .ok (some ⟨(t - tank.creation_date) / r.period_duration_sec,
          spec_released_in_period r.period_duration_sec tank.creation_date t
            (history ++ [(t, a)])⟩) ∧
      ∀ t', tank.creation_date ≤ t' → t' < 4294967296 →
        max_release_inspect { env with head_block_time := t' } qe db tank_id tank' u i
            (.periodic_flow_limit r) =
          .ok (.amount
            (if (t' - tank.creation_date) / r.period_duration_sec =
                (t - tank.creation_date) / r.period_duration_sec
              then r.limit - spec_released_in_period r.period_duration_sec
                tank.creation_date t (history ++ [(t, a)])
              else r.limit), u) := by
  have _ := hP
  obtain ⟨tank', hrun, hc', hstate⟩ := periodic_release_history_state env qe u i r
    tank.creation_date (history ++ [(t, a)]) [] tank rfl (Or.inl ⟨rfl, hfresh⟩)
    (by simpa using hsorted) (by simpa using hrange)
  simp only [List.nil_append] at hstate
  rcases hstate with ⟨hnil, _⟩ | ⟨init, e, heq, hfind⟩
  · simp at hnil
  · obtain ⟨_, he⟩ := List.append_inj' heq rfl
    simp only [List.cons.injEq, and_true] at he
    subst he
    have hget : tank'.get_periodic_state (.requirement u.tap_ID.tap_id i) =
        .ok (some ⟨(t - tank.creation_date) / r.period_duration_sec,
          spec_released_in_period r.period_duration_sec tank.creation_date t
            (history ++ [(t, a)])⟩) :=
      get_periodic_state_of_find (by simpa using hfind)
    refine ⟨tank', hrun, hget, ?_⟩
    intro t' hct' ht'
    simp only [max_release_inspect, bind, Except.bind, hget, hc',
      period_num_at_time_eq r tank.creation_date t' hct' ht']
    by_cases hp : (t' - tank.creation_date) / r.period_duration_sec =
        (t - tank.creation_date) / r.period_duration_sec
    · simp only [hp, if_true]
    · have hp' : ¬ (t - tank.creation_date) / r.period_duration_sec =
          (t' - tank.creation_date) / r.period_duration_sec := fun h => hp h.symm
      simp only [hp, hp', if_false]

theorem C15_witness :
    (0 < (86400 : Nat)) ∧
    ∃ tank', periodic_release_history (ex_env 0) query_evaluator.new ex_util 0
        ⟨86400, 1000⟩ ([(510, 1000)] ++ [(500 + 86401, 1000)]) ex_periodic_tank = .ok tank' ∧
      tank'.get_periodic_state (.requirement ex_util.tap_ID.tap_id 0) =
        .ok (some ⟨(500 + 86401 - ex_periodic_tank.creation_date) / 86400,
          spec_released_in_period 86400 ex_periodic_tank.creation_date (500 + 86401)
            ([(510, 1000)] ++ [(500 + 86401, 1000)])⟩) ∧
      ∀ t', ex_periodic_tank.creation_date ≤ t' → t' < 4294967296 →
        max_release_inspect { ex_env 0 with head_block_time := t' } query_evaluator.new
            [some ex_periodic_tank] 0 tank' ex_util 0 (.periodic_flow_limit ⟨86400, 1000⟩) =
          .ok (.amount
            (if (t' - ex_periodic_tank.creation_date) / 86400 =
                (500 + 86401 - ex_periodic_tank.creation_date) / 86400
              then 1000 - spec_released_in_period 86400 ex_periodic_tank.creation_date
                (500 + 86401) ([(510, 1000)] ++ [(500 + 86401, 1000)])
              else 1000), ex_util) :=
  ⟨by decide,
    C15_periodic_flow_limit (ex_env 0) query_evaluator.new [some ex_periodic_tank] 0
      ex_periodic_tank ex_util 0 ⟨86400, 1000⟩ [(510, 1000)] (500 + 86401) 1000
      (by decide) rfl (by decide) (by decide)⟩

/-- The example of claim C15: after a release of 1000 at time `c + 10` and a release of
1000 at `c + 86401`, with `P = 86400`, the state is `period_num = 1` and
`amount_released = 1000`. -/
theorem periodic_example :
    (periodic_release_history (ex_env 0) query_evaluator.new ex_util 0 ⟨86400, 1000⟩
        [(510, 1000), (500 + 86401, 1000)] ex_periodic_tank).bind
      (fun tank' => tank'.get_periodic_state (.requirement 1 0)) = .ok (some ⟨1, 1000⟩) := rfl

/-! ## C16, C17, C18: sources and paths of `release_to_connection` -/

/-- Claim C16 (fails on the code): on `ex_sources_db`, tank 2 accepts deposits only from
account 9. A release from tank 0 straight into tank 2 is refused, but the same release
into meter 0 of tank 1, which passes the asset on to tank 2, is deposited: tank 2 receives
100 although the connection preceding it in the flow, an attachment of tank 1, is neither
on tank 2 nor in its set of authorized sources. -/
theorem C16_source_check_skipped_behind_attachment :
    ex_sources_release (.attachment_id ⟨some 1, 0⟩) =
        .ok ([.tank_id 2, .tank_id 2], 100, 0) ∧
      (ex_sources_release (.tank_id 2)).toOption = none := ⟨rfl, rfl⟩

/-- The same for a restricted attachment: meter 0 of tank 3 accepts deposits only from
account 9; a release from tank 0 straight into it is refused, while the release that reaches
it through meter 1 of tank 1 passes and ends in tank 3. -/
theorem source_check_skipped_for_second_attachment :
    ex_sources_release (.attachment_id ⟨some 1, 1⟩) =
        .ok ([.attachment_id ⟨some 3, 0⟩, .tank_id 3, .tank_id 3], 0, 100) ∧
      (ex_sources_release (.attachment_id ⟨some 3, 0⟩)).toOption = none := ⟨rfl, rfl⟩

/-- Claim C17 (fails on the code): the path returned for a release from tank 0 into meter 0
of tank 1 (which releases to tank 2) is `[tank 2, tank 2]`: the connection argument is not
in it and the terminal connection is listed twice; through two attachments (meter 1 of
tank 1, then meter 0 of tank 3) it is `[meter 0 of tank 3, tank 3, tank 3]`. Only for a
terminal connection argument is the path the one-element path the claim describes. -/
theorem C17_path_omits_first_connection :
    (ex_sources_release (.attachment_id ⟨some 1, 0⟩)).map (fun r => r.1) =
        .ok [.tank_id 2, .tank_id 2] ∧
      (ex_sources_release (.attachment_id ⟨some 1, 1⟩)).map (fun r => r.1) =
        .ok [.attachment_id ⟨some 3, 0⟩, .tank_id 3, .tank_id 3] ∧
      (ex_sources_release (.tank_id 3)).map (fun r => r.1) = .ok [.tank_id 3] :=
  ⟨rfl, rfl, rfl⟩

/-- Claim C18 (fails on the code): whenever `release_to_connection` succeeds with a path
that ends at an account, the path handed to the fund-account callback is
`path.length + 1` default-constructed connections (`same_tank`), then the origin, then the
path. Its first element is `same_tank`, never the origin, and its length is
`2 * path.length + 2`, not `path.length + 1`. -/
theorem C18_asset_path_starts_with_defaults {σ : Type} (env : chain_env)
    (cbOpenTap : tap_id_type → asset_flow_limit → σ → Except tnt_error σ)
    (origin connection : connection) (amount : asset) (ctx ctx' : flow_context σ)
    (path : List TNT.connection) (account : account_id_type)
    (h : release_to_connection env cbOpenTap origin connection amount ctx = .ok (path, ctx'))
    (hacc : path.getLast? = some (.account_id account)) :
    ctx'.funded = ctx.funded ++ [⟨account, amount,
        List.replicate (path.length + 1) TNT.connection.same_tank ++ [origin] ++ path⟩] ∧
      (List.replicate (path.length + 1) TNT.connection.same_tank ++ [origin] ++ path).head? =
        some .same_tank ∧
      origin ≠ .same_tank ∧
      (List.replicate (path.length + 1) TNT.connection.same_tank ++ [origin] ++ path).length =
        2 * path.length + 2 := by
  have horigin : origin ≠ .same_tank := by
    intro hc
    unfold release_to_connection at h
    rw [if_pos hc] at h
    cases h
  refine ⟨?_, by simp [List.replicate_succ], horigin, by simp; omega⟩
  unfold release_to_connection at h
  rw [if_neg horigin] at h
  simp only [bind, Except.bind] at h
  split at h
  · cases h
  · rename_i res hloop
    obtain ⟨connection1, path1, current_tank, ctx1⟩ := res
    obtain ⟨_, hfund, _⟩ := release_loop_same_balances _ _ _ _ _ _ _ _ _ hloop
    simp only at h
    repeat' split at h
    all_goals first
      | (cases h; done)
      | (cases h; simp at hacc; done)
      | (cases h; simp at hacc; subst hacc; simp [hfund]; done)
      | (cases h; simp at hacc; simp_all)

theorem C18_witness :
    release_to_connection (ex_env 0) (fun _ _ (s : Unit) => .ok s) (.tank_id 1)
        (.account_id 7) ⟨30, 0⟩ ⟨ex_cascade_db, (), []⟩ =
      .ok ([.account_id 7], ex_fund_context) ∧
    [TNT.connection.account_id 7].getLast? = some (.account_id 7) ∧
    ex_fund_context.funded = [] ++ [⟨7, ⟨30, 0⟩,
        List.replicate ([TNT.connection.account_id 7].length + 1) TNT.connection.same_tank ++
          [.tank_id 1] ++ [.account_id 7]⟩] :=
  ⟨rfl, rfl,
    (C18_asset_path_starts_with_defaults (ex_env 0) (fun _ _ (s : Unit) => .ok s) (.tank_id 1)
      (.account_id 7) ⟨30, 0⟩ ⟨ex_cascade_db, (), []⟩ ex_fund_context [.account_id 7] 7
      rfl rfl).1⟩

/-! ## C19: the source tap of a flow -/

theorem tap_flow_loop_source_tap {env : chain_env} {qe : query_evaluator}
    {account : account_id_type} {tap_to_open : tap_id_type} {max_taps_to_open : Nat} :
    ∀ (fuel : Nat) (st st' : tap_flow_state),
      tap_flow_loop env qe account tap_to_open max_taps_to_open fuel st = .ok st' →
      (∀ f ∈ st.tap_flows, f.source_tap = tap_to_open) →
      ∀ f ∈ st'.tap_flows, f.source_tap = tap_to_open := by
  intro fuel
  induction fuel with
  | zero =>
    intro st st' h hst
    unfold tap_flow_loop at h
    split at h
    · cases h
      exact hst
    · cases h
  | succ n ih =>
    intro st st' h hst
    unfold tap_flow_loop at h
    split at h
    · cases h
      exact hst
    · simp only [bind] at h
      obtain ⟨st1, hstep, h⟩ := except_bind_ok h
      obtain ⟨_, _, r, _, path, _, _, _, _, _, hflows, _⟩ := tap_flow_step_inv hstep
      apply ih st1 st' h
      intro f hf
      rw [hflows] at hf
      rcases List.mem_append.mp hf with hin | hin
      · exact hst f hin
      · simp only [List.mem_singleton] at hin
        rw [hin]

/-- Claim C19 (fails on the code): every `tap_flow` that a successful `evaluate_tap_flow`
returns records the initially opened tap `tap_to_open` as its `source_tap`, also the
flows released by taps that an opener caused to open. -/
theorem C19_every_flow_records_tap_to_open (env : chain_env) (qe : query_evaluator)
    (db : tank_db) (account : account_id_type) (tap_to_open : tap_id_type)
    (flow_amount : asset_flow_limit) (max_taps_to_open : Nat) (st : tap_flow_state)
    (h : evaluate_tap_flow env qe db account tap_to_open flow_amount max_taps_to_open =
      .ok st) :
    ∀ f ∈ st.tap_flows, f.source_tap = tap_to_open := by
  unfold evaluate_tap_flow at h
  split at h
  · cases h
  · exact tap_flow_loop_source_tap _ _ st h (by simp)

/-- On `ex_cascade_db` the second flow, 30 paid to account 7, is released by tap 1 of
tank 1, the tap the opener on tank 1 points to (tap 1 of tank 0 is connected to that
opener and pays no account); it is recorded with tap 1 of tank 0 as its source. -/
theorem C19_witness :
    evaluate_tap_flow (ex_env 0) query_evaluator.new ex_cascade_db 5 ⟨some 0, 1⟩
        (.amount 200) 5 = .ok ex_cascade_state ∧
    (∀ f ∈ ex_cascade_state.tap_flows, f.source_tap = ⟨some 0, 1⟩) ∧
    ex_cascade_state.tap_flows =
      [⟨⟨200, 0⟩, ⟨some 0, 1⟩, [.tank_id 1, .tank_id 1]⟩,
       ⟨⟨30, 0⟩, ⟨some 0, 1⟩, [.account_id 7]⟩] :=
  ⟨rfl,
    C19_every_flow_records_tap_to_open (ex_env 0) query_evaluator.new ex_cascade_db 5
      ⟨some 0, 1⟩ (.amount 200) 5 ex_cascade_state rfl,
    rfl⟩

/-! ## C20: the asset check of `get_connection_chain` -/

/-- Claim C20 (fails on the code): on `ex_wrong_asset_db`, `get_connection_chain` with
expected asset 0 refuses tank 2 (which stores asset 5) as a direct connection, with
`bad_connection` and reason `receives_wrong_asset`, but returns the chain
`[meter 0 of tank 1, tank 2]` that ends at tank 2: the terminal connection behind an
attachment is not checked. `validate_tank` accepts the schematic whose tap 1 is connected
to that meter, and rejects the one whose tap 1 is connected to tank 2 directly. -/
theorem C20_terminal_asset_not_checked_behind_attachment :
    (⟨ex_wrong_asset_schematic, make_lookup ex_wrong_asset_db⟩ :
        lookup_utilities).get_connection_chain (.attachment_id ⟨some 1, 0⟩) 10 (some 0) =
      .chain ⟨[.attachment_id ⟨some 1, 0⟩, .tank_id 2], some 1⟩ ∧
    (⟨ex_wrong_asset_schematic, make_lookup ex_wrong_asset_db⟩ :
        lookup_utilities).get_connection_asset (.tank_id 2) = .asset_id 5 ∧
    (⟨ex_wrong_asset_schematic, make_lookup ex_wrong_asset_db⟩ :
        lookup_utilities).get_connection_chain (.tank_id 2) 10 (some 0) =
      .bad_connection .receives_wrong_asset (.tank_id 2) ∧
    ((tank_validator.new ex_wrong_asset_schematic 10 (make_lookup ex_wrong_asset_db)
        none).validate_tank ex_crypto).map (fun v => v.has_validated) = .ok true ∧
    ((tank_validator.new (ex_schematic (.tank_id 2) [] []) 10
        (make_lookup ex_wrong_asset_db) none).validate_tank ex_crypto).toOption.isNone =
      true :=
  ⟨rfl, rfl, rfl, rfl, rfl⟩

/-! ## C21: the length of a connection chain -/

theorem check_asset_not_chain (u : lookup_utilities) (asset_type : Option asset_id_type)
    (s : connection) (c : connection_chain) :
    u.check_asset asset_type s ≠ some (.chain c) := by
  unfold lookup_utilities.check_asset
  intro h
  split at h
  · cases h
  · split at h
    · cases h
    · cases h
    · split at h <;> cases h
    · cases h
    · cases h

/-- The loop invariant of `get_connection_chain`: the chain is `pre ++ [last]`, and every
pass that appends a connection uses up one unit of `remaining`. -/
theorem chain_loop_length (u : lookup_utilities) (asset_type : Option asset_id_type) :
    ∀ (remaining : Nat) (s last : connection) (pre : List connection)
      (final : Option tank_id_type) (c : connection_chain),
      u.chain_loop asset_type remaining s last ⟨pre ++ [last], final⟩ = .chain c →
      c.connections.length ≤ pre.length + 1 + remaining ∧
        attachments_followed c.connections ≤ attachments_followed pre + remaining := by
  intro remaining
  induction remaining with
  | zero =>
    intro s last pre final c h
    unfold lookup_utilities.chain_loop at h
    cases last <;> simp only at h
    all_goals first
      | cases h
      | (split at h
         · rename_i heq
           rw [h] at heq
           exact absurd heq (check_asset_not_chain _ _ _ _)
         · cases h
           simp [attachments_followed, is_terminal_connection, List.filter_append])
  | succ n ih =>
    intro s last pre final c h
    unfold lookup_utilities.chain_loop at h
    cases last with
    | attachment_id att =>
      simp only at h
      split at h
      · cases h
      · cases h
      · cases h
      · rename_i next _
        split at h
        · rename_i heq
          rw [h] at heq
          exact absurd heq (check_asset_not_chain _ _ _ _)
        · have := ih _ _ (pre ++ [connection.attachment_id att]) _ c h
          simp [attachments_followed, is_terminal_connection, List.filter_append] at this ⊢
          omega
    | _ =>
      simp only at h
      split at h
      · rename_i heq
        rw [h] at heq
        exact absurd heq (check_asset_not_chain _ _ _ _)
      · cases h
        simp [attachments_followed, is_terminal_connection, List.filter_append]

theorem get_connection_chain_length (u : lookup_utilities) (s : connection)
    (max_chain_length : Nat) (asset_type : Option asset_id_type) (c : connection_chain)
    (h : u.get_connection_chain s max_chain_length asset_type = .chain c) :
    c.connections.length ≤ max_chain_length + 1 ∧
      attachments_followed c.connections ≤ max_chain_length := by
  unfold lookup_utilities.get_connection_chain at h
  split at h
  · rename_i heq
    rw [h] at heq
    exact absurd heq (check_asset_not_chain _ _ _ _)
  · have := chain_loop_length u asset_type max_chain_length s s [] none c h
    simpa [attachments_followed, Nat.add_comm] using this

/-! ### What a successful `validate_tank` has checked -/

theorem same_subject_refl (v : tank_validator) : same_subject v v := ⟨rfl, rfl, rfl⟩

theorem same_subject_trans {a b c : tank_validator} (h1 : same_subject a b)
    (h2 : same_subject b c) : same_subject a c :=
  ⟨h2.1.trans h1.1, h2.2.1.trans h1.2.1, h2.2.2.trans h1.2.2⟩

theorem validate_attachment_frame {v v1 : tank_validator} {id : index_type}
    (h : v.validate_attachment id = .ok v1) : same_subject v v1 := by
  unfold tank_validator.validate_attachment at h
  simp only [bind, Except.bind, vfail] at h
  repeat' split at h
  all_goals first | (cases h; exact ⟨rfl, rfl, rfl⟩) | cases h

theorem validate_attachments_frame :
    ∀ (l : List (index_type × tank_attachment)) (seen : List Nat) (v v1 : tank_validator),
      v.validate_attachments l seen = .ok v1 → same_subject v v1 := by
  intro l
  induction l with
  | nil =>
    intro seen v v1 h
    cases h
    exact same_subject_refl _
  | cons p rest ih =>
    intro seen v v1 h
    obtain ⟨id, att⟩ := p
    unfold tank_validator.validate_attachments at h
    split at h
    · cases h
    · obtain ⟨v2, h2, h3⟩ := except_bind_ok h
      exact same_subject_trans (validate_attachment_frame h2) (ih _ _ _ h3)

theorem validate_tap_requirement_frame {v v1 : tank_validator} {cr : crypto_env}
    {tap_id i : index_type} (h : v.validate_tap_requirement cr tap_id i = .ok v1) :
    same_subject v v1 := by
  unfold tank_validator.validate_tap_requirement at h
  simp only [bind, Except.bind, vfail] at h
  repeat' split at h
  all_goals first | (cases h; exact ⟨rfl, rfl, rfl⟩) | cases h

theorem validate_requirements_frame (cr : crypto_env) (tap_id : index_type) :
    ∀ (l : List tap_requirement) (i : index_type) (seen : List Nat) (v v1 : tank_validator),
      v.validate_requirements cr tap_id l i seen = .ok v1 → same_subject v v1 := by
  intro l
  induction l with
  | nil =>
    intro i seen v v1 h
    cases h
    exact same_subject_refl _
  | cons p rest ih =>
    intro i seen v v1 h
    unfold tank_validator.validate_requirements at h
    split at h
    · cases h
    · obtain ⟨v2, h2, h3⟩ := except_bind_ok h
      exact same_subject_trans (validate_tap_requirement_frame h2) (ih _ _ _ _ h3)

theorem check_tap_connection_congr {v v1 : tank_validator} (h : same_subject v v1)
    (tap_id : index_type) : v1.check_tap_connection tap_id = v.check_tap_connection tap_id := by
  unfold tank_validator.check_tap_connection
  rw [h.1, h.2.1]

/-- A successful `validate_tap` has run `check_tap_connection` on the tap. -/
theorem validate_tap_inv {v v1 : tank_validator} {cr : crypto_env} {tap_id : index_type}
    (h : v.validate_tap cr tap_id = .ok v1) :
    same_subject v v1 ∧ v.check_tap_connection tap_id = .ok () := by
  unfold tank_validator.validate_tap at h
  obtain ⟨tp, _, h⟩ := except_bind_ok h
  split at h
  · obtain ⟨v2, h2, h⟩ := except_bind_ok h
    obtain ⟨u, h3, h⟩ := except_bind_ok h
    cases h
    have hf := validate_requirements_frame _ _ _ _ _ _ _ h2
    refine ⟨hf, ?_⟩
    rw [← check_tap_connection_congr hf]
    exact h3
  · cases h

theorem validate_taps_inv (cr : crypto_env) :
    ∀ (l : List (index_type × tap)) (v v1 : tank_validator),
      v.validate_taps cr l = .ok v1 →
      same_subject v v1 ∧ ∀ p ∈ l, v.check_tap_connection p.1 = .ok () := by
  intro l
  induction l with
  | nil =>
    intro v v1 h
    cases h
    exact ⟨same_subject_refl _, by simp⟩
  | cons p rest ih =>
    intro v v1 h
    obtain ⟨id, t⟩ := p
    unfold tank_validator.validate_taps at h
    obtain ⟨v2, h2, h3⟩ := except_bind_ok h
    obtain ⟨hf, hc⟩ := validate_tap_inv h2
    obtain ⟨hf2, hall⟩ := ih _ _ h3
    refine ⟨same_subject_trans hf hf2, ?_⟩
    intro q hq
    rcases List.mem_cons.1 hq with rfl | hq
    · exact hc
    · rw [← check_tap_connection_congr hf]
      exact hall q hq

theorem amap_find_mem {κ β : Type} [DecidableEq κ] :
    ∀ (m : List (κ × β)) (key : κ) (b : β), amap_find m key = some b → (key, b) ∈ m := by
  intro m
  induction m with
  | nil => intro key b h; cases h
  | cons p rest ih =>
    intro key b h
    obtain ⟨k, w⟩ := p
    unfold amap_find at h
    split at h
    · rename_i hk
      cases h
      subst hk
      exact List.mem_cons_self _ _
    · exact List.mem_cons_of_mem _ (ih _ _ h)

/-- The parts of a successful `validate_tank`: the emergency tap check and the connection
check of every tap, on the validator as it was constructed. -/
theorem validate_tank_inv {v v' : tank_validator} {cr : crypto_env}
    (h : v.validate_tank cr = .ok v') :
    v.validate_emergency_tap = .ok () ∧
      (∀ p ∈ v.utils.current_tank.taps, v.check_tap_connection p.1 = .ok ()) ∧
      same_subject v v' := by
  unfold tank_validator.validate_tank at h
  obtain ⟨v1, h1, h⟩ := except_bind_ok h
  obtain ⟨u, h2, h⟩ := except_bind_ok h
  obtain ⟨v2, h3, h⟩ := except_bind_ok h
  cases h
  have hf := validate_attachments_frame _ _ _ _ h1
  obtain ⟨hf2, hall⟩ := validate_taps_inv cr _ _ _ h3
  refine ⟨?_, ?_, ?_⟩
  · unfold tank_validator.validate_emergency_tap at h2 ⊢
    rw [← hf.1]
    exact h2
  · intro p hp
    rw [← check_tap_connection_congr hf]
    apply hall
    rw [hf.1]
    exact hp
  · have := same_subject_trans hf hf2
    exact ⟨this.1, this.2.1, this.2.2⟩

/-- A connected tap passes `check_tap_connection` only when its chain is returned. -/
theorem check_tap_connection_chain {v : tank_validator} {tap_id : index_type} {tp : tap}
    {s : connection} (h : v.check_tap_connection tap_id = .ok ())
    (htp : amap_find v.utils.current_tank.taps tap_id = some tp)
    (hs : tp.connected_connection = some s) :
    ∃ c, v.utils.get_connection_chain s v.max_connection_chain_length
      (some v.utils.current_tank.asset_type) = .chain c := by
  unfold tank_validator.check_tap_connection at h
  simp only [tank_schematic.get_tap, htp, bind, Except.bind, hs, vfail] at h
  split at h
  all_goals first | exact ⟨_, by assumption⟩ | cases h

/-- Claim C21, amended: a chain returned by `get_connection_chain(start, max_chain_length,
...)` has at most `max_chain_length + 1` connections, of which at most `max_chain_length`
are attachments (connections followed to a further one); hence every connected tap of a
schematic accepted by `validate_tank` has such a chain for the validator's
`max_connection_chain_length`. -/
theorem C21_chain_length_bound :
    (∀ (u : lookup_utilities) (s : connection) (max_chain_length : Nat)
        (asset_type : Option asset_id_type) (c : connection_chain),
        u.get_connection_chain s max_chain_length asset_type = .chain c →
        c.connections.length ≤ max_chain_length + 1 ∧
          attachments_followed c.connections ≤ max_chain_length) ∧
    (∀ (v v' : tank_validator) (cr : crypto_env) (tap_id : index_type) (tp : tap)
        (s : connection),
        v.validate_tank cr = .ok v' →
        amap_find v.utils.current_tank.taps tap_id = some tp →
        tp.connected_connection = some s →
        ∃ c, v.utils.get_connection_chain s v.max_connection_chain_length
              (some v.utils.current_tank.asset_type) = .chain c ∧
          c.connections.length ≤ v.max_connection_chain_length + 1 ∧
          attachments_followed c.connections ≤ v.max_connection_chain_length) := by
  refine ⟨get_connection_chain_length, ?_⟩
  intro v v' cr tap_id tp s h htp hs
  obtain ⟨_, hall, _⟩ := validate_tank_inv h
  obtain ⟨c, hc⟩ := check_tap_connection_chain (hall _ (amap_find_mem _ _ _ htp)) htp hs
  exact ⟨c, hc, get_connection_chain_length _ _ _ _ _ hc⟩

/-- The bound of C21 on `ex_chain_schematic` with `max_connection_chain_length = 1`: the
chain of tap 1 is returned and validation succeeds. -/
theorem C21_witness :
    (∃ c, (lookup_utilities.mk ex_chain_schematic none).get_connection_chain
          (.attachment_id ⟨none, 0⟩) 1 (some 0) = .chain c ∧
        c.connections.length ≤ 1 + 1 ∧ attachments_followed c.connections ≤ 1) ∧
      ∃ c, (lookup_utilities.mk ex_chain_schematic none).get_connection_chain
          (.attachment_id ⟨none, 0⟩) 1 (some 0) = .chain c ∧
        c.connections.length ≤ 1 + 1 ∧ attachments_followed c.connections ≤ 1 :=
  ⟨⟨_, rfl, C21_chain_length_bound.1 (lookup_utilities.mk ex_chain_schematic none)
      (.attachment_id ⟨none, 0⟩) 1 (some 0) _ rfl⟩,
    C21_chain_length_bound.2 (tank_validator.new ex_chain_schematic 1 none none)
      { tank_validator.new ex_chain_schematic 1 none none with
        has_validated := true, attachment_counters := [(0, 1)] }
      ex_crypto 1 (ex_tap (.attachment_id ⟨none, 0⟩) []) (.attachment_id ⟨none, 0⟩)
      rfl rfl rfl⟩

/-- Claim C21 as stated fails: with `max_chain_length = 1` the chain of tap 1 of
`ex_chain_schematic`, meter 0 followed by account 7, is returned with 2 connections, and
`validate_tank` with `max_connection_chain_length = 1` accepts the schematic. -/
theorem C21_counterexample :
    (lookup_utilities.mk ex_chain_schematic none).get_connection_chain
        (.attachment_id ⟨none, 0⟩) 1 (some 0) =
      .chain ⟨[.attachment_id ⟨none, 0⟩, .account_id 7], none⟩ ∧
    ¬ ([connection.attachment_id ⟨none, 0⟩, connection.account_id 7].length ≤ 1) ∧
    ((tank_validator.new ex_chain_schematic 1 none none).validate_tank ex_crypto).toOption.map
      (fun v => v.has_validated) = some true :=
  ⟨rfl, by decide, rfl⟩

/-! ## C22: destination tanks that restrict their sources -/

/-- Claim C22 (fails on the code): tap 1 of `ex_restricted_path_schematic` is connected to
meter 0 of tank 1, whose chain ends at tank 2; tank 2 accepts deposits only from account 9,
and the connection before it in the chain, an attachment of tank 1, is neither in that set
nor on tank 2. A validator that knows the database and the tank's own id accepts the
schematic. -/
theorem C22_restricted_destination_accepted :
    (lookup_utilities.mk ex_restricted_path_schematic (make_lookup ex_sources_db)).get_connection_chain
        (.attachment_id ⟨some 1, 0⟩) 10 (some 0) =
      .chain ⟨[.attachment_id ⟨some 1, 0⟩, .tank_id 2], some 1⟩ ∧
    (ex_sources_db.get_tank 2).toOption.map (fun t => t.schematic.remote_sources) =
      some (.sources [.account_id 9]) ∧
    ((tank_validator.new ex_restricted_path_schematic 10 (make_lookup ex_sources_db)
        (some 0)).validate_tank ex_crypto).toOption.map (fun v => v.has_validated) =
      some true :=
  ⟨rfl, rfl, rfl⟩

/-! ## C23: a tank listed among the sources of its own meter -/

/-- The checker itself refuses both sources once it is given the tank's id. -/
theorem internal_attachment_checker_with_id :
    (internal_attachment_checker (some 5)
        (.asset_flow_meter ⟨0, .account_id 7, .sources [.tank_id 5], none⟩)).toOption = none ∧
    (internal_attachment_checker (some 5)
        (.asset_flow_meter ⟨0, .account_id 7, .sources [.attachment_id ⟨some 5, 0⟩], none⟩)).toOption
      = none := ⟨rfl, rfl⟩

/-- Claim C23 (fails on the code): meter 0 of `ex_self_source_schematic` lists tank 5 and an
attachment of tank 5 among its authorized sources; a validator constructed for tank 5
accepts the schematic. -/
theorem C23_own_tank_source_accepted :
    ((tank_validator.new ex_self_source_schematic 10 (make_lookup ex_sources_db)
        (some 5)).validate_tank ex_crypto).toOption.map
      (fun v => (v.has_validated, v.tank_id)) = some (true, some 5) := rfl

/-! ## C24: the emergency tap -/

theorem check_authority_ok {auth : authority} (h : check_authority auth = .ok ()) :
    auth.null = false ∧ auth.impossible = false := by
  unfold check_authority at h
  split at h
  · cases h
  · split at h
    · cases h
    · constructor
      · simpa using ‹¬ auth.null = true›
      · simpa using ‹¬ auth.impossible = true›

theorem validate_emergency_tap_static_ok {etap : tap}
    (h : validate_emergency_tap_static etap = .ok ()) :
    etap.requirements = [] ∧
      (∃ a, etap.open_authority = some a ∧ 0 < a.weight_threshold ∧ a.null = false ∧
        a.impossible = false) ∧
      (∃ a, etap.connect_authority = some a ∧ a.null = false ∧ a.impossible = false) ∧
      etap.destructor_tap = true := by
  unfold validate_emergency_tap_static at h
  split at h
  · cases h
  · rename_i hreq
    split at h
    · cases h
    · rename_i open_authority hopen
      split at h
      · rename_i hw
        obtain ⟨_, ho, h⟩ := except_bind_ok h
        split at h
        · cases h
        · rename_i connect_authority hconnect
          obtain ⟨_, hc, h⟩ := except_bind_ok h
          split at h
          · rename_i hd
            refine ⟨?_, ⟨_, hopen, hw, check_authority_ok ho⟩,
              ⟨_, hconnect, check_authority_ok hc⟩, hd⟩
            simpa using hreq
          · cases h
      · cases h

/-- Claim C24, amended: `validate_tank` succeeds only if tap 0 exists, has no requirements,
has an open authority that is set, has a positive weight threshold and is neither null nor
impossible, has a connect authority that is set and is neither null nor impossible, and has
`destructor_tap = true`. -/
theorem C24_emergency_tap_checks (v v' : tank_validator) (cr : crypto_env)
    (h : v.validate_tank cr = .ok v') :
    ∃ etap, amap_find v.utils.current_tank.taps 0 = some etap ∧ etap.requirements = [] ∧
      (∃ a, etap.open_authority = some a ∧ 0 < a.weight_threshold ∧ a.null = false ∧
        a.impossible = false) ∧
      (∃ a, etap.connect_authority = some a ∧ a.null = false ∧ a.impossible = false) ∧
      etap.destructor_tap = true := by
  obtain ⟨he, _, _⟩ := validate_tank_inv h
  unfold tank_validator.validate_emergency_tap at he
  split at he
  · cases he
  · rename_i etap hfind
    exact ⟨etap, hfind, validate_emergency_tap_static_ok he⟩

/-- The statement of C24 on `ex_schematic`, which `validate_tank` accepts. -/
theorem C24_witness :
    ∃ etap, amap_find (ex_schematic (.account_id 7) [] []).taps 0 = some etap ∧
      etap.requirements = [] ∧
      (∃ a, etap.open_authority = some a ∧ 0 < a.weight_threshold ∧ a.null = false ∧
        a.impossible = false) ∧
      (∃ a, etap.connect_authority = some a ∧ a.null = false ∧ a.impossible = false) ∧
      etap.destructor_tap = true :=
  C24_emergency_tap_checks (tank_validator.new (ex_schematic (.account_id 7) [] []) 10 none none)
    { tank_validator.new (ex_schematic (.account_id 7) [] []) 10 none none with
      has_validated := true }
    ex_crypto rfl

/-- Claim C24 as stated fails: `validate_tank` accepts `ex_trivial_connect_schematic`, whose
emergency tap has a connect authority with weight threshold 0. -/
theorem C24_counterexample :
    ((tank_validator.new ex_trivial_connect_schematic 10 none none).validate_tank
        ex_crypto).toOption.map (fun v => v.has_validated) = some true ∧
    (amap_find ex_trivial_connect_schematic.taps 0).map
        (fun t => t.connect_authority.map (fun a => a.weight_threshold)) = some (some 0) :=
  ⟨rfl, rfl⟩

/-! ## C25: the emergency tap after `tap_connect` -/

/-- Claim C25 (fails on the code): `ex_create_op` creates tank 0 on `ex_database`, and
`ex_connect_op`, a valid `tap_connect` on its emergency tap that clears the connect
authority, evaluates and applies; afterwards tap 0 of the stored tank has no connect
authority, `validate_tank` refuses the stored schematic, and the update `ex_update_op`,
which `tank_update_evaluator` accepted before the reconnection, is refused. -/
theorem C25_tap_connect_clears_emergency_authority :
    (tank_create_evaluator.do_evaluate ex_database ex_create_op).toOption.isSome = true ∧
    ex_connect_op.validate = .ok () ∧
    ex_connected.toOption.map (fun d => (d.tanks.get_tank 0).toOption.map
      (fun t => (amap_find t.schematic.taps 0).map (fun tp => tp.connect_authority))) =
      some (some (some none)) ∧
    ex_connected.toOption.map (fun d => (d.tanks.get_tank 0).toOption.map
      (fun t => ((tank_validator.new t.schematic 10 (make_lookup d.tanks)
        (some 0)).validate_tank ex_crypto).toOption.isSome)) = some (some false) ∧
    (tank_update_evaluator.do_evaluate ex_created (ex_update_op (-110))).toOption.isSome
      = true ∧
    ex_connected.toOption.map (fun d =>
      (tank_update_evaluator.do_evaluate d (ex_update_op (-110))).toOption.isSome) =
      some false :=
  ⟨rfl, rfl, rfl, rfl, rfl, rfl⟩

/-! ## C26: a request limit of zero -/

/-- With `request_limit = 0`, `create_request_for_review` is refused whenever the
requirement has state, whatever the number of pending requests. -/
theorem create_review_request_refused (env : chain_env) (db : tank_db)
    (tank_id : tank_id_type) (tank : tank_object) (t r : index_type)
    (amount : asset_flow_limit) (comment : Option String) (req : review_requirement)
    (st : review_state) (hreq : get_review_target tank.schematic t r = .ok req)
    (hlimit : req.request_limit = 0)
    (hst : tank.get_review_state (.requirement t r) = .ok (some st)) :
    (evaluate_one env db tank_id tank
      (.create_request_for_review t r amount comment)).toOption = none := by
  simp only [evaluate_one, bind, Except.bind, hreq, hst, hlimit]
  cases tap_open_authority tank.schematic t <;> simp [Except.toOption]

/-- The same for `create_request_for_delay`. -/
theorem create_delay_request_refused (env : chain_env) (db : tank_db)
    (tank_id : tank_id_type) (tank : tank_object) (t r : index_type)
    (amount : asset_flow_limit) (comment : Option String) (req : delay_requirement)
    (st : delay_state) (hreq : get_delay_target tank.schematic t r = .ok req)
    (hlimit : req.request_limit = 0)
    (hst : tank.get_delay_state (.requirement t r) = .ok (some st)) :
    (evaluate_one env db tank_id tank
      (.create_request_for_delay t r amount comment)).toOption = none := by
  simp only [evaluate_one, bind, Except.bind, hreq, hst, hlimit]
  cases tap_open_authority tank.schematic t <;> simp [Except.toOption]

/-- Claim C26 (fails on the code): on `ex_review_tank` and `ex_unlimited_delay_tank`, whose
requirements have `request_limit = 0`, the first request is accepted and, applied, creates
the state with one pending request; on the resulting tank a second request is refused, as
it is when the state exists with no pending request at all. -/
theorem C26_zero_request_limit_refuses_requests :
    (evaluate_one (ex_env 100) [] 0 (ex_review_tank [])
      (.create_request_for_review 1 0 (.amount 50) none)).toOption = some [ex_auth 2] ∧
    (apply_one (ex_env 100) (ex_review_tank [])
      (.create_request_for_review 1 0 (.amount 50) none)).toOption =
      some (ex_review_tank
        [(.requirement 1 0, .review ⟨1, [(0, ⟨.amount 50, none, false⟩)]⟩)]) ∧
    (evaluate_one (ex_env 100) [] 0
      (ex_review_tank [(.requirement 1 0, .review ⟨1, [(0, ⟨.amount 50, none, false⟩)]⟩)])
      (.create_request_for_review 1 0 (.amount 50) none)).toOption = none ∧
    (evaluate_one (ex_env 100) [] 0 (ex_review_tank [(.requirement 1 0, .review ⟨1, []⟩)])
      (.create_request_for_review 1 0 (.amount 50) none)).toOption = none ∧
    (evaluate_one (ex_env 100) [] 0 (ex_unlimited_delay_tank [])
      (.create_request_for_delay 1 0 (.amount 50) none)).toOption = some [ex_auth 2] ∧
    (apply_one (ex_env 100) (ex_unlimited_delay_tank [])
      (.create_request_for_delay 1 0 (.amount 50) none)).toOption =
      some (ex_unlimited_delay_tank
        [(.requirement 1 0, .delay ⟨1, [(0, ⟨160, .amount 50, none⟩)]⟩)]) ∧
    (evaluate_one (ex_env 100) [] 0
      (ex_unlimited_delay_tank [(.requirement 1 0, .delay ⟨1, [(0, ⟨160, .amount 50, none⟩)]⟩)])
      (.create_request_for_delay 1 0 (.amount 50) none)).toOption = none :=
  ⟨rfl, rfl, rfl, rfl, rfl, rfl, rfl⟩

/-! ## C27: evaluation after application -/

/-- The flag `has_applied` is false in every evaluator that `evaluate_query` returns. -/
theorem evaluate_query_has_applied {qe qe1 : query_evaluator} {env : chain_env}
    {db : tank_db} {query : tank_query_type} {auths : List authority}
    (h : qe.evaluate_query env db query = .ok (auths, qe1)) : qe1.has_applied = false := by
  unfold query_evaluator.evaluate_query at h
  split at h
  · rename_i hq
    split at h
    · cases h
    · obtain ⟨a, _, h⟩ := except_bind_ok h
      cases h
      unfold query_evaluator.record_query
      split <;> exact hq
  · cases h

/-- Claim C27 (fails on the code): the evaluator `ex_review_qe` has evaluated one query;
`apply_queries` applies it to the tank, and a later `evaluate_query` on the same evaluator
succeeds, adding a second evaluator to the list, because `has_applied` is still false. -/
theorem C27_evaluate_after_apply_succeeds :
    ex_review_qe.toOption.map (fun qe => (qe.has_applied, qe.evaluators.length)) =
      some (false, 1) ∧
    (ex_review_qe.bind (fun qe => qe.apply_queries (ex_env 100) (ex_review_tank []))).toOption =
      some (ex_review_tank
        [(.requirement 1 0, .review ⟨1, [(0, ⟨.amount 50, none, false⟩)]⟩)]) ∧
    (ex_review_qe.bind (fun qe => qe.evaluate_query (ex_env 100) [some (ex_review_tank [])]
        (.create_request_for_review 1 0 (.amount 70) none))).toOption.map
      (fun r => (r.1, r.2.has_applied, r.2.evaluators.length)) =
      some ([ex_auth 2], false, 2) :=
  ⟨rfl, rfl, rfl⟩

/-! ## C30: IDs both removed and replaced -/

/-- Claim C30 (fails on the code): `ex_remove_replace_op` replaces attachment 1 and removes
attachments 2 and 1, listed in this order in the vector `attachments_to_remove`; the
intersection computed by `set_intersection` is empty and `validate` accepts the operation.
With the same IDs listed as 1, 2 the operation is refused, and so is the like operation on
taps. -/
theorem C30_unsorted_removal_accepted :
    set_intersection (ex_remove_replace_op.attachments_to_replace.map Prod.fst)
      ex_remove_replace_op.attachments_to_remove = [] ∧
    ex_remove_replace_op.validate ⟨1, 0⟩ ex_crypto = .ok () ∧
    ({ ex_remove_replace_op with attachments_to_remove := [1, 2] }.validate ⟨1, 0⟩
      ex_crypto).toOption = none ∧
    ({ ex_remove_replace_op with
        attachments_to_remove := [], attachments_to_replace := [],
        taps_to_remove := [1, 2],
        taps_to_replace := [(2, ex_tap (.account_id 7) [])] }.validate ⟨1, 0⟩
      ex_crypto).toOption = none :=
  ⟨rfl, rfl, rfl, rfl⟩

theorem set_intersection_scan_mem (a : index_type) (rest : List index_type)
    (k : List index_type → List index_type) (x : index_type)
    (hk : ∀ l2 : List index_type, l2.Pairwise (· < ·) → x ∈ rest → x ∈ l2 → x ∈ k l2)
    (h1 : (a :: rest).Pairwise (· < ·)) :
    ∀ l2 : List index_type, l2.Pairwise (· < ·) → x ∈ a :: rest → x ∈ l2 →
      x ∈ set_intersection_scan a k l2 := by
  intro l2
  induction l2 with
  | nil => intro _ _ h; cases h
  | cons b bs ih =>
    intro h2 hx1 hx2
    have ha := (List.pairwise_cons.1 h1).1
    have hb := (List.pairwise_cons.1 h2).1
    unfold set_intersection_scan
    split
    · rename_i hab
      rcases List.mem_cons.1 hx1 with rfl | hx1
      · rcases List.mem_cons.1 hx2 with rfl | hx2
        · exact absurd hab (Nat.lt_irrefl _)
        · exact absurd (Nat.lt_trans hab (hb _ hx2)) (Nat.lt_irrefl _)
      · exact hk _ h2 hx1 hx2
    · split
      · rename_i hba
        rcases List.mem_cons.1 hx2 with rfl | hx2
        · rcases List.mem_cons.1 hx1 with rfl | hx1
          · exact absurd hba (Nat.lt_irrefl _)
          · exact absurd (Nat.lt_trans hba (ha _ hx1)) (Nat.lt_irrefl _)
        · exact ih (List.pairwise_cons.1 h2).2 hx1 hx2
      · rename_i hab hba
        have hab' : a = b := Nat.le_antisymm (Nat.le_of_not_lt hba) (Nat.le_of_not_lt hab)
        subst hab'
        rcases List.mem_cons.1 hx1 with rfl | hx1
        · exact List.mem_cons_self _ _
        · rcases List.mem_cons.1 hx2 with rfl | hx2
          · exact List.mem_cons_self _ _
          · exact List.mem_cons_of_mem _ (hk _ (List.pairwise_cons.1 h2).2 hx1 hx2)

/-- On two ranges in strictly increasing order, `set_intersection` outputs every common
element. -/
theorem set_intersection_mem :
    ∀ (l1 l2 : List index_type), l1.Pairwise (· < ·) → l2.Pairwise (· < ·) →
      ∀ x, x ∈ l1 → x ∈ l2 → x ∈ set_intersection l1 l2 := by
  intro l1
  induction l1 with
  | nil => intro _ _ _ x h; cases h
  | cons a rest ih =>
    intro l2 h1 h2 x hx1 hx2
    unfold set_intersection
    exact set_intersection_scan_mem a rest _ x
      (fun l2 h2 hr hl => ih l2 (List.pairwise_cons.1 h1).2 h2 x hr hl) h1 l2 h2 hx1 hx2

/-- The part of C30 that holds: when the removed and the replaced IDs are each in strictly
increasing order, as the elements of a `flat_set` and the keys of a `flat_map` are, an ID in
both makes `validate` fail; for attachments this needs the vector
`attachments_to_remove` to be in that order. -/
theorem removed_and_replaced_refused (o : tank_update_operation) (fee : asset)
    (cr : crypto_env) (x : index_type)
    (h : (x ∈ o.taps_to_remove ∧ x ∈ o.taps_to_replace.map Prod.fst ∧
          o.taps_to_remove.Pairwise (· < ·) ∧
          (o.taps_to_replace.map Prod.fst).Pairwise (· < ·)) ∨
        (x ∈ o.attachments_to_remove ∧ x ∈ o.attachments_to_replace.map Prod.fst ∧
          o.attachments_to_remove.Pairwise (· < ·) ∧
          (o.attachments_to_replace.map Prod.fst).Pairwise (· < ·))) :
    (o.validate fee cr).toOption = none := by
  have key : (set_intersection (o.taps_to_replace.map Prod.fst) o.taps_to_remove).isEmpty
        = false ∨
      (set_intersection (o.attachments_to_replace.map Prod.fst)
        o.attachments_to_remove).isEmpty = false := by
    rcases h with ⟨h1, h2, h3, h4⟩ | ⟨h1, h2, h3, h4⟩
    · left
      have := set_intersection_mem _ _ h4 h3 x h2 h1
      cases hs : set_intersection (o.taps_to_replace.map Prod.fst) o.taps_to_remove with
      | nil => rw [hs] at this; cases this
      | cons _ _ => rfl
    · right
      have := set_intersection_mem _ _ h4 h3 x h2 h1
      cases hs : set_intersection (o.attachments_to_replace.map Prod.fst)
          o.attachments_to_remove with
      | nil => rw [hs] at this; cases this
      | cons _ _ => rfl
  unfold tank_update_operation.validate
  simp only [bind, Except.bind, pure, Except.pure, ofail]
  by_cases c1 : fee.amount > 0 <;> simp only [c1, if_true, if_false] <;> try rfl
  by_cases c2 : o.taps_to_remove.contains 0 = true <;> simp only [c2, if_true, if_false] <;>
    try rfl
  by_cases c3 : o.update_authority.impossible = true <;>
    simp only [c3, if_true, if_false] <;> try rfl
  by_cases c4 : o.update_authority.null = true <;> simp only [c4, if_true, if_false] <;>
    try rfl
  by_cases c5 : o.update_authority.weight_threshold > 0 <;>
    simp only [c5, if_true, if_false] <;> try rfl
  rcases key with k | k
  · simp only [k]
    rfl
  · simp only [k]
    repeat' split
    all_goals rfl

/-! ## C28: authority closure -/

theorem used_required_mono {c : auth_usage_checker} {R S : authority → Prop}
    (h : used_required c R) (hRS : ∀ a, R a → S a) : used_required c S :=
  ⟨h.1, fun i hi => let ⟨a, ha, hr⟩ := h.2 i hi; ⟨a, ha, hRS a hr⟩⟩

theorem require_auth_inv {c c1 : auth_usage_checker} {auth : authority}
    {R : authority → Prop} (h : c.require_auth auth = .ok c1) (hinv : used_required c R) :
    c1.declared_auths = c.declared_auths ∧ auth ∈ c.declared_auths ∧
      used_required c1 (fun a => R a ∨ a = auth) := by
  unfold auth_usage_checker.require_auth at h
  simp only at h
  split at h
  · rename_i hlt
    cases h
    have hmem : auth ∈ c.declared_auths := List.indexOf_lt_length.1 hlt
    refine ⟨rfl, hmem, ?_⟩
    have hget : c.declared_auths[c.declared_auths.indexOf auth]? = some auth := by
      rw [List.getElem?_eq_getElem hlt]
      simp
    split
    · exact used_required_mono hinv (fun a h => Or.inl h)
    · rename_i hnc
      constructor
      · simp only
        rw [List.nodup_append]
        refine ⟨hinv.1, List.nodup_singleton _, ?_⟩
        intro i hi hi'
        rw [List.mem_singleton] at hi'
        subst hi'
        simp at hnc
        exact hnc hi
      · intro i hi
        simp only at hi
        rcases List.mem_append.1 hi with hi | hi
        · obtain ⟨a, ha, hr⟩ := hinv.2 i hi
          exact ⟨a, ha, Or.inl hr⟩
        · rw [List.mem_singleton] at hi
          subst hi
          exact ⟨auth, hget, Or.inr rfl⟩
  · cases h

theorem require_auths_inv :
    ∀ (auths : List authority) (c c1 : auth_usage_checker) (R : authority → Prop),
      c.require_auths auths = .ok c1 → used_required c R →
      c1.declared_auths = c.declared_auths ∧ (∀ a ∈ auths, a ∈ c.declared_auths) ∧
        used_required c1 (fun a => R a ∨ a ∈ auths) := by
  intro auths
  induction auths with
  | nil =>
    intro c c1 R h hinv
    cases h
    exact ⟨rfl, by simp, used_required_mono hinv (fun a h => Or.inl h)⟩
  | cons auth rest ih =>
    intro c c1 R h hinv
    unfold auth_usage_checker.require_auths at h
    obtain ⟨c2, h2, h3⟩ := except_bind_ok h
    obtain ⟨hd, hm, hi⟩ := require_auth_inv h2 hinv
    obtain ⟨hd2, hm2, hi2⟩ := ih _ _ _ h3 hi
    refine ⟨hd2.trans hd, ?_, ?_⟩
    · intro a ha
      rcases List.mem_cons.1 ha with rfl | ha
      · exact hm
      · rw [← hd]; exact hm2 a ha
    · refine used_required_mono hi2 ?_
      intro a ha
      rcases ha with (ha | ha) | ha
      · exact Or.inl ha
      · exact Or.inr (ha ▸ List.mem_cons_self _ _)
      · exact Or.inr (List.mem_cons_of_mem _ ha)

theorem evaluate_query_inv {qe qe1 : query_evaluator} {env : chain_env} {db : tank_db}
    {query : tank_query_type} {auths : List authority} {tank_id : tank_id_type}
    {tank : tank_object} (h : qe.evaluate_query env db query = .ok (auths, qe1))
    (hq : qe.query_tank = some (tank_id, tank)) :
    qe1.query_tank = some (tank_id, tank) ∧
      evaluate_one env db tank_id tank query = .ok auths := by
  unfold query_evaluator.evaluate_query at h
  split at h
  · split at h
    · cases h
    · rename_i tank_id1 tank1 hq1
      rw [hq] at hq1
      cases hq1
      obtain ⟨a, ha, h⟩ := except_bind_ok h
      cases h
      refine ⟨?_, ha⟩
      unfold query_evaluator.record_query
      split <;> exact hq
  · cases h

theorem evaluate_queries_inv (env : chain_env) (db : tank_db) (tank_id : tank_id_type)
    (tank : tank_object) :
    ∀ (qs : List tank_query_type) (qe qe1 : query_evaluator) (c c1 : auth_usage_checker)
      (R : authority → Prop),
      evaluate_queries env db qs qe c = .ok (qe1, c1) →
      qe.query_tank = some (tank_id, tank) → used_required c R →
      c1.declared_auths = c.declared_auths ∧
        (∀ q ∈ qs, ∃ auths, evaluate_one env db tank_id tank q = .ok auths ∧
          ∀ a ∈ auths, a ∈ c.declared_auths) ∧
        used_required c1 (fun a => R a ∨ required_by_queries env db tank_id tank qs a) := by
  intro qs
  induction qs with
  | nil =>
    intro qe qe1 c c1 R h _ hinv
    cases h
    exact ⟨rfl, by simp, used_required_mono hinv (fun a h => Or.inl h)⟩
  | cons q rest ih =>
    intro qe qe1 c c1 R h hq hinv
    unfold evaluate_queries at h
    obtain ⟨⟨auths, qe2⟩, h2, h⟩ := except_bind_ok h
    obtain ⟨c2, h3, h⟩ := except_bind_ok h
    obtain ⟨hq2, he⟩ := evaluate_query_inv h2 hq
    obtain ⟨hd, hm, hi⟩ := require_auths_inv _ _ _ _ h3 hinv
    obtain ⟨hd2, hm2, hi2⟩ := ih _ _ _ _ _ h hq2 hi
    refine ⟨hd2.trans hd, ?_, ?_⟩
    · intro q' hq'
      rcases List.mem_cons.1 hq' with rfl | hq'
      · exact ⟨auths, he, hm⟩
      · obtain ⟨as, hes, hms⟩ := hm2 q' hq'
        exact ⟨as, hes, fun a ha => hd ▸ hms a ha⟩
    · refine used_required_mono hi2 ?_
      intro a ha
      rcases ha with (ha | ha) | ⟨q', hq', as, hes, has⟩
      · exact Or.inl ha
      · exact Or.inr ⟨q, List.mem_cons_self _ _, auths, he, ha⟩
      · exact Or.inr ⟨q', List.mem_cons_of_mem _ hq', as, hes, has⟩

/-- Distinct positions below `n`, at least `n` of them, are all the positions below `n`. -/
theorem all_positions_used (l : List Nat) (n : Nat) (hnd : l.Nodup) (hlt : ∀ i ∈ l, i < n)
    (hlen : n ≤ l.length) : ∀ i, i < n → i ∈ l := by
  have hsub : l.toFinset ⊆ Finset.range n := by
    intro i hi
    exact Finset.mem_range.2 (hlt i (List.mem_toFinset.1 hi))
  have hcard : (Finset.range n).card ≤ l.toFinset.card := by
    rw [List.toFinset_card_of_nodup hnd, Finset.card_range]
    exact hlen
  have heq := Finset.eq_of_subset_of_card_le hsub hcard
  intro i hi
  have : i ∈ l.toFinset := by
    rw [heq]
    exact Finset.mem_range.2 hi
  exact List.mem_toFinset.1 this

theorem check_all_used_inv {c : auth_usage_checker} {R : authority → Prop}
    (h : c.check_all_used = .ok ()) (hinv : used_required c R) :
    ∀ a ∈ c.declared_auths, R a := by
  unfold auth_usage_checker.check_all_used at h
  split at h
  · cases h
  · rename_i hlen
    have hlt : ∀ i ∈ c.used_auths, i < c.declared_auths.length := by
      intro i hi
      obtain ⟨a, ha, _⟩ := hinv.2 i hi
      by_contra hge
      rw [List.getElem?_eq_none (Nat.le_of_not_lt hge)] at ha
      cases ha
    have hall := all_positions_used _ _ hinv.1 hlt (Nat.le_of_not_lt hlen)
    intro a ha
    obtain ⟨i, hi, hget⟩ := List.getElem_of_mem ha
    obtain ⟨b, hb, hr⟩ := hinv.2 i (hall i hi)
    rw [List.getElem?_eq_getElem hi, hget] at hb
    cases hb
    exact hr

theorem set_query_tank_new {tank_id : tank_id_type} {tank : tank_object}
    {qe : query_evaluator} (h : query_evaluator.new.set_query_tank tank_id tank = .ok qe) :
    qe.query_tank = some (tank_id, tank) := by
  cases h
  rfl

theorem tank_query_closure (accounts : chain_env) (d : database) (o : tank_query_operation)
    (r : tank_object × query_evaluator)
    (h : tank_query_evaluator.do_evaluate accounts d o = .ok r) :
    ∃ tank p, d.tanks.get_tank o.tank_to_query = .ok tank ∧ d.tnt_parameters = some p ∧
      authority_closure (d.chain_env accounts p) d.tanks o.tank_to_query tank
        o.required_authorities none o.queries := by
  unfold tank_query_evaluator.do_evaluate at h
  obtain ⟨tank, htank, h⟩ := except_bind_ok h
  obtain ⟨qe0, hqe0, h⟩ := except_bind_ok h
  simp only at h
  split at h
  · cases h
  · rename_i p hp
    obtain ⟨⟨qe1, c1⟩, hev, h⟩ := except_bind_ok h
    obtain ⟨u, hcheck, h⟩ := except_bind_ok h
    have hinv0 : used_required ⟨o.required_authorities, []⟩ (fun _ => False) :=
      ⟨List.nodup_nil, by simp⟩
    obtain ⟨hd, hm, hi⟩ := evaluate_queries_inv _ _ _ _ _ _ _ _ _ _ hev
      (set_query_tank_new hqe0) hinv0
    refine ⟨tank, p, htank, hp, by simp, hm, ?_⟩
    intro a ha
    have := check_all_used_inv hcheck hi a (hd ▸ ha)
    rcases this with hf | hq
    · exact absurd hf id
    · exact Or.inr hq

theorem closure_of_checks {env : chain_env} {db : tank_db} {tank_id : tank_id_type}
    {tank : tank_object} {required : List authority} {open_authority : Option authority}
    {queries : List tank_query_type} {qe0 : query_evaluator} {c1 : auth_usage_checker}
    {v : query_evaluator × auth_usage_checker} {u : Unit}
    (hqe0 : query_evaluator.new.set_query_tank tank_id tank = .ok qe0)
    (hd1 : c1.declared_auths = required)
    (hopen : ∀ a, open_authority = some a → a ∈ required)
    (hc1 : used_required c1 (fun a => open_authority = some a))
    (hev : evaluate_queries env db queries qe0 c1 = .ok v)
    (hcheck : v.2.check_all_used = .ok u) :
    authority_closure env db tank_id tank required open_authority queries := by
  obtain ⟨qe1, c2⟩ := v
  obtain ⟨hd, hm, hi⟩ := evaluate_queries_inv _ _ _ _ _ _ _ _ _ _ hev
    (set_query_tank_new hqe0) hc1
  refine ⟨hopen, ?_, ?_⟩
  · intro q hq
    obtain ⟨auths, he, ha⟩ := hm q hq
    exact ⟨auths, he, fun a h => hd1 ▸ ha a h⟩
  · intro a ha
    exact check_all_used_inv hcheck hi a (by rw [hd, hd1]; exact ha)

theorem closure_open_some {env : chain_env} {db : tank_db} {tank_id : tank_id_type}
    {tank : tank_object} {required : List authority} {open_authority : Option authority}
    {queries : List tank_query_type} {qe0 : query_evaluator} {c1 : auth_usage_checker}
    {v : query_evaluator × auth_usage_checker} {u : Unit} {a : authority}
    (hoa : open_authority = some a)
    (hqe0 : query_evaluator.new.set_query_tank tank_id tank = .ok qe0)
    (hreq : (⟨required, []⟩ : auth_usage_checker).require_auth a = .ok c1)
    (hev : evaluate_queries env db queries qe0 c1 = .ok v)
    (hcheck : v.2.check_all_used = .ok u) :
    authority_closure env db tank_id tank required open_authority queries := by
  have hinv0 : used_required ⟨required, []⟩ (fun _ => False) := ⟨List.nodup_nil, by simp⟩
  obtain ⟨hd, hm, hi⟩ := require_auth_inv hreq hinv0
  refine closure_of_checks hqe0 hd ?_ (used_required_mono hi ?_) hev hcheck
  · intro b hb
    rw [hoa] at hb
    cases hb
    exact hm
  · intro b hb
    rcases hb with hf | rfl
    · exact absurd hf id
    · exact hoa

theorem closure_open_none {env : chain_env} {db : tank_db} {tank_id : tank_id_type}
    {tank : tank_object} {required : List authority} {open_authority : Option authority}
    {queries : List tank_query_type} {qe0 : query_evaluator}
    {v : query_evaluator × auth_usage_checker} {u : Unit}
    (hoa : open_authority = none)
    (hqe0 : query_evaluator.new.set_query_tank tank_id tank = .ok qe0)
    (hev : evaluate_queries env db queries qe0 ⟨required, []⟩ = .ok v)
    (hcheck : v.2.check_all_used = .ok u) :
    authority_closure env db tank_id tank required open_authority queries := by
  have hinv0 : used_required ⟨required, []⟩ (fun a => open_authority = some a) :=
    ⟨List.nodup_nil, by simp⟩
  refine closure_of_checks hqe0 rfl ?_ hinv0 hev hcheck
  intro b hb
  rw [hoa] at hb
  cases hb

/-- The fast track of `tap_open` for an empty tank: no queries, and the declared
authorities are exactly the tap's open authority. -/
theorem closure_fast_track {env : chain_env} {db : tank_db} {tank_id : tank_id_type}
    {tank : tank_object} {required : List authority} {open_authority : Option authority}
    {queries : List tank_query_type}
    (hq : ¬ (!queries.isEmpty) = true)
    (hdecl : ¬ (!(match open_authority with
      | some a => decide (required = [a])
      | none => required.isEmpty)) = true) :
    authority_closure env db tank_id tank required open_authority queries := by
  have hqs : queries = [] := by
    cases queries with
    | nil => rfl
    | cons _ _ => simp at hq
  subst hqs
  cases open_authority with
  | none =>
    have hr : required = [] := by
      cases required with
      | nil => rfl
      | cons _ _ => simp at hdecl
    subst hr
    exact ⟨by simp, by simp, by simp⟩
  | some a =>
    have hr : required = [a] := by simpa using hdecl
    subst hr
    refine ⟨?_, by simp, ?_⟩
    · intro b hb
      cases hb
      simp
    · intro b hb
      rw [List.mem_singleton] at hb
      exact Or.inl (hb ▸ rfl)

theorem tap_open_closure (accounts : chain_env) (d : database) (o : tap_open_operation)
    (r : tap_open_evaluator × List tap_flow)
    (h : tap_open_evaluator.do_evaluate accounts d o = .ok r) :
    ∃ tank_id tank p tp, o.tap_to_open.tank_id = some tank_id ∧
      d.tanks.get_tank tank_id = .ok tank ∧ d.tnt_parameters = some p ∧
      amap_find tank.schematic.taps o.tap_to_open.tap_id = some tp ∧
      authority_closure (d.chain_env accounts p) d.tanks tank_id tank
        o.required_authorities tp.open_authority o.queries := by
  unfold tap_open_evaluator.do_evaluate at h
  split at h
  · cases h
  · rename_i tank_id htid
    obtain ⟨tank, htank, h⟩ := except_bind_ok h
    split at h
    · cases h
    · rename_i p hp
      obtain ⟨tp, htp, h⟩ := except_bind_ok h
      have htp1 : amap_find tank.schematic.taps o.tap_to_open.tap_id = some tp := by
        unfold tank_schematic.get_tap at htp
        split at htp
        · cases htp; assumption
        · cases htp
      refine ⟨tank_id, tank, p, tp, htid, htank, hp, htp1, ?_⟩
      simp only [bind, Except.bind, pure, Except.pure] at h
      repeat' split at h
      all_goals first
        | (cases h; done)
        | exact closure_fast_track (by assumption) (by assumption)
        | exact closure_open_some (by assumption) (by assumption) (by assumption)
            (by assumption) (by assumption)
        | exact closure_open_none (by assumption) (by assumption) (by assumption)
            (by assumption)

/-- Claim C28: whenever `tank_query_evaluator::do_evaluate` or
`tap_open_evaluator::do_evaluate` succeeds, every query of the operation evaluates on the
operation's tank to authorities that are all elements of `required_authorities`, the opened
tap's open authority, if set, is an element of `required_authorities`, and every element of
`required_authorities` is the opened tap's open authority or one of the authorities some
query requires. -/
theorem C28_authority_closure (accounts : chain_env) (d : database) :
    (∀ (o : tank_query_operation) (r : tank_object × query_evaluator),
      tank_query_evaluator.do_evaluate accounts d o = .ok r →
      ∃ tank p, d.tanks.get_tank o.tank_to_query = .ok tank ∧ d.tnt_parameters = some p ∧
        authority_closure (d.chain_env accounts p) d.tanks o.tank_to_query tank
          o.required_authorities none o.queries) ∧
    (∀ (o : tap_open_operation) (r : tap_open_evaluator × List tap_flow),
      tap_open_evaluator.do_evaluate accounts d o = .ok r →
      ∃ tank_id tank p tp, o.tap_to_open.tank_id = some tank_id ∧
        d.tanks.get_tank tank_id = .ok tank ∧ d.tnt_parameters = some p ∧
        amap_find tank.schematic.taps o.tap_to_open.tap_id = some tp ∧
        authority_closure (d.chain_env accounts p) d.tanks tank_id tank
          o.required_authorities tp.open_authority o.queries) :=
  ⟨tank_query_closure accounts d, tap_open_closure accounts d⟩

/-- The closure of C28 on the query operation `ex_query_op` and on the tap open
`ex_cascade_open`, both of which evaluate successfully. -/
theorem C28_witness :
    (∃ tank p, ex_query_database.tanks.get_tank ex_query_op.tank_to_query = .ok tank ∧
        ex_query_database.tnt_parameters = some p ∧
        authority_closure (ex_query_database.chain_env (ex_env 0) p) ex_query_database.tanks
          ex_query_op.tank_to_query tank ex_query_op.required_authorities none
          ex_query_op.queries) ∧
      ∃ tank_id tank p tp, ex_cascade_open.tap_to_open.tank_id = some tank_id ∧
        (ex_cascade_database 5).tanks.get_tank tank_id = .ok tank ∧
        (ex_cascade_database 5).tnt_parameters = some p ∧
        amap_find tank.schematic.taps ex_cascade_open.tap_to_open.tap_id = some tp ∧
        authority_closure ((ex_cascade_database 5).chain_env (ex_env 0) p)
          (ex_cascade_database 5).tanks tank_id tank ex_cascade_open.required_authorities
          tp.open_authority ex_cascade_open.queries :=
  ⟨(C28_authority_closure (ex_env 0) ex_query_database).1 ex_query_op _ rfl,
    (C28_authority_closure (ex_env 0) (ex_cascade_database 5)).2 ex_cascade_open _ rfl⟩

/-- The evaluators refuse an undeclared and an unused authority: `ex_query_op` with no
declared authority, and with a second declared authority that no query requires. -/
theorem undeclared_and_unused_refused :
    (tank_query_evaluator.do_evaluate (ex_env 0) ex_query_database
      { ex_query_op with required_authorities := [] }).toOption.isSome = false ∧
    (tank_query_evaluator.do_evaluate (ex_env 0) ex_query_database
      { ex_query_op with required_authorities := [ex_auth 2, ex_auth 3] }).toOption.isSome
      = false ∧
    (tank_query_evaluator.do_evaluate (ex_env 0) ex_query_database
      ex_query_op).toOption.isSome = true :=
  ⟨rfl, rfl, rfl⟩

/-! ## C29: unique queries -/

theorem accessory_address_lt_irrefl (a : accessory_address) :
    accessory_address_lt a a = false := by
  cases a <;> simp [accessory_address_lt]

theorem pair_lt_trans (t1 r1 t2 r2 t3 r3 : Nat) (h1 : t1 < t2 ∨ t1 = t2 ∧ r1 < r2)
    (h2 : t2 < t3 ∨ t2 = t3 ∧ r2 < r3) : t1 < t3 ∨ t1 = t3 ∧ r1 < r3 := by omega

theorem pair_lt_total (t1 r1 t2 r2 : Nat) (h1 : t2 ≤ t1 ∧ (t1 = t2 → r2 ≤ r1))
    (h2 : t1 ≤ t2 ∧ (t2 = t1 → r1 ≤ r2)) : t1 = t2 ∧ r1 = r2 := by omega

theorem accessory_address_lt_trans {a b c : accessory_address}
    (h1 : accessory_address_lt a b = true) (h2 : accessory_address_lt b c = true) :
    accessory_address_lt a c = true := by
  cases a <;> cases b <;> cases c <;> simp [accessory_address_lt] at h1 h2 ⊢
  · exact Nat.lt_trans h1 h2
  · exact pair_lt_trans _ _ _ _ _ _ h1 h2

theorem accessory_address_lt_total {a b : accessory_address}
    (h1 : accessory_address_lt a b = false) (h2 : accessory_address_lt b a = false) :
    a = b := by
  cases a <;> cases b <;> simp [accessory_address_lt] at h1 h2 ⊢
  · exact Nat.le_antisymm h2 h1
  · exact pair_lt_total _ _ _ _ h1 h2

theorem lower_bound_eq_iff (address : accessory_address) :
    ∀ s : List accessory_address, s.Pairwise (fun a b => accessory_address_lt a b = true) →
      (address_set_lower_bound s address = some address ↔ address ∈ s) := by
  intro s
  induction s with
  | nil => intro _; simp [address_set_lower_bound]
  | cons x rest ih =>
    intro hs
    have hx := (List.pairwise_cons.1 hs).1
    have ih' := ih (List.pairwise_cons.1 hs).2
    unfold address_set_lower_bound at ih' ⊢
    rw [List.find?_cons]
    cases hlt : accessory_address_lt x address with
    | true =>
      simp only [Bool.not_true]
      rw [ih']
      constructor
      · exact fun h => List.mem_cons_of_mem _ h
      · intro h
        rcases List.mem_cons.1 h with rfl | h
        · rw [accessory_address_lt_irrefl] at hlt
          cases hlt
        · exact h
    | false =>
      simp only [Bool.not_false]
      constructor
      · intro h
        cases h
        exact List.mem_cons_self _ _
      · intro h
        rcases List.mem_cons.1 h with rfl | h
        · rfl
        · have := hx _ h
          have h2 : accessory_address_lt address x = false := by
            cases h3 : accessory_address_lt address x with
            | false => rfl
            | true =>
              have := accessory_address_lt_trans h3 this
              rw [accessory_address_lt_irrefl] at this
              cases this
          exact absurd (hlt ▸ this) (by simp)

theorem address_set_insert_spec (address : accessory_address) :
    ∀ s : List accessory_address, s.Pairwise (fun a b => accessory_address_lt a b = true) →
      (address_set_insert s address).Pairwise (fun a b => accessory_address_lt a b = true) ∧
        ∀ b, b ∈ address_set_insert s address ↔ b ∈ s ∨ b = address := by
  intro s
  induction s with
  | nil => intro _; simp [address_set_insert]
  | cons x rest ih =>
    intro hs
    have hx := (List.pairwise_cons.1 hs).1
    obtain ⟨ih1, ih2⟩ := ih (List.pairwise_cons.1 hs).2
    unfold address_set_insert
    split
    · rename_i hlt
      constructor
      · rw [List.pairwise_cons]
        refine ⟨?_, ih1⟩
        intro b hb
        rcases (ih2 b).1 hb with hb | rfl
        · exact hx b hb
        · exact hlt
      · intro b
        simp only [List.mem_cons, ih2]
        tauto
    · split
      · rename_i hlt2
        constructor
        · rw [List.pairwise_cons]
          refine ⟨?_, hs⟩
          intro b hb
          rcases List.mem_cons.1 hb with rfl | hb
          · exact hlt2
          · exact accessory_address_lt_trans hlt2 (hx b hb)
        · intro b
          simp only [List.mem_cons]
          tauto
      · rename_i h1 h2
        have : x = address :=
          accessory_address_lt_total (by simpa using h1) (by simpa using h2)
        subst this
        refine ⟨hs, ?_⟩
        intro b
        simp only [List.mem_cons]
        tauto

theorem addresses_insert (c : unique_query_checker) (tag : Nat) (s : List accessory_address)
    (tag1 : Nat) :
    (unique_query_checker.mk (amap_insert c.unique_queries tag s)).addresses tag1 =
      if tag1 = tag then s else c.addresses tag1 := by
  unfold unique_query_checker.addresses
  split
  · rename_i h
    subst h
    rw [amap_find_insert_same]
    rfl
  · rename_i h
    rw [amap_find_insert_ne _ _ _ _ (fun e => h e.symm)]

/-- The verdict of the checker on a query with an address: it refuses exactly the addresses
recorded under the query's tag, and otherwise records the address. -/
theorem check_spec (c : unique_query_checker) (q : tank_query_type)
    (address : accessory_address) (ha : q.address = some address) (hc : c.ordered) :
    ((c.check q).1 = false ↔ address ∈ c.addresses q.which) ∧
      ((c.check q).1 = true → (c.check q).2.ordered ∧
        ∀ tag b, b ∈ (c.check q).2.addresses tag ↔
          b ∈ c.addresses tag ∨ (tag = q.which ∧ b = address)) := by
  have hs := hc q.which
  have hlb := lower_bound_eq_iff address _ hs
  obtain ⟨hi1, hi2⟩ := address_set_insert_spec address _ hs
  have hrec : (unique_query_checker.mk (amap_insert c.unique_queries q.which
        (address_set_insert (c.addresses q.which) address))).ordered ∧
      ∀ tag b, b ∈ (unique_query_checker.mk (amap_insert c.unique_queries q.which
          (address_set_insert (c.addresses q.which) address))).addresses tag ↔
        b ∈ c.addresses tag ∨ (tag = q.which ∧ b = address) := by
    constructor
    · intro tag
      rw [addresses_insert]
      split
      · exact hi1
      · exact hc tag
    · intro tag b
      rw [addresses_insert]
      split
      · rename_i h
        subst h
        rw [hi2]
        tauto
      · tauto
  have hadd : (amap_find c.unique_queries q.which).getD [] = c.addresses q.which := rfl
  unfold unique_query_checker.check
  simp only [ha, hadd]
  cases hl : address_set_lower_bound (c.addresses q.which) address with
  | none =>
    simp only
    refine ⟨?_, fun _ => hrec⟩
    constructor
    · intro h; cases h
    · intro h
      rw [← hlb, hl] at h
      cases h
  | some hint =>
    simp only
    by_cases hh : hint = address
    · subst hh
      simp only [if_true]
      refine ⟨⟨fun _ => hlb.1 hl, fun _ => trivial⟩, ?_⟩
      intro h
      simp at h
    · simp only [hh, if_false]
      refine ⟨?_, fun _ => hrec⟩
      constructor
      · intro h; cases h
      · intro h
        rw [← hlb, hl] at h
        cases h
        exact absurd rfl hh

theorem unique_has_address (q : tank_query_type) (h : q.unique = true) :
    ∃ b, q.address = some b := by
  cases q <;> first | exact ⟨_, rfl⟩ | cases h

theorem unique_of_which (a b : tank_query_type) (h : a.which = b.which) :
    a.unique = b.unique := by
  cases a <;> cases b <;> first | rfl | cases h

theorem validate_queries_loop_cons (queried_tank : tank_id_type) (tap_open : Bool)
    (q : tank_query_type) (rest : List tank_query_type) (c : unique_query_checker) :
    validate_queries_loop queried_tank tap_open (q :: rest) c = .ok () ↔
      query_alone_ok queried_tank tap_open q ∧ (q.unique = true → (c.check q).1 = true) ∧
        validate_queries_loop queried_tank tap_open rest
          (if q.unique = true then (c.check q).2 else c) = .ok () := by
  unfold query_alone_ok
  simp only [validate_queries_loop, bind, Except.bind, pure, Except.pure, ofail]
  cases hcontent : q.validate_content with
  | error e => simp
  | ok u =>
    cases u
    simp only [true_and]
    cases htap : (q.tap_open_only && !tap_open) with
    | true => simp
    | false =>
      simp only [Bool.false_eq_true, if_false, true_and]
      cases hu : q.unique with
      | false =>
        simp only [Bool.false_eq_true, if_false, false_implies, true_and]
        cases hticket : check_ticket_target queried_tank q with
        | error e => simp
        | ok u => cases u; simp
      | true =>
        simp only [if_true, true_implies]
        rcases hcheck : c.check q with ⟨verdict, c1⟩
        cases verdict with
        | false => simp
        | true =>
          simp only [true_and]
          cases hticket : check_ticket_target queried_tank q with
          | error e => simp
          | ok u => cases u; simp

theorem validate_queries_loop_iff (queried_tank : tank_id_type) (tap_open : Bool) :
    ∀ (qs : List tank_query_type) (c : unique_query_checker), c.ordered →
      (validate_queries_loop queried_tank tap_open qs c = .ok () ↔
        (∀ q ∈ qs, query_alone_ok queried_tank tap_open q) ∧
        (∀ q ∈ qs, q.unique = true → ∀ b, q.address = some b → b ∉ c.addresses q.which) ∧
        qs.Pairwise (fun a b => ¬ same_unique_target a b)) := by
  intro qs
  induction qs with
  | nil =>
    intro c _
    simp [validate_queries_loop]
  | cons q rest ih =>
    intro c hc
    rw [validate_queries_loop_cons]
    cases hu : q.unique with
    | false =>
      have hns : ∀ q1, ¬ same_unique_target q q1 := by
        intro q1 h
        rw [h.1] at hu
        cases hu
      simp only [Bool.false_eq_true, if_false, false_implies, true_and, List.forall_mem_cons,
        List.pairwise_cons, hu]
      rw [ih c hc]
      constructor
      · rintro ⟨h1, h2, h3, h4⟩
        exact ⟨⟨h1, h2⟩, h3, fun a _ => hns a, h4⟩
      · rintro ⟨⟨h1, h2⟩, h3, _, h4⟩
        exact ⟨h1, h2, h3, h4⟩
    | true =>
      obtain ⟨address, ha⟩ := unique_has_address q hu
      obtain ⟨hs1, hs2⟩ := check_spec c q address ha hc
      simp only [if_true, true_implies, List.forall_mem_cons, List.pairwise_cons, hu]
      constructor
      · rintro ⟨h1, hv, hl⟩
        obtain ⟨ho, hr⟩ := hs2 hv
        obtain ⟨h2, h3, h4⟩ := (ih _ ho).1 hl
        have hnot : address ∉ c.addresses q.which := by
          intro hmem
          rw [hs1.2 hmem] at hv
          cases hv
        refine ⟨⟨h1, h2⟩, ⟨?_, ?_⟩, ?_, h4⟩
        · intro b hb
          rw [ha] at hb
          cases hb
          exact hnot
        · intro q1 hq1 hu1 b hb hmem
          exact h3 q1 hq1 hu1 b hb ((hr _ _).2 (Or.inl hmem))
        · intro q1 hq1 hsame
          have hu1 : q1.unique = true := by
            rw [← unique_of_which q q1 hsame.2.1]
            exact hu
          have hb : q1.address = some address := by
            rw [← hsame.2.2]
            exact ha
          exact h3 q1 hq1 hu1 address hb ((hr _ _).2 (Or.inr ⟨hsame.2.1.symm, rfl⟩))
      · rintro ⟨⟨h1, h2⟩, ⟨h3, h4⟩, h5, h6⟩
        have hv : (c.check q).1 = true := by
          cases hcv : (c.check q).1 with
          | true => rfl
          | false => exact absurd (hs1.1 hcv) (h3 address ha)
        obtain ⟨ho, hr⟩ := hs2 hv
        refine ⟨h1, hv, (ih _ ho).2 ⟨h2, ?_, h6⟩⟩
        intro q1 hq1 hu1 b hb hmem
        rcases (hr _ _).1 hmem with hmem | ⟨hw, hbe⟩
        · exact h4 q1 hq1 hu1 b hb hmem
        · subst hbe
          exact h5 q1 hq1 ⟨hu, hw.symm, by rw [ha, hb]⟩

theorem ordered_empty : (unique_query_checker.mk []).ordered := by
  intro tag
  simp [unique_query_checker.addresses, amap_find]

theorem validate_queries_iff (queries : List tank_query_type) (queried_tank : tank_id_type)
    (tap_open : Bool) :
    validate_queries queries queried_tank tap_open = .ok () ↔
      (∀ q ∈ queries, query_alone_ok queried_tank tap_open q) ∧
        queries.Pairwise (fun a b => ¬ same_unique_target a b) := by
  unfold validate_queries
  rw [validate_queries_loop_iff _ _ _ _ ordered_empty]
  constructor
  · rintro ⟨h1, _, h3⟩
    exact ⟨h1, h3⟩
  · rintro ⟨h1, h3⟩
    refine ⟨h1, ?_, h3⟩
    intro q _ _ b _ hmem
    simp [unique_query_checker.addresses, amap_find] at hmem

/-- Claim C29: `validate_queries` accepts a list of queries exactly when it accepts each of
its queries alone and no two queries of the list are of the same kind marked unique and
address the same accessory. So every list with two such queries is rejected, and repeated
queries of a unique kind that address different accessories are accepted whenever each is
acceptable by itself. -/
theorem C29_unique_queries (queries : List tank_query_type) (queried_tank : tank_id_type)
    (tap_open : Bool) :
    validate_queries queries queried_tank tap_open = .ok () ↔
      (∀ q ∈ queries, validate_queries [q] queried_tank tap_open = .ok ()) ∧
        queries.Pairwise (fun a b => ¬ same_unique_target a b) := by
  rw [validate_queries_iff]
  have hone : ∀ q, validate_queries [q] queried_tank tap_open = .ok () ↔
      query_alone_ok queried_tank tap_open q := by
    intro q
    rw [validate_queries_iff]
    simp
  simp only [hone]

/-- Two `reset_meter` queries on meter 0 are refused; on meters 0 and 1 they are accepted,
as are two `redeem_ticket_to_open` queries on different requirements of tank 0 in a tap
open, while two of them on the same requirement are refused. -/
theorem validate_queries_examples :
    (validate_queries [.reset_meter 0, .reset_meter 0] 0 false).toOption = none ∧
    validate_queries [.reset_meter 0, .reset_meter 1] 0 false = .ok () ∧
    validate_queries [.redeem_ticket_to_open 1 0 ⟨0, 1, 0, .amount 10, 0⟩ 42,
      .redeem_ticket_to_open 1 1 ⟨0, 1, 1, .amount 10, 0⟩ 42] 0 true = .ok () ∧
    (validate_queries [.redeem_ticket_to_open 1 0 ⟨0, 1, 0, .amount 10, 0⟩ 42,
      .redeem_ticket_to_open 1 0 ⟨0, 1, 0, .amount 10, 1⟩ 42] 0 true).toOption = none :=
  ⟨rfl, rfl, rfl, rfl⟩

/-! ## C31: accessory state after an update -/

theorem amap_find_filter_key {κ β : Type} [DecidableEq κ] (f : κ → Bool) :
    ∀ (m : List (κ × β)) (key : κ),
      amap_find (m.filter (fun p => f p.1)) key =
        if f key = true then amap_find m key else none := by
  intro m
  induction m with
  | nil => intro key; simp [amap_find]
  | cons p rest ih =>
    intro key
    obtain ⟨k, v⟩ := p
    by_cases hk : f k = true
    · rw [List.filter_cons_of_pos (by simpa using hk)]
      have e : ∀ m : List (κ × β), amap_find ((k, v) :: m) key =
          if k = key then some v else amap_find m key := fun _ => rfl
      rw [e, e]
      by_cases hkk : k = key
      · subst hkk
        simp [hk]
      · simp only [hkk, if_false]
        exact ih key
    · rw [List.filter_cons_of_neg (by simpa using hk)]
      rw [ih key]
      have e : amap_find ((k, v) :: rest) key =
          if k = key then some v else amap_find rest key := rfl
      rw [e]
      by_cases hkk : k = key
      · subst hkk
        simp [hk]
      · simp [hkk]

/-- The effect of `clear_tap_state(t)`: the requirement states of tap `t` are erased and
every other state is kept. -/
theorem clear_tap_state_find (tank : tank_object) (t : index_type) :
    (∀ t1 r, amap_find (tank.clear_tap_state t).accessory_states (.requirement t1 r) =
      if t1 = t then none else amap_find tank.accessory_states (.requirement t1 r)) ∧
    (∀ x, amap_find (tank.clear_tap_state t).accessory_states (.attachment x) =
      amap_find tank.accessory_states (.attachment x)) := by
  have hk := amap_find_filter_key (β := tank_accessory_state)
    (fun k : accessory_address => match k with
      | .requirement tp _ => !decide (tp = t)
      | .attachment _ => true) tank.accessory_states
  have hk' : ∀ a, amap_find (tank.clear_tap_state t).accessory_states a = _ := hk
  constructor
  · intro t1 r
    rw [hk']
    by_cases h : t1 = t <;> simp [h]
  · intro x
    rw [hk']
    simp

/-- The effect of `clear_attachment_state(x)`: only the state at attachment `x` is erased. -/
theorem clear_attachment_state_find (tank : tank_object) (x : index_type)
    (a : accessory_address) :
    amap_find (tank.clear_attachment_state x).accessory_states a =
      if a = .attachment x then none else amap_find tank.accessory_states a := by
  have hk := amap_find_filter_key (β := tank_accessory_state)
    (fun k : accessory_address => !decide (k = .attachment x)) tank.accessory_states a
  have hk' : amap_find (tank.clear_attachment_state x).accessory_states a = _ := hk
  rw [hk']
  by_cases h : a = .attachment x <;> simp [h]

theorem foldl_clear_attachment_find {ι : Type} (key : ι → index_type) :
    ∀ (l : List ι) (tank : tank_object),
      (∀ x, amap_find (l.foldl (fun t p => t.clear_attachment_state (key p))
          tank).accessory_states (.attachment x) =
        if (l.map key).contains x = true then none
        else amap_find tank.accessory_states (.attachment x)) ∧
      (∀ t r, amap_find (l.foldl (fun t p => t.clear_attachment_state (key p))
          tank).accessory_states (.requirement t r) =
        amap_find tank.accessory_states (.requirement t r)) := by
  intro l
  induction l with
  | nil => intro tank; simp
  | cons p rest ih =>
    intro tank
    constructor
    · intro x
      rw [List.foldl_cons, (ih _).1, clear_attachment_state_find]
      simp only [accessory_address.attachment.injEq, List.map_cons, List.contains_cons]
      by_cases h1 : (rest.map key).contains x = true
      · rw [if_pos h1, if_pos (by rw [h1]; simp)]
      · rw [if_neg h1]
        by_cases h2 : x = key p
        · rw [if_pos h2, if_pos (by rw [h2]; simp)]
        · rw [if_neg h2, if_neg (by
            intro h
            rw [Bool.or_eq_true] at h
            rcases h with h | h
            · exact h2 (by simpa using h)
            · exact h1 h)]
    · intro t r
      rw [List.foldl_cons, (ih _).2, clear_attachment_state_find]
      simp

theorem foldl_clear_tap_find {ι : Type} (key : ι → index_type) :
    ∀ (l : List ι) (tank : tank_object),
      (∀ t r, amap_find (l.foldl (fun t p => t.clear_tap_state (key p))
          tank).accessory_states (.requirement t r) =
        if (l.map key).contains t = true then none
        else amap_find tank.accessory_states (.requirement t r)) ∧
      (∀ x, amap_find (l.foldl (fun t p => t.clear_tap_state (key p))
          tank).accessory_states (.attachment x) =
        amap_find tank.accessory_states (.attachment x)) := by
  intro l
  induction l with
  | nil => intro tank; simp
  | cons p rest ih =>
    intro tank
    constructor
    · intro t r
      rw [List.foldl_cons, (ih _).1, (clear_tap_state_find _ _).1]
      simp only [List.map_cons, List.contains_cons]
      by_cases h1 : (rest.map key).contains t = true
      · rw [if_pos h1, if_pos (by rw [h1]; simp)]
      · rw [if_neg h1]
        by_cases h2 : t = key p
        · rw [if_pos h2, if_pos (by rw [h2]; simp)]
        · rw [if_neg h2, if_neg (by
            intro h
            rw [Bool.or_eq_true] at h
            rcases h with h | h
            · exact h2 (by simpa using h)
            · exact h1 h)]
    · intro x
      rw [List.foldl_cons, (ih _).2, (clear_tap_state_find _ _).2]

theorem clear_updated_state_find (o : tank_update_operation) (tank : tank_object)
    (a : accessory_address) :
    amap_find (clear_updated_state o tank).accessory_states a =
      if cleared_by_update o a = true then none else amap_find tank.accessory_states a := by
  unfold clear_updated_state
  simp only
  have e1 := foldl_clear_tap_find (fun p : index_type × tap => p.1) o.taps_to_replace
  have e2 := foldl_clear_tap_find (fun id : index_type => id) o.taps_to_remove
  have e3 := foldl_clear_attachment_find (fun p : index_type × tank_attachment => p.1)
    o.attachments_to_replace
  have e4 := foldl_clear_attachment_find (fun id : index_type => id) o.attachments_to_remove
  cases a with
  | attachment x =>
    rw [(e1 _).2, (e2 _).2, (e3 _).1, (e4 _).1]
    simp only [cleared_by_update, List.map_id', Bool.or_eq_true]
    have hm : List.map (fun p : index_type × _ => p.1) o.attachments_to_replace = o.attachments_to_replace.map Prod.fst := rfl
    rw [hm]
    by_cases h1 : o.attachments_to_remove.contains x = true
    · simp only [h1, if_true, ite_self, true_or]
    · by_cases h2 : (o.attachments_to_replace.map Prod.fst).contains x = true
      · simp only [h1, h2, if_true, if_false, or_true]
      · simp only [h1, h2, if_false, or_self, Bool.false_eq_true]
  | requirement t r =>
    rw [(e1 _).1, (e2 _).1, (e3 _).2, (e4 _).2]
    simp only [cleared_by_update, List.map_id', Bool.or_eq_true]
    have hm : List.map (fun p : index_type × _ => p.1) o.taps_to_replace = o.taps_to_replace.map Prod.fst := rfl
    rw [hm]
    by_cases h1 : o.taps_to_remove.contains t = true
    · simp only [h1, if_true, ite_self, true_or]
    · by_cases h2 : (o.taps_to_replace.map Prod.fst).contains t = true
      · simp only [h1, h2, if_true, if_false, or_true]
      · simp only [h1, h2, if_false, or_self, Bool.false_eq_true]

theorem update_apply_clears_state (d d' : database) (updated_tank : tank_schematic)
    (o : tank_update_operation)
    (h : tank_update_evaluator.do_apply d updated_tank o = .ok d') :
    ∃ old_tank new_tank, d.tanks.get_tank o.tank_to_update = .ok old_tank ∧
      d'.tanks.get_tank o.tank_to_update = .ok new_tank ∧
      ∀ a, amap_find new_tank.accessory_states a =
        if cleared_by_update o a = true then none
        else amap_find old_tank.accessory_states a := by
  unfold tank_update_evaluator.do_apply at h
  simp only at h
  obtain ⟨old_tank, hold, h⟩ := except_bind_ok h
  cases h
  have hold' : d.tanks.get_tank o.tank_to_update = .ok old_tank := by
    split at hold <;> exact hold
  refine ⟨old_tank, _, hold', get_tank_set_tank_same _ hold, ?_⟩
  intro a
  rw [clear_updated_state_find]

/-- Claim C31: `clear_tap_state(t)` erases exactly the states at the requirements of tap `t`,
`clear_attachment_state(x)` erases exactly the state at attachment `x`, and after a
successful `tank_update_evaluator::do_apply` the updated tank holds no state at the address
of a removed or replaced attachment or of a requirement of a removed or replaced tap, while
at every other address it holds the state the tank held before. -/
theorem C31_update_clears_state :
    (∀ (tank : tank_object) (t : index_type),
      (∀ t1 r, amap_find (tank.clear_tap_state t).accessory_states (.requirement t1 r) =
        if t1 = t then none else amap_find tank.accessory_states (.requirement t1 r)) ∧
      (∀ x, amap_find (tank.clear_tap_state t).accessory_states (.attachment x) =
        amap_find tank.accessory_states (.attachment x))) ∧
    (∀ (tank : tank_object) (x : index_type) (a : accessory_address),
      amap_find (tank.clear_attachment_state x).accessory_states a =
        if a = .attachment x then none else amap_find tank.accessory_states a) ∧
    (∀ (d d' : database) (updated_tank : tank_schematic) (o : tank_update_operation),
      tank_update_evaluator.do_apply d updated_tank o = .ok d' →
      ∃ old_tank new_tank, d.tanks.get_tank o.tank_to_update = .ok old_tank ∧
        d'.tanks.get_tank o.tank_to_update = .ok new_tank ∧
        (∀ a, cleared_by_update o a = true → amap_find new_tank.accessory_states a = none) ∧
        (∀ a, cleared_by_update o a = false →
          amap_find new_tank.accessory_states a = amap_find old_tank.accessory_states a)) := by
  refine ⟨clear_tap_state_find, clear_attachment_state_find, ?_⟩
  intro d d' updated_tank o h
  obtain ⟨old_tank, new_tank, h1, h2, h3⟩ := update_apply_clears_state d d' updated_tank o h
  refine ⟨old_tank, new_tank, h1, h2, ?_, ?_⟩
  · intro a ha
    rw [h3, if_pos ha]
  · intro a ha
    rw [h3, if_neg (by rw [ha]; exact Bool.false_ne_true)]

/-- The update `ex_remove_tap_op` on `ex_state_database`: the exchange state of tap 1 is
gone and the reading of meter 0 is kept. -/
theorem C31_witness :
    tank_update_evaluator.do_apply ex_state_database
        (ex_exchange_tank 1000 ex_reset_states).schematic ex_remove_tap_op =
      .ok ex_state_updated ∧
    (∃ old_tank new_tank, ex_state_database.tanks.get_tank 0 = .ok old_tank ∧
      ex_state_updated.tanks.get_tank 0 = .ok new_tank ∧
      (∀ a, cleared_by_update ex_remove_tap_op a = true →
        amap_find new_tank.accessory_states a = none) ∧
      (∀ a, cleared_by_update ex_remove_tap_op a = false →
        amap_find new_tank.accessory_states a = amap_find old_tank.accessory_states a)) ∧
    cleared_by_update ex_remove_tap_op (.requirement 1 0) = true ∧
    cleared_by_update ex_remove_tap_op (.attachment 0) = false ∧
    (ex_state_updated.tanks.get_tank 0).map (fun t => t.accessory_states) =
      .ok [(.attachment 0, .meter ⟨0⟩)] :=
  ⟨rfl, C31_update_clears_state.2.2 ex_state_database ex_state_updated _ ex_remove_tap_op rfl,
    rfl, rfl, rfl⟩

/-! ## C33: the comparator of accessory addresses -/

theorem address_lt_impl_position (a b : tank_accessory_address_type) :
    address_lt_impl a b = accessory_address_lt a.position b.position := by
  cases a <;> cases b <;>
    simp [address_lt_impl, accessory_address_lt, tank_accessory_address_type.position, pair_lt]
  rename_i w t r w1 t1 r1
  have key : ∀ (t r t1 r1 : Nat),
      (decide (t < t1) || !decide (t1 < t) && decide (r < r1)) =
        (decide (t < t1) || decide (t = t1) && decide (r < r1)) := by
    intro t r t1 r1
    rw [Bool.eq_iff_iff]
    simp
    omega
  exact key t r t1 r1

theorem accessory_address_lt_equiv_iff (a b : accessory_address) :
    (accessory_address_lt a b = false ∧ accessory_address_lt b a = false) ↔ a = b := by
  constructor
  · rintro ⟨h1, h2⟩
    exact accessory_address_lt_total h1 h2
  · rintro rfl
    exact ⟨accessory_address_lt_irrefl a, accessory_address_lt_irrefl a⟩

/-- Claim C33: on the elements of the address variant, `accessory_address_lt` is
irreflexive and transitive and its incomparability is transitive (a strict weak ordering);
every attachment address is less than every requirement address and no requirement address
is less than an attachment address; attachment addresses are ordered by attachment ID and
requirement addresses lexicographically by tap ID and requirement index, whatever their
accessory types; two addresses are equivalent exactly when they denote the same position,
so in particular when they differ only in accessory type; and a tap ID is equivalent to an
address exactly when the address is a requirement address on that tap. -/
theorem C33_accessory_address_ordering :
    (∀ a b, address_lt_impl a b = accessory_address_lt a.position b.position) ∧
    (∀ a, address_lt_impl a a = false) ∧
    (∀ a b c, address_lt_impl a b = true → address_lt_impl b c = true →
      address_lt_impl a c = true) ∧
    (∀ a b c, address_lt_impl a b = false ∧ address_lt_impl b a = false →
      address_lt_impl b c = false ∧ address_lt_impl c b = false →
      address_lt_impl a c = false ∧ address_lt_impl c a = false) ∧
    (∀ w a w1 t r, address_lt_impl (.attachment w a) (.requirement w1 t r) = true ∧
      address_lt_impl (.requirement w1 t r) (.attachment w a) = false) ∧
    (∀ w a w1 b, address_lt_impl (.attachment w a) (.attachment w1 b) = decide (a < b)) ∧
    (∀ w t r w1 t1 r1, address_lt_impl (.requirement w t r) (.requirement w1 t1 r1) =
      decide (t < t1 ∨ (t = t1 ∧ r < r1))) ∧
    (∀ a b, (address_lt_impl a b = false ∧ address_lt_impl b a = false) ↔
      a.position = b.position) ∧
    (∀ a (tid : tap_id_type),
      (address_lt_tap_id a tid = false ∧ tap_id_lt_address tid a = false) ↔
        ∃ w r, a = .requirement w tid.tap_id r) := by
  refine ⟨address_lt_impl_position, ?_, ?_, ?_, ?_, ?_, ?_, ?_, ?_⟩
  · intro a
    rw [address_lt_impl_position]
    exact accessory_address_lt_irrefl _
  · intro a b c h1 h2
    rw [address_lt_impl_position] at h1 h2 ⊢
    exact accessory_address_lt_trans h1 h2
  · intro a b c h1 h2
    simp only [address_lt_impl_position] at h1 h2 ⊢
    rw [accessory_address_lt_equiv_iff] at h1 h2 ⊢
    exact h1.trans h2
  · intro w a w1 t r
    exact ⟨rfl, rfl⟩
  · intro w a w1 b
    rfl
  · intro w t r w1 t1 r1
    rw [address_lt_impl_position]
    simp [accessory_address_lt, tank_accessory_address_type.position]
  · intro a b
    simp only [address_lt_impl_position]
    exact accessory_address_lt_equiv_iff _ _
  · intro a tid
    cases a with
    | attachment w a => simp [address_lt_tap_id]
    | requirement w t r =>
      simp only [address_lt_tap_id, tap_id_lt_address, decide_eq_false_iff_not,
        tank_accessory_address_type.requirement.injEq]
      constructor
      · rintro ⟨h1, h2⟩
        exact ⟨w, r, rfl, Nat.le_antisymm (Nat.le_of_not_lt h2) (Nat.le_of_not_lt h1), rfl⟩
      · rintro ⟨w1, r1, _, ht, _⟩
        rw [ht]
        exact ⟨Nat.lt_irrefl _, Nat.lt_irrefl _⟩

/-- The ordering of C33 on concrete addresses: attachment 3 precedes requirement 0 of tap 1,
which precedes requirement 2 of tap 1, so attachment 3 precedes the latter; a flow meter
address and a tap opener address at attachment 3 are equivalent. -/
theorem C33_witness :
    address_lt_impl (.attachment 0 3) (.requirement 8 1 0) = true ∧
    address_lt_impl (.requirement 8 1 0) (.requirement 10 1 2) = true ∧
    address_lt_impl (.attachment 0 3) (.requirement 10 1 2) = true ∧
    (address_lt_impl (.attachment 0 3) (.attachment 1 3) = false ∧
      address_lt_impl (.attachment 1 3) (.attachment 0 3) = false) :=
  ⟨rfl, rfl,
    C33_accessory_address_ordering.2.2.1 (.attachment 0 3) (.requirement 8 1 0)
      (.requirement 10 1 2) rfl rfl,
    (C33_accessory_address_ordering.2.2.2.2.2.2.2.1 (.attachment 0 3) (.attachment 1 3)).2
      rfl⟩

/-- Addresses of a flow meter and of a tap opener at attachment 3 are equivalent, as are a
review and a delay requirement address at requirement 2 of tap 1; tap 1 is equivalent to
the latter and to no address of tap 2. -/
theorem address_ordering_examples :
    address_lt_impl (.attachment 0 3) (.attachment 1 3) = false ∧
    address_lt_impl (.attachment 1 3) (.attachment 0 3) = false ∧
    address_lt_impl (.requirement 8 1 2) (.requirement 10 1 2) = false ∧
    address_lt_impl (.requirement 10 1 2) (.requirement 8 1 2) = false ∧
    address_lt_impl (.requirement 8 1 2) (.requirement 10 1 3) = true ∧
    address_lt_tap_id (.requirement 8 1 2) ⟨none, 1⟩ = false ∧
    tap_id_lt_address ⟨none, 1⟩ (.requirement 8 1 2) = false ∧
    address_lt_tap_id (.requirement 8 1 2) ⟨none, 2⟩ = true := by
  decide

/-! ## C34: the comparisons of `asset_flow_limit` -/

/-- Claim C34: on `asset_flow_limit`, `a <= b` holds exactly when `b < a` does not;
`unlimited < x` is false and `x <= unlimited` is true for every `x`; bounded limits are
compared by amount; and `<=` is reflexive, transitive, antisymmetric and total. -/
theorem C34_flow_limit_total_order :
    (∀ a b : asset_flow_limit, a.le b = !b.lt a) ∧
    (∀ x, asset_flow_limit.lt .unlimited_flow x = false) ∧
    (∀ x : asset_flow_limit, x.le .unlimited_flow = true) ∧
    (∀ m n : share_type, (asset_flow_limit.amount m).le (.amount n) = decide (m ≤ n) ∧
      (asset_flow_limit.amount m).lt (.amount n) = decide (m < n)) ∧
    (∀ a : asset_flow_limit, a.le a = true) ∧
    (∀ a b c : asset_flow_limit, a.le b = true → b.le c = true → a.le c = true) ∧
    (∀ a b : asset_flow_limit, a.le b = true → b.le a = true → a = b) ∧
    (∀ a b : asset_flow_limit, a.le b = true ∨ b.le a = true) := by
  refine ⟨?_, ?_, ?_, ?_, ?_, ?_, ?_, ?_⟩
  · intro a b
    cases a <;> cases b <;> simp [asset_flow_limit.le, asset_flow_limit.lt]
    rw [Bool.eq_iff_iff]
    simp
  · intro x
    rfl
  · intro x
    cases x <;> rfl
  · intro m n
    exact ⟨rfl, rfl⟩
  · intro a
    cases a <;> simp [asset_flow_limit.le]
  · intro a b c h1 h2
    cases a <;> cases b <;> cases c <;> simp [asset_flow_limit.le] at h1 h2 ⊢
    exact Int.le_trans h1 h2
  · intro a b h1 h2
    cases a <;> cases b <;> simp [asset_flow_limit.le] at h1 h2 ⊢
    exact Int.le_antisymm h1 h2
  · intro a b
    cases a <;> cases b <;> simp [asset_flow_limit.le]
    exact Int.le_total _ _

/-- The order of C34 on concrete limits: 5 is at most 7, 7 is at most unlimited, so 5 is at
most unlimited. -/
theorem C34_witness :
    (asset_flow_limit.amount 5).le (.amount 7) = true ∧
    (asset_flow_limit.amount 7).le .unlimited_flow = true ∧
    (asset_flow_limit.amount 5).le .unlimited_flow = true :=
  ⟨rfl, rfl, C34_flow_limit_total_order.2.2.2.2.2.1 (.amount 5) (.amount 7) .unlimited_flow
    rfl rfl⟩

/-! ## C39: `get_connection_chain` on cycles -/

theorem chain_loop_followed_spec (u : lookup_utilities) (asset_type : Option asset_id_type) :
    ∀ (remaining : Nat) (s last : connection) (chain : connection_chain),
      (u.chain_loop_followed asset_type remaining s last chain).1 =
          u.chain_loop asset_type remaining s last chain ∧
        (u.chain_loop_followed asset_type remaining s last chain).2 ≤ remaining := by
  intro remaining
  induction remaining with
  | zero =>
    intro s last chain
    unfold lookup_utilities.chain_loop_followed lookup_utilities.chain_loop
    cases last <;> simp only <;> (try split) <;>
      first | exact ⟨rfl, Nat.le_refl _⟩ | exact ⟨trivial, Nat.le_refl _⟩
  | succ n ih =>
    intro s last chain
    unfold lookup_utilities.chain_loop_followed lookup_utilities.chain_loop
    cases last with
    | attachment_id att =>
      simp only
      split
      · exact ⟨rfl, by omega⟩
      · exact ⟨rfl, by omega⟩
      · exact ⟨rfl, by omega⟩
      · split
        · exact ⟨rfl, by omega⟩
        · exact ⟨(ih _ _ _).1, Nat.succ_le_succ (ih _ _ _).2⟩
    | _ =>
      simp only
      split <;> exact ⟨rfl, Nat.zero_le _⟩

/-- A chain that `chain_loop` returns ends in a terminal connection, and every connection
before the last is an attachment. -/
theorem chain_loop_shape (u : lookup_utilities) (asset_type : Option asset_id_type) :
    ∀ (remaining : Nat) (s last : connection) (pre : List connection)
      (final : Option tank_id_type) (c : connection_chain),
      (∀ x ∈ pre, is_terminal_connection x = false) →
      u.chain_loop asset_type remaining s last ⟨pre ++ [last], final⟩ = .chain c →
      ∃ pre1 last1, c.connections = pre1 ++ [last1] ∧ is_terminal_connection last1 = true ∧
        ∀ x ∈ pre1, is_terminal_connection x = false := by
  intro remaining
  induction remaining with
  | zero =>
    intro s last pre final c hpre h
    unfold lookup_utilities.chain_loop at h
    cases last <;> simp only at h
    all_goals first
      | cases h
      | (split at h
         · rename_i heq
           rw [h] at heq
           exact absurd heq (check_asset_not_chain _ _ _ _)
         · cases h
           exact ⟨pre, _, rfl, rfl, hpre⟩)
  | succ n ih =>
    intro s last pre final c hpre h
    unfold lookup_utilities.chain_loop at h
    cases last with
    | attachment_id att =>
      simp only at h
      split at h
      · cases h
      · cases h
      · cases h
      · split at h
        · rename_i heq
          rw [h] at heq
          exact absurd heq (check_asset_not_chain _ _ _ _)
        · refine ih _ _ (pre ++ [connection.attachment_id att]) _ c ?_ h
          intro x hx
          rcases List.mem_append.1 hx with hx | hx
          · exact hpre x hx
          · rw [List.mem_singleton] at hx
            subst hx
            rfl
    | _ =>
      simp only at h
      split at h
      · rename_i heq
        rw [h] at heq
        exact absurd heq (check_asset_not_chain _ _ _ _)
      · cases h
        exact ⟨pre, _, rfl, rfl, hpre⟩

/-- Claim C39: `get_connection_chain` returns for every input, having followed at most
`max_chain_length` attachments (so at most `max_chain_length + 1`); a chain it returns ends
in a terminal connection behind attachments only, so when no terminal connection is ever
reached, as on a cycle of attachments, the result is `exceeded_max_chain_length` or another
error. -/
theorem C39_connection_chain_terminates (u : lookup_utilities) (s : connection)
    (max_chain_length : Nat) (asset_type : Option asset_id_type) :
    (u.get_connection_chain_followed s max_chain_length asset_type).1 =
        u.get_connection_chain s max_chain_length asset_type ∧
      (u.get_connection_chain_followed s max_chain_length asset_type).2 ≤ max_chain_length ∧
      (u.get_connection_chain_followed s max_chain_length asset_type).2 ≤
        max_chain_length + 1 ∧
      ∀ c, u.get_connection_chain s max_chain_length asset_type = .chain c →
        ∃ pre last, c.connections = pre ++ [last] ∧ is_terminal_connection last = true ∧
          ∀ x ∈ pre, is_terminal_connection x = false := by
  unfold lookup_utilities.get_connection_chain_followed lookup_utilities.get_connection_chain
  cases hcheck : u.check_asset asset_type s with
  | some e =>
    refine ⟨rfl, Nat.zero_le _, Nat.zero_le _, ?_⟩
    intro c hc
    simp only at hc
    rw [hc] at hcheck
    exact absurd hcheck (check_asset_not_chain _ _ _ _)
  | none =>
    simp only
    have h := chain_loop_followed_spec u asset_type max_chain_length s s
      { connections := [s], final_connection_tank := none }
    refine ⟨h.1, h.2, Nat.le_succ_of_le h.2, ?_⟩
    intro c hc
    exact chain_loop_shape u asset_type max_chain_length s s [] none c (by simp) hc

/-- The chain of `ex_chain_schematic` from meter 0, with limit 10: meter 0 followed by the
terminal connection account 7. -/
theorem C39_witness :
    (lookup_utilities.mk ex_chain_schematic none).get_connection_chain
        (.attachment_id ⟨none, 0⟩) 10 (some 0) =
      .chain ⟨[.attachment_id ⟨none, 0⟩, .account_id 7], none⟩ ∧
    ∃ pre last, [connection.attachment_id ⟨none, 0⟩, .account_id 7] = pre ++ [last] ∧
      is_terminal_connection last = true ∧ ∀ x ∈ pre, is_terminal_connection x = false :=
  ⟨rfl, (C39_connection_chain_terminates (lookup_utilities.mk ex_chain_schematic none)
    (.attachment_id ⟨none, 0⟩) 10 (some 0)).2.2.2 _ rfl⟩

/-- On the self-loop of `ex_cyclic_schematic` the result is `exceeded_max_chain_length`
for every limit. -/
theorem self_loop_exceeds (max_chain_length : Nat) :
    (lookup_utilities.mk ex_cyclic_schematic none).get_connection_chain
      (.attachment_id ⟨none, 0⟩) max_chain_length (some 0) = .exceeded_max_chain_length := by
  have key : ∀ (remaining : Nat) (s : connection) (chain : connection_chain),
      chain.final_connection_tank = none →
      (lookup_utilities.mk ex_cyclic_schematic none).chain_loop (some 0) remaining s
        (.attachment_id ⟨none, 0⟩) chain = .exceeded_max_chain_length := by
    intro remaining
    induction remaining with
    | zero => intro s chain _; rfl
    | succ n ih =>
      intro s chain hf
      unfold lookup_utilities.chain_loop
      simp only [hf]
      exact ih _ _ rfl
  unfold lookup_utilities.get_connection_chain
  exact key _ _ _ rfl

/-- On the cycle between meters 1 and 2 of `ex_cyclic_schematic`, with limit 10, the result
is `exceeded_max_chain_length` after 10 attachments have been followed. -/
theorem two_cycle_exceeds :
    (lookup_utilities.mk ex_cyclic_schematic none).get_connection_chain_followed
      (.attachment_id ⟨none, 1⟩) 10 (some 0) = (.exceeded_max_chain_length, 10) := rfl

/-! ## C35: the const conversion of a handle -/

/-- Claim C35, evaluated: on a tank that exists and has not been written, the const
conversion of a handle fails with the assertion of `get_written`, where the mutable
conversion and the field getter yield the database object; after the balance has been
set to 400 through the wrapper, the const conversion yields the database object, with
balance 1000, where the field getter and the mutable conversion yield the staged copy. -/
theorem C35_const_conversion_inverted :
    (ex_wrapper.bind (fun r => r.1.to_const r.2)).map (fun t => t.balance) =
      .error .no_written_object ∧
    ex_wrapper.map (fun r => r.1.get_field r.2 balance_field) = .ok 1000 ∧
    (ex_wrapper.bind (fun r => r.1.to_mutable r.2)).map (fun t => t.1.balance) = .ok 1000 ∧
    (ex_written_wrapper.bind (fun r => r.2.1.to_const r.2.2)).map (fun t => t.balance) =
      .ok 1000 ∧
    ex_written_wrapper.map (fun r => r.2.1.get_field r.2.2 balance_field) = .ok 400 ∧
    (ex_written_wrapper.bind (fun r => r.2.1.to_mutable r.2.2)).map (fun t => t.1.balance) =
      .ok 400 :=
  ⟨rfl, rfl, rfl, rfl, rfl, rfl⟩

/-! ## C38: a request named by several consume queries -/

/-- Claim C38, evaluated: request 0 of `ex_approved_database` is approved for 50. A tap
open that names it once is refused for 100; a tap open that names it in two consume
queries passes the query validation and releases 100, and one that names it three times
releases 150. -/
theorem C38_request_counted_per_query :
    ex_consume_result 1 50 = .ok ([50], 950, some (.review ⟨1, []⟩)) ∧
    ex_consume_result 1 100 = .error .exceeds_requirement_limit ∧
    validate_queries (ex_consume_open 2 100).queries 0 true = .ok () ∧
    ex_consume_result 2 100 = .ok ([100], 900, some (.review ⟨1, []⟩)) ∧
    ex_consume_result 3 150 = .ok ([150], 850, some (.review ⟨1, []⟩)) :=
  ⟨rfl, rfl, rfl, rfl, rfl⟩

/-! ## C40: the asset of a release -/

/-- Claim C40, evaluated: on tanks that store asset 5, the release of tap 1 of tank 0 is
recorded and paid to account 7 as 100 of asset 0; the release of tank 1 into its meter
for asset 5 and the release of tank 2 into tank 3, which stores asset 5, are refused
for the wrong asset. On the same tanks storing asset 0 all three releases succeed. -/
theorem C40_release_in_core_asset :
    ex_asset_flow (ex_asset_db 5) 0 = .ok ([⟨100, 0⟩], [⟨100, 0⟩]) ∧
    ex_asset_flow (ex_asset_db 5) 1 = .error .wrong_asset ∧
    ex_asset_flow (ex_asset_db 5) 2 = .error .wrong_asset ∧
    ex_asset_flow (ex_asset_db 0) 0 = .ok ([⟨100, 0⟩], [⟨100, 0⟩]) ∧
    ex_asset_flow (ex_asset_db 0) 1 = .ok ([⟨100, 0⟩], [⟨100, 0⟩]) ∧
    ex_asset_flow (ex_asset_db 0) 2 = .ok ([⟨100, 0⟩], []) :=
  ⟨rfl, rfl, rfl, rfl, rfl, rfl⟩

/-! ## The erasure of consumed requests -/

theorem amap_find_erase {κ β : Type} [DecidableEq κ] (m : List (κ × β)) (k key : κ) :
    amap_find (amap_erase m k) key = if key = k then none else amap_find m key := by
  have h := amap_find_filter_key (β := β) (fun x : κ => !decide (x = k)) m key
  have h' : amap_find (amap_erase m k) key = _ := h
  rw [h']
  by_cases hk : key = k <;> simp [hk]

theorem erase_consumed_review_spec :
    ∀ (qs : List tank_query_type) (st : review_state),
      (erase_consumed_review st qs).request_counter = st.request_counter ∧
      ∀ id, amap_find (erase_consumed_review st qs).pending_requests id =
        if names_approved_request qs id = true then none
        else amap_find st.pending_requests id := by
  intro qs
  induction qs with
  | nil => intro st; exact ⟨rfl, fun id => rfl⟩
  | cons q rest ih =>
    intro st
    cases q
    case consume_approved_request_to_open t r i =>
      simp only [erase_consumed_review]
      refine ⟨(ih _).1, ?_⟩
      intro id
      rw [(ih _).2 id]
      simp only [names_approved_request, List.any_cons, amap_find_erase]
      by_cases h1 : i = id
      · subst h1
        simp
      · have h2 : ¬ id = i := fun h => h1 h.symm
        simp [h1, h2]
    all_goals
      simp only [erase_consumed_review]
      refine ⟨(ih _).1, ?_⟩
      intro id
      rw [(ih _).2 id]
      simp [names_approved_request]

theorem erase_consumed_delay_spec :
    ∀ (qs : List tank_query_type) (st : delay_state),
      (erase_consumed_delay st qs).request_counter = st.request_counter ∧
      ∀ id, amap_find (erase_consumed_delay st qs).pending_requests id =
        if names_matured_request qs id = true then none
        else amap_find st.pending_requests id := by
  intro qs
  induction qs with
  | nil => intro st; exact ⟨rfl, fun id => rfl⟩
  | cons q rest ih =>
    intro st
    cases q
    case consume_matured_request_to_open t r i =>
      simp only [erase_consumed_delay]
      refine ⟨(ih _).1, ?_⟩
      intro id
      rw [(ih _).2 id]
      simp only [names_matured_request, List.any_cons, amap_find_erase]
      by_cases h1 : i = id
      · subst h1
        simp
      · have h2 : ¬ id = i := fun h => h1 h.symm
        simp [h1, h2]
    all_goals
      simp only [erase_consumed_delay]
      refine ⟨(ih _).1, ?_⟩
      intro id
      rw [(ih _).2 id]
      simp [names_matured_request]

theorem names_approved_request_iff (qe : query_evaluator) (t r id : index_type) :
    names_approved_request (qe.get_target_queries (.requirement t r)) id = true ↔
      tank_query_type.consume_approved_request_to_open t r id ∈ qe.accessory_queries := by
  unfold names_approved_request query_evaluator.get_target_queries
  rw [List.any_eq_true]
  constructor
  · rintro ⟨q, hq, hm⟩
    rw [List.mem_filter] at hq
    obtain ⟨hmem, haddr⟩ := hq
    cases q <;> simp at hm
    subst hm
    simp [tank_query_type.address] at haddr
    obtain ⟨rfl, rfl⟩ := haddr
    exact hmem
  · intro h
    refine ⟨tank_query_type.consume_approved_request_to_open t r id, ?_, ?_⟩
    · rw [List.mem_filter]
      exact ⟨h, by simp [tank_query_type.address]⟩
    · simp

theorem names_matured_request_iff (qe : query_evaluator) (t r id : index_type) :
    names_matured_request (qe.get_target_queries (.requirement t r)) id = true ↔
      tank_query_type.consume_matured_request_to_open t r id ∈ qe.accessory_queries := by
  unfold names_matured_request query_evaluator.get_target_queries
  rw [List.any_eq_true]
  constructor
  · rintro ⟨q, hq, hm⟩
    rw [List.mem_filter] at hq
    obtain ⟨hmem, haddr⟩ := hq
    cases q <;> simp at hm
    subst hm
    simp [tank_query_type.address] at haddr
    obtain ⟨rfl, rfl⟩ := haddr
    exact hmem
  · intro h
    refine ⟨tank_query_type.consume_matured_request_to_open t r id, ?_, ?_⟩
    · rw [List.mem_filter]
      exact ⟨h, by simp [tank_query_type.address]⟩
    · simp

theorem adjust_limit_adjusted {u u1 : tap_requirement_utility} {i : index_type}
    {amount : share_type} (h : u.adjust_limit i amount = .ok u1) :
    u1.adjusted_states = u.adjusted_states := by
  unfold tap_requirement_utility.adjust_limit at h
  (repeat' split at h) <;> first | (cases h; rfl) | cases h

theorem adjusted_insert_ne (u : tap_requirement_utility) (i r : index_type) (b : Bool)
    (hir : i ≠ r) :
    ({ u with adjusted_states := amap_insert u.adjusted_states i b } :
      tap_requirement_utility).adjusted r = u.adjusted r := by
  simp only [tap_requirement_utility.adjusted, amap_find_insert_ne _ _ _ _ hir]

theorem adjusted_touch_ne (u : tap_requirement_utility) (i r : index_type) (hir : i ≠ r) :
    (u.touch_adjusted i).adjusted r = u.adjusted r := by
  unfold tap_requirement_utility.touch_adjusted
  split
  · rfl
  · exact adjusted_insert_ne u i r false hir

theorem adjusted_congr {u u1 : tap_requirement_utility}
    (h : u1.adjusted_states = u.adjusted_states) (r : index_type) :
    u1.adjusted r = u.adjusted r := by
  simp only [tap_requirement_utility.adjusted, h]

/-- A preparation step at a requirement index other than `r` leaves the state at
requirement `r` of the tap and the flag `adjusted_states[r]` as they are. -/
theorem prepare_release_inspect_other {env : chain_env} {qe : query_evaluator}
    {tank tank' : tank_object} {u u' : tap_requirement_utility} {amount : share_type}
    {i : index_type} {req : tap_requirement} (t r : index_type)
    (h : prepare_release_inspect env qe tank u amount i req = .ok (tank', u'))
    (hu : u.tap_ID.tap_id = t) (hir : i ≠ r) :
    amap_find tank'.accessory_states (.requirement t r) =
        amap_find tank.accessory_states (.requirement t r) ∧
      u'.adjusted r = u.adjusted r := by
  subst hu
  have hne : accessory_address.requirement u.tap_ID.tap_id i ≠
      accessory_address.requirement u.tap_ID.tap_id r := by
    intro hc; cases hc; exact hir rfl
  cases req <;> simp only [prepare_release_inspect, bind, Except.bind, pure, Except.pure] at h
  case review_requirement x =>
    cases ha : u.adjust_limit i amount with
    | error e => simp [ha] at h
    | ok u1 =>
      have hid := adjust_limit_tap_ID ha
      have hadj := adjusted_congr (adjust_limit_adjusted ha) r
      simp only [ha, hid] at h
      (repeat' split at h) <;> first
        | (cases h; exact ⟨rfl, hadj⟩)
        | (cases h; exact ⟨set_state_find_ne _ _ _ _ hne,
            (adjusted_insert_ne u1 i r true hir).trans hadj⟩)
        | cases h
  case delay_requirement x =>
    cases ha : u.adjust_limit i amount with
    | error e => simp [ha] at h
    | ok u1 =>
      have hid := adjust_limit_tap_ID ha
      have hadj := adjusted_congr (adjust_limit_adjusted ha) r
      simp only [ha, hid] at h
      (repeat' split at h) <;> first
        | (cases h; exact ⟨rfl, hadj⟩)
        | (cases h; exact ⟨set_state_find_ne _ _ _ _ hne,
            (adjusted_insert_ne u1 i r true hir).trans hadj⟩)
        | cases h
  case ticket_requirement x =>
    cases ha : u.adjust_limit i amount with
    | error e => simp [ha] at h
    | ok u1 =>
      have hid := adjust_limit_tap_ID ha
      have hadj := adjusted_congr (adjust_limit_adjusted ha) r
      simp only [ha, hid] at h
      (repeat' split at h) <;> first
        | (cases h; exact ⟨rfl, hadj⟩)
        | (cases h; exact ⟨set_state_find_ne _ _ _ _ hne,
            (adjusted_touch_ne u1 i r hir).trans hadj⟩)
        | cases h
  all_goals
    (repeat' split at h) <;> first
      | (cases h; exact ⟨rfl, rfl⟩)
      | (cases h; exact ⟨set_state_find_ne _ _ _ _ hne, rfl⟩)
      | cases h

/-- The first preparation step at a review requirement stores the state without the
requests named by the consume queries, and sets `adjusted_states`. -/
theorem prepare_release_inspect_review {env : chain_env} {qe : query_evaluator}
    {tank tank' : tank_object} {u u' : tap_requirement_utility} {amount : share_type}
    {r : index_type} {x : review_requirement} (t : index_type)
    (h : prepare_release_inspect env qe tank u amount r (.review_requirement x) =
      .ok (tank', u'))
    (hu : u.tap_ID.tap_id = t) (hfirst : u.adjusted r = false) :
    ∃ st0, tank.get_review_state (.requirement t r) = .ok st0 ∧
      amap_find tank'.accessory_states (.requirement t r) =
        some (.review (erase_consumed_review (or_default ⟨0, []⟩ st0)
          (qe.get_target_queries (.requirement t r)))) := by
  subst hu
  simp only [prepare_release_inspect, bind, Except.bind, pure, Except.pure] at h
  cases ha : u.adjust_limit r amount with
  | error e => simp [ha] at h
  | ok u1 =>
    have hid := adjust_limit_tap_ID ha
    have hadj := adjusted_congr (adjust_limit_adjusted ha) r
    simp only [ha, hid, hadj, hfirst] at h
    cases hst : tank.get_review_state (.requirement u.tap_ID.tap_id r) with
    | error e => simp [hst] at h
    | ok st0 =>
      simp only [hst] at h
      refine ⟨st0, rfl, ?_⟩
      (repeat' split at h) <;> first
        | contradiction
        | (cases h; exact set_state_find_same _ _ _)

/-- The first preparation step at a delay requirement stores the state without the
requests named by the consume queries, and sets `adjusted_states`. -/
theorem prepare_release_inspect_delay {env : chain_env} {qe : query_evaluator}
    {tank tank' : tank_object} {u u' : tap_requirement_utility} {amount : share_type}
    {r : index_type} {x : delay_requirement} (t : index_type)
    (h : prepare_release_inspect env qe tank u amount r (.delay_requirement x) =
      .ok (tank', u'))
    (hu : u.tap_ID.tap_id = t) (hfirst : u.adjusted r = false) :
    ∃ st0, tank.get_delay_state (.requirement t r) = .ok st0 ∧
      amap_find tank'.accessory_states (.requirement t r) =
        some (.delay (erase_consumed_delay (or_default ⟨0, []⟩ st0)
          (qe.get_target_queries (.requirement t r)))) := by
  subst hu
  simp only [prepare_release_inspect, bind, Except.bind, pure, Except.pure] at h
  cases ha : u.adjust_limit r amount with
  | error e => simp [ha] at h
  | ok u1 =>
    have hid := adjust_limit_tap_ID ha
    have hadj := adjusted_congr (adjust_limit_adjusted ha) r
    simp only [ha, hid, hadj, hfirst] at h
    cases hst : tank.get_delay_state (.requirement u.tap_ID.tap_id r) with
    | error e => simp [hst] at h
    | ok st0 =>
      simp only [hst] at h
      refine ⟨st0, rfl, ?_⟩
      (repeat' split at h) <;> first
        | contradiction
        | (cases h; exact set_state_find_same _ _ _)

/-- The steps of the loop at indices above `r` leave the state at requirement `r`. -/
theorem prepare_release_loop_above {env : chain_env} {qe : query_evaluator}
    {amount : share_type} (t : index_type) (r : Nat) (reqs : List tap_requirement) :
    ∀ (i : Nat) (tank tank' : tank_object) (u u' : tap_requirement_utility),
      prepare_release_loop env qe amount reqs i tank u = .ok (tank', u') →
      u.tap_ID.tap_id = t → r < i →
      amap_find tank'.accessory_states (.requirement t r) =
        amap_find tank.accessory_states (.requirement t r) := by
  induction reqs with
  | nil =>
    intro i tank tank' u u' h _ _
    simp only [prepare_release_loop] at h
    cases h
    rfl
  | cons req rest ih =>
    intro i tank tank' u u' h hu hri
    simp only [prepare_release_loop, bind, Except.bind] at h
    cases hstep : prepare_release_inspect env qe tank u amount i req with
    | error e => simp [hstep] at h
    | ok res =>
      obtain ⟨tank1, u1⟩ := res
      simp only [hstep] at h
      have hf := prepare_release_inspect_frame hstep
      have ho := prepare_release_inspect_other t r hstep hu (Nat.ne_of_gt hri)
      rw [ih _ _ _ _ _ h (by rw [hf.2.2.2.2]; exact hu) (Nat.lt_succ_of_lt hri)]
      exact ho.1

/-- The loop of `prepare_tap_release`, started at or below index `r` with
`adjusted_states[r]` unset: the state at a review requirement at index `r` ends up without
the requests named by the consume queries. -/
theorem prepare_release_loop_review {env : chain_env} {qe : query_evaluator}
    {amount : share_type} (t : index_type) (r : Nat) (x : review_requirement)
    (reqs : List tap_requirement) :
    ∀ (i : Nat) (tank tank' : tank_object) (u u' : tap_requirement_utility),
      prepare_release_loop env qe amount reqs i tank u = .ok (tank', u') →
      u.tap_ID.tap_id = t → i ≤ r →
      reqs.get? (r - i) = some (.review_requirement x) →
      u.adjusted r = false →
      ∃ st0, tank.get_review_state (.requirement t r) = .ok st0 ∧
        amap_find tank'.accessory_states (.requirement t r) =
          some (.review (erase_consumed_review (or_default ⟨0, []⟩ st0)
            (qe.get_target_queries (.requirement t r)))) := by
  induction reqs with
  | nil =>
    intro i tank tank' u u' _ _ _ hget _
    simp at hget
  | cons req rest ih =>
    intro i tank tank' u u' h hu hir hget hfirst
    simp only [prepare_release_loop, bind, Except.bind] at h
    cases hstep : prepare_release_inspect env qe tank u amount i req with
    | error e => simp [hstep] at h
    | ok res =>
      obtain ⟨tank1, u1⟩ := res
      simp only [hstep] at h
      have hf := prepare_release_inspect_frame hstep
      have hu1 : u1.tap_ID.tap_id = t := by rw [hf.2.2.2.2]; exact hu
      by_cases heq : i = r
      · subst heq
        rw [Nat.sub_self] at hget
        simp only [List.get?_cons_zero, Option.some.injEq] at hget
        subst hget
        obtain ⟨st0, hst0, hst1⟩ := prepare_release_inspect_review t hstep hu hfirst
        refine ⟨st0, hst0, ?_⟩
        rw [prepare_release_loop_above t i rest _ _ _ _ _ h hu1 (Nat.lt_succ_self i)]
        exact hst1
      · have hlt : i < r := Nat.lt_of_le_of_ne hir heq
        obtain ⟨k, hk⟩ : ∃ k, r - i = k + 1 := ⟨r - i - 1, by omega⟩
        have hk' : r - (i + 1) = k := by omega
        rw [hk, List.get?_cons_succ] at hget
        have ho := prepare_release_inspect_other t r hstep hu heq
        obtain ⟨st0, hst0, hst1⟩ := ih (i + 1) tank1 tank' u1 u' h hu1 hlt
          (by rw [hk']; exact hget) (by rw [ho.2]; exact hfirst)
        refine ⟨st0, ?_, hst1⟩
        simp only [tank_object.get_review_state, ← ho.1]
        exact hst0

/-- The loop of `prepare_tap_release`, started at or below index `r` with
`adjusted_states[r]` unset: the state at a delay requirement at index `r` ends up without
the requests named by the consume queries. -/
theorem prepare_release_loop_delay {env : chain_env} {qe : query_evaluator}
    {amount : share_type} (t : index_type) (r : Nat) (x : delay_requirement)
    (reqs : List tap_requirement) :
    ∀ (i : Nat) (tank tank' : tank_object) (u u' : tap_requirement_utility),
      prepare_release_loop env qe amount reqs i tank u = .ok (tank', u') →
      u.tap_ID.tap_id = t → i ≤ r →
      reqs.get? (r - i) = some (.delay_requirement x) →
      u.adjusted r = false →
      ∃ st0, tank.get_delay_state (.requirement t r) = .ok st0 ∧
        amap_find tank'.accessory_states (.requirement t r) =
          some (.delay (erase_consumed_delay (or_default ⟨0, []⟩ st0)
            (qe.get_target_queries (.requirement t r)))) := by
  induction reqs with
  | nil =>
    intro i tank tank' u u' _ _ _ hget _
    simp at hget
  | cons req rest ih =>
    intro i tank tank' u u' h hu hir hget hfirst
    simp only [prepare_release_loop, bind, Except.bind] at h
    cases hstep : prepare_release_inspect env qe tank u amount i req with
    | error e => simp [hstep] at h
    | ok res =>
      obtain ⟨tank1, u1⟩ := res
      simp only [hstep] at h
      have hf := prepare_release_inspect_frame hstep
      have hu1 : u1.tap_ID.tap_id = t := by rw [hf.2.2.2.2]; exact hu
      by_cases heq : i = r
      · subst heq
        rw [Nat.sub_self] at hget
        simp only [List.get?_cons_zero, Option.some.injEq] at hget
        subst hget
        obtain ⟨st0, hst0, hst1⟩ := prepare_release_inspect_delay t hstep hu hfirst
        refine ⟨st0, hst0, ?_⟩
        rw [prepare_release_loop_above t i rest _ _ _ _ _ h hu1 (Nat.lt_succ_self i)]
        exact hst1
      · have hlt : i < r := Nat.lt_of_le_of_ne hir heq
        obtain ⟨k, hk⟩ : ∃ k, r - i = k + 1 := ⟨r - i - 1, by omega⟩
        have hk' : r - (i + 1) = k := by omega
        rw [hk, List.get?_cons_succ] at hget
        have ho := prepare_release_inspect_other t r hstep hu heq
        obtain ⟨st0, hst0, hst1⟩ := ih (i + 1) tank1 tank' u1 u' h hu1 hlt
          (by rw [hk']; exact hget) (by rw [ho.2]; exact hfirst)
        refine ⟨st0, ?_, hst1⟩
        simp only [tank_object.get_delay_state, ← ho.1]
        exact hst0

theorem prepare_tap_release_loop {env : chain_env} {qe : query_evaluator} {db db' : tank_db}
    {tank_id : tank_id_type} {tank : tank_object} {tp : tap}
    {u u' : tap_requirement_utility} {t : index_type} {amount : share_type}
    (hu : u.tap_ID = ⟨some tank_id, t⟩) (hdb : db.get_tank tank_id = .ok tank)
    (htp : tank.schematic.get_tap t = .ok tp)
    (hprep : u.prepare_tap_release env qe db amount = .ok (db', u')) :
    ∃ tank', prepare_release_loop env qe amount tp.requirements 0 tank u = .ok (tank', u') ∧
      db'.get_tank tank_id = .ok tank' := by
  unfold tap_requirement_utility.prepare_tap_release at hprep
  simp only [hu, hdb, htp, bind, Except.bind] at hprep
  cases hloop : prepare_release_loop env qe amount tp.requirements 0 tank u with
  | error e => simp [hloop] at hprep
  | ok res =>
    obtain ⟨tank2, u2⟩ := res
    simp only [hloop] at hprep
    cases hprep
    exact ⟨tank2, rfl, get_tank_set_tank_same _ hdb⟩

/-- The requests the first preparation erases: let `prepare_tap_release` succeed on a tap
`t` whose utility has not yet adjusted the state of requirement `r` in this operation. When
requirement `r` is a `review_requirement`, the stored state afterwards keeps its request
counter, holds no pending request named by a `consume_approved_request_to_open` query
recorded under the address `(t, r)`, whatever tank it was evaluated on, and holds every
other pending request as before; evaluating such a consume query on the resulting tank
fails. The same holds for a `delay_requirement` and
`consume_matured_request_to_open`. -/
theorem consumed_requests_erased (env : chain_env) (qe : query_evaluator)
    (db db' : tank_db) (tank_id : tank_id_type) (tank : tank_object) (tp : tap)
    (u u' : tap_requirement_utility) (t r : index_type) (amount : share_type)
    (hu : u.tap_ID = ⟨some tank_id, t⟩) (hdb : db.get_tank tank_id = .ok tank)
    (htp : tank.schematic.get_tap t = .ok tp) (hfirst : u.adjusted r = false)
    (hprep : u.prepare_tap_release env qe db amount = .ok (db', u')) :
    (∀ x, tp.requirements.get? r = some (.review_requirement x) →
      ∃ st0 st1 tank', tank.get_review_state (.requirement t r) = .ok st0 ∧
        db'.get_tank tank_id = .ok tank' ∧
        tank'.get_review_state (.requirement t r) = .ok (some st1) ∧
        st1.request_counter = (or_default ⟨0, []⟩ st0).request_counter ∧
        (∀ id, tank_query_type.consume_approved_request_to_open t r id ∈
            qe.accessory_queries →
          amap_find st1.pending_requests id = none ∧
          ∀ env2 db2, ∃ e, evaluate_one env2 db2 tank_id tank'
            (.consume_approved_request_to_open t r id) = .error e) ∧
        (∀ id, tank_query_type.consume_approved_request_to_open t r id ∉
            qe.accessory_queries →
          amap_find st1.pending_requests id =
            amap_find (or_default ⟨0, []⟩ st0).pending_requests id)) ∧
    (∀ x, tp.requirements.get? r = some (.delay_requirement x) →
      ∃ st0 st1 tank', tank.get_delay_state (.requirement t r) = .ok st0 ∧
        db'.get_tank tank_id = .ok tank' ∧
        tank'.get_delay_state (.requirement t r) = .ok (some st1) ∧
        st1.request_counter = (or_default ⟨0, []⟩ st0).request_counter ∧
        (∀ id, tank_query_type.consume_matured_request_to_open t r id ∈
            qe.accessory_queries →
          amap_find st1.pending_requests id = none ∧
          ∀ env2 db2, ∃ e, evaluate_one env2 db2 tank_id tank'
            (.consume_matured_request_to_open t r id) = .error e) ∧
        (∀ id, tank_query_type.consume_matured_request_to_open t r id ∉
            qe.accessory_queries →
          amap_find st1.pending_requests id =
            amap_find (or_default ⟨0, []⟩ st0).pending_requests id)) := by
  obtain ⟨tank', hloop, hdb'⟩ := prepare_tap_release_loop hu hdb htp hprep
  have hut : u.tap_ID.tap_id = t := by rw [hu]
  constructor
  · intro x hx
    obtain ⟨st0, hst0, hst1⟩ := prepare_release_loop_review t r x tp.requirements 0 tank
      tank' u u' hloop hut (Nat.zero_le _) (by rw [Nat.sub_zero]; exact hx) hfirst
    have hspec := erase_consumed_review_spec (qe.get_target_queries (.requirement t r))
      (or_default ⟨0, []⟩ st0)
    have hget : tank'.get_review_state (.requirement t r) =
        .ok (some (erase_consumed_review (or_default ⟨0, []⟩ st0)
          (qe.get_target_queries (.requirement t r)))) := by
      simp only [tank_object.get_review_state, hst1]
    refine ⟨st0, _, tank', hst0, hdb', hget, hspec.1, ?_, ?_⟩
    · intro id hid
      have hnone : amap_find (erase_consumed_review (or_default ⟨0, []⟩ st0)
          (qe.get_target_queries (.requirement t r))).pending_requests id = none := by
        rw [hspec.2 id, if_pos ((names_approved_request_iff qe t r id).2 hid)]
      refine ⟨hnone, ?_⟩
      intro env2 db2
      simp only [evaluate_one, hget, bind, Except.bind]
      cases tap_open_authority tank'.schematic t with
      | error e => exact ⟨e, rfl⟩
      | ok a =>
        simp only [hnone]
        exact ⟨_, rfl⟩
    · intro id hid
      rw [hspec.2 id, if_neg (fun h => hid ((names_approved_request_iff qe t r id).1 h))]
  · intro x hx
    obtain ⟨st0, hst0, hst1⟩ := prepare_release_loop_delay t r x tp.requirements 0 tank
      tank' u u' hloop hut (Nat.zero_le _) (by rw [Nat.sub_zero]; exact hx) hfirst
    have hspec := erase_consumed_delay_spec (qe.get_target_queries (.requirement t r))
      (or_default ⟨0, []⟩ st0)
    have hget : tank'.get_delay_state (.requirement t r) =
        .ok (some (erase_consumed_delay (or_default ⟨0, []⟩ st0)
          (qe.get_target_queries (.requirement t r)))) := by
      simp only [tank_object.get_delay_state, hst1]
    refine ⟨st0, _, tank', hst0, hdb', hget, hspec.1, ?_, ?_⟩
    · intro id hid
      have hnone : amap_find (erase_consumed_delay (or_default ⟨0, []⟩ st0)
          (qe.get_target_queries (.requirement t r))).pending_requests id = none := by
        rw [hspec.2 id, if_pos ((names_matured_request_iff qe t r id).2 hid)]
      refine ⟨hnone, ?_⟩
      intro env2 db2
      simp only [evaluate_one, hget, bind, Except.bind]
      cases tap_open_authority tank'.schematic t with
      | error e => exact ⟨e, rfl⟩
      | ok a =>
        simp only [hnone]
        exact ⟨_, rfl⟩
    · intro id hid
      rw [hspec.2 id, if_neg (fun h => hid ((names_matured_request_iff qe t r id).1 h))]

/-- The preparation on `ex_requests_tank`: request 0, named by the consume query, is
gone and request 1 is kept. -/
theorem consumed_requests_erased_example :
    ex_util.prepare_tap_release (ex_env 100) ex_consume_qe [some ex_requests_tank] 50 =
      .ok ex_consumed ∧
    (ex_consumed.1.get_tank 0).map
        (fun tank => amap_find tank.accessory_states (.requirement 1 0)) =
      .ok (some (.review ⟨2, [(1, ⟨.amount 70, none, true⟩)]⟩)) ∧
    ∃ st0 st1 tank', ex_requests_tank.get_review_state (.requirement 1 0) = .ok st0 ∧
      ex_consumed.1.get_tank 0 = .ok tank' ∧
      tank'.get_review_state (.requirement 1 0) = .ok (some st1) ∧
      st1.request_counter = (or_default ⟨0, []⟩ st0).request_counter ∧
      (∀ id, tank_query_type.consume_approved_request_to_open 1 0 id ∈
          ex_consume_qe.accessory_queries →
        amap_find st1.pending_requests id = none ∧
        ∀ env2 db2, ∃ e, evaluate_one env2 db2 0 tank'
          (.consume_approved_request_to_open 1 0 id) = .error e) ∧
      (∀ id, tank_query_type.consume_approved_request_to_open 1 0 id ∉
          ex_consume_qe.accessory_queries →
        amap_find st1.pending_requests id =
          amap_find (or_default ⟨0, []⟩ st0).pending_requests id) :=
  ⟨rfl, rfl,
    (consumed_requests_erased (ex_env 100) ex_consume_qe [some ex_requests_tank]
      ex_consumed.1 0 ex_requests_tank (ex_tap (.account_id 7)
        [.review_requirement ⟨ex_auth 3, 5⟩]) ex_util ex_consumed.2 1 0 50 rfl rfl rfl rfl
      rfl).1 ⟨ex_auth 3, 5⟩ rfl⟩

/-! ## C37: the maps of an updated schematic -/

theorem erase_all_find {β : Type} :
    ∀ (ids : List Nat) (m : List (Nat × β)) (id : Nat), id ∉ ids →
      amap_find (erase_all ids m) id = amap_find m id := by
  intro ids
  induction ids with
  | nil => intro m id _; rfl
  | cons i rest ih =>
    intro m id hid
    simp only [erase_all]
    rw [ih _ _ (fun h => hid (List.mem_cons_of_mem _ h)), amap_find_erase,
      if_neg (fun h => hid (by rw [h]; exact List.mem_cons_self _ _))]

theorem replace_all_find_other {β : Type} :
    ∀ (pairs : List (Nat × β)) (m : List (Nat × β)) (id : Nat),
      id ∉ pairs.map Prod.fst → amap_find (replace_all pairs m) id = amap_find m id := by
  intro pairs
  induction pairs with
  | nil => intro m id _; rfl
  | cons p rest ih =>
    intro m id hid
    obtain ⟨k, x⟩ := p
    simp only [replace_all]
    have hk : k ≠ id := fun h => hid (by simp [h])
    rw [ih _ _ (fun h => hid (by simp [h])), amap_find_insert_ne _ _ _ _ hk]

theorem replace_all_find {β : Type} :
    ∀ (pairs : List (Nat × β)) (m : List (Nat × β)) (id : Nat) (x : β),
      (pairs.map Prod.fst).Nodup → (id, x) ∈ pairs →
      amap_find (replace_all pairs m) id = some x := by
  intro pairs
  induction pairs with
  | nil => intro m id x _ h; cases h
  | cons p rest ih =>
    intro m id x hnd hmem
    obtain ⟨k, y⟩ := p
    simp only [replace_all]
    rw [List.map_cons, List.nodup_cons] at hnd
    rcases List.mem_cons.1 hmem with h | h
    · cases h
      rw [replace_all_find_other _ _ _ hnd.1, amap_find_insert_same]
    · exact ih _ _ _ hnd.2 h

theorem u16_lt (n : Nat) : u16 n < 65536 := Nat.mod_lt _ (by decide)

theorem u16_succ_add (counter k : Nat) :
    u16 (u16 (counter + 1) + k) = u16 (counter + (k + 1)) := by
  unfold u16
  show ((counter + 1) % 65536 + k) % 65536 = (counter + (k + 1)) % 65536
  omega

theorem u16_of_lt {n : Nat} (h : n < 65536) : u16 n = n := Nat.mod_eq_of_lt h

theorem u16_add_ne (counter j : Nat) (h0 : 0 < j) (hj : j < 65536) :
    u16 (counter + j) ≠ counter := by
  unfold u16
  show (counter + j) % 65536 ≠ counter
  omega

theorem add_all_counter {β : Type} :
    ∀ (adds : List β) (m : List (Nat × β)) (counter : Nat), counter < 65536 →
      (add_all adds m counter).2 = u16 (counter + adds.length) := by
  intro adds
  induction adds with
  | nil =>
    intro m counter hc
    simp only [add_all, List.length_nil, Nat.add_zero]
    exact (u16_of_lt hc).symm
  | cons x rest ih =>
    intro m counter hc
    simp only [add_all]
    rw [ih _ _ (u16_lt _), List.length_cons, u16_succ_add]

theorem add_all_find_other {β : Type} :
    ∀ (adds : List β) (m : List (Nat × β)) (counter id : Nat), counter < 65536 →
      (∀ k, k < adds.length → u16 (counter + k) ≠ id) →
      amap_find (add_all adds m counter).1 id = amap_find m id := by
  intro adds
  induction adds with
  | nil => intro m counter id _ _; rfl
  | cons x rest ih =>
    intro m counter id hc hid
    simp only [add_all]
    have h0 : counter ≠ id := by
      have := hid 0 (by simp)
      rw [Nat.add_zero, u16_of_lt hc] at this
      exact this
    rw [ih _ _ _ (u16_lt _), amap_find_insert_ne _ _ _ _ h0]
    intro k hk
    rw [u16_succ_add]
    exact hid (k + 1) (by simp only [List.length_cons]; omega)

theorem add_all_find {β : Type} :
    ∀ (adds : List β) (m : List (Nat × β)) (counter k : Nat), counter < 65536 →
      k < adds.length → adds.length ≤ 65536 →
      amap_find (add_all adds m counter).1 (u16 (counter + k)) = adds.get? k := by
  intro adds
  induction adds with
  | nil => intro m counter k _ hk _; simp at hk
  | cons x rest ih =>
    intro m counter k hc hk hlen
    simp only [List.length_cons] at hk hlen
    simp only [add_all]
    cases k with
    | zero =>
      have e : u16 (counter + 0) = counter := by
        rw [Nat.add_zero, u16_of_lt hc]
      rw [e, add_all_find_other _ _ _ _ (u16_lt _), amap_find_insert_same]
      · rfl
      · intro j hj
        rw [u16_succ_add]
        exact u16_add_ne counter (j + 1) (by omega) (by omega)
    | succ k' =>
      rw [← u16_succ_add counter k', ih _ _ k' (u16_lt _) (by omega) (by omega)]
      rfl

theorem update_loops_spec {β : Type} (removes : List Nat) (replaces : List (Nat × β))
    (adds : List β) (m : List (Nat × β)) (counter : Nat) (hc : counter < 65536) :
    map_updated removes replaces adds m
      (add_all adds (replace_all replaces (erase_all removes m)) counter).1 counter
      (add_all adds (replace_all replaces (erase_all removes m)) counter).2 := by
  refine ⟨?_, ?_, ?_, ?_, ?_⟩
  · intro id h1 h2 h3
    rw [add_all_find_other _ _ _ _ hc h3, replace_all_find_other _ _ _ h2,
      erase_all_find _ _ _ h1]
  · intro id x hnd hmem h3
    rw [add_all_find_other _ _ _ _ hc h3, replace_all_find _ _ _ _ hnd hmem]
  · intro k hk hlen
    exact add_all_find _ _ _ _ hc hk hlen
  · exact add_all_counter _ _ _ hc
  · intro h
    rw [add_all_counter _ _ _ hc, u16_of_lt h]
    exact Nat.le_add_right _ _

/-- Claim C37, amended: for a schematic whose counters are 16-bit values,
`update_from_operation` changes the taps and the tap counter, and the attachments and the
attachment counter, as `map_updated` describes: IDs that are neither removed nor replaced
nor given to an added element keep their entries, replaced IDs not given to an added element
hold their replacements, the `k`-th added element is stored at `(counter + k) mod 2^16`,
and the counter becomes `(counter + number added) mod 2^16`, not less than before unless it
wraps. -/
theorem C37_update_from_operation (s : tank_schematic) (o : tank_update_operation)
    (htap : s.tap_counter < 65536) (hatt : s.attachment_counter < 65536) :
    map_updated o.taps_to_remove o.taps_to_replace o.taps_to_add s.taps
        (s.update_from_operation o).taps s.tap_counter
        (s.update_from_operation o).tap_counter ∧
      map_updated o.attachments_to_remove o.attachments_to_replace o.attachments_to_add
        s.attachments (s.update_from_operation o).attachments s.attachment_counter
        (s.update_from_operation o).attachment_counter :=
  ⟨update_loops_spec _ _ _ _ _ htap, update_loops_spec _ _ _ _ _ hatt⟩

/-- The description of C37 on `ex_add_two_op` applied to `ex_schematic`, whose tap
counter is 2: taps 0 and 1 are kept, the added taps are taps 2 and 3, and the counter
becomes 4. -/
theorem C37_witness :
    (ex_schematic (.account_id 7) [] []).tap_counter < 65536 ∧
    (ex_schematic (.account_id 7) [] []).attachment_counter < 65536 ∧
    (map_updated ex_add_two_op.taps_to_remove ex_add_two_op.taps_to_replace
        ex_add_two_op.taps_to_add (ex_schematic (.account_id 7) [] []).taps
        ((ex_schematic (.account_id 7) [] []).update_from_operation ex_add_two_op).taps
        (ex_schematic (.account_id 7) [] []).tap_counter
        ((ex_schematic (.account_id 7) [] []).update_from_operation ex_add_two_op).tap_counter ∧
      map_updated ex_add_two_op.attachments_to_remove ex_add_two_op.attachments_to_replace
        ex_add_two_op.attachments_to_add (ex_schematic (.account_id 7) [] []).attachments
        ((ex_schematic (.account_id 7) [] []).update_from_operation
          ex_add_two_op).attachments
        (ex_schematic (.account_id 7) [] []).attachment_counter
        ((ex_schematic (.account_id 7) [] []).update_from_operation
          ex_add_two_op).attachment_counter) ∧
    ((ex_schematic (.account_id 7) [] []).update_from_operation ex_add_two_op).taps.map
        (fun p => (p.1, p.2.connected_connection)) =
      [(0, some (.account_id 1)), (1, some (.account_id 7)), (2, some (.account_id 8)),
        (3, some (.account_id 9))] ∧
    ((ex_schematic (.account_id 7) [] []).update_from_operation ex_add_two_op).tap_counter =
      4 :=
  ⟨by decide, by decide,
    C37_update_from_operation (ex_schematic (.account_id 7) [] []) ex_add_two_op (by decide)
      (by decide), rfl, rfl⟩

/-- Claim C37 as stated fails. The update `ex_replace_missing_op` passes validation and is
accepted by `tank_update_evaluator::do_evaluate` on `ex_created`, and in the updated
schematic tap 3, listed for replacement by a tap to account 8, is the added tap to account
9. On `ex_full_counter_schematic`, whose tap counter is 65535, the update `ex_add_two_op`
stores the added taps at IDs 65535 and 0, so tap 0, which it names in no list, changes from
the emergency tap to the tap to account 9, and the tap counter becomes 1. -/
theorem C37_counterexample :
    ex_replace_missing_op.validate ⟨1, 0⟩ ex_crypto = .ok () ∧
    (tank_update_evaluator.do_evaluate ex_created ex_replace_missing_op).map
        (fun s => (amap_find s.taps 3).map (fun tp => tp.connected_connection)) =
      .ok (some (some (.account_id 9))) ∧
    ex_replace_missing_op.taps_to_replace.map (fun p => (p.1, p.2.connected_connection)) =
      [(3, some (.account_id 8))] ∧
    (amap_find ex_full_counter_schematic.taps 0).map (fun tp => tp.connected_connection) =
      some (some (.account_id 1)) ∧
    (ex_full_counter_schematic.update_from_operation ex_add_two_op).taps.map
        (fun p => (p.1, p.2.connected_connection)) =
      [(0, some (.account_id 9)), (1, some (.account_id 7)), (65535, some (.account_id 8))] ∧
    (ex_full_counter_schematic.update_from_operation ex_add_two_op).tap_counter = 1 ∧
    ¬ (ex_full_counter_schematic.tap_counter ≤
      (ex_full_counter_schematic.update_from_operation ex_add_two_op).tap_counter) :=
  ⟨rfl, rfl, rfl, rfl, rfl, rfl, by decide⟩

/-! ## C32: field access through the copy-on-write wrapper -/

theorem written_insert_same (w : cow_db_wrapper) (id : tank_id_type) (o : tank_object) :
    ({ w with pensive_cattle := amap_insert w.pensive_cattle id (some o) } :
      cow_db_wrapper).written id = some o := by
  simp only [cow_db_wrapper.written, amap_find_insert_same]

theorem written_insert_ne (w : cow_db_wrapper) (id j : tank_id_type) (x : Option tank_object)
    (hne : id ≠ j) :
    ({ w with pensive_cattle := amap_insert w.pensive_cattle id x } :
      cow_db_wrapper).written j = w.written j := by
  simp only [cow_db_wrapper.written, amap_find_insert_ne _ _ _ _ hne]

theorem written_of_cattle {w w' : cow_db_wrapper} {id : tank_id_type}
    (h : w'.pensive_cattle = match amap_find w.pensive_cattle id with
      | some _ => w.pensive_cattle
      | none => amap_insert w.pensive_cattle id none) (j : tank_id_type) :
    w'.written j = w.written j := by
  cases hf : amap_find w.pensive_cattle id with
  | some x =>
    rw [hf] at h
    simp only [cow_db_wrapper.written, h]
  | none =>
    rw [hf] at h
    simp only [cow_db_wrapper.written, h]
    by_cases hj : id = j
    · subst hj
      rw [amap_find_insert_same, hf]
    · rw [amap_find_insert_ne _ _ _ _ hj]

/-- The handle `cow_db_wrapper::get` returns: a handle to the object of the database, with
the database and every staged copy left as they were. -/
theorem cow_get_spec {w w' : cow_db_wrapper} {id : tank_id_type} {h : cow_object}
    (hc : w.cache_ok) (hg : w.get id = .ok (h, w')) :
    w'.cache_ok ∧ h.handle_of w' id ∧ w'.db = w.db ∧ ∀ j, w'.written j = w.written j := by
  unfold cow_db_wrapper.get at hg
  simp only at hg
  cases hcache : amap_find w.db_cache id with
  | some o =>
    simp only [hcache] at hg
    cases hg
    exact ⟨hc, ⟨rfl, hc id o hcache⟩, rfl, written_of_cattle rfl⟩
  | none =>
    simp only [hcache, bind, Except.bind] at hg
    cases hdb : w.db.get_tank id with
    | error e => simp [hdb] at hg
    | ok o =>
      simp only [hdb] at hg
      cases hg
      refine ⟨?_, ⟨rfl, hdb⟩, rfl, written_of_cattle rfl⟩
      intro j o' hj
      by_cases hij : id = j
      · subst hij
        rw [amap_find_insert_same] at hj
        cases hj
        exact hdb
      · rw [amap_find_insert_ne _ _ _ _ hij] at hj
        exact hc j o' hj

theorem get_field_unwritten {φ : Type} (f : field_reflector φ) (h : cow_object)
    (w : cow_db_wrapper) (hw : w.written h.data = none) : h.get_field w f = f.get h.ref := by
  simp only [cow_object.get_field, hw]

theorem get_field_written {φ : Type} (f : field_reflector φ) (h : cow_object)
    (w : cow_db_wrapper) (o : tank_object) (hw : w.written h.data = some o) :
    h.get_field w f = f.get o := by
  simp only [cow_object.get_field, hw]

/-- The effect of `cow_field_reflection::set` and the assignment: a staged copy holding the
value exists afterwards; the database, the cache and the staged copies of the other
objects are as before. -/
theorem set_field_spec {φ : Type} (f : field_reflector φ) (hf : f.lawful) (h : cow_object)
    (w w' : cow_db_wrapper) (v : φ) (hs : h.set_field w f v = .ok w') :
    (∃ o, w'.written h.data = some o ∧ f.get o = v) ∧ w'.db = w.db ∧
      w'.db_cache = w.db_cache ∧ ∀ j, h.data ≠ j → w'.written j = w.written j := by
  unfold cow_object.set_field at hs
  simp only [bind, Except.bind, pure, Except.pure] at hs
  cases hw : w.written h.data with
  | some o =>
    simp only [hw] at hs
    cases hs
    exact ⟨⟨_, written_insert_same _ _ _, hf _ _⟩, rfl, rfl,
      fun j hj => written_insert_ne _ _ _ _ hj⟩
  | none =>
    simp only [hw] at hs
    cases hdb : w.db.get_tank h.data with
    | error e => simp [hdb] at hs
    | ok o =>
      simp only [hdb] at hs
      cases hs
      exact ⟨⟨_, written_insert_same _ _ _, hf _ _⟩, rfl, rfl,
        fun j hj => written_insert_ne _ _ _ _ hj⟩

theorem set_field_total {φ : Type} (f : field_reflector φ) (h : cow_object)
    (w : cow_db_wrapper) (id : tank_id_type) (v : φ) (hh : h.handle_of w id) :
    ∃ w', h.set_field w f v = .ok w' := by
  obtain ⟨hd, hr⟩ := hh
  unfold cow_object.set_field
  simp only [bind, Except.bind, pure, Except.pure]
  cases hw : w.written h.data with
  | some o => exact ⟨_, rfl⟩
  | none =>
    simp only [hd, hr]
    exact ⟨_, rfl⟩

/-- Claim C32: a wrapper made by the constructor has a consistent cache, and `get` keeps it
so and returns a handle to the database object without changing the database or any staged
copy. Through a handle to an object that has not been written, reading a field returns the
field of the database object. A write of `v` to a field through a handle to `id` succeeds,
and afterwards reading that field through any handle to `id`, under the resulting wrapper
or under any later one with the same staged copy, returns `v`; the write changes neither the
wrapped database nor the cache nor the staged copy of any other object. -/
theorem C32_cow_field_access :
    (∀ db, (cow_db_wrapper.new db).cache_ok ∧ ∀ j, (cow_db_wrapper.new db).written j = none) ∧
    (∀ (w w' : cow_db_wrapper) (id : tank_id_type) (h : cow_object),
      w.cache_ok → w.get id = .ok (h, w') →
      w'.cache_ok ∧ h.handle_of w' id ∧ w'.db = w.db ∧ ∀ j, w'.written j = w.written j) ∧
    (∀ (φ : Type) (f : field_reflector φ) (w : cow_db_wrapper) (id : tank_id_type)
        (h : cow_object),
      h.handle_of w id → w.written id = none →
      ∃ o, w.db.get_tank id = .ok o ∧ h.get_field w f = f.get o) ∧
    (∀ (φ : Type) (f : field_reflector φ) (w : cow_db_wrapper) (id : tank_id_type)
        (h : cow_object) (v : φ),
      f.lawful → h.handle_of w id →
      ∃ w', h.set_field w f v = .ok w' ∧ w'.db = w.db ∧ w'.db_cache = w.db_cache ∧
        (∀ j, id ≠ j → w'.written j = w.written j) ∧
        ∀ (h2 : cow_object) (w2 : cow_db_wrapper), h2.data = id →
          w2.written id = w'.written id → h2.get_field w2 f = v) := by
  refine ⟨?_, ?_, ?_, ?_⟩
  · intro db
    exact ⟨fun id o h => (by cases h), fun j => rfl⟩
  · intro w w' id h hc hg
    exact cow_get_spec hc hg
  · intro φ f w id h hh hw
    refine ⟨h.ref, hh.2, ?_⟩
    exact get_field_unwritten f h w (by rw [hh.1]; exact hw)
  · intro φ f w id h v hf hh
    obtain ⟨w', hs⟩ := set_field_total f h w id v hh
    obtain ⟨⟨o, ho, hv⟩, hdb, hcache, hother⟩ := set_field_spec f hf h w w' v hs
    refine ⟨w', hs, hdb, hcache, ?_, ?_⟩
    · intro j hj
      exact hother j (by rw [hh.1]; exact hj)
    · intro h2 w2 hd hw2
      rw [hh.1] at ho
      rw [get_field_written f h2 w2 o (by rw [hd, hw2]; exact ho)]
      exact hv

/-- The field access of C32 on tank 0 of `ex_wrapper`, whose balance is 1000: the balance
reads 1000 before the write; after 400 has been written through the first handle both
handles read 400 while the database still holds 1000; `commit` stores 400. -/
theorem C32_witness :
    ex_wrapper.map (fun r => r.1.get_field r.2 balance_field) = .ok 1000 ∧
    ex_written_wrapper.map (fun r => (r.1.get_field r.2.2 balance_field,
        r.2.1.get_field r.2.2 balance_field, r.2.2.db.balance_of 0)) = .ok (400, 400, 1000) ∧
    (ex_written_wrapper.bind (fun r => r.2.2.commit r.2.2.db)).map
        (fun r => (r.2.balance_of 0, r.1.written 0)) = .ok (400, none) ∧
    balance_field.lawful ∧
    cow_object.handle_of ⟨ex_hash_tank, 0⟩ (cow_db_wrapper.new [some ex_hash_tank]) 0 ∧
    ∃ w', cow_object.set_field ⟨ex_hash_tank, 0⟩ (cow_db_wrapper.new [some ex_hash_tank])
          balance_field 400 = .ok w' ∧
        w'.db = (cow_db_wrapper.new [some ex_hash_tank]).db ∧
        w'.db_cache = (cow_db_wrapper.new [some ex_hash_tank]).db_cache ∧
        (∀ j, 0 ≠ j → w'.written j = (cow_db_wrapper.new [some ex_hash_tank]).written j) ∧
        ∀ (h2 : cow_object) (w2 : cow_db_wrapper), h2.data = 0 →
          w2.written 0 = w'.written 0 → h2.get_field w2 balance_field = 400 :=
  ⟨rfl, rfl, rfl, fun _ _ => rfl, ⟨rfl, rfl⟩,
    C32_cow_field_access.2.2.2 share_type balance_field
      (cow_db_wrapper.new [some ex_hash_tank]) 0 ⟨ex_hash_tank, 0⟩ 400 (fun _ _ => rfl)
      ⟨rfl, rfl⟩⟩

/-! ## C7: a tap behind a hash preimage requirement opened without its preimage -/

/-- Claim C7 (fails on the code). On `ex_hash_cascade_database` account 5 opens tap 1 of
tank 0 with the query revealing the preimage 1, 2, 3 of that tap's requirement; the asset
reaches the tap opener of tank 1, and tap 1 of tank 1, whose hash preimage requirement has
another hash, is opened and pays 30 to account 7, although the operation holds no query
evaluated against tank 1: evaluated on tank 1 the same query fails the hash check, a tap
open of tap 1 of tank 1 with it is refused, and without a query that tap is locked by
requirement 0. On `ex_exchange_hash_database`, where the exchange requirement before the
hash preimage requirement has the limit -150, the hash preimage requirement's own limit is 0
without a query, `max_tap_release` is -150, and an unlimited open of the tap without any
query succeeds and hands -150 to account 7. -/
theorem C7_hash_requirement_bypassed :
    ex_open_result ex_hash_cascade_database
        (ex_open ⟨some 0, 1⟩ (.amount 200) [.reveal_hash_preimage 1 0 [1, 2, 3]] 2) =
      .ok ([(200, some (.tank_id 1)), (30, some (.account_id 7))], 800, 670, [(7, 30)]) ∧
    (ex_hash_cascade_database.tanks.get_tank 1).bind (fun t =>
        evaluate_one (ex_env 100) ex_hash_cascade_database.tanks 1 t
          (.reveal_hash_preimage 1 0 [1, 2, 3])) = .error .bad_preimage_hash ∧
    ex_open_result ex_hash_cascade_database
        (ex_open ⟨some 1, 1⟩ (.amount 30) [.reveal_hash_preimage 1 0 [1, 2, 3]] 1) =
      .error .bad_preimage_hash ∧
    ex_open_result ex_hash_cascade_database (ex_open ⟨some 1, 1⟩ (.amount 30) [] 1) =
      .error (.tap_locked 0) ∧
    ((ex_exchange_hash_database.tanks.get_tank 0).bind (fun t =>
        max_release_inspect (ex_env 100) query_evaluator.new ex_exchange_hash_database.tanks 0
          t ex_util 1 (.hash_preimage_requirement ex_hash_req))).map Prod.fst =
      .ok (.amount 0) ∧
    (ex_util.max_tap_release (ex_env 100) query_evaluator.new
        ex_exchange_hash_database.tanks).map Prod.fst = .ok (-150) ∧
    ex_open_result ex_exchange_hash_database (ex_open ⟨some 0, 1⟩ .unlimited_flow [] 1) =
      .ok ([(-150, some (.account_id 7))], 1000, 0, [(7, -150)]) :=
  ⟨rfl, rfl, rfl, rfl, rfl, rfl, rfl⟩

/-! ## C36: a request of another tank released and erased -/

/-- Claim C36 (fails on the code). On `ex_review_cascade_database` account 5 opens tap 1 of
tank 0 for 50 with a query consuming request 0 of that tap's review requirement. The asset
reaches the tap opener of tank 1, and tap 1 of tank 1 is opened: request 0 of its own review
requirement, which is pending, was never approved and is named by no query evaluated
against tank 1, is taken as the release limit, 70 is paid to account 7, and the request is
erased from the state of tank 1. Evaluated on tank 1, the consume query is refused because
the request is not approved, and without a query tap 1 of tank 1 is locked by
requirement 0. -/
theorem C36_request_of_other_tank_erased :
    (ex_review_cascade_database.tanks.get_tank 1).map
        (fun t => amap_find t.accessory_states (.requirement 1 0)) =
      .ok (some (.review ⟨1, [(0, ⟨.amount 70, none, false⟩)]⟩)) ∧
    ex_open_result ex_review_cascade_database
        (ex_open ⟨some 0, 1⟩ (.amount 50) [.consume_approved_request_to_open 1 0 0] 2) =
      .ok ([(50, some (.tank_id 1)), (70, some (.account_id 7))], 950, 480, [(7, 70)]) ∧
    ex_open_state ex_review_cascade_database
        (ex_open ⟨some 0, 1⟩ (.amount 50) [.consume_approved_request_to_open 1 0 0] 2) 0 =
      .ok (some (.review ⟨1, []⟩)) ∧
    ex_open_state ex_review_cascade_database
        (ex_open ⟨some 0, 1⟩ (.amount 50) [.consume_approved_request_to_open 1 0 0] 2) 1 =
      .ok (some (.review ⟨1, []⟩)) ∧
    ex_open_result ex_review_cascade_database
        (ex_open ⟨some 1, 1⟩ (.amount 70) [.consume_approved_request_to_open 1 0 0] 1) =
      .error .request_not_approved ∧
    ex_open_result ex_review_cascade_database (ex_open ⟨some 1, 1⟩ (.amount 70) [] 1) =
      .error (.tap_locked 0) :=
  ⟨rfl, rfl, rfl, rfl, rfl, rfl⟩

end TNT
